import Mathlib

/-!
# Suricata EVE/JSON output (src/output-json.c)

A shallow embedding of the community flow id hasher, the directional
five-tuple resolver, the event header builders, the aggregators of flow and
packet annotations, the string escaping, the TCP flag and packet data members,
the output buffer callback and the two dispatch functions of output-json.c,
each for the JsonBuilder and for the jansson path where the source has both,
with the properties the specification states about them.

Machine integers are natural numbers; a well-formedness predicate bounds every
field by the width of its C type. The byte order of the host is an explicit
parameter of every function that depends on it.
-/

namespace OutputJson

/-! ## Byte order -/

/-- Byte order of the host the code is compiled for. -/
inductive Endian where
  | little
  | big
deriving DecidableEq, Repr

/-- Memory image of a uint16_t holding x, lowest address first. -/
def store16 (e : Endian) (x : Nat) : List Nat :=
  match e with
  | .little => [x % 256, x / 256 % 256]
  | .big => [x / 256 % 256, x % 256]

/-- Memory image of a uint32_t holding x, lowest address first. -/
def store32 (e : Endian) (x : Nat) : List Nat :=
  match e with
  | .little => [x % 256, x / 256 % 256, x / 65536 % 256, x / 16777216 % 256]
  | .big => [x / 16777216 % 256, x / 65536 % 256, x / 256 % 256, x % 256]

/-- The htons of the C library: a byte swap on a little-endian host, the
identity on a big-endian one. The result is a uint16_t. -/
def htons (e : Endian) (x : Nat) : Nat :=
  match e with
  | .little => (x % 256) * 256 + x / 256 % 256
  | .big => x % 65536

/-- The ntohl of the C library: a byte swap on a little-endian host, the
identity on a big-endian one. The result is a uint32_t. -/
def ntohl (e : Endian) (x : Nat) : Nat :=
  match e with
  | .little =>
      (x % 256) * 16777216 + (x / 256 % 256) * 65536 + (x / 65536 % 256) * 256
        + x / 16777216 % 256
  | .big => x % 4294967296

/-- Value of a byte string read as a big-endian unsigned integer. -/
def beRead (bs : List Nat) : Nat :=
  bs.foldl (fun acc b => acc * 256 + b) 0

/-- Result of the C library memcmp on two byte strings of the same length:
negative, zero or positive. -/
def memcmp : List Nat → List Nat → Int
  | a :: as, b :: bs => if a < b then -1 else if b < a then 1 else memcmp as bs
  | _, _ => 0

/-! ## Annotations -/

/-- The type tag of a node of a flow's annotation list. -/
inductive GenericVarType where
  | DETECT_FLOWVAR
  | DETECT_FLOWINT
  | DETECT_FLOWBITS
  | other
deriving DecidableEq, Repr

/-- The datatype tag of a FlowVar. -/
inductive FlowVarDatatype where
  | FLOWVAR_TYPE_STR
  | FLOWVAR_TYPE_INT
  | other
deriving DecidableEq, Repr

/-- A node of the flowvar list of a Flow, with the fields that the FlowVar and
FlowBit views of it read: the type tag and idx of both, and the datatype, the
runtime key (none for a NULL pointer), the string value and the integer value
of a FlowVar. -/
structure GenericVar where
  type : GenericVarType
  idx : Nat
  datatype : FlowVarDatatype := .other
  key : Option (List Nat) := none
  fv_str_value : List Nat := []
  fv_int_value : Nat := 0
deriving DecidableEq, Repr

/-- A node of the pktvar list of a Packet: id, runtime key (none for a NULL
pointer) and value. -/
structure PktVar where
  id : Nat
  key : Option (List Nat) := none
  value : List Nat := []
deriving DecidableEq, Repr

/-! ## Flows -/

def IPPROTO_ICMP : Nat := 1
def IPPROTO_TCP : Nat := 6
def IPPROTO_UDP : Nat := 17
def IPPROTO_ICMPV6 : Nat := 58
def IPPROTO_SCTP : Nat := 132

/-- The addr_data32 view of an address: four uint32_t cells that hold the
address bytes in network order, so the value of a cell depends on the host
byte order. An IPv4 address occupies cell 0. -/
structure FlowAddress where
  d0 : Nat
  d1 : Nat
  d2 : Nat
  d3 : Nat
deriving DecidableEq, Repr

/-- Read of addr_data32[i]. -/
def FlowAddress.addr_data32 (a : FlowAddress) (i : Nat) : Nat :=
  match i with
  | 0 => a.d0
  | 1 => a.d1
  | 2 => a.d2
  | _ => a.d3

/-- The 16 bytes of memory an address occupies. -/
def FlowAddress.bytes (e : Endian) (a : FlowAddress) : List Nat :=
  store32 e a.d0 ++ store32 e a.d1 ++ store32 e a.d2 ++ store32 e a.d3

def FlowAddress.WF (a : FlowAddress) : Prop :=
  a.d0 < 4294967296 ∧ a.d1 < 4294967296 ∧ a.d2 < 4294967296 ∧ a.d3 < 4294967296

instance (a : FlowAddress) : Decidable a.WF := by
  unfold FlowAddress.WF; infer_instance

/-- The fields of a Flow that output-json.c reads. The two booleans are the
results of the tests flags & FLOW_IPV4 and flags & FLOW_IPV6; flowvar is the
annotation list, empty for a NULL pointer; parent_id is the identity of the
parent flow, 0 when there is none, taken to be non-negative. -/
structure Flow where
  src : FlowAddress
  dst : FlowAddress
  sp : Nat
  dp : Nat
  proto : Nat
  icmp_s_type : Nat := 0
  icmp_d_type : Nat := 0
  flag_ipv4 : Bool := false
  flag_ipv6 : Bool := false
  flowvar : List GenericVar := []
  parent_id : Nat := 0
deriving DecidableEq, Repr

/-- Every field fits its C type: uint32_t cells, uint16_t ports, uint8_t
protocol and ICMP types. -/
def Flow.WF (f : Flow) : Prop :=
  f.src.WF ∧ f.dst.WF ∧ f.sp < 65536 ∧ f.dp < 65536 ∧ f.proto < 256 ∧
    f.icmp_s_type < 256 ∧ f.icmp_d_type < 256

instance (f : Flow) : Decidable f.WF := by
  unfold Flow.WF; infer_instance

/-- The flow with its source and destination sides exchanged. -/
def Flow.swapped (f : Flow) : Flow :=
  { f with src := f.dst, dst := f.src, sp := f.dp, dp := f.sp,
           icmp_s_type := f.icmp_d_type, icmp_d_type := f.icmp_s_type }

/-! ## Community flow id -/

def COMMUNITY_ID_BUF_SIZE : Nat := 64

/-- The packed struct ipv4 of CalculateCommunityFlowIdv4. -/
structure CommunityIdv4 where
  seed : Nat
  src : Nat
  dst : Nat
  proto : Nat
  pad0 : Nat
  sp : Nat
  dp : Nat
deriving DecidableEq, Repr

/-- Memory image of the packed struct: the fields in declaration order with
no padding between them. -/
def CommunityIdv4.bytes (e : Endian) (r : CommunityIdv4) : List Nat :=
  store16 e r.seed ++ store32 e r.src ++ store32 e r.dst ++ [r.proto % 256] ++
    [r.pad0 % 256] ++ store16 e r.sp ++ store16 e r.dp

/-- The packed struct ipv6 of CalculateCommunityFlowIdv6. -/
structure CommunityIdv6 where
  seed : Nat
  src : FlowAddress
  dst : FlowAddress
  proto : Nat
  pad0 : Nat
  sp : Nat
  dp : Nat
deriving DecidableEq, Repr

def CommunityIdv6.bytes (e : Endian) (r : CommunityIdv6) : List Nat :=
  store16 e r.seed ++ r.src.bytes e ++ r.dst.bytes e ++ [r.proto % 256] ++
    [r.pad0 % 256] ++ store16 e r.sp ++ store16 e r.dp

/-- CalculateCommunityFlowIdv4, lines 994 to 1018: the struct that is handed
to ComputeSHA1. -/
def CalculateCommunityFlowIdv4.pack (e : Endian) (f : Flow) (seed : Nat) : CommunityIdv4 :=
  let src := f.src.addr_data32 0
  let dst := f.dst.addr_data32 0
  let sp := f.sp
  let sp := if f.proto = IPPROTO_ICMP then f.icmp_s_type else sp
  let sp := htons e sp
  let dp := f.dp
  let dp := if f.proto = IPPROTO_ICMP then f.icmp_d_type else dp
  let dp := htons e dp
  if ntohl e src < ntohl e dst ∨ (src = dst ∧ sp < dp) then
    { seed := htons e seed, src := src, dst := dst, sp := sp, dp := dp,
      proto := f.proto, pad0 := 0 }
  else
    { seed := htons e seed, src := dst, dst := src, sp := dp, dp := sp,
      proto := f.proto, pad0 := 0 }

/-- The loop of FlowHashRawAddressIPv6LtU32 from index i, with n iterations
left. -/
def FlowHashRawAddressIPv6LtU32.loop (a b : FlowAddress) (i : Nat) : Nat → Bool
  | 0 => false
  | n + 1 =>
      if a.addr_data32 i < b.addr_data32 i then true
      else if a.addr_data32 i > b.addr_data32 i then false
      else FlowHashRawAddressIPv6LtU32.loop a b (i + 1) n

def FlowHashRawAddressIPv6LtU32 (a b : FlowAddress) : Bool :=
  FlowHashRawAddressIPv6LtU32.loop a b 0 4

/-- CalculateCommunityFlowIdv6, lines 1056 to 1080: the struct that is handed
to ComputeSHA1. -/
def CalculateCommunityFlowIdv6.pack (e : Endian) (f : Flow) (seed : Nat) : CommunityIdv6 :=
  let sp := f.sp
  let sp := if f.proto = IPPROTO_ICMPV6 then f.icmp_s_type else sp
  let sp := htons e sp
  let dp := f.dp
  let dp := if f.proto = IPPROTO_ICMPV6 then f.icmp_d_type else dp
  let dp := htons e dp
  if FlowHashRawAddressIPv6LtU32 f.src f.dst = true ∨
      (memcmp (f.src.bytes e) (f.dst.bytes e) = 0 ∧ sp < dp) then
    { seed := htons e seed, src := f.src, dst := f.dst, sp := sp, dp := dp,
      proto := f.proto, pad0 := 0 }
  else
    { seed := htons e seed, src := f.dst, dst := f.src, sp := dp, dp := sp,
      proto := f.proto, pad0 := 0 }

/-- The base64 alphabet. -/
def b64table : List Char :=
  "ABCDEFGHIJKLMNOPQRSTUVWXYZabcdefghijklmnopqrstuvwxyz0123456789+/".toList

def b64char (n : Nat) : Char := b64table.getD n '='

/-- Modelled from the spec: the base64 text of a byte string (the encoder
lives in util-crypt.c, which is not among the source files). Three bytes give
four characters; a last group of one or two bytes is padded with '='. -/
def base64 : List Nat → List Char
  | [] => []
  | [a] => [b64char (a / 4), b64char (a % 4 * 16), '=', '=']
  | [a, b] => [b64char (a / 4), b64char (a % 4 * 16 + b / 16), b64char (b % 16 * 4), '=']
  | a :: b :: c :: rest =>
      b64char (a / 4) :: b64char (a % 4 * 16 + b / 16) :: b64char (b % 16 * 4 + c / 64) ::
        b64char (c % 64) :: base64 rest

/-- Modelled from the spec: Base64Encode of util-crypt.c, which is not among
the source files. The caller passes the room left in the output buffer; the
encoder needs the 4 * ceil(n / 3) characters of the text and one more byte for
the terminating NUL, and reports an overflow (none) when the room is less. -/
def Base64Encode (inp : List Nat) (outlen : Nat) : Option (List Char) :=
  let len2 := 4 * ((inp.length + 2) / 3)
  if outlen < len2 + 1 then none else some (base64 inp)

/-- The tail of CalculateCommunityFlowIdv4 and CalculateCommunityFlowIdv6:
digest the record, write "1:" and the base64 text of the digest after it.
ComputeSHA1 (not among the source files) is a parameter: it yields the digest,
or none when it does not return 1. The result is the string left in base64buf
when the function returns true, none when it returns false. -/
def CalculateCommunityFlowId.encode (ComputeSHA1 : List Nat → Option (List Nat))
    (record : List Nat) : Option String :=
  match ComputeSHA1 record with
  | some hash =>
      match Base64Encode hash (COMMUNITY_ID_BUF_SIZE - 2) with
      | some text => some ("1:" ++ String.mk text)
      | none => none
  | none => none

def CalculateCommunityFlowIdv4 (e : Endian) (ComputeSHA1 : List Nat → Option (List Nat))
    (f : Flow) (seed : Nat) : Option String :=
  CalculateCommunityFlowId.encode ComputeSHA1
    ((CalculateCommunityFlowIdv4.pack e f seed).bytes e)

def CalculateCommunityFlowIdv6 (e : Endian) (ComputeSHA1 : List Nat → Option (List Nat))
    (f : Flow) (seed : Nat) : Option String :=
  CalculateCommunityFlowId.encode ComputeSHA1
    ((CalculateCommunityFlowIdv6.pack e f seed).bytes e)

/-- The record layout in the words of the specification: the seed as two
big-endian bytes, the two addresses as they lie in memory (network order), the
protocol byte, a zero pad byte and the two ports as two big-endian bytes
each. -/
def recordLayout (seed : Nat) (a b : List Nat) (proto p q : Nat) : List Nat :=
  [seed / 256, seed % 256] ++ a ++ b ++ [proto, 0] ++ [p / 256, p % 256] ++ [q / 256, q % 256]

/-! ## Collaborators defined in other files -/

/-- The address family argument of PrintInet. -/
inductive AddrFamily where
  | AF_INET
  | AF_INET6
deriving DecidableEq, Repr

/-- The type argument of VarNameStoreLookupById. -/
inductive VarType where
  | VAR_TYPE_PKT_VAR
  | VAR_TYPE_FLOW_BIT
  | VAR_TYPE_FLOW_INT
  | VAR_TYPE_FLOW_VAR
deriving DecidableEq, Repr

/-- Functions and constants that output-json.c takes from files that are not
among the sources. PrintInet af mem size is the text PrintInet leaves in a
buffer of the given size for the address stored at mem; known_proto is the
table of protocol names, none where SCProtoNameValid is false;
VarNameStoreLookupById yields none for NULL; PrintStringsToBuffer size src is
the C string left in a fresh buffer of the given size; ComputeSHA1 yields the
digest, none when it does not return 1; FlowGetId is the identity of a flow,
taken to be non-negative; CreateIsoTimeString ts size is the text left in a
buffer of the given size for the timeval ts (seconds, microseconds);
PcapFileGetFilename is the name of the capture file that is read;
JSON_OUTPUT_BUFFER_SIZE is the constant of output-json.h. -/
structure Externals where
  PrintInet : AddrFamily → List Nat → Nat → String
  known_proto : Nat → Option String
  JSON_ADDR_LEN : Nat
  JSON_PROTO_LEN : Nat
  VarNameStoreLookupById : Nat → VarType → Option String
  PrintStringsToBuffer : Nat → List Nat → String
  ComputeSHA1 : List Nat → Option (List Nat)
  FlowGetId : Flow → Nat
  CreateIsoTimeString : Nat × Nat → Nat → String
  PcapFileGetFilename : String
  JSON_OUTPUT_BUFFER_SIZE : Nat

/-- The strlcpy of the C library: dst after strlcpy(dst, src, size). At most
size - 1 characters are copied; nothing is written when size is 0. -/
def strlcpy (dst src : String) (size : Nat) : String :=
  if size = 0 then dst else String.mk (src.toList.take (size - 1))

/-- The text snprintf(buf, size, "%03u", n) leaves in buf: n in decimal, padded
with zeros on the left to three digits, cut to size - 1 characters. -/
def snprintf_03u (size : Nat) (n : Nat) : String :=
  let digits := (Nat.repr n).toList
  let padded := List.replicate (3 - digits.length) '0' ++ digits
  String.mk (padded.take (size - 1))

/-! ## Packets and the five-tuple resolver -/

/-- An address of a Packet as the resolver uses it: the memory that
GET_IPV4_SRC_ADDR_PTR and GET_IPV6_SRC_ADDR point to, that is the bytes of the
address in network order. -/
structure Address where
  addr_data8 : List Nat
deriving DecidableEq, Repr

/-- A parsed ICMPv4 or ICMPv6 header: the two fields the header builder
reads. -/
structure IcmpHdr where
  type : Nat
  code : Nat
deriving DecidableEq, Repr

/-- The fields of a Packet that output-json.c reads. The macros of decode.h
are fields holding their value: PKT_IS_IPV4 and PKT_IS_IPV6 (the IP header
pointer is non-NULL), PKT_IS_TOSERVER and PKT_IS_TOCLIENT (the bit of flowflags
is set) and IP_GET_IPPROTO. pktvar is the annotation list, empty for a NULL
pointer. Pointers are options, none for NULL: flow, livedev (holding the dev
name of the device), icmpv4h and icmpv6h. ts is the capture time (seconds,
microseconds), vlan_id the array of two VLAN ids. GET_PKT_LEN is the length of
the packet data and GET_PKT_DATA the memory the macro of that name points to:
the packet data followed by the bytes that lie behind it in memory. -/
structure Packet where
  src : Address
  dst : Address
  sp : Nat
  dp : Nat
  proto : Nat
  PKT_IS_IPV4 : Bool := false
  PKT_IS_IPV6 : Bool := false
  PKT_IS_TOSERVER : Bool := false
  PKT_IS_TOCLIENT : Bool := false
  IP_GET_IPPROTO : Nat := 0
  pktvar : List PktVar := []
  flow : Option Flow := none
  ts : Nat × Nat := (0, 0)
  livedev : Option String := none
  pcap_cnt : Nat := 0
  vlan_idx : Nat := 0
  vlan_id : Nat × Nat := (0, 0)
  icmpv4h : Option IcmpHdr := none
  icmpv6h : Option IcmpHdr := none
  datalink : Nat := 0
  GET_PKT_LEN : Nat := 0
  GET_PKT_DATA : List Nat := []
deriving DecidableEq, Repr

inductive OutputJsonLogDirection where
  | LOG_DIR_PACKET
  | LOG_DIR_FLOW
  | LOG_DIR_FLOW_TOCLIENT
  | LOG_DIR_FLOW_TOSERVER
deriving DecidableEq, Repr

structure JsonAddrInfo where
  src_ip : String
  dst_ip : String
  sp : Nat
  dp : Nat
  proto : String
deriving DecidableEq, Repr

/-- The packet itself flows in the direction that dir asks for: every packet
for the as-captured direction, a packet with the to-server flag for
LOG_DIR_FLOW and LOG_DIR_FLOW_TOSERVER, a packet with the to-client flag for
LOG_DIR_FLOW_TOCLIENT. -/
def Packet.flowsIn (p : Packet) : OutputJsonLogDirection → Bool
  | .LOG_DIR_PACKET => true
  | .LOG_DIR_FLOW => p.PKT_IS_TOSERVER
  | .LOG_DIR_FLOW_TOSERVER => p.PKT_IS_TOSERVER
  | .LOG_DIR_FLOW_TOCLIENT => p.PKT_IS_TOCLIENT

def json_addr_info_zero : JsonAddrInfo :=
  { src_ip := "", dst_ip := "", sp := 0, dp := 0, proto := "" }

/-- The first switch of JsonAddrInfoInit (lines 726 to 811): the contents of
the local buffers srcip and dstip, both zero-initialised and 46 bytes long,
and of the locals sp and dp; none when the function returns early. -/
def JsonAddrInfoInit.resolve (x : Externals) (p : Packet) (dir : OutputJsonLogDirection) :
    Option (String × String × Nat × Nat) :=
  match dir with
  | .LOG_DIR_PACKET =>
      if p.PKT_IS_IPV4 then
        some (x.PrintInet .AF_INET p.src.addr_data8 46,
              x.PrintInet .AF_INET p.dst.addr_data8 46, p.sp, p.dp)
      else if p.PKT_IS_IPV6 then
        some (x.PrintInet .AF_INET6 p.src.addr_data8 46,
              x.PrintInet .AF_INET6 p.dst.addr_data8 46, p.sp, p.dp)
      else
        none
  | .LOG_DIR_FLOW | .LOG_DIR_FLOW_TOSERVER =>
      if p.PKT_IS_TOSERVER then
        if p.PKT_IS_IPV4 then
          some (x.PrintInet .AF_INET p.src.addr_data8 46,
                x.PrintInet .AF_INET p.dst.addr_data8 46, p.sp, p.dp)
        else if p.PKT_IS_IPV6 then
          some (x.PrintInet .AF_INET6 p.src.addr_data8 46,
                x.PrintInet .AF_INET6 p.dst.addr_data8 46, p.sp, p.dp)
        else
          some ("", "", p.sp, p.dp)
      else
        if p.PKT_IS_IPV4 then
          some (x.PrintInet .AF_INET p.dst.addr_data8 46,
                x.PrintInet .AF_INET p.src.addr_data8 46, p.dp, p.sp)
        else if p.PKT_IS_IPV6 then
          some (x.PrintInet .AF_INET6 p.dst.addr_data8 46,
                x.PrintInet .AF_INET6 p.src.addr_data8 46, p.dp, p.sp)
        else
          some ("", "", p.dp, p.sp)
  | .LOG_DIR_FLOW_TOCLIENT =>
      if p.PKT_IS_TOCLIENT then
        if p.PKT_IS_IPV4 then
          some (x.PrintInet .AF_INET p.src.addr_data8 46,
                x.PrintInet .AF_INET p.dst.addr_data8 46, p.sp, p.dp)
        else if p.PKT_IS_IPV6 then
          some (x.PrintInet .AF_INET6 p.src.addr_data8 46,
                x.PrintInet .AF_INET6 p.dst.addr_data8 46, p.sp, p.dp)
        else
          some ("", "", p.sp, p.dp)
      else
        if p.PKT_IS_IPV4 then
          some (x.PrintInet .AF_INET p.dst.addr_data8 46,
                x.PrintInet .AF_INET p.src.addr_data8 46, p.dp, p.sp)
        else if p.PKT_IS_IPV6 then
          some (x.PrintInet .AF_INET6 p.dst.addr_data8 46,
                x.PrintInet .AF_INET6 p.src.addr_data8 46, p.dp, p.sp)
        else
          some ("", "", p.dp, p.sp)

/-- The address info after JsonAddrInfoInit(p, dir, addr). -/
def JsonAddrInfoInit (x : Externals) (p : Packet) (dir : OutputJsonLogDirection)
    (addr : JsonAddrInfo) : JsonAddrInfo :=
  match JsonAddrInfoInit.resolve x p dir with
  | none => addr
  | some (srcip, dstip, sp, dp) =>
      let proto :=
        match x.known_proto p.IP_GET_IPPROTO with
        | some name => strlcpy "" name 16
        | none => snprintf_03u 16 p.IP_GET_IPPROTO
      let addr := { addr with src_ip := strlcpy addr.src_ip srcip x.JSON_ADDR_LEN }
      let addr :=
        if p.proto = IPPROTO_ICMP then addr
        else if p.proto = IPPROTO_UDP ∨ p.proto = IPPROTO_TCP ∨ p.proto = IPPROTO_SCTP then
          { addr with sp := sp }
        else addr
      let addr := { addr with dst_ip := strlcpy addr.dst_ip dstip x.JSON_ADDR_LEN }
      let addr :=
        if p.proto = IPPROTO_ICMP then addr
        else if p.proto = IPPROTO_UDP ∨ p.proto = IPPROTO_TCP ∨ p.proto = IPPROTO_SCTP then
          { addr with dp := dp }
        else addr
      { addr with proto := strlcpy addr.proto proto x.JSON_PROTO_LEN }

/-! ## JSON builder -/

/-- A JSON value. A number is an integer: the builders write unsigned 64-bit
values, jansson writes signed ones. -/
inductive Json where
  | str (s : String)
  | int (n : Int)
  | bool (b : Bool)
  | arr (items : List Json)
  | obj (members : List (String × Json))

/-- The members of an object after a key is set: the value of an existing
member with that key is replaced in place, otherwise a new member is added at
the end. -/
def setMember (members : List (String × Json)) (key : String) (v : Json) :
    List (String × Json) :=
  if members.any (fun kv => kv.1 == key) then
    members.map (fun kv => if kv.1 == key then (key, v) else kv)
  else members ++ [(key, v)]

/-- The members of an object after the given members are set one after the
other. -/
def setMembers (members : List (String × Json)) (entries : List (String × Json)) :
    List (String × Json) :=
  entries.foldl (fun ms kv => setMember ms kv.1 kv.2) members

/-- A container under construction: its members or items so far, in the order
in which they were first written. -/
inductive JbContainer where
  | object (members : List (String × Json))
  | array (items : List Json)

def JbContainer.toJson : JbContainer → Json
  | .object members => .obj members
  | .array items => .arr items

/-- Modelled from the spec: the JsonBuilder of the Rust side, which is not
among the source files. The specification describes an event as a nested tree
of fields built incrementally, in which every opened object or array is closed
before the tree is serialised, and an object as a mapping keyed by name in
which a later write for the same name overwrites the earlier one. The model
keeps the stack of open containers, innermost first, each with the key under
which it will be attached to its parent, and the finished value once the
outermost container is closed. A call that does not fit the state of the
builder fails and leaves it unchanged. -/
structure JsonBuilder where
  stack : List (Option String × JbContainer)
  value : Option Json

def jb_new_object : JsonBuilder := { stack := [(none, .object [])], value := none }

def jb_new_array : JsonBuilder := { stack := [(none, .array [])], value := none }

/-- Set a member of the innermost open container, which has to be an object:
a member with the same key is overwritten, otherwise the member is added at
the end. -/
def jb_set (js : JsonBuilder) (key : String) (v : Json) : JsonBuilder :=
  match js.stack with
  | (k, .object members) :: rest =>
      { js with stack := (k, .object (setMember members key v)) :: rest }
  | _ => js

/-- Add an item to the innermost open container, which has to be an array. -/
def jb_append (js : JsonBuilder) (v : Json) : JsonBuilder :=
  match js.stack with
  | (k, .array items) :: rest => { js with stack := (k, .array (items ++ [v])) :: rest }
  | _ => js

def jb_set_string (js : JsonBuilder) (key val : String) : JsonBuilder := jb_set js key (.str val)

def jb_set_uint (js : JsonBuilder) (key : String) (val : Nat) : JsonBuilder :=
  jb_set js key (.int val)

def jb_set_bool (js : JsonBuilder) (key : String) (val : Bool) : JsonBuilder :=
  jb_set js key (.bool val)

def jb_append_string (js : JsonBuilder) (val : String) : JsonBuilder := jb_append js (.str val)

def jb_append_uint (js : JsonBuilder) (val : Nat) : JsonBuilder := jb_append js (.int val)

def jb_open_object (js : JsonBuilder) (key : String) : JsonBuilder :=
  match js.stack with
  | (_, .object _) :: _ => { js with stack := (some key, .object []) :: js.stack }
  | _ => js

def jb_open_array (js : JsonBuilder) (key : String) : JsonBuilder :=
  match js.stack with
  | (_, .object _) :: _ => { js with stack := (some key, .array []) :: js.stack }
  | _ => js

def jb_start_object (js : JsonBuilder) : JsonBuilder :=
  match js.stack with
  | (_, .array _) :: _ => { js with stack := (none, .object []) :: js.stack }
  | _ => js

/-- Close the innermost open container and attach it to its parent, in an
object as the member with its key; closing the outermost container finishes
the value. -/
def jb_close (js : JsonBuilder) : JsonBuilder :=
  match js.stack with
  | [(_, c)] => { stack := [], value := some c.toJson }
  | (some key, c) :: (k, .object members) :: rest =>
      { js with stack := (k, .object (setMember members key c.toJson)) :: rest }
  | (none, c) :: (k, .array items) :: rest =>
      { js with stack := (k, .array (items ++ [c.toJson])) :: rest }
  | _ => js

/-- Add the finished value of another builder as a member. -/
def jb_set_object (js : JsonBuilder) (key : String) (other : JsonBuilder) : JsonBuilder :=
  match other.value with
  | some v => jb_set js key v
  | none => js

/-- The innermost open container is an object, so members can be added. -/
def JsonBuilder.inObject (js : JsonBuilder) : Prop :=
  ∃ k members rest, js.stack = (k, .object members) :: rest

/-- The members of the innermost open container when it is an object. -/
def JsonBuilder.members (js : JsonBuilder) : List (String × Json) :=
  match js.stack with
  | (_, .object members) :: _ => members
  | _ => []

/-- The keys of the members of the innermost open object, in order. -/
def JsonBuilder.keys (js : JsonBuilder) : List String :=
  js.members.map Prod.fst

/-! ## Variables and metadata -/

def TRAFFIC_ID_PREFIX : String := "traffic/id/"

def TRAFFIC_LABEL_PREFIX : String := "traffic/label/"

/-- The value OutputJsonRegister stores: strlen(TRAFFIC_ID_PREFIX). -/
def traffic_id_prefix_len : Nat := TRAFFIC_ID_PREFIX.length

/-- The value OutputJsonRegister stores: strlen(TRAFFIC_LABEL_PREFIX). -/
def traffic_label_prefix_len : Nat := TRAFFIC_LABEL_PREFIX.length

/-- SCStringHasPrefix: strncmp over the length of the second argument is 0. -/
def SCStringHasPrefix (s pre : String) : Bool :=
  pre.toList.isPrefixOf s.toList

/-- The body of the loop of EveAddPacketVars for one node: the flag open and
the builder after it. A NULL name from the registry is outside what
jb_set_string accepts as a key; the model adds no member then. -/
def EveAddPacketVars.step (x : Externals) (st : Bool × JsonBuilder) (pv : PktVar) :
    Bool × JsonBuilder :=
  if pv.key.isSome ∨ pv.id > 0 then
    let js_vars := if st.1 then st.2 else jb_open_array st.2 "pktvars"
    let js_vars := jb_start_object js_vars
    let js_vars :=
      match pv.key with
      | some key =>
          let keybuf := x.PrintStringsToBuffer (key.length + 1) key
          let printable_buf := x.PrintStringsToBuffer (pv.value.length + 1) pv.value
          jb_set_string js_vars keybuf printable_buf
      | none =>
          match x.VarNameStoreLookupById pv.id .VAR_TYPE_PKT_VAR with
          | some varname =>
              jb_set_string js_vars varname (x.PrintStringsToBuffer (pv.value.length + 1) pv.value)
          | none => js_vars
    (true, jb_close js_vars)
  else st

def EveAddPacketVars (x : Externals) (p : Option Packet) (js_vars : JsonBuilder) : JsonBuilder :=
  match p with
  | none => js_vars
  | some p =>
      if p.pktvar = [] then js_vars
      else
        let st := p.pktvar.foldl (EveAddPacketVars.step x) (false, js_vars)
        if st.1 then jb_close st.2 else st.2

/-- The local builders of EveAddFlowVars, none for a NULL pointer. -/
structure EveAddFlowVars.Locals where
  js_flowvars : Option JsonBuilder := none
  js_traffic_id : Option JsonBuilder := none
  js_traffic_label : Option JsonBuilder := none
  js_flowints : Option JsonBuilder := none
  js_flowbits : Option JsonBuilder := none

/-- The body of the loop of EveAddFlowVars for one node. The builder
allocations jb_new_array and jb_new_object are taken to succeed, so the loop is
never left early. -/
def EveAddFlowVars.step (x : Externals) (l : EveAddFlowVars.Locals) (gv : GenericVar) :
    EveAddFlowVars.Locals :=
  if gv.type = .DETECT_FLOWVAR ∨ gv.type = .DETECT_FLOWINT then
    if gv.datatype = .FLOWVAR_TYPE_STR ∧ gv.key = none then
      match x.VarNameStoreLookupById gv.idx .VAR_TYPE_FLOW_VAR with
      | some varname =>
          let js_flowvars := l.js_flowvars.getD jb_new_array
          let printable_buf := x.PrintStringsToBuffer (gv.fv_str_value.length + 1) gv.fv_str_value
          let js_flowvars := jb_start_object js_flowvars
          let js_flowvars := jb_set_string js_flowvars varname printable_buf
          let js_flowvars := jb_close js_flowvars
          { l with js_flowvars := some js_flowvars }
      | none => l
    else if gv.datatype = .FLOWVAR_TYPE_STR ∧ gv.key ≠ none then
      let js_flowvars := l.js_flowvars.getD jb_new_array
      let key := gv.key.getD []
      let keybuf := x.PrintStringsToBuffer (key.length + 1) key
      let printable_buf := x.PrintStringsToBuffer (gv.fv_str_value.length + 1) gv.fv_str_value
      let js_flowvars := jb_start_object js_flowvars
      let js_flowvars := jb_set_string js_flowvars keybuf printable_buf
      let js_flowvars := jb_close js_flowvars
      { l with js_flowvars := some js_flowvars }
    else if gv.datatype = .FLOWVAR_TYPE_INT then
      match x.VarNameStoreLookupById gv.idx .VAR_TYPE_FLOW_INT with
      | some varname =>
          let js_flowints := l.js_flowints.getD jb_new_object
          { l with js_flowints := some (jb_set_uint js_flowints varname gv.fv_int_value) }
      | none => l
    else l
  else if gv.type = .DETECT_FLOWBITS then
    match x.VarNameStoreLookupById gv.idx .VAR_TYPE_FLOW_BIT with
    | some varname =>
        if SCStringHasPrefix varname TRAFFIC_ID_PREFIX then
          let js_traffic_id := l.js_traffic_id.getD jb_new_array
          let js_traffic_id :=
            jb_append_string js_traffic_id (String.mk (varname.toList.drop traffic_id_prefix_len))
          { l with js_traffic_id := some js_traffic_id }
        else if SCStringHasPrefix varname TRAFFIC_LABEL_PREFIX then
          let js_traffic_label := l.js_traffic_label.getD jb_new_array
          let js_traffic_label :=
            jb_append_string js_traffic_label
              (String.mk (varname.toList.drop traffic_label_prefix_len))
          { l with js_traffic_label := some js_traffic_label }
        else
          let js_flowbits := l.js_flowbits.getD jb_new_array
          { l with js_flowbits := some (jb_append_string js_flowbits varname) }
    | none => l
  else l

/-- The builder js_root and the pointer js_traffic after
EveAddFlowVars(f, js_root, &js_traffic). -/
def EveAddFlowVars (x : Externals) (f : Option Flow) (js_root : JsonBuilder)
    (js_traffic : Option JsonBuilder) : JsonBuilder × Option JsonBuilder :=
  match f with
  | none => (js_root, js_traffic)
  | some f =>
      if f.flowvar = [] then (js_root, js_traffic)
      else
        let l := f.flowvar.foldl (EveAddFlowVars.step x) {}
        let js_root :=
          match l.js_flowbits with
          | some b => jb_set_object js_root "flowbits" (jb_close b)
          | none => js_root
        let js_root :=
          match l.js_flowints with
          | some b => jb_set_object js_root "flowints" (jb_close b)
          | none => js_root
        let js_root :=
          match l.js_flowvars with
          | some b => jb_set_object js_root "flowvars" (jb_close b)
          | none => js_root
        if l.js_traffic_id.isSome ∨ l.js_traffic_label.isSome then
          let t := jb_new_object
          let t :=
            match l.js_traffic_id with
            | some b => jb_set_object t "id" (jb_close b)
            | none => t
          let t :=
            match l.js_traffic_label with
            | some b => jb_set_object t "label" (jb_close b)
            | none => t
          (js_root, some (jb_close t))
        else (js_root, js_traffic)

/-- The event builder after EveAddMetadata(p, f, js); jb_new_object is taken
to succeed. The pair r holds js_vars and the pointer js_traffic after the block
that runs when the flow has annotations. -/
def EveAddMetadata (x : Externals) (p : Option Packet) (f : Option Flow) (js : JsonBuilder) :
    JsonBuilder :=
  let has_pktvar : Bool := match p with
    | some p => !p.pktvar.isEmpty
    | none => false
  let has_flowvar : Bool := match f with
    | some f => !f.flowvar.isEmpty
    | none => false
  if has_pktvar || has_flowvar then
    let js_vars := jb_new_object
    let r := if has_flowvar then EveAddFlowVars x f js_vars none else (js_vars, none)
    let js :=
      match r.2 with
      | some js_traffic => jb_set_object js "traffic" js_traffic
      | none => js
    let js_vars := if has_pktvar then EveAddPacketVars x p r.1 else r.1
    let js_vars := jb_close js_vars
    jb_set_object js "metadata" js_vars
  else js

/-! ## Common options -/

/-- The fields of OutputJsonCommonSettings. -/
structure OutputJsonCommonSettings where
  include_metadata : Bool
  include_community_id : Bool
  community_id_seed : Nat
deriving DecidableEq, Repr

/-- The event builder after CreateEveCommunityFlowId(js, f, seed). -/
def CreateEveCommunityFlowId (e : Endian) (x : Externals) (js : JsonBuilder) (f : Flow)
    (seed : Nat) : JsonBuilder :=
  if f.flag_ipv4 then
    match CalculateCommunityFlowIdv4 e x.ComputeSHA1 f seed with
    | some buf => jb_set_string js "community_id" buf
    | none => js
  else if f.flag_ipv6 then
    match CalculateCommunityFlowIdv6 e x.ComputeSHA1 f seed with
    | some buf => jb_set_string js "community_id" buf
    | none => js
  else js

/-- The event builder after EveAddCommonOptions(cfg, p, f, js); p and f are
none for NULL pointers. -/
def EveAddCommonOptions (e : Endian) (x : Externals) (cfg : OutputJsonCommonSettings)
    (p : Option Packet) (f : Option Flow) (js : JsonBuilder) : JsonBuilder :=
  let js := if cfg.include_metadata then EveAddMetadata x p f js else js
  match f with
  | some fl =>
      if cfg.include_community_id then CreateEveCommunityFlowId e x js fl cfg.community_id_seed
      else js
  | none => js

/-! ## jansson values -/

/-- The value json_object() returns: an empty object. Allocations of jansson
values are taken to succeed. -/
def json_object : Json := .obj []

def json_array : Json := .arr []

/-- The value json_string(s) returns; a string of the model is valid UTF-8, so
the call succeeds. -/
def json_string (s : String) : Json := .str s

def json_integer (n : Int) : Json := .int n

/-- The object after json_object_set_new(js, key, v); a value that is not an
object is left as it is. -/
def json_object_set_new (js : Json) (key : String) (v : Json) : Json :=
  match js with
  | .obj members => .obj (setMember members key v)
  | .str s => .str s
  | .int n => .int n
  | .bool b => .bool b
  | .arr items => .arr items

/-- The array after json_array_append_new(js, v); a value that is not an array
is left as it is. -/
def json_array_append_new (js : Json) (v : Json) : Json :=
  match js with
  | .arr items => .arr (items ++ [v])
  | .str s => .str s
  | .int n => .int n
  | .bool b => .bool b
  | .obj members => .obj members

/-- The value json_object_get(js, key) returns, none for NULL. -/
def json_object_get (js : Json) (key : String) : Option Json :=
  match js with
  | .obj members => members.lookup key
  | .str _ => none
  | .int _ => none
  | .bool _ => none
  | .arr _ => none

/-- Conversion of a uint64_t to the signed 64-bit integer json_integer
takes. -/
def toInt64 (n : Nat) : Int :=
  if n % 18446744073709551616 < 9223372036854775808 then (n % 18446744073709551616 : Nat)
  else ((n % 18446744073709551616 : Nat) : Int) - 18446744073709551616

/-- Conversion of an int64_t to the uint64_t jb_set_uint takes. -/
def toUint64 (i : Int) : Nat := (i % 18446744073709551616).toNat

/-! ## The five-tuple as JSON members -/

/-- The first switch of JsonFiveTuple (lines 859 to 944): the contents of the
local buffers srcip and dstip and of the locals sp and dp; none when the
function returns early. -/
def JsonFiveTuple.resolve (x : Externals) (p : Packet) (dir : OutputJsonLogDirection) :
    Option (String × String × Nat × Nat) :=
  match dir with
  | .LOG_DIR_PACKET =>
      if p.PKT_IS_IPV4 then
        some (x.PrintInet .AF_INET p.src.addr_data8 46,
              x.PrintInet .AF_INET p.dst.addr_data8 46, p.sp, p.dp)
      else if p.PKT_IS_IPV6 then
        some (x.PrintInet .AF_INET6 p.src.addr_data8 46,
              x.PrintInet .AF_INET6 p.dst.addr_data8 46, p.sp, p.dp)
      else
        none
  | .LOG_DIR_FLOW | .LOG_DIR_FLOW_TOSERVER =>
      if p.PKT_IS_TOSERVER then
        if p.PKT_IS_IPV4 then
          some (x.PrintInet .AF_INET p.src.addr_data8 46,
                x.PrintInet .AF_INET p.dst.addr_data8 46, p.sp, p.dp)
        else if p.PKT_IS_IPV6 then
          some (x.PrintInet .AF_INET6 p.src.addr_data8 46,
                x.PrintInet .AF_INET6 p.dst.addr_data8 46, p.sp, p.dp)
        else
          some ("", "", p.sp, p.dp)
      else
        if p.PKT_IS_IPV4 then
          some (x.PrintInet .AF_INET p.dst.addr_data8 46,
                x.PrintInet .AF_INET p.src.addr_data8 46, p.dp, p.sp)
        else if p.PKT_IS_IPV6 then
          some (x.PrintInet .AF_INET6 p.dst.addr_data8 46,
                x.PrintInet .AF_INET6 p.src.addr_data8 46, p.dp, p.sp)
        else
          some ("", "", p.dp, p.sp)
  | .LOG_DIR_FLOW_TOCLIENT =>
      if p.PKT_IS_TOCLIENT then
        if p.PKT_IS_IPV4 then
          some (x.PrintInet .AF_INET p.src.addr_data8 46,
                x.PrintInet .AF_INET p.dst.addr_data8 46, p.sp, p.dp)
        else if p.PKT_IS_IPV6 then
          some (x.PrintInet .AF_INET6 p.src.addr_data8 46,
                x.PrintInet .AF_INET6 p.dst.addr_data8 46, p.sp, p.dp)
        else
          some ("", "", p.sp, p.dp)
      else
        if p.PKT_IS_IPV4 then
          some (x.PrintInet .AF_INET p.dst.addr_data8 46,
                x.PrintInet .AF_INET p.src.addr_data8 46, p.dp, p.sp)
        else if p.PKT_IS_IPV6 then
          some (x.PrintInet .AF_INET6 p.dst.addr_data8 46,
                x.PrintInet .AF_INET6 p.src.addr_data8 46, p.dp, p.sp)
        else
          some ("", "", p.dp, p.sp)

/-- The object js after JsonFiveTuple(p, dir, js). -/
def JsonFiveTuple (x : Externals) (p : Packet) (dir : OutputJsonLogDirection) (js : Json) :
    Json :=
  match JsonFiveTuple.resolve x p dir with
  | none => js
  | some (srcip, dstip, sp, dp) =>
      let proto :=
        match x.known_proto p.IP_GET_IPPROTO with
        | some name => strlcpy "" name 16
        | none => snprintf_03u 16 p.IP_GET_IPPROTO
      let js := json_object_set_new js "src_ip" (json_string srcip)
      let js :=
        if p.proto = IPPROTO_ICMP then js
        else if p.proto = IPPROTO_UDP ∨ p.proto = IPPROTO_TCP ∨ p.proto = IPPROTO_SCTP then
          json_object_set_new js "src_port" (json_integer sp)
        else js
      let js := json_object_set_new js "dest_ip" (json_string dstip)
      let js :=
        if p.proto = IPPROTO_ICMP then js
        else if p.proto = IPPROTO_UDP ∨ p.proto = IPPROTO_TCP ∨ p.proto = IPPROTO_SCTP then
          json_object_set_new js "dest_port" (json_integer dp)
        else js
      json_object_set_new js "proto" (json_string proto)

/-! ## Event header -/

/-- The object js after CreateJSONFlowId(js, f). -/
def CreateJSONFlowId (x : Externals) (js : Json) (f : Option Flow) : Json :=
  match f with
  | none => js
  | some f =>
      let flow_id := x.FlowGetId f
      let js := json_object_set_new js "flow_id" (json_integer flow_id)
      if f.parent_id ≠ 0 then json_object_set_new js "parent_id" (json_integer f.parent_id)
      else js

/-- The builder js after CreateEveFlowId(js, f). -/
def CreateEveFlowId (x : Externals) (js : JsonBuilder) (f : Option Flow) : JsonBuilder :=
  match f with
  | none => js
  | some f =>
      let flow_id := x.FlowGetId f
      let js := jb_set_uint js "flow_id" flow_id
      if f.parent_id ≠ 0 then jb_set_uint js "parent_id" f.parent_id else js

/-- The address info both header functions emit (lines 1192 to 1196 and 1273
to 1277): the one the caller supplied or, for a NULL pointer, a copy of
json_addr_info_zero filled by JsonAddrInfoInit. -/
def headerAddrInfo (x : Externals) (p : Packet) (dir : OutputJsonLogDirection)
    (addr : Option JsonAddrInfo) : JsonAddrInfo :=
  match addr with
  | some a => a
  | none => JsonAddrInfoInit x p dir json_addr_info_zero

/-- The object CreateJSONHeader returns. sensor_id is the value of the static
variable of that name; event_type and addr are none for NULL. json_object and
json_array are taken to succeed. -/
def CreateJSONHeader (x : Externals) (sensor_id : Int) (p : Packet)
    (dir : OutputJsonLogDirection) (event_type : Option String) (addr : Option JsonAddrInfo) :
    Json :=
  let f := p.flow
  let js := json_object
  let timebuf := x.CreateIsoTimeString p.ts 64
  let js := json_object_set_new js "timestamp" (json_string timebuf)
  let js := CreateJSONFlowId x js f
  let js := if sensor_id ≥ 0 then json_object_set_new js "sensor_id" (json_integer sensor_id) else js
  let js :=
    match p.livedev with
    | some dev => json_object_set_new js "in_iface" (json_string dev)
    | none => js
  let js :=
    if p.pcap_cnt ≠ 0 then json_object_set_new js "pcap_cnt" (json_integer (toInt64 p.pcap_cnt))
    else js
  let js :=
    match event_type with
    | some t => json_object_set_new js "event_type" (json_string t)
    | none => js
  let js :=
    if p.vlan_idx > 0 then
      let js_vlan := json_array
      let js_vlan := json_array_append_new js_vlan (json_integer p.vlan_id.1)
      let js_vlan :=
        if p.vlan_idx > 1 then json_array_append_new js_vlan (json_integer p.vlan_id.2)
        else js_vlan
      json_object_set_new js "vlan" js_vlan
    else js
  let addr := headerAddrInfo x p dir addr
  let js := json_object_set_new js "src_ip" (json_string addr.src_ip)
  let js := json_object_set_new js "src_port" (json_integer addr.sp)
  let js := json_object_set_new js "dest_ip" (json_string addr.dst_ip)
  let js := json_object_set_new js "dest_port" (json_integer addr.dp)
  let js := json_object_set_new js "proto" (json_string addr.proto)
  if p.proto = IPPROTO_ICMP then
    match p.icmpv4h with
    | some h =>
        let js := json_object_set_new js "icmp_type" (json_integer h.type)
        json_object_set_new js "icmp_code" (json_integer h.code)
    | none => js
  else if p.proto = IPPROTO_ICMPV6 then
    match p.icmpv6h with
    | some h =>
        let js := json_object_set_new js "icmp_type" (json_integer h.type)
        json_object_set_new js "icmp_code" (json_integer h.code)
    | none => js
  else js

/-- The builder CreateEveHeader returns. sensor_id is the value of the static
variable of that name; event_type and addr are none for NULL. jb_new_object is
taken to succeed. -/
def CreateEveHeader (x : Externals) (sensor_id : Int) (p : Packet)
    (dir : OutputJsonLogDirection) (event_type : Option String) (addr : Option JsonAddrInfo) :
    JsonBuilder :=
  let f := p.flow
  let js := jb_new_object
  let timebuf := x.CreateIsoTimeString p.ts 64
  let js := jb_set_string js "timestamp" timebuf
  let js := CreateEveFlowId x js f
  let js := if sensor_id ≥ 0 then jb_set_uint js "sensor_id" (toUint64 sensor_id) else js
  let js :=
    match p.livedev with
    | some dev => jb_set_string js "in_iface" dev
    | none => js
  let js := if p.pcap_cnt ≠ 0 then jb_set_uint js "pcap_cnt" p.pcap_cnt else js
  let js :=
    match event_type with
    | some t => jb_set_string js "event_type" t
    | none => js
  let js :=
    if p.vlan_idx > 0 then
      let js := jb_open_array js "vlan"
      let js := jb_append_uint js p.vlan_id.1
      let js := if p.vlan_idx > 1 then jb_append_uint js p.vlan_id.2 else js
      jb_close js
    else js
  let addr := headerAddrInfo x p dir addr
  let js := jb_set_string js "src_ip" addr.src_ip
  let js := jb_set_uint js "src_port" addr.sp
  let js := jb_set_string js "dest_ip" addr.dst_ip
  let js := jb_set_uint js "dest_port" addr.dp
  let js := jb_set_string js "proto" addr.proto
  if p.proto = IPPROTO_ICMP then
    match p.icmpv4h with
    | some h =>
        let js := jb_set_uint js "icmp_type" h.type
        jb_set_uint js "icmp_code" h.code
    | none => js
  else if p.proto = IPPROTO_ICMPV6 then
    match p.icmpv6h with
    | some h =>
        let js := jb_set_uint js "icmp_type" h.type
        jb_set_uint js "icmp_code" h.code
    | none => js
  else js

/-- The object CreateJSONHeaderWithTxId returns; it passes NULL for the
tuple. -/
def CreateJSONHeaderWithTxId (x : Externals) (sensor_id : Int) (p : Packet)
    (dir : OutputJsonLogDirection) (event_type : Option String) (tx_id : Nat) : Json :=
  let js := CreateJSONHeader x sensor_id p dir event_type none
  json_object_set_new js "tx_id" (json_integer (toInt64 tx_id))

/-- The builder CreateEveHeaderWithTxId returns. -/
def CreateEveHeaderWithTxId (x : Externals) (sensor_id : Int) (p : Packet)
    (dir : OutputJsonLogDirection) (event_type : Option String) (addr : Option JsonAddrInfo)
    (tx_id : Nat) : JsonBuilder :=
  let js := CreateEveHeader x sensor_id p dir event_type addr
  jb_set_uint js "tx_id" tx_id

/-! ## The event header block by block -/

/-- The sensor id block of CreateEveHeader (lines 1243 to 1246). -/
def eveSensorBlock (sensor_id : Int) (js : JsonBuilder) : JsonBuilder :=
  if sensor_id ≥ 0 then jb_set_uint js "sensor_id" (toUint64 sensor_id) else js

/-- The input interface block of CreateEveHeader (lines 1248 to 1251). -/
def eveIfaceBlock (p : Packet) (js : JsonBuilder) : JsonBuilder :=
  match p.livedev with
  | some dev => jb_set_string js "in_iface" dev
  | none => js

/-- The pcap_cnt block of CreateEveHeader (lines 1253 to 1256). -/
def evePcapCntBlock (p : Packet) (js : JsonBuilder) : JsonBuilder :=
  if p.pcap_cnt ≠ 0 then jb_set_uint js "pcap_cnt" p.pcap_cnt else js

/-- The event type block of CreateEveHeader (lines 1258 to 1260). -/
def eveEventTypeBlock (event_type : Option String) (js : JsonBuilder) : JsonBuilder :=
  match event_type with
  | some t => jb_set_string js "event_type" t
  | none => js

/-- The vlan block of CreateEveHeader (lines 1262 to 1270). -/
def eveVlanBlock (p : Packet) (js : JsonBuilder) : JsonBuilder :=
  if p.vlan_idx > 0 then
    let js := jb_open_array js "vlan"
    let js := jb_append_uint js p.vlan_id.1
    let js := if p.vlan_idx > 1 then jb_append_uint js p.vlan_id.2 else js
    jb_close js
  else js

/-- The five calls of CreateEveHeader that emit the tuple (lines 1278 to
1282). -/
def eveTupleBlock (addr : JsonAddrInfo) (js : JsonBuilder) : JsonBuilder :=
  let js := jb_set_string js "src_ip" addr.src_ip
  let js := jb_set_uint js "src_port" addr.sp
  let js := jb_set_string js "dest_ip" addr.dst_ip
  let js := jb_set_uint js "dest_port" addr.dp
  jb_set_string js "proto" addr.proto

/-- The icmp block of CreateEveHeader (lines 1284 to 1298). -/
def eveIcmpBlock (p : Packet) (js : JsonBuilder) : JsonBuilder :=
  if p.proto = IPPROTO_ICMP then
    match p.icmpv4h with
    | some h =>
        let js := jb_set_uint js "icmp_type" h.type
        jb_set_uint js "icmp_code" h.code
    | none => js
  else if p.proto = IPPROTO_ICMPV6 then
    match p.icmpv6h with
    | some h =>
        let js := jb_set_uint js "icmp_type" h.type
        jb_set_uint js "icmp_code" h.code
    | none => js
  else js

/-- The sensor id block of CreateJSONHeader (lines 1161 to 1163). -/
def jsonSensorBlock (sensor_id : Int) (js : Json) : Json :=
  if sensor_id ≥ 0 then json_object_set_new js "sensor_id" (json_integer sensor_id) else js

/-- The input interface block of CreateJSONHeader (lines 1165 to 1168). -/
def jsonIfaceBlock (p : Packet) (js : Json) : Json :=
  match p.livedev with
  | some dev => json_object_set_new js "in_iface" (json_string dev)
  | none => js

/-- The pcap_cnt block of CreateJSONHeader (lines 1170 to 1173). -/
def jsonPcapCntBlock (p : Packet) (js : Json) : Json :=
  if p.pcap_cnt ≠ 0 then json_object_set_new js "pcap_cnt" (json_integer (toInt64 p.pcap_cnt))
  else js

/-- The event type block of CreateJSONHeader (lines 1175 to 1177). -/
def jsonEventTypeBlock (event_type : Option String) (js : Json) : Json :=
  match event_type with
  | some t => json_object_set_new js "event_type" (json_string t)
  | none => js

/-- The vlan block of CreateJSONHeader (lines 1179 to 1189). -/
def jsonVlanBlock (p : Packet) (js : Json) : Json :=
  if p.vlan_idx > 0 then
    let js_vlan := json_array
    let js_vlan := json_array_append_new js_vlan (json_integer p.vlan_id.1)
    let js_vlan :=
      if p.vlan_idx > 1 then json_array_append_new js_vlan (json_integer p.vlan_id.2)
      else js_vlan
    json_object_set_new js "vlan" js_vlan
  else js

/-- The five calls of CreateJSONHeader that emit the tuple (lines 1197 to
1201). -/
def jsonTupleBlock (addr : JsonAddrInfo) (js : Json) : Json :=
  let js := json_object_set_new js "src_ip" (json_string addr.src_ip)
  let js := json_object_set_new js "src_port" (json_integer addr.sp)
  let js := json_object_set_new js "dest_ip" (json_string addr.dst_ip)
  let js := json_object_set_new js "dest_port" (json_integer addr.dp)
  json_object_set_new js "proto" (json_string addr.proto)

/-- The icmp block of CreateJSONHeader (lines 1203 to 1221). -/
def jsonIcmpBlock (p : Packet) (js : Json) : Json :=
  if p.proto = IPPROTO_ICMP then
    match p.icmpv4h with
    | some h =>
        let js := json_object_set_new js "icmp_type" (json_integer h.type)
        json_object_set_new js "icmp_code" (json_integer h.code)
    | none => js
  else if p.proto = IPPROTO_ICMPV6 then
    match p.icmpv6h with
    | some h =>
        let js := json_object_set_new js "icmp_type" (json_integer h.type)
        json_object_set_new js "icmp_code" (json_integer h.code)
    | none => js
  else js

/-! ## The members of the event header, written out -/

/-- The members of a JSON object, none for any other value. -/
def Json.members : Json → List (String × Json)
  | .obj members => members
  | .str _ => []
  | .int _ => []
  | .bool _ => []
  | .arr _ => []

/-- The members the flow identity contributes to a header. -/
def flowIdFields (x : Externals) (f : Option Flow) : List (String × Json) :=
  match f with
  | none => []
  | some f =>
      ("flow_id", .int (x.FlowGetId f)) ::
        (if f.parent_id ≠ 0 then [("parent_id", .int f.parent_id)] else [])

/-- The member the vlan block contributes to a header. -/
def vlanFields (p : Packet) : List (String × Json) :=
  if p.vlan_idx > 0 then
    [("vlan", .arr (.int p.vlan_id.1 :: (if p.vlan_idx > 1 then [.int p.vlan_id.2] else [])))]
  else []

/-- The members the icmp block contributes to a header. -/
def icmpFields (p : Packet) : List (String × Json) :=
  if p.proto = IPPROTO_ICMP then
    match p.icmpv4h with
    | some h => [("icmp_type", .int h.type), ("icmp_code", .int h.code)]
    | none => []
  else if p.proto = IPPROTO_ICMPV6 then
    match p.icmpv6h with
    | some h => [("icmp_type", .int h.type), ("icmp_code", .int h.code)]
    | none => []
  else []

/-- The members of an event header in the order in which they are added;
sensorValue and pcapValue are the numbers written for the sensor id and the
packet count, which the two header functions convert differently. -/
def headerFields (x : Externals) (sensor_id sensorValue pcapValue : Int) (p : Packet)
    (event_type : Option String) (addr : JsonAddrInfo) : List (String × Json) :=
  [("timestamp", .str (x.CreateIsoTimeString p.ts 64))] ++
  flowIdFields x p.flow ++
  (if sensor_id ≥ 0 then [("sensor_id", .int sensorValue)] else []) ++
  (match p.livedev with
    | some dev => [("in_iface", .str dev)]
    | none => []) ++
  (if p.pcap_cnt ≠ 0 then [("pcap_cnt", .int pcapValue)] else []) ++
  (match event_type with
    | some t => [("event_type", .str t)]
    | none => []) ++
  vlanFields p ++
  [("src_ip", .str addr.src_ip), ("src_port", .int addr.sp), ("dest_ip", .str addr.dst_ip),
   ("dest_port", .int addr.dp), ("proto", .str addr.proto)] ++
  icmpFields p

/-! ## Variables and metadata with jansson -/

/-- The body of the loop of JsonAddPacketvars for one node: the pointer
js_pktvars after it, none for NULL. json_array and json_object are taken to
succeed. json_object_set_new rejects a NULL key and leaves the object as it
is. -/
def JsonAddPacketvars.step (x : Externals) (js_pktvars : Option Json) (pv : PktVar) :
    Option Json :=
  if pv.key.isSome ∨ pv.id > 0 then
    let js_pktvars := js_pktvars.getD json_array
    let js_pair := json_object
    let js_pair :=
      match pv.key with
      | some key =>
          let keybuf := x.PrintStringsToBuffer (key.length + 1) key
          let printable_buf := x.PrintStringsToBuffer (pv.value.length + 1) pv.value
          json_object_set_new js_pair keybuf (json_string printable_buf)
      | none =>
          match x.VarNameStoreLookupById pv.id .VAR_TYPE_PKT_VAR with
          | some varname =>
              json_object_set_new js_pair varname
                (json_string (x.PrintStringsToBuffer (pv.value.length + 1) pv.value))
          | none => js_pair
    some (json_array_append_new js_pktvars js_pair)
  else js_pktvars

/-- The object js_vars after JsonAddPacketvars(p, js_vars). -/
def JsonAddPacketvars (x : Externals) (p : Option Packet) (js_vars : Json) : Json :=
  match p with
  | none => js_vars
  | some p =>
      if p.pktvar = [] then js_vars
      else
        match p.pktvar.foldl (JsonAddPacketvars.step x) none with
        | some js_pktvars => json_object_set_new js_vars "pktvars" js_pktvars
        | none => js_vars

/-- The local values of JsonAddFlowVars, none for a NULL pointer. -/
structure JsonAddFlowVars.Locals where
  js_flowvars : Option Json := none
  js_traffic_id : Option Json := none
  js_traffic_label : Option Json := none
  js_flowints : Option Json := none
  js_flowbits : Option Json := none

/-- The body of the loop of JsonAddFlowVars for one node. json_array and
json_object are taken to succeed, so the loop is never left early. -/
def JsonAddFlowVars.step (x : Externals) (l : JsonAddFlowVars.Locals) (gv : GenericVar) :
    JsonAddFlowVars.Locals :=
  if gv.type = .DETECT_FLOWVAR ∨ gv.type = .DETECT_FLOWINT then
    if gv.datatype = .FLOWVAR_TYPE_STR ∧ gv.key = none then
      match x.VarNameStoreLookupById gv.idx .VAR_TYPE_FLOW_VAR with
      | some varname =>
          let js_flowvars := l.js_flowvars.getD json_array
          let printable_buf := x.PrintStringsToBuffer (gv.fv_str_value.length + 1) gv.fv_str_value
          let js_flowvar := json_object
          let js_flowvar := json_object_set_new js_flowvar varname (json_string printable_buf)
          { l with js_flowvars := some (json_array_append_new js_flowvars js_flowvar) }
      | none => l
    else if gv.datatype = .FLOWVAR_TYPE_STR ∧ gv.key ≠ none then
      let js_flowvars := l.js_flowvars.getD json_array
      let key := gv.key.getD []
      let keybuf := x.PrintStringsToBuffer (key.length + 1) key
      let printable_buf := x.PrintStringsToBuffer (gv.fv_str_value.length + 1) gv.fv_str_value
      let js_flowvar := json_object
      let js_flowvar := json_object_set_new js_flowvar keybuf (json_string printable_buf)
      { l with js_flowvars := some (json_array_append_new js_flowvars js_flowvar) }
    else if gv.datatype = .FLOWVAR_TYPE_INT then
      match x.VarNameStoreLookupById gv.idx .VAR_TYPE_FLOW_INT with
      | some varname =>
          let js_flowints := l.js_flowints.getD json_object
          { l with
            js_flowints :=
              some (json_object_set_new js_flowints varname (json_integer gv.fv_int_value)) }
      | none => l
    else l
  else if gv.type = .DETECT_FLOWBITS then
    match x.VarNameStoreLookupById gv.idx .VAR_TYPE_FLOW_BIT with
    | some varname =>
        if SCStringHasPrefix varname TRAFFIC_ID_PREFIX then
          let js_traffic_id := l.js_traffic_id.getD json_array
          let js_traffic_id :=
            json_array_append_new js_traffic_id
              (json_string (String.mk (varname.toList.drop traffic_id_prefix_len)))
          { l with js_traffic_id := some js_traffic_id }
        else if SCStringHasPrefix varname TRAFFIC_LABEL_PREFIX then
          let js_traffic_label := l.js_traffic_label.getD json_array
          let js_traffic_label :=
            json_array_append_new js_traffic_label
              (json_string (String.mk (varname.toList.drop traffic_label_prefix_len)))
          { l with js_traffic_label := some js_traffic_label }
        else
          let js_flowbits := l.js_flowbits.getD json_array
          { l with js_flowbits := some (json_array_append_new js_flowbits (json_string varname)) }
    | none => l
  else l

/-- The object js_root and the pointer js_traffic after
JsonAddFlowVars(f, js_root, &js_traffic). -/
def JsonAddFlowVars (x : Externals) (f : Option Flow) (js_root : Json)
    (js_traffic : Option Json) : Json × Option Json :=
  match f with
  | none => (js_root, js_traffic)
  | some f =>
      if f.flowvar = [] then (js_root, js_traffic)
      else
        let l := f.flowvar.foldl (JsonAddFlowVars.step x) {}
        let js_root :=
          match l.js_flowbits with
          | some b => json_object_set_new js_root "flowbits" b
          | none => js_root
        let js_root :=
          match l.js_flowints with
          | some b => json_object_set_new js_root "flowints" b
          | none => js_root
        let js_root :=
          match l.js_flowvars with
          | some b => json_object_set_new js_root "flowvars" b
          | none => js_root
        if l.js_traffic_id.isSome ∨ l.js_traffic_label.isSome then
          let t := json_object
          let t :=
            match l.js_traffic_id with
            | some b => json_object_set_new t "id" b
            | none => t
          let t :=
            match l.js_traffic_label with
            | some b => json_object_set_new t "label" b
            | none => t
          (js_root, some t)
        else (js_root, js_traffic)

/-- The event object after JsonAddMetadata(p, f, js); json_object is taken to
succeed. The pair r holds js_vars and the pointer js_traffic after the block
that runs when the flow has annotations. -/
def JsonAddMetadata (x : Externals) (p : Option Packet) (f : Option Flow) (js : Json) : Json :=
  let has_pktvar : Bool := match p with
    | some p => !p.pktvar.isEmpty
    | none => false
  let has_flowvar : Bool := match f with
    | some f => !f.flowvar.isEmpty
    | none => false
  if has_pktvar || has_flowvar then
    let js_vars := json_object
    let r := if has_flowvar then JsonAddFlowVars x f js_vars none else (js_vars, none)
    let js :=
      match r.2 with
      | some js_traffic => json_object_set_new js "traffic" js_traffic
      | none => js
    let js_vars := if has_pktvar then JsonAddPacketvars x p r.1 else r.1
    json_object_set_new js "metadata" js_vars
  else js

/-! ## Escaping of strings -/

def MAX_JSON_SIZE : Nat := 2048

/-- Whether the type char of the platform is signed or unsigned. -/
inductive CharSign where
  | signed
  | unsigned
deriving DecidableEq, Repr

/-- The value of val[u] as the int that isprint and the formats receive, for
the byte b at that place: a byte above 127 is negative where char is signed. -/
def charValue (cs : CharSign) (b : Nat) : Int :=
  match cs with
  | .unsigned => (b % 256 : Nat)
  | .signed => if b % 256 < 128 then (b % 256 : Nat) else ((b % 256 : Nat) : Int) - 256

/-- The isprint of the C library in the C locale: the characters from space to
tilde; a negative value is not printable. -/
def isprint (c : Int) : Bool := decide (32 ≤ c ∧ c ≤ 126)

/-- An uppercase hexadecimal digit. -/
def hexDigitUpper (d : Nat) : Char :=
  if d < 10 then Char.ofNat (48 + d) else Char.ofNat (55 + d)

/-- The digits of n in base 16, most significant first, without padding: at
least one digit. The fuel bounds the number of digits. -/
def hexDigitsUpper : Nat → Nat → List Char
  | 0, _ => []
  | fuel + 1, n =>
      if n < 16 then [hexDigitUpper n]
      else hexDigitsUpper fuel (n / 16) ++ [hexDigitUpper (n % 16)]

/-- The text the format %02X gives for the int c: c converted to unsigned int,
in uppercase hexadecimal, padded with zeros on the left to two digits. -/
def format_02X (c : Int) : List Char :=
  let digits := hexDigitsUpper 8 (c % 4294967296).toNat
  List.replicate (2 - digits.length) '0' ++ digits

/-- The text the format %c gives for the int c: the character with the code c
converted to unsigned char. -/
def format_c (c : Int) : List Char := [Char.ofNat (c % 256).toNat]

/-- Modelled from the spec: the macro PrintBufferData of util-print.h, which is
not among the source files. The encoder of the specification appends the text
of each byte to the text produced so far; the macro is given the buffer, the
offset and the size of the buffer, so what it writes stays inside the buffer.
The state is the text in the buffer and the offset. The text is formatted at
the offset into the room that is left, of which the last byte takes the
terminating zero; when the offset would reach the size of the buffer it is set
to the size less one, otherwise it advances by the length of the text. -/
def PrintBufferData (st : List Char × Nat) (buf_size : Nat) (text : List Char) :
    List Char × Nat :=
  let buf := st.1.take st.2 ++ text.take (buf_size - st.2 - 1)
  if st.2 + text.length ≥ buf_size then (buf, buf_size - 1) else (buf, st.2 + text.length)

/-- The body of the loop of SCJsonString for the byte b at val[u]: retbuf and
offset after it. -/
def SCJsonString.step (cs : CharSign) (st : List Char × Nat) (b : Nat) : List Char × Nat :=
  if isprint (charValue cs b) then
    PrintBufferData st (MAX_JSON_SIZE - 1) (format_c (charValue cs b))
  else
    PrintBufferData st (MAX_JSON_SIZE - 1)
      ('\\' :: 'x' :: format_02X (charValue cs b))

/-- The C string in retbuf when the loop of SCJsonString is left and the
terminating zero is stored at the offset. val holds the bytes of the argument
before its terminating zero. -/
def SCJsonString.escape (cs : CharSign) (val : List Nat) : String :=
  let st := val.foldl (SCJsonString.step cs) ([], 0)
  String.mk (st.1.take st.2)

/-- The utf8_check_first of jansson (utf.c): the number of bytes of the UTF-8
sequence that the byte u starts, 0 when no sequence starts with u: a
continuation byte 0x80 to 0xBF, the bytes 0xC0 and 0xC1 of an overlong
encoding, and the bytes 0xF5 to 0xFF. -/
def utf8_check_first (u : Nat) : Nat :=
  if u < 0x80 then 1
  else if 0x80 ≤ u ∧ u ≤ 0xBF then 0
  else if u = 0xC0 ∨ u = 0xC1 then 0
  else if 0xC2 ≤ u ∧ u ≤ 0xDF then 2
  else if 0xE0 ≤ u ∧ u ≤ 0xEF then 3
  else if 0xF0 ≤ u ∧ u ≤ 0xF4 then 4
  else 0

/-- The utf8_check_full of jansson (utf.c) on the first size bytes of buffer:
the value the sequence encodes, none when a byte after the first is not a
continuation byte, when the value is above 0x10FFFF or a surrogate 0xD800 to
0xDFFF, or when the value is encoded in more bytes than it needs. -/
def utf8_check_full (buffer : List Nat) (size : Nat) : Option Nat :=
  match buffer with
  | [] => none
  | u :: rest =>
      if size < 2 ∨ 4 < size then none
      else
        let first := if size = 2 then u % 32 else if size = 3 then u % 16 else u % 8
        let value := (rest.take (size - 1)).foldl
          (fun acc u => acc.bind fun value =>
            if u < 0x80 ∨ u > 0xBF then none else some (value * 64 + u % 64))
          (some first)
        match value with
        | none => none
        | some value =>
            if value > 0x10FFFF then none
            else if 0xD800 ≤ value ∧ value ≤ 0xDFFF then none
            else if (size = 2 ∧ value < 0x80) ∨ (size = 3 ∧ value < 0x800) ∨
                (size = 4 ∧ value < 0x10000) then none
            else some value

/-- The loop of utf8_check_string over the bytes that are left, of which the
first skip bytes belong to a sequence that has been checked. -/
def utf8_check_string.go : Nat → List Nat → Option (List Char)
  | _, [] => some []
  | skip + 1, _ :: rest => utf8_check_string.go skip rest
  | 0, u :: rest =>
      if utf8_check_first u = 0 then none
      else if utf8_check_first u = 1 then
        (utf8_check_string.go 0 rest).map fun cs => Char.ofNat u :: cs
      else if (u :: rest).length < utf8_check_first u then none
      else
        match utf8_check_full (u :: rest) (utf8_check_first u) with
        | none => none
        | some value =>
            (utf8_check_string.go (utf8_check_first u - 1) rest).map fun cs =>
              Char.ofNat value :: cs

/-- The check json_string of jansson makes on its argument (utf8_check_string
of utf.c): the characters the bytes encode, none when the bytes are not valid
UTF-8, in which case json_string returns NULL. -/
def utf8_check_string (string : List Nat) : Option (List Char) :=
  utf8_check_string.go 0 string

/-- The value SCJsonString(val) returns, none for NULL. val holds the bytes of
the argument before its terminating zero. json_string(val) is tried first and
gives the string the bytes encode; only when it returns NULL, which it does
when the bytes are not valid UTF-8, the loop runs and the text in retbuf is
handed to json_string. That text holds characters below 0x80 only and is
accepted. -/
def SCJsonString (cs : CharSign) (val : Option (List Nat)) : Option Json :=
  match val with
  | none => none
  | some v =>
      match utf8_check_string v with
      | some s => some (json_string (String.mk s))
      | none => some (json_string (SCJsonString.escape cs v))

/-! ## Output buffer -/

/-- Modelled from the spec: the MemBuffer of util-buffer.h, which is not among
the source files: an owned byte sequence with a write offset and a capacity.
buffer holds the bytes written so far, offset is their number and size is the
capacity. -/
structure MemBuffer where
  buffer : List Nat
  size : Nat
  offset : Nat
deriving DecidableEq, Repr

def MEMBUFFER_OFFSET (mem_buffer : MemBuffer) : Nat := mem_buffer.offset

def MEMBUFFER_SIZE (mem_buffer : MemBuffer) : Nat := mem_buffer.size

/-- Modelled from the spec: MemBufferExpand of util-buffer.c, which is not
among the source files: the backing storage grows by the requested increment
and all bytes written and the write offset are preserved. The reallocation is
taken to succeed. -/
def MemBufferExpand (buffer : MemBuffer) (expand_by : Nat) : MemBuffer :=
  { buffer with size := buffer.size + expand_by }

/-- Modelled from the spec: the macro MemBufferWriteRaw of util-buffer.h, which
is not among the source files: raw bytes are appended at the current offset
and the offset advances by what was written. The macro does not grow the
storage: it writes what fits below the capacity, keeping one byte for the
terminating zero. -/
def MemBufferWriteRaw (dst : MemBuffer) (raw_buffer : List Nat) : MemBuffer :=
  let write_len :=
    if raw_buffer.length ≥ dst.size - dst.offset then dst.size - dst.offset - 1
    else raw_buffer.length
  { dst with
    buffer := dst.buffer.take dst.offset ++ raw_buffer.take write_len
    offset := dst.offset + write_len }

/-- The argument data of OutputJSONMemBufferCallback: the buffer that
wrapper->buffer points to and the increment. -/
structure OutputJSONMemBufferWrapper where
  buffer : MemBuffer
  expand_by : Nat
deriving DecidableEq, Repr

/-- The wrapper after OutputJSONMemBufferCallback(str, size, data); the
function returns 0. -/
def OutputJSONMemBufferCallback (str : List Nat) (data : OutputJSONMemBufferWrapper) :
    OutputJSONMemBufferWrapper :=
  let memb := data.buffer
  let memb :=
    if MEMBUFFER_OFFSET memb + str.length ≥ MEMBUFFER_SIZE memb then
      MemBufferExpand memb data.expand_by
    else memb
  { data with buffer := MemBufferWriteRaw memb str }

/-! ## TCP flags and packet data -/

/-- The flag bits of the TCP header, as decode-tcp.h (not among the source
files) defines them. -/
def TH_FIN : Nat := 0x01

def TH_SYN : Nat := 0x02

def TH_RST : Nat := 0x04

def TH_PUSH : Nat := 0x08

def TH_ACK : Nat := 0x10

def TH_URG : Nat := 0x20

def TH_ECN : Nat := 0x40

def TH_CWR : Nat := 0x80

def json_true : Json := .bool true

/-- The object js after JsonTcpFlags(flags, js). -/
def JsonTcpFlags (flags : Nat) (js : Json) : Json :=
  let js := if flags &&& TH_SYN ≠ 0 then json_object_set_new js "syn" json_true else js
  let js := if flags &&& TH_FIN ≠ 0 then json_object_set_new js "fin" json_true else js
  let js := if flags &&& TH_RST ≠ 0 then json_object_set_new js "rst" json_true else js
  let js := if flags &&& TH_PUSH ≠ 0 then json_object_set_new js "psh" json_true else js
  let js := if flags &&& TH_ACK ≠ 0 then json_object_set_new js "ack" json_true else js
  let js := if flags &&& TH_URG ≠ 0 then json_object_set_new js "urg" json_true else js
  let js := if flags &&& TH_ECN ≠ 0 then json_object_set_new js "ecn" json_true else js
  if flags &&& TH_CWR ≠ 0 then json_object_set_new js "cwr" json_true else js

/-- The builder js after EveTcpFlags(flags, js). -/
def EveTcpFlags (flags : Nat) (js : JsonBuilder) : JsonBuilder :=
  let js := if flags &&& TH_SYN ≠ 0 then jb_set_bool js "syn" true else js
  let js := if flags &&& TH_FIN ≠ 0 then jb_set_bool js "fin" true else js
  let js := if flags &&& TH_RST ≠ 0 then jb_set_bool js "rst" true else js
  let js := if flags &&& TH_PUSH ≠ 0 then jb_set_bool js "psh" true else js
  let js := if flags &&& TH_ACK ≠ 0 then jb_set_bool js "ack" true else js
  let js := if flags &&& TH_URG ≠ 0 then jb_set_bool js "urg" true else js
  let js := if flags &&& TH_ECN ≠ 0 then jb_set_bool js "ecn" true else js
  if flags &&& TH_CWR ≠ 0 then jb_set_bool js "cwr" true else js

/-- The value of max_len in JsonPacket and EvePacket: the number of bytes at
GET_PKT_DATA(p) that Base64Encode is given. -/
def EvePacket.max_len (p : Packet) (max_length : Nat) : Nat :=
  if max_length = 0 then p.GET_PKT_LEN else max_length

/-- The object js after JsonPacket(p, js, max_length). The bytes given to
Base64Encode are the first max_len bytes of the memory at GET_PKT_DATA(p), and
the room is the 2 * max_len bytes of encoded_packet. json_object is taken to
succeed. -/
def JsonPacket (p : Packet) (js : Json) (max_length : Nat) : Json :=
  let max_len := EvePacket.max_len p max_length
  let len := 2 * max_len
  let js :=
    match Base64Encode (p.GET_PKT_DATA.take max_len) len with
    | some encoded_packet => json_object_set_new js "packet" (json_string (String.mk encoded_packet))
    | none => js
  let packetinfo_js := json_object
  let packetinfo_js := json_object_set_new packetinfo_js "linktype" (json_integer p.datalink)
  json_object_set_new js "packet_info" packetinfo_js

/-- Whether jb_open_object returns true on the builder: the innermost open
container is an object. -/
def jb_open_object_ok (js : JsonBuilder) : Bool :=
  match js.stack with
  | (_, .object _) :: _ => true
  | _ => false

/-- The builder js after EvePacket(p, js, max_length). jb_set_uint inside the
object that was just opened succeeds. -/
def EvePacket (p : Packet) (js : JsonBuilder) (max_length : Nat) : JsonBuilder :=
  let max_len := EvePacket.max_len p max_length
  let len := 2 * max_len
  let js :=
    match Base64Encode (p.GET_PKT_DATA.take max_len) len with
    | some encoded_packet => jb_set_string js "packet" (String.mk encoded_packet)
    | none => js
  if !jb_open_object_ok js then js
  else
    let js := jb_open_object js "packet_info"
    let js := jb_set_uint js "linktype" p.datalink
    jb_close js

/-! ## Dispatch to the sink -/

/-- The fields of LogFileCtx that the two dispatch functions read: the sensor
name and the line prefix are none for NULL; prefix_len is the length of the
prefix. -/
structure LogFileCtx where
  sensor_name : Option String := none
  is_pcap_offline : Bool := false
  prefix_str : Option (List Nat) := none
  json_flags : Nat := 0
deriving DecidableEq, Repr

/-- What a dispatch function leaves behind: the event after the derived fields
were added, the output buffer, the buffer that LogFileWrite was called with
(none when it was not called) and the return value. -/
structure Dispatch (α : Type) where
  js : α
  buffer : MemBuffer
  written : Option MemBuffer
  ret : Int

/-- The result of OutputJSONBuffer(js, file_ctx, buffer). TM_ECODE_OK is the
enumerator of tm-threads-common.h, which is not among the source files.
json_dump_callback is the function of jansson: for an object and the flags it
yields the pieces of text it passes to the callback, in order, and its return
value, 0 for success; the callback returns 0 for every piece, so the dump is
never stopped by it. -/
def OutputJSONBuffer (x : Externals) (TM_ECODE_OK : Int)
    (json_dump_callback : Json → Nat → List (List Nat) × Int)
    (js : Json) (file_ctx : LogFileCtx) (buffer : MemBuffer) : Dispatch Json :=
  let js :=
    match file_ctx.sensor_name with
    | some name => json_object_set_new js "host" (json_string name)
    | none => js
  let js :=
    if file_ctx.is_pcap_offline then
      json_object_set_new js "pcap_filename" (json_string x.PcapFileGetFilename)
    else js
  let buffer :=
    match file_ctx.prefix_str with
    | some pre => MemBufferWriteRaw buffer pre
    | none => buffer
  let wrapper : OutputJSONMemBufferWrapper :=
    { buffer := buffer, expand_by := x.JSON_OUTPUT_BUFFER_SIZE }
  let dump := json_dump_callback js file_ctx.json_flags
  let wrapper := dump.1.foldl (fun w str => OutputJSONMemBufferCallback str w) wrapper
  if dump.2 ≠ 0 then
    { js := js, buffer := wrapper.buffer, written := none, ret := TM_ECODE_OK }
  else
    { js := js, buffer := wrapper.buffer, written := some wrapper.buffer, ret := 0 }

/-- The result of OutputJsonBuilderBuffer(js, file_ctx, buffer). jb_ptr is the
function of the builder that yields the text it holds; jb_len is the length of
that text. -/
def OutputJsonBuilderBuffer (x : Externals) (jb_ptr : JsonBuilder → List Nat)
    (js : JsonBuilder) (file_ctx : LogFileCtx) (buffer : MemBuffer) : Dispatch JsonBuilder :=
  let js :=
    match file_ctx.sensor_name with
    | some name => jb_set_string js "host" name
    | none => js
  let js :=
    if file_ctx.is_pcap_offline then jb_set_string js "pcap_filename" x.PcapFileGetFilename
    else js
  let js := jb_close js
  let buffer :=
    match file_ctx.prefix_str with
    | some pre => MemBufferWriteRaw buffer pre
    | none => buffer
  let jslen := (jb_ptr js).length
  let buffer :=
    if MEMBUFFER_OFFSET buffer + jslen ≥ MEMBUFFER_SIZE buffer then MemBufferExpand buffer jslen
    else buffer
  let buffer := MemBufferWriteRaw buffer (jb_ptr js)
  { js := js, buffer := buffer, written := some buffer, ret := 0 }

/-! ## The collections of the variable aggregator, written out -/

/-- A builder inside its root array, with the given items. -/
def JsonBuilder.rootArray (items : List Json) : JsonBuilder :=
  { stack := [(none, .array items)], value := none }

/-- A builder inside its root object, with the given members. -/
def JsonBuilder.rootObject (members : List (String × Json)) : JsonBuilder :=
  { stack := [(none, .object members)], value := none }

/-- A builder whose outermost container is closed, with the finished value. -/
def JsonBuilder.finished (v : Json) : JsonBuilder := { stack := [], value := some v }

/-- The printable form of a byte string: PrintStringsToBuffer into a buffer
one byte longer than the string. -/
def printable (x : Externals) (bytes : List Nat) : String :=
  x.PrintStringsToBuffer (bytes.length + 1) bytes

/-- A string flow variable: a FlowVar node whose datatype is the string one. -/
def GenericVar.isStringVar (gv : GenericVar) : Prop :=
  (gv.type = .DETECT_FLOWVAR ∨ gv.type = .DETECT_FLOWINT) ∧ gv.datatype = .FLOWVAR_TYPE_STR

instance (gv : GenericVar) : Decidable gv.isStringVar := by
  unfold GenericVar.isStringVar
  infer_instance

/-- An integer flow variable: a FlowVar node whose datatype is the integer
one. -/
def GenericVar.isIntVar (gv : GenericVar) : Prop :=
  (gv.type = .DETECT_FLOWVAR ∨ gv.type = .DETECT_FLOWINT) ∧ gv.datatype = .FLOWVAR_TYPE_INT

instance (gv : GenericVar) : Decidable gv.isIntVar := by
  unfold GenericVar.isIntVar
  infer_instance

/-- A flow-bit node. -/
def GenericVar.isFlowBit (gv : GenericVar) : Prop := gv.type = .DETECT_FLOWBITS

instance (gv : GenericVar) : Decidable gv.isFlowBit := by
  unfold GenericVar.isFlowBit
  infer_instance

/-- The wording of the specification for a string flow variable: with a
runtime key the single-member object of the printable key and the printable
value, without one the single-member object of the registered name and the
printable value when the name resolves; nothing for any other node. -/
def flowvarEntry (x : Externals) (gv : GenericVar) : Option Json :=
  if gv.isStringVar then
    match gv.key with
    | some key => some (.obj [(printable x key, .str (printable x gv.fv_str_value))])
    | none =>
        match x.VarNameStoreLookupById gv.idx .VAR_TYPE_FLOW_VAR with
        | some name => some (.obj [(name, .str (printable x gv.fv_str_value))])
        | none => none
  else none

/-- The wording of the specification for an integer flow variable: the
registered name and the value when the name resolves. -/
def flowintEntry (x : Externals) (gv : GenericVar) : Option (String × Json) :=
  if gv.isIntVar then
    match x.VarNameStoreLookupById gv.idx .VAR_TYPE_FLOW_INT with
    | some name => some (name, .int gv.fv_int_value)
    | none => none
  else none

/-- The registered name of a flow-bit when it resolves. -/
def flowbitName (x : Externals) (gv : GenericVar) : Option String :=
  if gv.isFlowBit then x.VarNameStoreLookupById gv.idx .VAR_TYPE_FLOW_BIT else none

/-- The flowvars entries of an annotation list, in the order of the list. -/
def flowvarEntries (x : Externals) (gvs : List GenericVar) : List Json :=
  gvs.filterMap (flowvarEntry x)

/-- The name and value of every integer flow variable of an annotation list
that resolves, in the order of the list. -/
def flowintEntries (x : Externals) (gvs : List GenericVar) : List (String × Json) :=
  gvs.filterMap (flowintEntry x)

/-- The resolved names of the flow-bits of an annotation list, in order. -/
def flowbitNames (x : Externals) (gvs : List GenericVar) : List String :=
  gvs.filterMap (flowbitName x)

/-- A name with its first n characters removed. -/
def dropPrefix (n : Nat) (name : String) : String := String.mk (name.toList.drop n)

/-- The wording of the specification for the traffic id array: the names that
begin with the identifier prefix, with the prefix removed. -/
def trafficIds (x : Externals) (gvs : List GenericVar) : List Json :=
  ((flowbitNames x gvs).filter fun name => SCStringHasPrefix name TRAFFIC_ID_PREFIX).map
    fun name => .str (dropPrefix TRAFFIC_ID_PREFIX.length name)

/-- The wording of the specification for the traffic label array: the names
that begin with the label prefix, with the prefix removed. -/
def trafficLabels (x : Externals) (gvs : List GenericVar) : List Json :=
  ((flowbitNames x gvs).filter fun name => SCStringHasPrefix name TRAFFIC_LABEL_PREFIX).map
    fun name => .str (dropPrefix TRAFFIC_LABEL_PREFIX.length name)

/-- The wording of the specification for the flowbits array: all other names,
unchanged. -/
def plainFlowbits (x : Externals) (gvs : List GenericVar) : List Json :=
  ((flowbitNames x gvs).filter fun name =>
    !SCStringHasPrefix name TRAFFIC_ID_PREFIX && !SCStringHasPrefix name TRAFFIC_LABEL_PREFIX).map
    fun name => .str name

/-- The member for an array that exists only when it has an item. -/
def arrayField (key : String) (items : List Json) : List (String × Json) :=
  if items.isEmpty then [] else [(key, .arr items)]

/-- The member for an object that exists only when it has a member. -/
def objectField (key : String) (members : List (String × Json)) : List (String × Json) :=
  if members.isEmpty then [] else [(key, .obj members)]

/-- The traffic object of an annotation list: none when neither an id nor a
label was collected. -/
def trafficObject (x : Externals) (gvs : List GenericVar) : Option Json :=
  if (trafficIds x gvs).isEmpty && (trafficLabels x gvs).isEmpty then none
  else some (.obj (arrayField "id" (trafficIds x gvs) ++ arrayField "label" (trafficLabels x gvs)))

/-- The entry of the pktvars array for a packet variable the loops take up:
one with a runtime key or an id above zero. The object has the printable key
or the registered name as its only key, and no member when there is no runtime
key and the id does not resolve. -/
def pktvarEntry (x : Externals) (pv : PktVar) : Option Json :=
  if pv.key.isSome ∨ pv.id > 0 then
    match pv.key with
    | some key => some (.obj [(printable x key, .str (printable x pv.value))])
    | none =>
        match x.VarNameStoreLookupById pv.id .VAR_TYPE_PKT_VAR with
        | some name => some (.obj [(name, .str (printable x pv.value))])
        | none => some (.obj [])
  else none

/-- The entries of the pktvars array of an annotation list, in order. -/
def pktvarEntries (x : Externals) (pvs : List PktVar) : List Json :=
  pvs.filterMap (pktvarEntry x)

/-- A packet variable with a usable key: a runtime key, or an id that the
registry resolves to a name. -/
def PktVar.hasUsableKey (x : Externals) (pv : PktVar) : Prop :=
  pv.key.isSome ∨ (x.VarNameStoreLookupById pv.id .VAR_TYPE_PKT_VAR).isSome

instance (x : Externals) (pv : PktVar) : Decidable (pv.hasUsableKey x) := by
  unfold PktVar.hasUsableKey
  infer_instance

/-- A collection that is allocated on its first element: the collection after
more elements are added, none while there has been none. -/
def extendLazy {α : Type} (o : Option (List α)) (l : List α) : Option (List α) :=
  if l.isEmpty then o else some (o.getD [] ++ l)

/-- The local builders of EveAddFlowVars that hold the given collections. -/
def EveAddFlowVars.Locals.ofLists (fv tid tl : Option (List Json))
    (fi : Option (List (String × Json))) (fb : Option (List Json)) : EveAddFlowVars.Locals :=
  { js_flowvars := fv.map JsonBuilder.rootArray
    js_traffic_id := tid.map JsonBuilder.rootArray
    js_traffic_label := tl.map JsonBuilder.rootArray
    js_flowints := fi.map JsonBuilder.rootObject
    js_flowbits := fb.map JsonBuilder.rootArray }

/-- The local values of JsonAddFlowVars that hold the given collections. -/
def JsonAddFlowVars.Locals.ofLists (fv tid tl : Option (List Json))
    (fi : Option (List (String × Json))) (fb : Option (List Json)) : JsonAddFlowVars.Locals :=
  { js_flowvars := fv.map Json.arr
    js_traffic_id := tid.map Json.arr
    js_traffic_label := tl.map Json.arr
    js_flowints := fi.map Json.obj
    js_flowbits := fb.map Json.arr }

/-- The members of a jansson object that is allocated on its first member,
after one more pass of a loop that may set a member. -/
def setLazy (o : Option (List (String × Json))) (e : Option (String × Json)) :
    Option (List (String × Json)) :=
  match e with
  | some kv => some (setMember (o.getD []) kv.1 kv.2)
  | none => o

/-- What a node adds to the traffic id array. -/
def trafficIdEntry (x : Externals) (gv : GenericVar) : Option Json :=
  match flowbitName x gv with
  | some name =>
      if SCStringHasPrefix name TRAFFIC_ID_PREFIX then
        some (.str (dropPrefix TRAFFIC_ID_PREFIX.length name))
      else none
  | none => none

/-- What a node adds to the traffic label array. -/
def trafficLabelEntry (x : Externals) (gv : GenericVar) : Option Json :=
  match flowbitName x gv with
  | some name =>
      if SCStringHasPrefix name TRAFFIC_LABEL_PREFIX then
        some (.str (dropPrefix TRAFFIC_LABEL_PREFIX.length name))
      else none
  | none => none

/-- What a node adds to the flowbits array. -/
def plainFlowbitEntry (x : Externals) (gv : GenericVar) : Option Json :=
  match flowbitName x gv with
  | some name =>
      if !SCStringHasPrefix name TRAFFIC_ID_PREFIX && !SCStringHasPrefix name TRAFFIC_LABEL_PREFIX
      then some (.str name)
      else none
  | none => none

/-- The annotation list of a flow pointer, empty for NULL. -/
def flowAnnotations (f : Option Flow) : List GenericVar :=
  match f with
  | some f => f.flowvar
  | none => []

/-- The annotation list of a packet pointer, empty for NULL. -/
def packetAnnotations (p : Option Packet) : List PktVar :=
  match p with
  | some p => p.pktvar
  | none => []

/-- The members of the flowints object of an annotation list, in the wording
of the specification a mapping keyed by name: the entries of the integer
variables that resolve are set one after the other, so a later variable
overwrites an earlier one with the same name. -/
def flowintMembers (x : Externals) (gvs : List GenericVar) : List (String × Json) :=
  setMembers [] (flowintEntries x gvs)

/-- The members of the metadata object for the annotations of a flow and of a
packet when the builder is used: flowbits, flowints, flowvars and pktvars, each
only when it has an element. -/
def metadataMembers (x : Externals) (gvs : List GenericVar) (pvs : List PktVar) :
    List (String × Json) :=
  arrayField "flowbits" (plainFlowbits x gvs) ++ objectField "flowints" (flowintMembers x gvs)
    ++ arrayField "flowvars" (flowvarEntries x gvs) ++ arrayField "pktvars" (pktvarEntries x pvs)

/-- The member traffic for the annotations of a flow: present when an id or a
label was collected. -/
def trafficField (x : Externals) (gvs : List GenericVar) : List (String × Json) :=
  match trafficObject x gvs with
  | some o => [("traffic", o)]
  | none => []

/-- The members of a jansson object that is allocated on its first member,
after the given entries are set one after the other. -/
def setLazyAll (o : Option (List (String × Json))) (entries : List (String × Json)) :
    Option (List (String × Json)) :=
  match entries with
  | [] => o
  | e :: es => some (setMembers (o.getD []) (e :: es))

/-- The members the two aggregators of flow annotations set in the root
object for an annotation list: flowbits, flowints and flowvars, each only when
it has an element. -/
def flowMembers (x : Externals) (gvs : List GenericVar) : List (String × Json) :=
  arrayField "flowbits" (plainFlowbits x gvs) ++ objectField "flowints" (flowintMembers x gvs)
    ++ arrayField "flowvars" (flowvarEntries x gvs)

/-- A node whose name the registry does not resolve: a string variable without
a runtime key, an integer variable or a flow-bit whose id has no registered
name. -/
def GenericVar.isUnresolved (x : Externals) (gv : GenericVar) : Prop :=
  (gv.isStringVar ∧ gv.key = none ∧
      x.VarNameStoreLookupById gv.idx .VAR_TYPE_FLOW_VAR = none) ∨
  (gv.isIntVar ∧ x.VarNameStoreLookupById gv.idx .VAR_TYPE_FLOW_INT = none) ∨
  (gv.isFlowBit ∧ x.VarNameStoreLookupById gv.idx .VAR_TYPE_FLOW_BIT = none)

instance (x : Externals) (gv : GenericVar) : Decidable (gv.isUnresolved x) := by
  unfold GenericVar.isUnresolved
  infer_instance

/-- A flow-bit whose registered name starts with one of the two reserved
traffic markers. -/
def GenericVar.isTrafficBit (x : Externals) (gv : GenericVar) : Prop :=
  match flowbitName x gv with
  | some name =>
      SCStringHasPrefix name TRAFFIC_ID_PREFIX = true ∨
        SCStringHasPrefix name TRAFFIC_LABEL_PREFIX = true
  | none => False

instance (x : Externals) (gv : GenericVar) : Decidable (gv.isTrafficBit x) := by
  unfold GenericVar.isTrafficBit
  cases flowbitName x gv <;> infer_instance

/-! ## Renderings used in examples -/

/-- Modelled from the spec: the presentation format of an address, which
PrintInet of util-print.c (not among the source files) produces. An IPv4
address is its four bytes in decimal joined by dots; an IPv6 address is its
eight 16-bit groups in hexadecimal joined by colons. The text is cut to what
fits a buffer of the given size. -/
def PrintInetText (af : AddrFamily) (mem : List Nat) (size : Nat) : String :=
  let text :=
    match af with
    | .AF_INET => String.intercalate "." ((mem.take 4).map fun b => Nat.repr (b % 256))
    | .AF_INET6 =>
        String.intercalate ":"
          ((List.range 8).map fun i =>
            String.mk (Nat.toDigits 16 (mem.getD (2 * i) 0 % 256 * 256 + mem.getD (2 * i + 1) 0 % 256)))
  String.mk (text.toList.take (size - 1))

/-- A table of protocol names for the examples. -/
def exampleProtoNames (n : Nat) : Option String :=
  if n = 1 then some "ICMP"
  else if n = 6 then some "TCP"
  else if n = 17 then some "UDP"
  else if n = 58 then some "IPv6-ICMP"
  else if n = 132 then some "SCTP"
  else none

/-- Collaborators for the examples: the renderings above, field sizes 46 and
16, an empty name registry, a printable-text function that maps every byte to
its character, a digest function that returns twenty zero bytes, a flow
identity made of the two ports, a time text made of the seconds and the
microseconds in decimal, the capture file capture.pcap and a buffer increment
of 65535 bytes. -/
def exampleExternals : Externals :=
  { PrintInet := PrintInetText
    known_proto := exampleProtoNames
    JSON_ADDR_LEN := 46
    JSON_PROTO_LEN := 16
    VarNameStoreLookupById := fun _ _ => none
    PrintStringsToBuffer := fun size src =>
      String.mk ((src.map fun b => Char.ofNat b).take (size - 1))
    ComputeSHA1 := fun _ => some (List.replicate 20 0)
    FlowGetId := fun f => f.sp * 65536 + f.dp
    CreateIsoTimeString := fun ts size =>
      String.mk ((Nat.repr ts.1 ++ "." ++ Nat.repr ts.2).toList.take (size - 1))
    PcapFileGetFilename := "capture.pcap"
    JSON_OUTPUT_BUFFER_SIZE := 65535 }

/-- A TCP packet from 5.6.7.8 port 80 to 1.2.3.4 port 1111 that flows from the
server to the client. -/
def exampleReplyPacket : Packet :=
  { src := ⟨[5, 6, 7, 8, 0, 0, 0, 0, 0, 0, 0, 0, 0, 0, 0, 0]⟩
    dst := ⟨[1, 2, 3, 4, 0, 0, 0, 0, 0, 0, 0, 0, 0, 0, 0, 0]⟩
    sp := 80, dp := 1111, proto := 6, IP_GET_IPPROTO := 6
    PKT_IS_IPV4 := true, PKT_IS_TOCLIENT := true }

/-- A UDP flow from 10.0.0.1 port 5000 to 10.0.0.2 port 53 on a little-endian
host. -/
def exampleUdpFlow : Flow :=
  { src := ⟨0x0100000a, 0, 0, 0⟩, dst := ⟨0x0200000a, 0, 0, 0⟩, sp := 5000, dp := 53,
    proto := 17, flag_ipv4 := true }

/-- A TCP flow from 127.0.0.1 port 50000 to 127.0.0.1 port 443 on a
little-endian host. -/
def exampleLoopbackFlow : Flow :=
  { src := ⟨0x0100007f, 0, 0, 0⟩, dst := ⟨0x0100007f, 0, 0, 0⟩, sp := 50000, dp := 443,
    proto := 6, flag_ipv4 := true }

/-- A TCP flow from 2001:db8::1 port 1000 to 2001:db8::100 port 2000 on a
little-endian host. -/
def exampleV6Flow : Flow :=
  { src := ⟨0xb80d0120, 0, 0, 0x01000000⟩, dst := ⟨0xb80d0120, 0, 0, 0x00010000⟩,
    sp := 1000, dp := 2000, proto := 6, flag_ipv6 := true }

/-- An ICMP echo flow from 10.0.0.1 (type 8) to 10.0.0.2 (type 0) on a
little-endian host; the port fields hold type and code as the union of the
flow lays them out. -/
def exampleIcmpFlow : Flow :=
  { src := ⟨0x0100000a, 0, 0, 0⟩, dst := ⟨0x0200000a, 0, 0, 0⟩, sp := 8, dp := 0,
    proto := 1, icmp_s_type := 8, icmp_d_type := 0, flag_ipv4 := true }

/-- A flow flagged IPv4 whose protocol number is that of ICMPv6, with ports
1234 and 443 and ICMP types 210 and 187, on a little-endian host. -/
def exampleIcmp6OnV4Flow : Flow :=
  { src := ⟨0x0100000a, 0, 0, 0⟩, dst := ⟨0x0200000a, 0, 0, 0⟩, sp := 1234, dp := 443,
    proto := 58, icmp_s_type := 210, icmp_d_type := 187, flag_ipv4 := true }

/-- The wording of the specification for a protocol without a registered name:
the number in decimal, zero-padded to exactly three digits. Written for
numbers below 1000. -/
def threeDigitText (n : Nat) : String :=
  String.mk [Char.ofNat (48 + n / 100), Char.ofNat (48 + n / 10 % 10), Char.ofNat (48 + n % 10)]

/-- The wording of the specification for the protocols that carry ports. -/
def carriesPorts (proto : Nat) : Prop :=
  proto = IPPROTO_UDP ∨ proto = IPPROTO_TCP ∨ proto = IPPROTO_SCTP

instance (proto : Nat) : Decidable (carriesPorts proto) := by
  unfold carriesPorts
  infer_instance

/-- The ICMP header the header builders read for a packet: the ICMPv4 header
of a packet whose protocol is ICMP, the ICMPv6 header of a packet whose
protocol is ICMPv6, none when that header was not parsed or the protocol is
another one. -/
def parsedIcmpHeader (p : Packet) : Option IcmpHdr :=
  if p.proto = IPPROTO_ICMP then p.icmpv4h
  else if p.proto = IPPROTO_ICMPV6 then p.icmpv6h
  else none

/-- A frame that is neither IPv4 nor IPv6 (an ARP request): no IP header, no
protocol number, no ports, no direction flag. -/
def exampleArpPacket : Packet :=
  { src := ⟨[0, 0, 0, 0, 0, 0, 0, 0, 0, 0, 0, 0, 0, 0, 0, 0]⟩
    dst := ⟨[0, 0, 0, 0, 0, 0, 0, 0, 0, 0, 0, 0, 0, 0, 0, 0]⟩
    sp := 0, dp := 0, proto := 0 }

/-- An ICMP echo request from 10.0.0.1 to 10.0.0.2 with its ICMPv4 header
parsed (type 8, code 0), captured at second 1 as packet 3. -/
def exampleEchoPacket : Packet :=
  { src := ⟨[10, 0, 0, 1, 0, 0, 0, 0, 0, 0, 0, 0, 0, 0, 0, 0]⟩
    dst := ⟨[10, 0, 0, 2, 0, 0, 0, 0, 0, 0, 0, 0, 0, 0, 0, 0]⟩
    sp := 0, dp := 0, proto := 1, IP_GET_IPPROTO := 1
    PKT_IS_IPV4 := true, PKT_IS_TOSERVER := true
    ts := (1, 0), pcap_cnt := 3
    icmpv4h := some { type := 8, code := 0 } }

/-- An IPv4 packet from 10.0.0.1 to 10.0.0.2 whose protocol number 7 has no
registered name in the table of the examples. -/
def exampleCbtPacket : Packet :=
  { src := ⟨[10, 0, 0, 1, 0, 0, 0, 0, 0, 0, 0, 0, 0, 0, 0, 0]⟩
    dst := ⟨[10, 0, 0, 2, 0, 0, 0, 0, 0, 0, 0, 0, 0, 0, 0, 0]⟩
    sp := 0, dp := 0, proto := 7, IP_GET_IPPROTO := 7
    PKT_IS_IPV4 := true, PKT_IS_TOSERVER := true }

/-- The collaborators of the examples with a table of protocol names that
holds a name of 20 characters for the protocol number 7. -/
def exampleLongNameExternals : Externals :=
  { exampleExternals with
    known_proto := fun n => if n = 7 then some "core-based-trees-cbt" else exampleProtoNames n }

/-- A flow between ports 1111 and 80 that was opened on behalf of the flow
with identity 9. -/
def exampleChildFlow : Flow :=
  { src := ⟨0x04030201, 0, 0, 0⟩, dst := ⟨0x08070605, 0, 0, 0⟩, sp := 1111, dp := 80,
    proto := 6, flag_ipv4 := true, parent_id := 9 }

/-- The TCP packet from 5.6.7.8 port 80 to 1.2.3.4 port 1111 as packet 7 of a
capture on eth0, with two VLAN tags (outer 100, inner 200), belonging to the
flow above. -/
def exampleTaggedPacket : Packet :=
  { exampleReplyPacket with
    flow := some exampleChildFlow
    ts := (2, 500)
    livedev := some "eth0"
    pcap_cnt := 7
    vlan_idx := 2
    vlan_id := (100, 200) }

/-- A tuple a caller resolved beforehand. -/
def exampleSuppliedTuple : JsonAddrInfo :=
  { src_ip := "192.0.2.1", dst_ip := "192.0.2.2", sp := 4000, dp := 53, proto := "UDP" }

/-- The bit number and the field name of the TCP flags, in the order in which
the fields are written: SYN is bit 1, FIN bit 0, RST bit 2, PSH bit 3, ACK
bit 4, URG bit 5, ECN bit 6 and CWR bit 7. -/
def tcpFlagNames : List (Nat × String) :=
  [(1, "syn"), (0, "fin"), (2, "rst"), (3, "psh"), (4, "ack"), (5, "urg"), (6, "ecn"),
   (7, "cwr")]

/-- One field with the value true for every flag whose bit is set, in the
order of the names. -/
def tcpFlagFields (flags : Nat) : List (String × Json) :=
  (tcpFlagNames.filter fun bn => flags.testBit bn.1).map fun bn => (bn.2, Json.bool true)

/-- The number of set bits among the eight bits of a flags value. -/
def setBits8 (flags : Nat) : Nat := ((List.range 8).filter fun i => flags.testBit i).length

/-- A name registry for the examples: flow-bits 1, 2 and 3 are traffic/id/42,
traffic/label/web and custom-flag, the integer variables 10 and 11 are both
counter, the string variable 20 is user and the packet variable 30 is tag;
nothing else resolves. -/
def exampleRegistry (id : Nat) (type : VarType) : Option String :=
  match type with
  | .VAR_TYPE_FLOW_BIT =>
      if id = 1 then some "traffic/id/42"
      else if id = 2 then some "traffic/label/web"
      else if id = 3 then some "custom-flag"
      else none
  | .VAR_TYPE_FLOW_INT => if id = 10 ∨ id = 11 then some "counter" else none
  | .VAR_TYPE_FLOW_VAR => if id = 20 then some "user" else none
  | .VAR_TYPE_PKT_VAR => if id = 30 then some "tag" else none

/-- The collaborators of the examples with the name registry above. -/
def exampleExternalsWithNames : Externals :=
  { exampleExternals with VarNameStoreLookupById := exampleRegistry }

/-- A flow whose only annotation is the flow-bit traffic/id/42. -/
def exampleTrafficIdFlow : Flow :=
  { exampleUdpFlow with flowvar := [{ type := .DETECT_FLOWBITS, idx := 1 }] }

/-- A flow whose only annotation is the flow-bit custom-flag. -/
def exampleCustomFlagFlow : Flow :=
  { exampleUdpFlow with flowvar := [{ type := .DETECT_FLOWBITS, idx := 3 }] }

/-- A flow with the flow-bits traffic/id/42, custom-flag and traffic/label/web,
in this order. -/
def exampleBitsFlow : Flow :=
  { exampleUdpFlow with
    flowvar := [{ type := .DETECT_FLOWBITS, idx := 1 }, { type := .DETECT_FLOWBITS, idx := 3 },
                { type := .DETECT_FLOWBITS, idx := 2 }] }

/-- The flow-bit 99, which the registry of the examples does not resolve. -/
def exampleUnknownBit : GenericVar := { type := .DETECT_FLOWBITS, idx := 99 }

/-- A flow with two integer variables that both resolve to counter, the first
with value 1 and the second with value 2. -/
def exampleCounterFlow : Flow :=
  { exampleUdpFlow with
    flowvar := [{ type := .DETECT_FLOWINT, idx := 10, datatype := .FLOWVAR_TYPE_INT,
                  fv_int_value := 1 },
                { type := .DETECT_FLOWINT, idx := 11, datatype := .FLOWVAR_TYPE_INT,
                  fv_int_value := 2 }] }

/-- A flow with the string variable user holding bob, then a string variable
with the runtime key k holding v, then a string variable whose id the registry
does not resolve. -/
def exampleStringsFlow : Flow :=
  { exampleUdpFlow with
    flowvar := [{ type := .DETECT_FLOWVAR, idx := 20, datatype := .FLOWVAR_TYPE_STR,
                  fv_str_value := [98, 111, 98] },
                { type := .DETECT_FLOWVAR, idx := 0, datatype := .FLOWVAR_TYPE_STR,
                  key := some [107], fv_str_value := [118] },
                { type := .DETECT_FLOWVAR, idx := 21, datatype := .FLOWVAR_TYPE_STR,
                  fv_str_value := [120] }] }

/-- The reply packet of the examples with one packet variable: id 31, which
the registry of the examples does not resolve, no runtime key, value x. -/
def exampleUnresolvedPktvarPacket : Packet :=
  { exampleReplyPacket with pktvar := [{ id := 31, value := [120] }] }

/-- The reply packet of the examples with the packet variable tag holding x and
a packet variable with the runtime key k holding v. -/
def exampleTaggedVarsPacket : Packet :=
  { exampleReplyPacket with
    pktvar := [{ id := 30, value := [120] }, { id := 0, key := some [107], value := [118] }] }

/-- The text one pass of the loop of SCJsonString formats for the byte b. -/
def SCJsonString.byteText (cs : CharSign) (b : Nat) : List Char :=
  if isprint (charValue cs b) then format_c (charValue cs b)
  else '\\' :: 'x' :: format_02X (charValue cs b)

/-- The wording of the specification for a printable ASCII byte. -/
def isPrintableByte (b : Nat) : Bool := decide (32 ≤ b ∧ b ≤ 126)

/-- The wording of the specification for the text of one byte: the byte itself
when it is printable ASCII, otherwise backslash, x and the two uppercase
hexadecimal digits of the value of the byte. -/
def escapedByte (b : Nat) : List Char :=
  if isPrintableByte b then [Char.ofNat b]
  else ['\\', 'x', hexDigitUpper (b / 16), hexDigitUpper (b % 16)]

/-- The wording of the specification for the text of a byte string: the
concatenation of the texts of its bytes. -/
def escapedText (val : List Nat) : List Char := (val.map escapedByte).flatten

/-- An output buffer of capacity 8 that holds three bytes, with a growth
increment of 4. -/
def exampleSmallWrapper : OutputJSONMemBufferWrapper :=
  { buffer := { buffer := [1, 2, 3], size := 8, offset := 3 }, expand_by := 4 }

/-- A payload of twenty bytes. -/
def exampleLongPayload : List Nat :=
  [10, 11, 12, 13, 14, 15, 16, 17, 18, 19, 20, 21, 22, 23, 24, 25, 26, 27, 28, 29]

/-- A packet of three data bytes 1, 2, 3 of link type 1, in a buffer whose
next three bytes are 0xAA, 0xBB and 0xCC. -/
def exampleShortPacket : Packet :=
  { exampleReplyPacket with
    datalink := 1
    GET_PKT_LEN := 3
    GET_PKT_DATA := [1, 2, 3, 0xAA, 0xBB, 0xCC] }

/-- The mirror image of a tuple: source and destination addresses exchanged,
source and destination ports exchanged, same protocol text. -/
def JsonAddrInfo.mirror (a : JsonAddrInfo) : JsonAddrInfo :=
  { src_ip := a.dst_ip, dst_ip := a.src_ip, sp := a.dp, dp := a.sp, proto := a.proto }

/-- An ICMP echo request from 127.0.0.1 to 127.0.0.1 with the to-server flag
set and the to-client flag cleared. -/
def exampleLoopbackPing : Packet :=
  { src := ⟨[127, 0, 0, 1, 0, 0, 0, 0, 0, 0, 0, 0, 0, 0, 0, 0]⟩
    dst := ⟨[127, 0, 0, 1, 0, 0, 0, 0, 0, 0, 0, 0, 0, 0, 0, 0]⟩
    sp := 0, dp := 0, proto := 1, IP_GET_IPPROTO := 1
    PKT_IS_IPV4 := true, PKT_IS_TOSERVER := true
    icmpv4h := some { type := 8, code := 0 } }

/-- The member host that the dispatch functions add for a sink context. -/
def hostField (file_ctx : LogFileCtx) : List (String × Json) :=
  match file_ctx.sensor_name with
  | some name => [("host", .str name)]
  | none => []

/-- The member pcap_filename that the dispatch functions add for a sink
context. -/
def pcapFilenameField (x : Externals) (file_ctx : LogFileCtx) : List (String × Json) :=
  if file_ctx.is_pcap_offline then [("pcap_filename", .str x.PcapFileGetFilename)] else []

/-- The bytes of the line prefix that MemBufferWriteRaw writes into a buffer:
all of them when they fit below the capacity, otherwise those that fit, less
one byte for the terminating zero; none when no prefix is configured. -/
def prefixWritten (file_ctx : LogFileCtx) (buffer : MemBuffer) : List Nat :=
  match file_ctx.prefix_str with
  | some pre =>
      if pre.length ≥ buffer.size - buffer.offset then
        pre.take (buffer.size - buffer.offset - 1)
      else pre
  | none => []

/-- A well-formed output buffer: the bytes written are as many as the offset
says and the offset is below the capacity. -/
def MemBuffer.WF (b : MemBuffer) : Prop := b.buffer.length = b.offset ∧ b.offset < b.size

instance (b : MemBuffer) : Decidable b.WF := by
  unfold MemBuffer.WF
  infer_instance

/-- A sink context with the sensor name sensor-1, offline capture and the line
prefix @cee: followed by a blank. -/
def exampleFileCtx : LogFileCtx :=
  { sensor_name := some "sensor-1", is_pcap_offline := true,
    prefix_str := some [64, 99, 101, 101, 58, 32] }

/-- A text function for the examples: every builder holds the two bytes of an
empty object. -/
def exampleText (_ : JsonBuilder) : List Nat := [123, 125]

/-- An empty output buffer of capacity 4. -/
def exampleTinyBuffer : MemBuffer := { buffer := [], size := 4, offset := 0 }

/-- An empty output buffer of capacity 64. -/
def exampleRoomyBuffer : MemBuffer := { buffer := [], size := 64, offset := 0 }

/-- A serialisation for the examples that hands over the two bytes of an empty
object and succeeds. -/
def exampleDump (_ : Json) (_ : Nat) : List (List Nat) × Int := ([[123, 125]], 0)

/-- A serialisation for the examples that hands over one byte and then
fails. -/
def exampleFailingDump (_ : Json) (_ : Nat) : List (List Nat) × Int := ([[123]], -1)

/-- A flow with the flow-bits traffic/id/42 and custom-flag, the integer
variable counter holding 7 and the string variable user holding bob. -/
def exampleMixedFlow : Flow :=
  { exampleUdpFlow with
    flowvar := [{ type := .DETECT_FLOWBITS, idx := 1 }, { type := .DETECT_FLOWBITS, idx := 3 },
                { type := .DETECT_FLOWINT, idx := 10, datatype := .FLOWVAR_TYPE_INT,
                  fv_int_value := 7 },
                { type := .DETECT_FLOWVAR, idx := 20, datatype := .FLOWVAR_TYPE_STR,
                  fv_str_value := [98, 111, 98] }] }

/-! ## Properties: byte order and memory images -/

theorem store16_htons (e : Endian) (x : Nat) (hx : x < 65536) :
    store16 e (htons e x) = [x / 256, x % 256] := by
  have hq : x / 256 % 256 = x / 256 := by omega
  have hr : x % 256 < 256 := Nat.mod_lt _ (by norm_num)
  have hq2 : x / 256 < 256 := by omega
  cases e
  · simp only [store16, htons, hq]
    generalize x / 256 = q at *
    generalize x % 256 = r at *
    have h1 : (r * 256 + q) % 256 = q := by omega
    have h2 : (r * 256 + q) / 256 % 256 = r := by omega
    rw [h1, h2]
  · simp only [store16, htons]
    have h1 : x % 65536 / 256 % 256 = x / 256 := by omega
    have h2 : x % 65536 % 256 = x % 256 := by omega
    rw [h1, h2]

theorem beRead_store16_htons (e : Endian) (x : Nat) (hx : x < 65536) :
    beRead (store16 e (htons e x)) = x := by
  rw [store16_htons e x hx]
  simp only [beRead, List.foldl]
  omega

theorem beRead_store32 (e : Endian) (x : Nat) : beRead (store32 e x) = ntohl e x := by
  cases e <;> simp only [store32, ntohl, beRead, List.foldl] <;> omega

theorem u32_split (x : Nat) (hx : x < 4294967296) :
    x = x % 256 + 256 * (x / 256 % 256) + 65536 * (x / 65536 % 256)
      + 16777216 * (x / 16777216 % 256) := by
  omega

theorem store32_big_ntohl (e : Endian) (x : Nat) (hx : x < 4294967296) :
    store32 .big (ntohl e x) = store32 e x := by
  cases e
  · simp only [store32, ntohl]
    have a0 : x % 256 < 256 := Nat.mod_lt _ (by norm_num)
    have a1 : x / 256 % 256 < 256 := Nat.mod_lt _ (by norm_num)
    have a2 : x / 65536 % 256 < 256 := Nat.mod_lt _ (by norm_num)
    have a3 : x / 16777216 % 256 < 256 := Nat.mod_lt _ (by norm_num)
    generalize x % 256 = p0 at *
    generalize x / 256 % 256 = p1 at *
    generalize x / 65536 % 256 = p2 at *
    generalize x / 16777216 % 256 = p3 at *
    have h0 : (p0 * 16777216 + p1 * 65536 + p2 * 256 + p3) / 16777216 % 256 = p0 := by omega
    have h1 : (p0 * 16777216 + p1 * 65536 + p2 * 256 + p3) / 65536 % 256 = p1 := by omega
    have h2 : (p0 * 16777216 + p1 * 65536 + p2 * 256 + p3) / 256 % 256 = p2 := by omega
    have h3 : (p0 * 16777216 + p1 * 65536 + p2 * 256 + p3) % 256 = p3 := by omega
    rw [h0, h1, h2, h3]
  · simp only [ntohl]
    rw [Nat.mod_eq_of_lt hx]

theorem store32_inj (e : Endian) (x y : Nat) (hx : x < 4294967296) (hy : y < 4294967296)
    (h : store32 e x = store32 e y) : x = y := by
  have sx := u32_split x hx
  have sy := u32_split y hy
  cases e <;> simp only [store32, List.cons.injEq, and_true] at h <;> omega

theorem ntohl_inj (e : Endian) (x y : Nat) (hx : x < 4294967296) (hy : y < 4294967296)
    (h : ntohl e x = ntohl e y) : x = y := by
  apply store32_inj e x y hx hy
  rw [← store32_big_ntohl e x hx, ← store32_big_ntohl e y hy, h]

theorem store32_length (e : Endian) (x : Nat) : (store32 e x).length = 4 := by
  cases e <;> rfl

theorem beRead_append (xs ys : List Nat) :
    beRead (xs ++ ys) = beRead xs * 256 ^ ys.length + beRead ys := by
  have h : ∀ (l : List Nat) (acc : Nat),
      l.foldl (fun acc b => acc * 256 + b) acc = acc * 256 ^ l.length + beRead l := by
    intro l
    induction l with
    | nil => intro acc; simp [beRead]
    | cons b l ih =>
        intro acc
        simp only [List.foldl, beRead, List.length_cons]
        rw [ih (acc * 256 + b), ih (0 * 256 + b)]
        ring
  simp only [beRead, List.foldl_append]
  exact h ys _

theorem FlowAddress.bytes_inj (e : Endian) (a b : FlowAddress) (ha : a.WF) (hb : b.WF)
    (h : a.bytes e = b.bytes e) : a = b := by
  obtain ⟨a0, a1, a2, a3⟩ := a
  obtain ⟨b0, b1, b2, b3⟩ := b
  obtain ⟨ha0, ha1, ha2, ha3⟩ := ha
  obtain ⟨hb0, hb1, hb2, hb3⟩ := hb
  simp only at ha0 ha1 ha2 ha3 hb0 hb1 hb2 hb3
  have hl : ∀ x, (store32 e x).length = 4 := by intro x; cases e <;> rfl
  simp only [FlowAddress.bytes, List.append_assoc] at h
  obtain ⟨h0, h⟩ := List.append_inj h (by rw [hl, hl])
  obtain ⟨h1, h⟩ := List.append_inj h (by rw [hl, hl])
  obtain ⟨h2, h3⟩ := List.append_inj h (by rw [hl, hl])
  rw [store32_inj e _ _ ha0 hb0 h0, store32_inj e _ _ ha1 hb1 h1,
    store32_inj e _ _ ha2 hb2 h2, store32_inj e _ _ ha3 hb3 h3]

theorem FlowAddress.length_bytes (e : Endian) (a : FlowAddress) : (a.bytes e).length = 16 := by
  cases e <;> rfl

theorem FlowAddress.take_bytes (e : Endian) (a : FlowAddress) :
    (a.bytes e).take 4 = store32 e (a.addr_data32 0) := by
  cases e <;> rfl

theorem FlowAddress.eq_of_words (a b : FlowAddress) (h0 : a.d0 = b.d0) (h1 : a.d1 = b.d1)
    (h2 : a.d2 = b.d2) (h3 : a.d3 = b.d3) : a = b := by
  cases a; cases b; simp_all

theorem beRead_bytes_big (a : FlowAddress) (ha : a.WF) :
    beRead (a.bytes .big) = a.d0 * 2 ^ 96 + a.d1 * 2 ^ 64 + a.d2 * 2 ^ 32 + a.d3 := by
  obtain ⟨h0, h1, h2, h3⟩ := ha
  have e : ∀ x, x < 4294967296 → beRead (store32 .big x) = x := by
    intro x hx
    rw [beRead_store32]
    simp only [ntohl]
    omega
  simp only [FlowAddress.bytes, beRead_append, store32_length, e _ h0, e _ h1, e _ h2, e _ h3]
  ring

theorem memcmp_self (l : List Nat) : memcmp l l = 0 := by
  induction l with
  | nil => rfl
  | cons a as ih => simp [memcmp, ih]

theorem memcmp_eq_zero (as bs : List Nat) (hl : as.length = bs.length)
    (h : memcmp as bs = 0) : as = bs := by
  induction as generalizing bs with
  | nil =>
      cases bs with
      | nil => rfl
      | cons b bs => simp at hl
  | cons a as ih =>
      cases bs with
      | nil => simp at hl
      | cons b bs =>
          simp only [List.length_cons, Nat.add_right_cancel_iff] at hl
          by_cases h1 : a < b
          · simp [memcmp, h1] at h
          · by_cases h2 : b < a
            · simp [memcmp, h1, h2] at h
            · simp only [memcmp, h1, h2, if_false] at h
              have hab : a = b := by omega
              rw [hab, ih bs hl h]

theorem memcmp_bytes_eq_zero_iff (e : Endian) (a b : FlowAddress) (ha : a.WF) (hb : b.WF) :
    memcmp (a.bytes e) (b.bytes e) = 0 ↔ a = b := by
  constructor
  · intro h
    exact FlowAddress.bytes_inj e a b ha hb
      (memcmp_eq_zero _ _ (by rw [FlowAddress.length_bytes, FlowAddress.length_bytes]) h)
  · intro h
    rw [h, memcmp_self]

theorem FlowHashRawAddressIPv6LtU32_iff (a b : FlowAddress) :
    FlowHashRawAddressIPv6LtU32 a b = true ↔
      a.d0 < b.d0 ∨ (a.d0 = b.d0 ∧ (a.d1 < b.d1 ∨ (a.d1 = b.d1 ∧
        (a.d2 < b.d2 ∨ (a.d2 = b.d2 ∧ a.d3 < b.d3))))) := by
  simp only [FlowHashRawAddressIPv6LtU32, FlowHashRawAddressIPv6LtU32.loop,
    FlowAddress.addr_data32]
  split_ifs <;> simp <;> omega

theorem CommunityIdv4_slice_src (e : Endian) (r : CommunityIdv4) :
    ((r.bytes e).drop 2).take 4 = store32 e r.src := by
  cases e <;> rfl

theorem CommunityIdv4_slice_dst (e : Endian) (r : CommunityIdv4) :
    ((r.bytes e).drop 6).take 4 = store32 e r.dst := by
  cases e <;> rfl

theorem CommunityIdv4_slice_sp (e : Endian) (r : CommunityIdv4) :
    ((r.bytes e).drop 12).take 2 = store16 e r.sp := by
  cases e <;> rfl

theorem CommunityIdv4_slice_dp (e : Endian) (r : CommunityIdv4) :
    ((r.bytes e).drop 14).take 2 = store16 e r.dp := by
  cases e <;> rfl

theorem CommunityIdv6_slice_src (e : Endian) (r : CommunityIdv6) :
    ((r.bytes e).drop 2).take 16 = r.src.bytes e := by
  cases e <;> rfl

theorem CommunityIdv6_slice_dst (e : Endian) (r : CommunityIdv6) :
    ((r.bytes e).drop 18).take 16 = r.dst.bytes e := by
  cases e <;> rfl

theorem CommunityIdv6_slice_sp (e : Endian) (r : CommunityIdv6) :
    ((r.bytes e).drop 36).take 2 = store16 e r.sp := by
  cases e <;> rfl

theorem CommunityIdv6_slice_dp (e : Endian) (r : CommunityIdv6) :
    ((r.bytes e).drop 38).take 2 = store16 e r.dp := by
  cases e <;> rfl

theorem CommunityIdv4_bytes_layout (e : Endian) (seed src dst proto p q : Nat)
    (hseed : seed < 65536) (hproto : proto < 256) (hp : p < 65536) (hq : q < 65536) :
    CommunityIdv4.bytes e { seed := htons e seed, src := src, dst := dst, proto := proto,
                            pad0 := 0, sp := htons e p, dp := htons e q }
      = recordLayout seed (store32 e src) (store32 e dst) proto p q := by
  simp only [CommunityIdv4.bytes, recordLayout, store16_htons e _ hseed, store16_htons e _ hp,
    store16_htons e _ hq, Nat.mod_eq_of_lt hproto, Nat.zero_mod, List.append_assoc,
    List.cons_append, List.nil_append]

theorem CommunityIdv6_bytes_layout (e : Endian) (seed : Nat) (src dst : FlowAddress)
    (proto p q : Nat)
    (hseed : seed < 65536) (hproto : proto < 256) (hp : p < 65536) (hq : q < 65536) :
    CommunityIdv6.bytes e { seed := htons e seed, src := src, dst := dst, proto := proto,
                            pad0 := 0, sp := htons e p, dp := htons e q }
      = recordLayout seed (src.bytes e) (dst.bytes e) proto p q := by
  simp only [CommunityIdv6.bytes, recordLayout, store16_htons e _ hseed, store16_htons e _ hp,
    store16_htons e _ hq, Nat.mod_eq_of_lt hproto, Nat.zero_mod, List.append_assoc,
    List.cons_append, List.nil_append]

theorem recordLayout_length (seed : Nat) (a b : List Nat) (proto p q : Nat) :
    (recordLayout seed a b proto p q).length = a.length + b.length + 8 := by
  simp only [recordLayout, List.length_append, List.length_cons, List.length_nil]
  omega

/-! ## Properties: direction symmetry of the community id -/

theorem pack4_swapped (e : Endian) (f : Flow) (seed : Nat) (hf : f.WF) :
    CalculateCommunityFlowIdv4.pack e f.swapped seed = CalculateCommunityFlowIdv4.pack e f seed := by
  obtain ⟨⟨hs0, -⟩, ⟨hd0, -⟩, -⟩ := hf
  have hinj := ntohl_inj e _ _ hs0 hd0
  simp only [CalculateCommunityFlowIdv4.pack, Flow.swapped, FlowAddress.addr_data32]
  generalize htons e (if f.proto = IPPROTO_ICMP then f.icmp_s_type else f.sp) = p
  generalize htons e (if f.proto = IPPROTO_ICMP then f.icmp_d_type else f.dp) = q
  by_cases h1 : ntohl e f.src.d0 < ntohl e f.dst.d0 ∨ (f.src.d0 = f.dst.d0 ∧ p < q)
  · have h2 : ¬ (ntohl e f.dst.d0 < ntohl e f.src.d0 ∨ (f.dst.d0 = f.src.d0 ∧ q < p)) := by
      rintro (h | ⟨h, h'⟩)
      · rcases h1 with h1 | ⟨h1, -⟩
        · omega
        · rw [h1] at h; omega
      · rcases h1 with h1 | ⟨-, h1⟩
        · rw [h] at h1; omega
        · omega
    rw [if_pos h1, if_neg h2]
  · rw [if_neg h1]
    by_cases h2 : ntohl e f.dst.d0 < ntohl e f.src.d0 ∨ (f.dst.d0 = f.src.d0 ∧ q < p)
    · rw [if_pos h2]
    · rw [if_neg h2]
      have h3 : f.src.d0 = f.dst.d0 := by
        apply hinj
        have := fun h => h1 (Or.inl h)
        have := fun h => h2 (Or.inl h)
        omega
      have h4 : p = q := by
        have := fun h => h1 (Or.inr ⟨h3, h⟩)
        have := fun h => h2 (Or.inr ⟨h3.symm, h⟩)
        omega
      rw [h3, h4]

theorem pack6_swapped (e : Endian) (f : Flow) (seed : Nat) (hf : f.WF) :
    CalculateCommunityFlowIdv6.pack e f.swapped seed = CalculateCommunityFlowIdv6.pack e f seed := by
  obtain ⟨hs, hd, -⟩ := hf
  have hm := memcmp_bytes_eq_zero_iff e f.src f.dst hs hd
  have hm2 := memcmp_bytes_eq_zero_iff e f.dst f.src hd hs
  have hl := FlowHashRawAddressIPv6LtU32_iff f.src f.dst
  have hl2 := FlowHashRawAddressIPv6LtU32_iff f.dst f.src
  simp only [CalculateCommunityFlowIdv6.pack, Flow.swapped]
  generalize htons e (if f.proto = IPPROTO_ICMPV6 then f.icmp_s_type else f.sp) = p
  generalize htons e (if f.proto = IPPROTO_ICMPV6 then f.icmp_d_type else f.dp) = q
  simp only [hm, hm2]
  by_cases h1 : FlowHashRawAddressIPv6LtU32 f.src f.dst = true ∨ (f.src = f.dst ∧ p < q)
  · have h2 : ¬ (FlowHashRawAddressIPv6LtU32 f.dst f.src = true ∨ (f.dst = f.src ∧ q < p)) := by
      rintro (h | ⟨h, h'⟩)
      · rcases h1 with h1 | ⟨h1, -⟩
        · rw [hl] at h1; rw [hl2] at h; omega
        · rw [h1, FlowHashRawAddressIPv6LtU32_iff] at h; omega
      · rcases h1 with h1 | ⟨-, h1⟩
        · rw [h, FlowHashRawAddressIPv6LtU32_iff] at h1; omega
        · omega
    rw [if_pos h1, if_neg h2]
  · rw [if_neg h1]
    by_cases h2 : FlowHashRawAddressIPv6LtU32 f.dst f.src = true ∨ (f.dst = f.src ∧ q < p)
    · rw [if_pos h2]
    · rw [if_neg h2]
      have h3 : f.src = f.dst := by
        have n1 : ¬ FlowHashRawAddressIPv6LtU32 f.src f.dst = true := fun h => h1 (Or.inl h)
        have n2 : ¬ FlowHashRawAddressIPv6LtU32 f.dst f.src = true := fun h => h2 (Or.inl h)
        rw [hl] at n1
        rw [hl2] at n2
        apply FlowAddress.eq_of_words <;> omega
      have h4 : p = q := by
        have n1 : ¬ p < q := fun h => h1 (Or.inr ⟨h3, h⟩)
        have n2 : ¬ q < p := fun h => h2 (Or.inr ⟨h3.symm, h⟩)
        omega
      rw [h3, h4]

/-- C1. The community id does not depend on the direction in which the flow is
presented: for a well-formed flow and any seed, CalculateCommunityFlowIdv4 and
CalculateCommunityFlowIdv6 give the same string (or both fail) for the flow
and for the flow with source and destination address, port and ICMP type
exchanged, whatever the digest function and the host byte order. -/
theorem community_id_direction_symmetry (e : Endian)
    (ComputeSHA1 : List Nat → Option (List Nat)) (f : Flow) (seed : Nat) (hf : f.WF) :
    CalculateCommunityFlowIdv4 e ComputeSHA1 f.swapped seed
        = CalculateCommunityFlowIdv4 e ComputeSHA1 f seed ∧
      CalculateCommunityFlowIdv6 e ComputeSHA1 f.swapped seed
        = CalculateCommunityFlowIdv6 e ComputeSHA1 f seed := by
  constructor
  · simp only [CalculateCommunityFlowIdv4, pack4_swapped e f seed hf]
  · simp only [CalculateCommunityFlowIdv6, pack6_swapped e f seed hf]

/-- C1, at the UDP flow from 10.0.0.1 port 5000 to 10.0.0.2 port 53 on a
little-endian host, with a digest function that returns twenty zero bytes. -/
theorem community_id_direction_symmetry_witness :
    Flow.WF exampleUdpFlow ∧
    (CalculateCommunityFlowIdv4 .little exampleExternals.ComputeSHA1 exampleUdpFlow.swapped 0
        = CalculateCommunityFlowIdv4 .little exampleExternals.ComputeSHA1 exampleUdpFlow 0 ∧
      CalculateCommunityFlowIdv6 .little exampleExternals.ComputeSHA1 exampleUdpFlow.swapped 0
        = CalculateCommunityFlowIdv6 .little exampleExternals.ComputeSHA1 exampleUdpFlow 0) :=
  ⟨by decide,
    community_id_direction_symmetry .little exampleExternals.ComputeSHA1 exampleUdpFlow 0
      (by decide)⟩

/-! ## Properties: order of the two sides in the record -/

/-- C2. In the record packed for an IPv4 flow, the address stored first (bytes
2 to 5), read as a big-endian 32-bit integer, is at most the address stored
second (bytes 6 to 9), on either host byte order. -/
theorem v4_record_first_address_le_second (e : Endian) (f : Flow) (seed : Nat) :
    beRead ((((CalculateCommunityFlowIdv4.pack e f seed).bytes e).drop 2).take 4) ≤
      beRead ((((CalculateCommunityFlowIdv4.pack e f seed).bytes e).drop 6).take 4) := by
  rw [CommunityIdv4_slice_src, CommunityIdv4_slice_dst, beRead_store32, beRead_store32]
  simp only [CalculateCommunityFlowIdv4.pack]
  generalize htons e (if f.proto = IPPROTO_ICMP then f.icmp_s_type else f.sp) = p
  generalize htons e (if f.proto = IPPROTO_ICMP then f.icmp_d_type else f.dp) = q
  split_ifs with h
  · rcases h with h | ⟨h, -⟩
    · exact Nat.le_of_lt h
    · simp only [h, le_refl]
  · simp only
    have n1 : ¬ ntohl e (f.src.addr_data32 0) < ntohl e (f.dst.addr_data32 0) :=
      fun h1 => h (Or.inl h1)
    omega

/-- C3, on a little-endian host: a TCP flow from 127.0.0.1 port 50000 to
127.0.0.1 port 443. The source port is the greater one, yet the sides are not
exchanged: the record holds port 50000 first and port 443 second, because the
ports are compared after htons (50000 becomes 20675 and 443 becomes 47873). On
a big-endian host the same flow is packed with port 443 first. -/
theorem v4_equal_addresses_port_order_little_endian :
    Flow.WF exampleLoopbackFlow ∧
    exampleLoopbackFlow.src = exampleLoopbackFlow.dst ∧
    exampleLoopbackFlow.dp < exampleLoopbackFlow.sp ∧
    beRead ((((CalculateCommunityFlowIdv4.pack .little exampleLoopbackFlow 0).bytes
      .little).drop 12).take 2) = 50000 ∧
    beRead ((((CalculateCommunityFlowIdv4.pack .little exampleLoopbackFlow 0).bytes
      .little).drop 14).take 2) = 443 ∧
    beRead ((((CalculateCommunityFlowIdv4.pack .big
      { exampleLoopbackFlow with src := ⟨0x7f000001, 0, 0, 0⟩, dst := ⟨0x7f000001, 0, 0, 0⟩ }
        0).bytes .big).drop 12).take 2) = 443 ∧
    beRead ((((CalculateCommunityFlowIdv4.pack .big
      { exampleLoopbackFlow with src := ⟨0x7f000001, 0, 0, 0⟩, dst := ⟨0x7f000001, 0, 0, 0⟩ }
        0).bytes .big).drop 14).take 2) = 50000 := by
  decide

/-- On a big-endian host the ports of an IPv4 flow between equal addresses are
in numerical order in the record: the first port field, read big-endian, is at
most the second. -/
theorem v4_equal_addresses_port_order_big_endian (f : Flow) (seed : Nat) (hf : f.WF)
    (heq : f.src.addr_data32 0 = f.dst.addr_data32 0) :
    beRead ((((CalculateCommunityFlowIdv4.pack .big f seed).bytes .big).drop 12).take 2) ≤
      beRead ((((CalculateCommunityFlowIdv4.pack .big f seed).bytes .big).drop 14).take 2) := by
  obtain ⟨-, -, hsp, hdp, hproto, hst, hdt⟩ := hf
  have hp4 : (if f.proto = IPPROTO_ICMP then f.icmp_s_type else f.sp) < 65536 := by
    split_ifs <;> omega
  have hq4 : (if f.proto = IPPROTO_ICMP then f.icmp_d_type else f.dp) < 65536 := by
    split_ifs <;> omega
  rw [CommunityIdv4_slice_sp, CommunityIdv4_slice_dp]
  simp only [CalculateCommunityFlowIdv4.pack, heq]
  generalize (if f.proto = IPPROTO_ICMP then f.icmp_s_type else f.sp) = p at *
  generalize (if f.proto = IPPROTO_ICMP then f.icmp_d_type else f.dp) = q at *
  have hp : htons .big p = p := by simp only [htons]; omega
  have hq : htons .big q = q := by simp only [htons]; omega
  split_ifs with h
  · simp only [beRead_store16_htons .big p hp4, beRead_store16_htons .big q hq4]
    simp only [hp, hq, lt_irrefl, true_and, false_or] at h
    exact Nat.le_of_lt h
  · simp only [beRead_store16_htons .big p hp4, beRead_store16_htons .big q hq4]
    simp only [hp, hq, lt_irrefl, true_and, false_or, not_lt] at h
    exact h

/-- C4, on a little-endian host: a TCP flow from 2001:db8::1 port 1000 to
2001:db8::100 port 2000. The source address is the smaller 128-bit big-endian
integer, yet the record stores the destination address first, because
FlowHashRawAddressIPv6LtU32 compares the cells as the host reads them
(0x01000000 against 0x00010000 for the last cell). -/
theorem v6_address_order_little_endian :
    Flow.WF exampleV6Flow ∧
    exampleV6Flow.src.bytes .little
      = [0x20, 0x01, 0x0d, 0xb8, 0, 0, 0, 0, 0, 0, 0, 0, 0, 0, 0, 1] ∧
    exampleV6Flow.dst.bytes .little
      = [0x20, 0x01, 0x0d, 0xb8, 0, 0, 0, 0, 0, 0, 0, 0, 0, 0, 1, 0] ∧
    beRead (exampleV6Flow.src.bytes .little) < beRead (exampleV6Flow.dst.bytes .little) ∧
    (((CalculateCommunityFlowIdv6.pack .little exampleV6Flow 0).bytes .little).drop 2).take 16
      = exampleV6Flow.dst.bytes .little ∧
    (((CalculateCommunityFlowIdv6.pack .little exampleV6Flow 0).bytes .little).drop 18).take 16
      = exampleV6Flow.src.bytes .little := by
  decide

/-- On a big-endian host the address stored first in the IPv6 record is the
smaller 128-bit big-endian integer whenever the two addresses differ. -/
theorem v6_address_order_big_endian (f : Flow) (seed : Nat) (hf : f.WF)
    (hne : f.src ≠ f.dst) :
    beRead ((((CalculateCommunityFlowIdv6.pack .big f seed).bytes .big).drop 2).take 16) <
      beRead ((((CalculateCommunityFlowIdv6.pack .big f seed).bytes .big).drop 18).take 16) := by
  obtain ⟨hs, hd, -⟩ := hf
  have hm := memcmp_bytes_eq_zero_iff .big f.src f.dst hs hd
  have hl := FlowHashRawAddressIPv6LtU32_iff f.src f.dst
  have bs := beRead_bytes_big f.src hs
  have bd := beRead_bytes_big f.dst hd
  obtain ⟨s0, s1, s2, s3⟩ := hs
  obtain ⟨d0, d1, d2, d3⟩ := hd
  rw [CommunityIdv6_slice_src, CommunityIdv6_slice_dst]
  simp only [CalculateCommunityFlowIdv6.pack, hm]
  generalize htons .big (if f.proto = IPPROTO_ICMPV6 then f.icmp_s_type else f.sp) = p
  generalize htons .big (if f.proto = IPPROTO_ICMPV6 then f.icmp_d_type else f.dp) = q
  by_cases h1 : FlowHashRawAddressIPv6LtU32 f.src f.dst = true
  · rw [if_pos (Or.inl h1)]
    simp only [bs, bd]
    rw [hl] at h1
    omega
  · have h2 : ¬ (FlowHashRawAddressIPv6LtU32 f.src f.dst = true ∨ (f.src = f.dst ∧ p < q)) := by
      rintro (h | ⟨h, -⟩)
      · exact h1 h
      · exact hne h
    rw [if_neg h2]
    simp only [bs, bd]
    rw [hl] at h1
    have hw : ¬ (f.src.d0 = f.dst.d0 ∧ f.src.d1 = f.dst.d1 ∧ f.src.d2 = f.dst.d2 ∧
        f.src.d3 = f.dst.d3) := by
      rintro ⟨e0, e1, e2, e3⟩
      exact hne (FlowAddress.eq_of_words _ _ e0 e1 e2 e3)
    omega

/-! ## Properties: layout of the record and text of the community id -/

/-- The bytes handed to the digest function are the seed as two big-endian
bytes, two addresses in network byte order (the first four bytes of each
address for IPv4, all sixteen for IPv6), the protocol byte, a zero byte and two
ports as two big-endian bytes each, with nothing in between: 16 bytes for IPv4
and 40 for IPv6. The two sides appear either in the flow's order or exchanged,
address and port together; the port of a side is its ICMP type when the
function substitutes it. -/
theorem community_id_record_layout (e : Endian) (f : Flow) (seed : Nat) (hf : f.WF)
    (hseed : seed < 65536) :
    (((CalculateCommunityFlowIdv4.pack e f seed).bytes e
        = recordLayout seed ((f.src.bytes e).take 4) ((f.dst.bytes e).take 4) f.proto
            (if f.proto = IPPROTO_ICMP then f.icmp_s_type else f.sp)
            (if f.proto = IPPROTO_ICMP then f.icmp_d_type else f.dp) ∨
      (CalculateCommunityFlowIdv4.pack e f seed).bytes e
        = recordLayout seed ((f.dst.bytes e).take 4) ((f.src.bytes e).take 4) f.proto
            (if f.proto = IPPROTO_ICMP then f.icmp_d_type else f.dp)
            (if f.proto = IPPROTO_ICMP then f.icmp_s_type else f.sp)) ∧
      ((CalculateCommunityFlowIdv4.pack e f seed).bytes e).length = 16) ∧
    (((CalculateCommunityFlowIdv6.pack e f seed).bytes e
        = recordLayout seed (f.src.bytes e) (f.dst.bytes e) f.proto
            (if f.proto = IPPROTO_ICMPV6 then f.icmp_s_type else f.sp)
            (if f.proto = IPPROTO_ICMPV6 then f.icmp_d_type else f.dp) ∨
      (CalculateCommunityFlowIdv6.pack e f seed).bytes e
        = recordLayout seed (f.dst.bytes e) (f.src.bytes e) f.proto
            (if f.proto = IPPROTO_ICMPV6 then f.icmp_d_type else f.dp)
            (if f.proto = IPPROTO_ICMPV6 then f.icmp_s_type else f.sp)) ∧
      ((CalculateCommunityFlowIdv6.pack e f seed).bytes e).length = 40) := by
  obtain ⟨-, -, hsp, hdp, hproto, hst, hdt⟩ := hf
  have hp4 : (if f.proto = IPPROTO_ICMP then f.icmp_s_type else f.sp) < 65536 := by
    split_ifs <;> omega
  have hq4 : (if f.proto = IPPROTO_ICMP then f.icmp_d_type else f.dp) < 65536 := by
    split_ifs <;> omega
  have hp6 : (if f.proto = IPPROTO_ICMPV6 then f.icmp_s_type else f.sp) < 65536 := by
    split_ifs <;> omega
  have hq6 : (if f.proto = IPPROTO_ICMPV6 then f.icmp_d_type else f.dp) < 65536 := by
    split_ifs <;> omega
  refine ⟨?_, ?_⟩
  · have h4 : (CalculateCommunityFlowIdv4.pack e f seed).bytes e
        = recordLayout seed ((f.src.bytes e).take 4) ((f.dst.bytes e).take 4) f.proto
            (if f.proto = IPPROTO_ICMP then f.icmp_s_type else f.sp)
            (if f.proto = IPPROTO_ICMP then f.icmp_d_type else f.dp) ∨
      (CalculateCommunityFlowIdv4.pack e f seed).bytes e
        = recordLayout seed ((f.dst.bytes e).take 4) ((f.src.bytes e).take 4) f.proto
            (if f.proto = IPPROTO_ICMP then f.icmp_d_type else f.dp)
            (if f.proto = IPPROTO_ICMP then f.icmp_s_type else f.sp) := by
      rw [FlowAddress.take_bytes, FlowAddress.take_bytes]
      simp only [CalculateCommunityFlowIdv4.pack]
      generalize (if f.proto = IPPROTO_ICMP then f.icmp_s_type else f.sp) = p at *
      generalize (if f.proto = IPPROTO_ICMP then f.icmp_d_type else f.dp) = q at *
      split_ifs
      · exact Or.inl (CommunityIdv4_bytes_layout e seed _ _ _ p q hseed hproto hp4 hq4)
      · exact Or.inr (CommunityIdv4_bytes_layout e seed _ _ _ q p hseed hproto hq4 hp4)
    refine ⟨h4, ?_⟩
    rcases h4 with h | h <;> rw [h, recordLayout_length, FlowAddress.take_bytes,
      FlowAddress.take_bytes, store32_length, store32_length]
  · have h6 : (CalculateCommunityFlowIdv6.pack e f seed).bytes e
        = recordLayout seed (f.src.bytes e) (f.dst.bytes e) f.proto
            (if f.proto = IPPROTO_ICMPV6 then f.icmp_s_type else f.sp)
            (if f.proto = IPPROTO_ICMPV6 then f.icmp_d_type else f.dp) ∨
      (CalculateCommunityFlowIdv6.pack e f seed).bytes e
        = recordLayout seed (f.dst.bytes e) (f.src.bytes e) f.proto
            (if f.proto = IPPROTO_ICMPV6 then f.icmp_d_type else f.dp)
            (if f.proto = IPPROTO_ICMPV6 then f.icmp_s_type else f.sp) := by
      simp only [CalculateCommunityFlowIdv6.pack]
      generalize (if f.proto = IPPROTO_ICMPV6 then f.icmp_s_type else f.sp) = p at *
      generalize (if f.proto = IPPROTO_ICMPV6 then f.icmp_d_type else f.dp) = q at *
      split_ifs
      · exact Or.inl (CommunityIdv6_bytes_layout e seed _ _ _ p q hseed hproto hp6 hq6)
      · exact Or.inr (CommunityIdv6_bytes_layout e seed _ _ _ q p hseed hproto hq6 hp6)
    refine ⟨h6, ?_⟩
    rcases h6 with h | h <;> rw [h, recordLayout_length, FlowAddress.length_bytes,
      FlowAddress.length_bytes]

/-- The record of the UDP flow from 10.0.0.1 port 5000 to 10.0.0.2 port 53
with seed 0 on a little-endian host. -/
theorem community_id_record_layout_witness :
    Flow.WF exampleUdpFlow ∧ (0 : Nat) < 65536 ∧
    (CalculateCommunityFlowIdv4.pack .little exampleUdpFlow 0).bytes .little
      = [0, 0, 10, 0, 0, 1, 10, 0, 0, 2, 17, 0, 19, 136, 0, 53] ∧
    ((CalculateCommunityFlowIdv4.pack .little exampleUdpFlow 0).bytes .little).length = 16 ∧
    ((CalculateCommunityFlowIdv6.pack .little exampleUdpFlow 0).bytes .little).length = 40 :=
  ⟨by decide, by decide, by decide,
    (community_id_record_layout .little exampleUdpFlow 0 (by decide) (by decide)).1.2,
    (community_id_record_layout .little exampleUdpFlow 0 (by decide) (by decide)).2.2⟩

/-- C5, on a little-endian host with seed 0. The record of the TCP flow from
127.0.0.1 port 50000 to 127.0.0.1 port 443 has the layout of the claim in 16
bytes, but its two ports are not ordered: the greater port 50000 is stored
first and port 443 second. The record of the TCP flow from 2001:db8::1 port
1000 to 2001:db8::100 port 2000 has the layout of the claim in 40 bytes, but
its two sides are not ordered: the greater address 2001:db8::100 and its port
2000 are stored first, the smaller address 2001:db8::1 and its port 1000
second. -/
theorem community_id_record_not_ordered_little_endian :
    Flow.WF exampleLoopbackFlow ∧
    (CalculateCommunityFlowIdv4.pack .little exampleLoopbackFlow 0).bytes .little
      = [0, 0, 127, 0, 0, 1, 127, 0, 0, 1, 6, 0, 0xC3, 0x50, 0x01, 0xBB] ∧
    (CalculateCommunityFlowIdv4.pack .little exampleLoopbackFlow 0).bytes .little
      = recordLayout 0 [127, 0, 0, 1] [127, 0, 0, 1] 6 50000 443 ∧
    Flow.WF exampleV6Flow ∧
    (CalculateCommunityFlowIdv6.pack .little exampleV6Flow 0).bytes .little
      = [0, 0,
         0x20, 0x01, 0x0d, 0xb8, 0, 0, 0, 0, 0, 0, 0, 0, 0, 0, 1, 0,
         0x20, 0x01, 0x0d, 0xb8, 0, 0, 0, 0, 0, 0, 0, 0, 0, 0, 0, 1,
         6, 0, 0x07, 0xD0, 0x03, 0xE8] ∧
    (CalculateCommunityFlowIdv6.pack .little exampleV6Flow 0).bytes .little
      = recordLayout 0 (exampleV6Flow.dst.bytes .little) (exampleV6Flow.src.bytes .little) 6
          2000 1000 ∧
    beRead (exampleV6Flow.src.bytes .little) < beRead (exampleV6Flow.dst.bytes .little) := by
  decide

theorem base64_length (l : List Nat) : (base64 l).length = 4 * ((l.length + 2) / 3) := by
  induction l using base64.induct with
  | case1 => rfl
  | case2 a => simp [base64]
  | case3 a b => simp [base64]
  | case4 a b c rest ih =>
      simp only [base64, List.length_cons, ih]
      omega

theorem Base64Encode_digest (d : List Nat) (h : d.length = 20) :
    Base64Encode d (COMMUNITY_ID_BUF_SIZE - 2) = some (base64 d) := by
  simp [Base64Encode, h, COMMUNITY_ID_BUF_SIZE]

theorem encode_of_digest (ComputeSHA1 : List Nat → Option (List Nat)) (record d : List Nat)
    (hd : ComputeSHA1 record = some d) (h : d.length = 20) :
    CalculateCommunityFlowId.encode ComputeSHA1 record = some ("1:" ++ String.mk (base64 d)) ∧
      ("1:" ++ String.mk (base64 d)).length = 30 := by
  constructor
  · simp only [CalculateCommunityFlowId.encode, hd, Base64Encode_digest d h]
  · have h1 : ("1:" ++ String.mk (base64 d)).length = "1:".length + (base64 d).length := by
      rw [String.length_append]
      rfl
    rw [h1, base64_length, h]
    rfl

/-- C6. When ComputeSHA1 succeeds with a 20-byte digest d, both
CalculateCommunityFlowIdv4 and CalculateCommunityFlowIdv6 succeed and leave
the string "1:" followed by the base64 text of d, which is 30 characters long:
the 62 bytes left in the 64-byte buffer are enough for the encoder. -/
theorem community_id_text (e : Endian) (ComputeSHA1 : List Nat → Option (List Nat))
    (f : Flow) (seed : Nat) (hlen : ∀ m d, ComputeSHA1 m = some d → d.length = 20) :
    (∀ d, ComputeSHA1 ((CalculateCommunityFlowIdv4.pack e f seed).bytes e) = some d →
      CalculateCommunityFlowIdv4 e ComputeSHA1 f seed = some ("1:" ++ String.mk (base64 d)) ∧
        ("1:" ++ String.mk (base64 d)).length = 30) ∧
    (∀ d, ComputeSHA1 ((CalculateCommunityFlowIdv6.pack e f seed).bytes e) = some d →
      CalculateCommunityFlowIdv6 e ComputeSHA1 f seed = some ("1:" ++ String.mk (base64 d)) ∧
        ("1:" ++ String.mk (base64 d)).length = 30) := by
  constructor
  · intro d hd
    exact encode_of_digest ComputeSHA1 _ d hd (hlen _ d hd)
  · intro d hd
    exact encode_of_digest ComputeSHA1 _ d hd (hlen _ d hd)

/-- C6, with a digest function that returns twenty zero bytes, at the UDP flow
from 10.0.0.1 port 5000 to 10.0.0.2 port 53 on a little-endian host. -/
theorem community_id_text_witness :
    (∀ m d, exampleExternals.ComputeSHA1 m = some d → d.length = 20) ∧
    CalculateCommunityFlowIdv4 .little exampleExternals.ComputeSHA1 exampleUdpFlow 0
      = some "1:AAAAAAAAAAAAAAAAAAAAAAAAAAA=" ∧
    "1:AAAAAAAAAAAAAAAAAAAAAAAAAAA=".length = 30 :=
  ⟨fun _ d h => by cases h; rfl,
    ((community_id_text .little exampleExternals.ComputeSHA1 exampleUdpFlow 0
      (fun _ d h => by cases h; rfl)).1 (List.replicate 20 0) rfl).1,
    ((community_id_text .little exampleExternals.ComputeSHA1 exampleUdpFlow 0
      (fun _ d h => by cases h; rfl)).1 (List.replicate 20 0) rfl).2⟩

/-- C7 as stated fails: a flow flagged IPv4 whose protocol is ICMPv6 (58), with
ports 1234 and 443 and ICMP types 210 and 187. CalculateCommunityFlowIdv4
tests for IPPROTO_ICMP only, so the port fields of the record hold the ports
1234 and 443 and not the ICMP types, in either order. -/
theorem port_fields_icmpv6_on_ipv4_counterexample :
    Flow.WF exampleIcmp6OnV4Flow ∧
    (exampleIcmp6OnV4Flow.proto = IPPROTO_ICMP ∨ exampleIcmp6OnV4Flow.proto = IPPROTO_ICMPV6) ∧
    beRead ((((CalculateCommunityFlowIdv4.pack .little exampleIcmp6OnV4Flow 0).bytes
      .little).drop 12).take 2) = exampleIcmp6OnV4Flow.sp ∧
    beRead ((((CalculateCommunityFlowIdv4.pack .little exampleIcmp6OnV4Flow 0).bytes
      .little).drop 14).take 2) = exampleIcmp6OnV4Flow.dp ∧
    ¬ ((beRead ((((CalculateCommunityFlowIdv4.pack .little exampleIcmp6OnV4Flow 0).bytes
          .little).drop 12).take 2) = exampleIcmp6OnV4Flow.icmp_s_type ∧
        beRead ((((CalculateCommunityFlowIdv4.pack .little exampleIcmp6OnV4Flow 0).bytes
          .little).drop 14).take 2) = exampleIcmp6OnV4Flow.icmp_d_type) ∨
      (beRead ((((CalculateCommunityFlowIdv4.pack .little exampleIcmp6OnV4Flow 0).bytes
          .little).drop 12).take 2) = exampleIcmp6OnV4Flow.icmp_d_type ∧
        beRead ((((CalculateCommunityFlowIdv4.pack .little exampleIcmp6OnV4Flow 0).bytes
          .little).drop 14).take 2) = exampleIcmp6OnV4Flow.icmp_s_type)) := by
  decide

/-- C7, amended. The port fields of the IPv4 record (bytes 12 to 13 and 14 to
15, read big-endian) hold the two ICMP types of the flow exactly when the
protocol is ICMP (1), and the two ports for every other protocol, ICMPv6
included; the port fields of the IPv6 record (bytes 36 to 37 and 38 to 39) hold
the two ICMP types exactly when the protocol is ICMPv6 (58), and the two ports
for every other protocol, ICMP included. The two values appear in the flow's
order or exchanged. -/
theorem community_id_port_fields (e : Endian) (f : Flow) (seed : Nat) (hf : f.WF) :
    ((beRead ((((CalculateCommunityFlowIdv4.pack e f seed).bytes e).drop 12).take 2)
          = (if f.proto = IPPROTO_ICMP then f.icmp_s_type else f.sp) ∧
        beRead ((((CalculateCommunityFlowIdv4.pack e f seed).bytes e).drop 14).take 2)
          = (if f.proto = IPPROTO_ICMP then f.icmp_d_type else f.dp)) ∨
      (beRead ((((CalculateCommunityFlowIdv4.pack e f seed).bytes e).drop 12).take 2)
          = (if f.proto = IPPROTO_ICMP then f.icmp_d_type else f.dp) ∧
        beRead ((((CalculateCommunityFlowIdv4.pack e f seed).bytes e).drop 14).take 2)
          = (if f.proto = IPPROTO_ICMP then f.icmp_s_type else f.sp))) ∧
    ((beRead ((((CalculateCommunityFlowIdv6.pack e f seed).bytes e).drop 36).take 2)
          = (if f.proto = IPPROTO_ICMPV6 then f.icmp_s_type else f.sp) ∧
        beRead ((((CalculateCommunityFlowIdv6.pack e f seed).bytes e).drop 38).take 2)
          = (if f.proto = IPPROTO_ICMPV6 then f.icmp_d_type else f.dp)) ∨
      (beRead ((((CalculateCommunityFlowIdv6.pack e f seed).bytes e).drop 36).take 2)
          = (if f.proto = IPPROTO_ICMPV6 then f.icmp_d_type else f.dp) ∧
        beRead ((((CalculateCommunityFlowIdv6.pack e f seed).bytes e).drop 38).take 2)
          = (if f.proto = IPPROTO_ICMPV6 then f.icmp_s_type else f.sp))) := by
  obtain ⟨-, -, hsp, hdp, hproto, hst, hdt⟩ := hf
  have hp4 : (if f.proto = IPPROTO_ICMP then f.icmp_s_type else f.sp) < 65536 := by
    split_ifs <;> omega
  have hq4 : (if f.proto = IPPROTO_ICMP then f.icmp_d_type else f.dp) < 65536 := by
    split_ifs <;> omega
  have hp6 : (if f.proto = IPPROTO_ICMPV6 then f.icmp_s_type else f.sp) < 65536 := by
    split_ifs <;> omega
  have hq6 : (if f.proto = IPPROTO_ICMPV6 then f.icmp_d_type else f.dp) < 65536 := by
    split_ifs <;> omega
  constructor
  · rw [CommunityIdv4_slice_sp, CommunityIdv4_slice_dp]
    simp only [CalculateCommunityFlowIdv4.pack]
    generalize (if f.proto = IPPROTO_ICMP then f.icmp_s_type else f.sp) = p at *
    generalize (if f.proto = IPPROTO_ICMP then f.icmp_d_type else f.dp) = q at *
    split_ifs
    · exact Or.inl ⟨beRead_store16_htons e p hp4, beRead_store16_htons e q hq4⟩
    · exact Or.inr ⟨beRead_store16_htons e q hq4, beRead_store16_htons e p hp4⟩
  · rw [CommunityIdv6_slice_sp, CommunityIdv6_slice_dp]
    simp only [CalculateCommunityFlowIdv6.pack]
    generalize (if f.proto = IPPROTO_ICMPV6 then f.icmp_s_type else f.sp) = p at *
    generalize (if f.proto = IPPROTO_ICMPV6 then f.icmp_d_type else f.dp) = q at *
    split_ifs
    · exact Or.inl ⟨beRead_store16_htons e p hp6, beRead_store16_htons e q hq6⟩
    · exact Or.inr ⟨beRead_store16_htons e q hq6, beRead_store16_htons e p hp6⟩

/-- C7 amended, at the ICMP echo flow from 10.0.0.1 (type 8) to 10.0.0.2
(type 0) on a little-endian host: the port fields hold the types 8 and 0. -/
theorem community_id_port_fields_witness :
    Flow.WF exampleIcmpFlow ∧
    ((beRead ((((CalculateCommunityFlowIdv4.pack .little exampleIcmpFlow 0).bytes
          .little).drop 12).take 2) = 8 ∧
        beRead ((((CalculateCommunityFlowIdv4.pack .little exampleIcmpFlow 0).bytes
          .little).drop 14).take 2) = 0) ∨
      (beRead ((((CalculateCommunityFlowIdv4.pack .little exampleIcmpFlow 0).bytes
          .little).drop 12).take 2) = 0 ∧
        beRead ((((CalculateCommunityFlowIdv4.pack .little exampleIcmpFlow 0).bytes
          .little).drop 14).take 2) = 8)) :=
  ⟨by decide, (community_id_port_fields .little exampleIcmpFlow 0 (by decide)).1⟩

/-! ## Properties: jansson objects -/

theorem lookup_map_replace (ms : List (String × Json)) (k k' : String) (v : Json) :
    (ms.map (fun kv => if kv.1 == k then (k, v) else kv)).lookup k'
      = if k' = k then (if ms.any (fun kv => kv.1 == k) then some v else none)
        else ms.lookup k' := by
  induction ms with
  | nil => simp
  | cons a ms ih =>
      obtain ⟨ka, va⟩ := a
      by_cases hka : ka = k
      · subst hka
        by_cases hk : k' = ka
        · subst hk
          simp [List.lookup_cons]
        · have hb : (k' == ka) = false := by simpa using hk
          simp only [List.map_cons, beq_self_eq_true, if_true, List.lookup_cons, hb, ih, hk,
            if_false]
      · have hb : (ka == k) = false := by simpa using hka
        by_cases hk : k' = k
        · subst hk
          have hb2 : (k' == ka) = false := by simpa using fun h => hka h.symm
          simp only [List.map_cons, hb, Bool.false_eq_true, if_false, List.lookup_cons, hb2, ih,
            if_true, List.any_cons, Bool.false_or]
        · simp only [List.map_cons, hb, Bool.false_eq_true, if_false, List.lookup_cons, ih, hk]

/-- Reading a key after setting one: the value just set for the same key, the
earlier value for any other key. -/
theorem setMember_lookup (ms : List (String × Json)) (k k' : String) (v : Json) :
    (setMember ms k v).lookup k' = if k' = k then some v else ms.lookup k' := by
  unfold setMember
  by_cases hany : ms.any (fun kv => kv.1 == k) = true
  · rw [if_pos hany, lookup_map_replace, if_pos hany]
  · rw [if_neg hany, List.lookup_append]
    by_cases hk : k' = k
    · subst hk
      have hnone : ms.lookup k' = none := by
        rw [List.lookup_eq_none_iff]
        intro p hp
        rw [bne_iff_ne]
        intro hkey
        apply hany
        rw [List.any_eq_true]
        exact ⟨p, hp, by simpa using hkey.symm⟩
      simp [hnone]
    · have hb : (k' == k) = false := by simpa using hk
      simp [List.lookup_cons, hb, hk]

/-- Setting a key no member has adds the member at the end. -/
theorem setMember_fresh (ms : List (String × Json)) (k : String) (v : Json)
    (h : ∀ kv ∈ ms, kv.1 ≠ k) : setMember ms k v = ms ++ [(k, v)] := by
  unfold setMember
  rw [if_neg]
  intro hany
  rw [List.any_eq_true] at hany
  obtain ⟨kv, hkv, hk⟩ := hany
  exact h kv hkv (by simpa using hk)

theorem json_object_set_new_fresh (ms : List (String × Json)) (k : String) (v : Json)
    (h : ∀ kv ∈ ms, kv.1 ≠ k) : json_object_set_new (.obj ms) k v = .obj (ms ++ [(k, v)]) := by
  simp only [json_object_set_new, setMember_fresh ms k v h]

theorem setMembers_append (ms e1 e2 : List (String × Json)) :
    setMembers ms (e1 ++ e2) = setMembers (setMembers ms e1) e2 := by
  simp [setMembers, List.foldl_append]

theorem setMembers_cons (ms : List (String × Json)) (kv : String × Json)
    (e : List (String × Json)) :
    setMembers ms (kv :: e) = setMembers (setMember ms kv.1 kv.2) e := rfl

theorem setMembers_lookup_of_not_mem (e : List (String × Json)) (n : String)
    (h : ∀ kv ∈ e, kv.1 ≠ n) :
    ∀ ms : List (String × Json), (setMembers ms e).lookup n = ms.lookup n := by
  induction e with
  | nil => intro ms; rfl
  | cons kv e ih =>
      intro ms
      rw [setMembers_cons, ih (fun kv2 h2 => h kv2 (List.mem_cons_of_mem _ h2)),
        setMember_lookup, if_neg]
      exact fun heq => h kv (List.mem_cons_self _ _) heq.symm

theorem setMember_keys_nodup (ms : List (String × Json)) (k : String) (v : Json)
    (h : (ms.map Prod.fst).Nodup) : ((setMember ms k v).map Prod.fst).Nodup := by
  unfold setMember
  by_cases hany : ms.any (fun kv => kv.1 == k) = true
  · rw [if_pos hany]
    have hkeys : (ms.map (fun kv => if kv.1 == k then (k, v) else kv)).map Prod.fst
        = ms.map Prod.fst := by
      rw [List.map_map]
      apply List.map_congr_left
      intro kv _
      by_cases hk : kv.1 = k
      · simp [hk]
      · simp [hk]
    rw [hkeys]
    exact h
  · rw [if_neg hany, List.map_append, List.nodup_append]
    refine ⟨h, by simp, ?_⟩
    intro a ha hb
    simp only [List.map_cons, List.map_nil, List.mem_singleton] at hb
    subst hb
    apply hany
    rw [List.any_eq_true]
    obtain ⟨kv, hkv, hk⟩ := List.mem_map.mp ha
    exact ⟨kv, hkv, by simpa using hk⟩

theorem setMembers_keys_nodup (e : List (String × Json)) :
    ∀ ms : List (String × Json), (ms.map Prod.fst).Nodup →
      ((setMembers ms e).map Prod.fst).Nodup := by
  induction e with
  | nil => intro ms h; exact h
  | cons kv e ih =>
      intro ms h
      rw [setMembers_cons]
      exact ih _ (setMember_keys_nodup ms kv.1 kv.2 h)

theorem filter_key_of_nodup (ms : List (String × Json)) (n : String) (v : Json)
    (hnd : (ms.map Prod.fst).Nodup) (hl : ms.lookup n = some v) :
    ms.filter (fun kv => kv.1 == n) = [(n, v)] := by
  induction ms with
  | nil => simp at hl
  | cons kv ms ih =>
      obtain ⟨k, w⟩ := kv
      rw [List.map_cons, List.nodup_cons] at hnd
      by_cases hk : n = k
      · subst hk
        simp only [List.lookup_cons, beq_self_eq_true] at hl
        injection hl with hl
        subst hl
        have hrest : ms.filter (fun kv => kv.1 == n) = [] := by
          rw [List.filter_eq_nil_iff]
          intro kv hkv hb
          have hkey : kv.1 = n := by simpa using hb
          have hmem : kv.1 ∈ ms.map Prod.fst := List.mem_map_of_mem _ hkv
          rw [hkey] at hmem
          exact hnd.1 hmem
        simp [List.filter_cons, hrest]
      · have hb : (n == k) = false := by simpa using hk
        have hb2 : (k == n) = false := by simpa using fun h => hk h.symm
        simp only [List.lookup_cons, hb] at hl
        simp only [List.filter_cons, hb2, Bool.false_eq_true, if_false]
        exact ih hnd.2 hl

/-- Setting members with distinct keys that the object does not have adds them
at the end, in order. -/
theorem setMembers_fresh (fields : List (String × Json)) :
    ∀ ms : List (String × Json), (fields.map Prod.fst).Nodup →
      (∀ kv ∈ ms, kv.1 ∉ fields.map Prod.fst) → setMembers ms fields = ms ++ fields := by
  induction fields with
  | nil => intro ms _ _; simp [setMembers]
  | cons kv fields ih =>
      intro ms hnd hfresh
      rw [List.map_cons, List.nodup_cons] at hnd
      have h1 : setMember ms kv.1 kv.2 = ms ++ [kv] := by
        apply setMember_fresh
        intro kv2 hkv2 heq
        exact hfresh kv2 hkv2 (by rw [heq]; exact List.mem_cons_self _ _)
      rw [setMembers_cons, h1, ih _ hnd.2]
      · simp
      · intro kv2 hkv2 hmem
        rw [List.mem_append, List.mem_singleton] at hkv2
        rcases hkv2 with h | h
        · exact hfresh kv2 h (List.mem_cons_of_mem _ hmem)
        · rw [h] at hmem
          exact hnd.1 hmem

theorem setMember_ne_nil (ms : List (String × Json)) (k : String) (v : Json) :
    setMember ms k v ≠ [] := by
  unfold setMember
  split_ifs with h
  · intro hm
    rw [List.map_eq_nil_iff] at hm
    rw [hm] at h
    simp at h
  · simp

theorem setMembers_ne_nil (es : List (String × Json)) :
    ∀ ms : List (String × Json), ms ≠ [] → setMembers ms es ≠ [] := by
  induction es with
  | nil => intro ms h; simpa [setMembers] using h
  | cons e es ih =>
      intro ms _
      rw [setMembers_cons]
      exact ih _ (setMember_ne_nil _ _ _)

/-! ## Properties: common options -/

theorem jb_set_inObject (js : JsonBuilder) (key : String) (v : Json) (h : js.inObject) :
    (jb_set js key v).inObject ∧ (jb_set js key v).members = setMember js.members key v := by
  obtain ⟨k, members, rest, hs⟩ := h
  constructor
  · exact ⟨k, setMember members key v, rest, by simp only [jb_set, hs]⟩
  · simp only [JsonBuilder.members, jb_set, hs]

theorem jb_set_object_inObject (js : JsonBuilder) (key : String) (other : JsonBuilder)
    (h : js.inObject) : (jb_set_object js key other).inObject := by
  unfold jb_set_object
  split
  · exact (jb_set_inObject js key _ h).1
  · exact h

theorem EveAddMetadata_inObject_aux (js : JsonBuilder) (r : JsonBuilder × Option JsonBuilder)
    (v : JsonBuilder) (h : js.inObject) :
    (jb_set_object
      (match r.2 with
      | some js_traffic => jb_set_object js "traffic" js_traffic
      | none => js) "metadata" v).inObject := by
  apply jb_set_object_inObject
  split
  · exact jb_set_object_inObject _ _ _ h
  · exact h

theorem EveAddMetadata_inObject (x : Externals) (p : Option Packet) (f : Option Flow)
    (js : JsonBuilder) (h : js.inObject) : (EveAddMetadata x p f js).inObject := by
  unfold EveAddMetadata
  simp only
  split_ifs <;> first
    | exact h
    | exact EveAddMetadata_inObject_aux js (EveAddFlowVars x f jb_new_object none) _ h
    | exact EveAddMetadata_inObject_aux js (jb_new_object, none) _ h

theorem CreateEveCommunityFlowId_of_digest (e : Endian) (x : Externals) (js : JsonBuilder)
    (fl : Flow) (seed : Nat) (d : List Nat)
    (hlen : ∀ m d, x.ComputeSHA1 m = some d → d.length = 20)
    (hflag : fl.flag_ipv4 = true ∨ fl.flag_ipv6 = true)
    (hd : x.ComputeSHA1 (if fl.flag_ipv4 then (CalculateCommunityFlowIdv4.pack e fl seed).bytes e
      else (CalculateCommunityFlowIdv6.pack e fl seed).bytes e) = some d) :
    CreateEveCommunityFlowId e x js fl seed
      = jb_set_string js "community_id" ("1:" ++ String.mk (base64 d)) := by
  unfold CreateEveCommunityFlowId
  by_cases h4 : fl.flag_ipv4 = true
  · simp only [h4, if_true] at hd ⊢
    have h := (encode_of_digest x.ComputeSHA1 _ d hd (hlen _ d hd)).1
    simp only [CalculateCommunityFlowIdv4, h]
  · have h6 : fl.flag_ipv6 = true := by
      rcases hflag with h | h
      · exact absurd h h4
      · exact h
    simp only [h4, h6, if_true, if_false, Bool.false_eq_true] at hd ⊢
    have h := (encode_of_digest x.ComputeSHA1 _ d hd (hlen _ d hd)).1
    simp only [CalculateCommunityFlowIdv6, h]

theorem CreateEveCommunityFlowId_of_none (e : Endian) (x : Externals) (js : JsonBuilder)
    (fl : Flow) (seed : Nat)
    (h : (fl.flag_ipv4 = false ∧ fl.flag_ipv6 = false) ∨
      x.ComputeSHA1 (if fl.flag_ipv4 then (CalculateCommunityFlowIdv4.pack e fl seed).bytes e
        else (CalculateCommunityFlowIdv6.pack e fl seed).bytes e) = none) :
    CreateEveCommunityFlowId e x js fl seed = js := by
  unfold CreateEveCommunityFlowId
  rcases h with ⟨h4, h6⟩ | h
  · simp only [h4, h6, Bool.false_eq_true, if_false]
  · by_cases h4 : fl.flag_ipv4 = true
    · simp only [h4, if_true] at h ⊢
      simp only [CalculateCommunityFlowIdv4, CalculateCommunityFlowId.encode, h]
    · simp only [h4, if_false, Bool.false_eq_true] at h ⊢
      split_ifs
      · simp only [CalculateCommunityFlowIdv6, CalculateCommunityFlowId.encode, h]
      · rfl

/-- C8. On an event builder that is inside its root object, with a ComputeSHA1
whose digests have 20 bytes: EveAddCommonOptions first builds the rest of the
event (the metadata when include_metadata is set), and then sets the one member
community_id, holding "1:" and the base64 text of the digest, when
include_community_id is set, a flow is present, the flow is flagged IPv4 or
IPv6 and ComputeSHA1 succeeds on its record; the member is appended at the end
of an event that has no member community_id yet. In every other case it returns
the rest of the event with nothing added. -/
theorem common_options_community_id (e : Endian) (x : Externals)
    (cfg : OutputJsonCommonSettings) (p : Option Packet) (f : Option Flow) (js : JsonBuilder)
    (hjs : js.inObject)
    (hlen : ∀ m d, x.ComputeSHA1 m = some d → d.length = 20) :
    (∀ fl d, cfg.include_community_id = true → f = some fl →
      (fl.flag_ipv4 = true ∨ fl.flag_ipv6 = true) →
      x.ComputeSHA1 (if fl.flag_ipv4
          then (CalculateCommunityFlowIdv4.pack e fl cfg.community_id_seed).bytes e
          else (CalculateCommunityFlowIdv6.pack e fl cfg.community_id_seed).bytes e) = some d →
      (EveAddCommonOptions e x cfg p f js).members
        = setMember (if cfg.include_metadata then EveAddMetadata x p f js else js).members
            "community_id" (Json.str ("1:" ++ String.mk (base64 d))) ∧
      ((∀ kv ∈ (if cfg.include_metadata then EveAddMetadata x p f js else js).members,
          kv.1 ≠ "community_id") →
        (EveAddCommonOptions e x cfg p f js).members
          = (if cfg.include_metadata then EveAddMetadata x p f js else js).members
              ++ [("community_id", Json.str ("1:" ++ String.mk (base64 d)))])) ∧
    ((cfg.include_community_id = false ∨ f = none ∨
        (∃ fl, f = some fl ∧ ((fl.flag_ipv4 = false ∧ fl.flag_ipv6 = false) ∨
          x.ComputeSHA1 (if fl.flag_ipv4
            then (CalculateCommunityFlowIdv4.pack e fl cfg.community_id_seed).bytes e
            else (CalculateCommunityFlowIdv6.pack e fl cfg.community_id_seed).bytes e) = none))) →
      EveAddCommonOptions e x cfg p f js
        = (if cfg.include_metadata then EveAddMetadata x p f js else js)) := by
  have hbase : (if cfg.include_metadata then EveAddMetadata x p f js else js).inObject := by
    split_ifs
    · exact EveAddMetadata_inObject x p f js hjs
    · exact hjs
  constructor
  · intro fl d hc hf hflag hd
    subst hf
    simp only [EveAddCommonOptions, hc, if_true]
    rw [CreateEveCommunityFlowId_of_digest e x _ fl _ d hlen hflag hd]
    have hset := (jb_set_inObject _ "community_id"
      (Json.str ("1:" ++ String.mk (base64 d))) hbase).2
    refine ⟨hset, fun hfresh => ?_⟩
    rw [← setMember_fresh _ _ _ hfresh]
    exact hset
  · rintro (hc | hf | ⟨fl, hf, h⟩)
    · cases f with
      | none => rfl
      | some fl => simp only [EveAddCommonOptions, hc, Bool.false_eq_true, if_false]
    · subst hf
      rfl
    · subst hf
      simp only [EveAddCommonOptions]
      split_ifs <;> first
        | rfl
        | exact CreateEveCommunityFlowId_of_none e x _ fl _ h

/-- C8, at the UDP flow from 10.0.0.1 port 5000 to 10.0.0.2 port 53 with both
options enabled, seed 0 and a fresh event object: the event gets exactly one
member, community_id. -/
theorem common_options_community_id_witness :
    jb_new_object.inObject ∧
    (∀ m d, exampleExternals.ComputeSHA1 m = some d → d.length = 20) ∧
    (EveAddCommonOptions .little exampleExternals
        { include_metadata := true, include_community_id := true, community_id_seed := 0 }
        none (some exampleUdpFlow) jb_new_object).members
      = [("community_id", Json.str "1:AAAAAAAAAAAAAAAAAAAAAAAAAAA=")] :=
  ⟨⟨none, [], [], rfl⟩, fun _ d h => by cases h; rfl,
    ((common_options_community_id .little exampleExternals
      { include_metadata := true, include_community_id := true, community_id_seed := 0 }
      none (some exampleUdpFlow) jb_new_object ⟨none, [], [], rfl⟩
      (fun _ d h => by cases h; rfl)).1 exampleUdpFlow (List.replicate 20 0) rfl rfl
        (Or.inl rfl) rfl).1⟩

/-! ## Properties: the five-tuple resolver -/

theorem strlcpy_fits (dst src : String) (size n : Nat) (hn : n ≤ size) (hn0 : 0 < n)
    (hsrc : src.length < n) : strlcpy dst src size = src := by
  have h0 : size ≠ 0 := by omega
  simp only [strlcpy, h0, if_false]
  have h1 : src.toList.take (size - 1) = src.toList := by
    apply List.take_of_length_le
    have : src.toList.length = src.length := rfl
    omega
  rw [h1]
  rfl

theorem strlcpy_length_lt (dst src : String) (size : Nat) (h : 0 < size) :
    (strlcpy dst src size).length < size := by
  have h0 : size ≠ 0 := by omega
  simp only [strlcpy, h0, if_false]
  have : (String.mk (src.toList.take (size - 1))).length = (src.toList.take (size - 1)).length :=
    rfl
  rw [this, List.length_take]
  omega

theorem PrintInetText_length (af : AddrFamily) (mem : List Nat) (size : Nat) (h : 0 < size) :
    (PrintInetText af mem size).length < size := by
  have h1 : ∀ l : List Char, (String.mk (l.take (size - 1))).length ≤ size - 1 := by
    intro l
    have : (String.mk (l.take (size - 1))).length = (l.take (size - 1)).length := rfl
    rw [this, List.length_take]
    exact Nat.min_le_left _ _
  have h2 := h1 (match af with
    | .AF_INET => String.intercalate "." ((mem.take 4).map fun b => Nat.repr (b % 256))
    | .AF_INET6 =>
        String.intercalate ":"
          ((List.range 8).map fun i =>
            String.mk (Nat.toDigits 16
              (mem.getD (2 * i) 0 % 256 * 256 + mem.getD (2 * i + 1) 0 % 256)))).toList
  have h3 : (PrintInetText af mem size).length ≤ size - 1 := h2
  omega

theorem JsonAddrInfoInit.resolve_eq (x : Externals) (p : Packet) (dir : OutputJsonLogDirection)
    (hip : p.PKT_IS_IPV4 = true ∨ p.PKT_IS_IPV6 = true) :
    JsonAddrInfoInit.resolve x p dir = some
      (x.PrintInet (if p.PKT_IS_IPV4 then .AF_INET else .AF_INET6)
          (if p.flowsIn dir then p.src else p.dst).addr_data8 46,
       x.PrintInet (if p.PKT_IS_IPV4 then .AF_INET else .AF_INET6)
          (if p.flowsIn dir then p.dst else p.src).addr_data8 46,
       (if p.flowsIn dir then p.sp else p.dp),
       (if p.flowsIn dir then p.dp else p.sp)) := by
  cases dir <;> simp only [JsonAddrInfoInit.resolve, Packet.flowsIn] <;>
    rcases hip with h | h <;> split_ifs <;> simp_all

theorem JsonAddrInfoInit.of_resolve (x : Externals) (p : Packet) (dir : OutputJsonLogDirection)
    (addr : JsonAddrInfo) (srcip dstip : String) (sp dp : Nat)
    (h : JsonAddrInfoInit.resolve x p dir = some (srcip, dstip, sp, dp)) :
    (JsonAddrInfoInit x p dir addr).src_ip = strlcpy addr.src_ip srcip x.JSON_ADDR_LEN ∧
    (JsonAddrInfoInit x p dir addr).dst_ip = strlcpy addr.dst_ip dstip x.JSON_ADDR_LEN ∧
    ((p.proto = IPPROTO_UDP ∨ p.proto = IPPROTO_TCP ∨ p.proto = IPPROTO_SCTP) →
      (JsonAddrInfoInit x p dir addr).sp = sp ∧ (JsonAddrInfoInit x p dir addr).dp = dp) := by
  simp only [JsonAddrInfoInit, h]
  refine ⟨?_, ?_, ?_⟩
  · split_ifs <;> rfl
  · split_ifs <;> rfl
  · intro hp
    have h1 : p.proto ≠ IPPROTO_ICMP := by
      simp only [IPPROTO_UDP, IPPROTO_TCP, IPPROTO_SCTP, IPPROTO_ICMP] at *
      omega
    simp only [h1, hp, if_true, if_false, and_self]

/-- C9. For an IPv4 or IPv6 packet resolved as captured (LOG_DIR_PACKET), with
address fields of at least 46 bytes and a PrintInet that stays within its
46-byte buffer, the address info holds the text of the packet's own source
address as src_ip and of its own destination address as dst_ip, and for UDP,
TCP and SCTP the packet's own sp and dp, whatever values the to-server and
to-client flags of the packet have. -/
theorem as_captured_tuple (x : Externals) (p : Packet) (addr : JsonAddrInfo)
    (toserver toclient : Bool)
    (hip : p.PKT_IS_IPV4 = true ∨ p.PKT_IS_IPV6 = true)
    (hlen : 46 ≤ x.JSON_ADDR_LEN)
    (hfit : ∀ af mem, (x.PrintInet af mem 46).length < 46) :
    (JsonAddrInfoInit x { p with PKT_IS_TOSERVER := toserver, PKT_IS_TOCLIENT := toclient }
        .LOG_DIR_PACKET addr).src_ip
      = x.PrintInet (if p.PKT_IS_IPV4 then .AF_INET else .AF_INET6) p.src.addr_data8 46 ∧
    (JsonAddrInfoInit x { p with PKT_IS_TOSERVER := toserver, PKT_IS_TOCLIENT := toclient }
        .LOG_DIR_PACKET addr).dst_ip
      = x.PrintInet (if p.PKT_IS_IPV4 then .AF_INET else .AF_INET6) p.dst.addr_data8 46 ∧
    ((p.proto = IPPROTO_UDP ∨ p.proto = IPPROTO_TCP ∨ p.proto = IPPROTO_SCTP) →
      (JsonAddrInfoInit x { p with PKT_IS_TOSERVER := toserver, PKT_IS_TOCLIENT := toclient }
          .LOG_DIR_PACKET addr).sp = p.sp ∧
      (JsonAddrInfoInit x { p with PKT_IS_TOSERVER := toserver, PKT_IS_TOCLIENT := toclient }
          .LOG_DIR_PACKET addr).dp = p.dp) := by
  have hr := JsonAddrInfoInit.resolve_eq x
    { p with PKT_IS_TOSERVER := toserver, PKT_IS_TOCLIENT := toclient } .LOG_DIR_PACKET hip
  simp only [Packet.flowsIn, if_true] at hr
  obtain ⟨h1, h2, h3⟩ := JsonAddrInfoInit.of_resolve x _ _ addr _ _ _ _ hr
  rw [strlcpy_fits _ _ _ 46 hlen (by norm_num) (hfit _ _)] at h1 h2
  exact ⟨h1, h2, h3⟩

/-- C9, at the TCP packet from 5.6.7.8 port 80 to 1.2.3.4 port 1111 with the
to-server flag set and the to-client flag cleared. -/
theorem as_captured_tuple_witness :
    (exampleReplyPacket.PKT_IS_IPV4 = true ∨ exampleReplyPacket.PKT_IS_IPV6 = true) ∧
    46 ≤ exampleExternals.JSON_ADDR_LEN ∧
    (∀ af mem, (exampleExternals.PrintInet af mem 46).length < 46) ∧
    (JsonAddrInfoInit exampleExternals
        { exampleReplyPacket with PKT_IS_TOSERVER := true, PKT_IS_TOCLIENT := false }
        .LOG_DIR_PACKET json_addr_info_zero).src_ip = "5.6.7.8" ∧
    (JsonAddrInfoInit exampleExternals
        { exampleReplyPacket with PKT_IS_TOSERVER := true, PKT_IS_TOCLIENT := false }
        .LOG_DIR_PACKET json_addr_info_zero).dst_ip = "1.2.3.4" ∧
    ((exampleReplyPacket.proto = IPPROTO_UDP ∨ exampleReplyPacket.proto = IPPROTO_TCP ∨
        exampleReplyPacket.proto = IPPROTO_SCTP) →
      (JsonAddrInfoInit exampleExternals
          { exampleReplyPacket with PKT_IS_TOSERVER := true, PKT_IS_TOCLIENT := false }
          .LOG_DIR_PACKET json_addr_info_zero).sp = 80 ∧
      (JsonAddrInfoInit exampleExternals
          { exampleReplyPacket with PKT_IS_TOSERVER := true, PKT_IS_TOCLIENT := false }
          .LOG_DIR_PACKET json_addr_info_zero).dp = 1111) :=
  ⟨by decide, by decide, fun af mem => PrintInetText_length af mem 46 (by norm_num),
    as_captured_tuple exampleExternals exampleReplyPacket json_addr_info_zero true false
      (by decide) (by decide) (fun af mem => PrintInetText_length af mem 46 (by norm_num))⟩

/-- C10. For an IPv4 or IPv6 packet resolved with a flow direction
(LOG_DIR_FLOW and LOG_DIR_FLOW_TOSERVER prefer to-server, LOG_DIR_FLOW_TOCLIENT
prefers to-client): when the packet itself flows in the preferred direction
(its flag for that direction is set) the tuple resolved by the function is the
packet's own source text, destination text, sp and dp; otherwise the two
addresses are exchanged and the two ports are exchanged. With address fields of
at least 46 bytes and a PrintInet that stays within its 46-byte buffer, the
address info holds these two texts and, for UDP, TCP and SCTP (the protocols
for which ports are stored), these two ports. The statement also covers the
as-captured direction, in which every packet counts as flowing in the direction
asked for. -/
theorem flow_direction_tuple (x : Externals) (p : Packet) (dir : OutputJsonLogDirection)
    (addr : JsonAddrInfo)
    (hip : p.PKT_IS_IPV4 = true ∨ p.PKT_IS_IPV6 = true)
    (hlen : 46 ≤ x.JSON_ADDR_LEN)
    (hfit : ∀ af mem, (x.PrintInet af mem 46).length < 46) :
    (p.flowsIn dir = true →
      JsonAddrInfoInit.resolve x p dir = some
        (x.PrintInet (if p.PKT_IS_IPV4 then .AF_INET else .AF_INET6) p.src.addr_data8 46,
         x.PrintInet (if p.PKT_IS_IPV4 then .AF_INET else .AF_INET6) p.dst.addr_data8 46,
         p.sp, p.dp) ∧
      (JsonAddrInfoInit x p dir addr).src_ip
        = x.PrintInet (if p.PKT_IS_IPV4 then .AF_INET else .AF_INET6) p.src.addr_data8 46 ∧
      (JsonAddrInfoInit x p dir addr).dst_ip
        = x.PrintInet (if p.PKT_IS_IPV4 then .AF_INET else .AF_INET6) p.dst.addr_data8 46 ∧
      ((p.proto = IPPROTO_UDP ∨ p.proto = IPPROTO_TCP ∨ p.proto = IPPROTO_SCTP) →
        (JsonAddrInfoInit x p dir addr).sp = p.sp ∧ (JsonAddrInfoInit x p dir addr).dp = p.dp)) ∧
    (p.flowsIn dir = false →
      JsonAddrInfoInit.resolve x p dir = some
        (x.PrintInet (if p.PKT_IS_IPV4 then .AF_INET else .AF_INET6) p.dst.addr_data8 46,
         x.PrintInet (if p.PKT_IS_IPV4 then .AF_INET else .AF_INET6) p.src.addr_data8 46,
         p.dp, p.sp) ∧
      (JsonAddrInfoInit x p dir addr).src_ip
        = x.PrintInet (if p.PKT_IS_IPV4 then .AF_INET else .AF_INET6) p.dst.addr_data8 46 ∧
      (JsonAddrInfoInit x p dir addr).dst_ip
        = x.PrintInet (if p.PKT_IS_IPV4 then .AF_INET else .AF_INET6) p.src.addr_data8 46 ∧
      ((p.proto = IPPROTO_UDP ∨ p.proto = IPPROTO_TCP ∨ p.proto = IPPROTO_SCTP) →
        (JsonAddrInfoInit x p dir addr).sp = p.dp ∧ (JsonAddrInfoInit x p dir addr).dp = p.sp)) := by
  have hr := JsonAddrInfoInit.resolve_eq x p dir hip
  obtain ⟨h1, h2, h3⟩ := JsonAddrInfoInit.of_resolve x _ _ addr _ _ _ _ hr
  rw [strlcpy_fits _ _ _ 46 hlen (by norm_num) (hfit _ _)] at h1 h2
  constructor
  · intro hd
    simp only [hd, if_true] at hr h1 h2 h3
    exact ⟨hr, h1, h2, h3⟩
  · intro hd
    simp only [hd, Bool.false_eq_true, if_false] at hr h1 h2 h3
    exact ⟨hr, h1, h2, h3⟩

/-- C10, at the example of the specification: the TCP packet from 5.6.7.8 port
80 to 1.2.3.4 port 1111 that flows from the server to the client, resolved with
preference to-server, gives source 1.2.3.4 port 1111 and destination 5.6.7.8
port 80. -/
theorem flow_direction_tuple_witness :
    (exampleReplyPacket.PKT_IS_IPV4 = true ∨ exampleReplyPacket.PKT_IS_IPV6 = true) ∧
    46 ≤ exampleExternals.JSON_ADDR_LEN ∧
    (∀ af mem, (exampleExternals.PrintInet af mem 46).length < 46) ∧
    exampleReplyPacket.flowsIn .LOG_DIR_FLOW_TOSERVER = false ∧
    (JsonAddrInfoInit.resolve exampleExternals exampleReplyPacket .LOG_DIR_FLOW_TOSERVER
        = some ("1.2.3.4", "5.6.7.8", 1111, 80) ∧
     (JsonAddrInfoInit exampleExternals exampleReplyPacket .LOG_DIR_FLOW_TOSERVER
        json_addr_info_zero).src_ip = "1.2.3.4" ∧
     (JsonAddrInfoInit exampleExternals exampleReplyPacket .LOG_DIR_FLOW_TOSERVER
        json_addr_info_zero).dst_ip = "5.6.7.8" ∧
     ((exampleReplyPacket.proto = IPPROTO_UDP ∨ exampleReplyPacket.proto = IPPROTO_TCP ∨
        exampleReplyPacket.proto = IPPROTO_SCTP) →
      (JsonAddrInfoInit exampleExternals exampleReplyPacket .LOG_DIR_FLOW_TOSERVER
          json_addr_info_zero).sp = 1111 ∧
      (JsonAddrInfoInit exampleExternals exampleReplyPacket .LOG_DIR_FLOW_TOSERVER
          json_addr_info_zero).dp = 80)) ∧
    JsonAddrInfoInit exampleExternals exampleReplyPacket .LOG_DIR_FLOW_TOSERVER
        json_addr_info_zero
      = { src_ip := "1.2.3.4", dst_ip := "5.6.7.8", sp := 1111, dp := 80, proto := "TCP" } :=
  ⟨by decide, by decide, fun af mem => PrintInetText_length af mem 46 (by norm_num),
    by decide,
    (flow_direction_tuple exampleExternals exampleReplyPacket .LOG_DIR_FLOW_TOSERVER
      json_addr_info_zero (by decide) (by decide)
      (fun af mem => PrintInetText_length af mem 46 (by norm_num))).2 (by decide),
    by decide⟩

/-! ## Properties: the header block by block -/

theorem keys_flowIdFields (x : Externals) (f : Option Flow) (k : String) (v : Json)
    (h1 : k ≠ "flow_id") (h2 : k ≠ "parent_id") : (k, v) ∉ flowIdFields x f := by
  cases f with
  | none => simp [flowIdFields]
  | some f =>
      simp only [flowIdFields]
      split <;> simp [h1, h2]

theorem keys_vlanFields (p : Packet) (k : String) (v : Json) (h : k ≠ "vlan") :
    (k, v) ∉ vlanFields p := by
  unfold vlanFields
  split <;> simp [h]

theorem keys_icmpFields (p : Packet) (k : String) (v : Json) (h1 : k ≠ "icmp_type")
    (h2 : k ≠ "icmp_code") : (k, v) ∉ icmpFields p := by
  unfold icmpFields
  split
  · split <;> simp [h1, h2]
  · split
    · split <;> simp [h1, h2]
    · simp

theorem keys_iface (o : Option String) (k : String) (v : Json) (h : k ≠ "in_iface") :
    (k, v) ∉ (match o with
          | some dev => [("in_iface", Json.str dev)]
          | none => []) := by
  cases o <;> simp [h]

theorem keys_event_type (o : Option String) (k : String) (v : Json) (h : k ≠ "event_type") :
    (k, v) ∉ (match o with
          | some t => [("event_type", Json.str t)]
          | none => []) := by
  cases o <;> simp [h]

theorem jb_set_root (ms : List (String × Json)) (key : String) (v : Json) :
    jb_set { stack := [(none, .object ms)], value := none } key v
      = { stack := [(none, .object (setMember ms key v))], value := none } := rfl

/-- Setting a key the root object does not have adds the member at the end. -/
theorem jb_set_root_fresh (ms : List (String × Json)) (key : String) (v : Json)
    (h : key ∉ ms.map Prod.fst) :
    jb_set { stack := [(none, .object ms)], value := none } key v
      = { stack := [(none, .object (ms ++ [(key, v)]))], value := none } := by
  rw [jb_set_root, setMember_fresh]
  intro kv hkv hk
  exact h (List.mem_map.mpr ⟨kv, hkv, hk⟩)

theorem CreateEveFlowId_root (x : Externals) (ms : List (String × Json)) (f : Option Flow)
    (h1 : "flow_id" ∉ ms.map Prod.fst) (h2 : "parent_id" ∉ ms.map Prod.fst) :
    CreateEveFlowId x { stack := [(none, .object ms)], value := none } f
      = { stack := [(none, .object (ms ++ flowIdFields x f))], value := none } := by
  cases f with
  | none => simp [CreateEveFlowId, flowIdFields]
  | some f =>
      simp only [CreateEveFlowId, flowIdFields, jb_set_uint]
      rw [jb_set_root_fresh ms _ _ h1]
      split
      · rw [jb_set_root_fresh _ _ _ (by simp [h2])]
        simp
      · simp

theorem eveSensorBlock_root (sensor_id : Int) (ms : List (String × Json))
    (h : "sensor_id" ∉ ms.map Prod.fst) :
    eveSensorBlock sensor_id { stack := [(none, .object ms)], value := none }
      = { stack := [(none, .object (ms ++
            (if sensor_id ≥ 0 then [("sensor_id", .int (toUint64 sensor_id))] else [])))],
          value := none } := by
  unfold eveSensorBlock
  split
  · rw [jb_set_uint, jb_set_root_fresh ms _ _ h]
  · simp

theorem eveIfaceBlock_root (p : Packet) (ms : List (String × Json))
    (h : "in_iface" ∉ ms.map Prod.fst) :
    eveIfaceBlock p { stack := [(none, .object ms)], value := none }
      = { stack := [(none, .object (ms ++
            (match p.livedev with
              | some dev => [("in_iface", .str dev)]
              | none => [])))],
          value := none } := by
  unfold eveIfaceBlock
  split
  · rw [jb_set_string, jb_set_root_fresh ms _ _ h]
  · simp

theorem evePcapCntBlock_root (p : Packet) (ms : List (String × Json))
    (h : "pcap_cnt" ∉ ms.map Prod.fst) :
    evePcapCntBlock p { stack := [(none, .object ms)], value := none }
      = { stack := [(none, .object (ms ++
            (if p.pcap_cnt ≠ 0 then [("pcap_cnt", .int p.pcap_cnt)] else [])))],
          value := none } := by
  unfold evePcapCntBlock
  split
  · rw [jb_set_uint, jb_set_root_fresh ms _ _ h]
  · simp

theorem eveEventTypeBlock_root (event_type : Option String) (ms : List (String × Json))
    (h : "event_type" ∉ ms.map Prod.fst) :
    eveEventTypeBlock event_type { stack := [(none, .object ms)], value := none }
      = { stack := [(none, .object (ms ++
            (match event_type with
              | some t => [("event_type", .str t)]
              | none => [])))],
          value := none } := by
  unfold eveEventTypeBlock
  split
  · rw [jb_set_string, jb_set_root_fresh ms _ _ h]
  · simp

/-- Closing an array that was opened in the root object under a key the object
does not have adds the array at the end. -/
theorem jb_close_array_fresh (ms : List (String × Json)) (key : String) (items : List Json)
    (h : key ∉ ms.map Prod.fst) :
    jb_close { stack := [(some key, .array items), (none, .object ms)], value := none }
      = { stack := [(none, .object (ms ++ [(key, .arr items)]))], value := none } := by
  have hf : setMember ms key (.arr items) = ms ++ [(key, .arr items)] := by
    apply setMember_fresh
    intro kv hkv hk
    exact h (List.mem_map.mpr ⟨kv, hkv, hk⟩)
  simp only [jb_close, JbContainer.toJson, hf]

theorem eveVlanBlock_root (p : Packet) (ms : List (String × Json))
    (h : "vlan" ∉ ms.map Prod.fst) :
    eveVlanBlock p { stack := [(none, .object ms)], value := none }
      = { stack := [(none, .object (ms ++ vlanFields p))], value := none } := by
  unfold eveVlanBlock vlanFields
  split
  · split
    · exact jb_close_array_fresh ms "vlan" _ h
    · exact jb_close_array_fresh ms "vlan" _ h
  · simp

theorem eveTupleBlock_root (addr : JsonAddrInfo) (ms : List (String × Json))
    (h1 : "src_ip" ∉ ms.map Prod.fst) (h2 : "src_port" ∉ ms.map Prod.fst)
    (h3 : "dest_ip" ∉ ms.map Prod.fst) (h4 : "dest_port" ∉ ms.map Prod.fst)
    (h5 : "proto" ∉ ms.map Prod.fst) :
    eveTupleBlock addr { stack := [(none, .object ms)], value := none }
      = { stack := [(none, .object (ms ++
            [("src_ip", .str addr.src_ip), ("src_port", .int addr.sp),
             ("dest_ip", .str addr.dst_ip), ("dest_port", .int addr.dp),
             ("proto", .str addr.proto)]))],
          value := none } := by
  simp only [eveTupleBlock, jb_set_string, jb_set_uint]
  rw [jb_set_root_fresh ms _ _ h1,
    jb_set_root_fresh _ _ _ (by simp [h2]),
    jb_set_root_fresh _ _ _ (by simp [h3]),
    jb_set_root_fresh _ _ _ (by simp [h4]),
    jb_set_root_fresh _ _ _ (by simp [h5])]
  simp

theorem eveIcmpBlock_root (p : Packet) (ms : List (String × Json))
    (h1 : "icmp_type" ∉ ms.map Prod.fst) (h2 : "icmp_code" ∉ ms.map Prod.fst) :
    eveIcmpBlock p { stack := [(none, .object ms)], value := none }
      = { stack := [(none, .object (ms ++ icmpFields p))], value := none } := by
  have hset : ∀ a b : Nat,
      jb_set_uint (jb_set_uint { stack := [(none, .object ms)], value := none }
          "icmp_type" a) "icmp_code" b
        = { stack := [(none, .object (ms ++ [("icmp_type", .int a), ("icmp_code", .int b)]))],
            value := none } := by
    intro a b
    rw [jb_set_uint, jb_set_uint, jb_set_root_fresh ms _ _ h1,
      jb_set_root_fresh _ _ _ (by simp [h2])]
    simp
  unfold eveIcmpBlock icmpFields
  split
  · split
    · simp only [hset]
    · simp
  · split
    · split
      · simp only [hset]
      · simp
    · simp

/-- The builder CreateEveHeader returns is inside its root object, whose
members are the header members in the order written out in headerFields: every
key is new when it is set. -/
theorem CreateEveHeader_eq (x : Externals) (sensor_id : Int) (p : Packet)
    (dir : OutputJsonLogDirection) (event_type : Option String) (addr : Option JsonAddrInfo) :
    CreateEveHeader x sensor_id p dir event_type addr
      = { stack := [(none, .object (headerFields x sensor_id (toUint64 sensor_id) p.pcap_cnt p
            event_type (headerAddrInfo x p dir addr)))],
          value := none } := by
  have hblocks : CreateEveHeader x sensor_id p dir event_type addr
      = eveIcmpBlock p (eveTupleBlock (headerAddrInfo x p dir addr) (eveVlanBlock p
          (eveEventTypeBlock event_type (evePcapCntBlock p (eveIfaceBlock p
            (eveSensorBlock sensor_id (CreateEveFlowId x
              (jb_set_string jb_new_object "timestamp" (x.CreateIsoTimeString p.ts 64))
              p.flow))))))) := rfl
  have h0 : jb_set_string jb_new_object "timestamp" (x.CreateIsoTimeString p.ts 64)
      = { stack := [(none, .object [("timestamp", .str (x.CreateIsoTimeString p.ts 64))])],
          value := none } := rfl
  rw [hblocks, h0, CreateEveFlowId_root, eveSensorBlock_root, eveIfaceBlock_root,
    evePcapCntBlock_root, eveEventTypeBlock_root, eveVlanBlock_root, eveTupleBlock_root,
    eveIcmpBlock_root]
  · rfl
  all_goals
    simp [keys_flowIdFields, keys_vlanFields, keys_icmpFields, keys_iface, keys_event_type]

theorem json_object_set_new_obj (ms : List (String × Json)) (k : String) (v : Json)
    (h : k ∉ ms.map Prod.fst) : json_object_set_new (.obj ms) k v = .obj (ms ++ [(k, v)]) := by
  apply json_object_set_new_fresh
  intro kv hkv hk
  exact h (List.mem_map.mpr ⟨kv, hkv, hk⟩)

theorem CreateJSONFlowId_obj (x : Externals) (ms : List (String × Json)) (f : Option Flow)
    (h1 : "flow_id" ∉ ms.map Prod.fst) (h2 : "parent_id" ∉ ms.map Prod.fst) :
    CreateJSONFlowId x (.obj ms) f = .obj (ms ++ flowIdFields x f) := by
  cases f with
  | none => simp [CreateJSONFlowId, flowIdFields]
  | some f =>
      simp only [CreateJSONFlowId, flowIdFields, json_integer]
      rw [json_object_set_new_obj ms _ _ h1]
      split
      · rw [json_object_set_new_obj _ _ _ (by simp [h2])]
        simp
      · simp

theorem jsonSensorBlock_obj (sensor_id : Int) (ms : List (String × Json))
    (h : "sensor_id" ∉ ms.map Prod.fst) :
    jsonSensorBlock sensor_id (.obj ms)
      = .obj (ms ++ (if sensor_id ≥ 0 then [("sensor_id", .int sensor_id)] else [])) := by
  unfold jsonSensorBlock
  split
  · rw [json_object_set_new_obj ms _ _ h]; rfl
  · simp

theorem jsonIfaceBlock_obj (p : Packet) (ms : List (String × Json))
    (h : "in_iface" ∉ ms.map Prod.fst) :
    jsonIfaceBlock p (.obj ms)
      = .obj (ms ++
          (match p.livedev with
            | some dev => [("in_iface", .str dev)]
            | none => [])) := by
  unfold jsonIfaceBlock
  split
  · rw [json_object_set_new_obj ms _ _ h]; rfl
  · simp

theorem jsonPcapCntBlock_obj (p : Packet) (ms : List (String × Json))
    (h : "pcap_cnt" ∉ ms.map Prod.fst) :
    jsonPcapCntBlock p (.obj ms)
      = .obj (ms ++ (if p.pcap_cnt ≠ 0 then [("pcap_cnt", .int (toInt64 p.pcap_cnt))] else [])) := by
  unfold jsonPcapCntBlock
  split
  · rw [json_object_set_new_obj ms _ _ h]; rfl
  · simp

theorem jsonEventTypeBlock_obj (event_type : Option String) (ms : List (String × Json))
    (h : "event_type" ∉ ms.map Prod.fst) :
    jsonEventTypeBlock event_type (.obj ms)
      = .obj (ms ++
          (match event_type with
            | some t => [("event_type", .str t)]
            | none => [])) := by
  unfold jsonEventTypeBlock
  split
  · rw [json_object_set_new_obj ms _ _ h]; rfl
  · simp

theorem jsonVlanBlock_obj (p : Packet) (ms : List (String × Json))
    (h : "vlan" ∉ ms.map Prod.fst) :
    jsonVlanBlock p (.obj ms) = .obj (ms ++ vlanFields p) := by
  unfold jsonVlanBlock vlanFields
  split
  · simp only []
    rw [json_object_set_new_obj ms _ _ h]
    split <;> rfl
  · simp

theorem jsonTupleBlock_obj (addr : JsonAddrInfo) (ms : List (String × Json))
    (h1 : "src_ip" ∉ ms.map Prod.fst) (h2 : "src_port" ∉ ms.map Prod.fst)
    (h3 : "dest_ip" ∉ ms.map Prod.fst) (h4 : "dest_port" ∉ ms.map Prod.fst)
    (h5 : "proto" ∉ ms.map Prod.fst) :
    jsonTupleBlock addr (.obj ms)
      = .obj (ms ++
          [("src_ip", .str addr.src_ip), ("src_port", .int addr.sp),
           ("dest_ip", .str addr.dst_ip), ("dest_port", .int addr.dp),
           ("proto", .str addr.proto)]) := by
  simp only [jsonTupleBlock, json_string, json_integer]
  rw [json_object_set_new_obj ms _ _ h1,
    json_object_set_new_obj _ _ _ (by simp [h2]),
    json_object_set_new_obj _ _ _ (by simp [h3]),
    json_object_set_new_obj _ _ _ (by simp [h4]),
    json_object_set_new_obj _ _ _ (by simp [h5])]
  simp

theorem jsonIcmpBlock_obj (p : Packet) (ms : List (String × Json))
    (h1 : "icmp_type" ∉ ms.map Prod.fst) (h2 : "icmp_code" ∉ ms.map Prod.fst) :
    jsonIcmpBlock p (.obj ms) = .obj (ms ++ icmpFields p) := by
  have hset : ∀ a b : Json,
      json_object_set_new (json_object_set_new (.obj ms) "icmp_type" a) "icmp_code" b
        = .obj (ms ++ [("icmp_type", a), ("icmp_code", b)]) := by
    intro a b
    rw [json_object_set_new_obj ms _ _ h1, json_object_set_new_obj _ _ _ (by simp [h2])]
    simp
  unfold jsonIcmpBlock icmpFields
  split
  · split
    · simp only [hset, json_integer]
    · simp
  · split
    · split
      · simp only [hset, json_integer]
      · simp
    · simp

/-- The object CreateJSONHeader returns has the header members in the order
written out in headerFields: every key is new when it is set. -/
theorem CreateJSONHeader_eq (x : Externals) (sensor_id : Int) (p : Packet)
    (dir : OutputJsonLogDirection) (event_type : Option String) (addr : Option JsonAddrInfo) :
    CreateJSONHeader x sensor_id p dir event_type addr
      = .obj (headerFields x sensor_id sensor_id (toInt64 p.pcap_cnt) p event_type
          (headerAddrInfo x p dir addr)) := by
  have hblocks : CreateJSONHeader x sensor_id p dir event_type addr
      = jsonIcmpBlock p (jsonTupleBlock (headerAddrInfo x p dir addr) (jsonVlanBlock p
          (jsonEventTypeBlock event_type (jsonPcapCntBlock p (jsonIfaceBlock p
            (jsonSensorBlock sensor_id (CreateJSONFlowId x
              (json_object_set_new json_object "timestamp"
                (json_string (x.CreateIsoTimeString p.ts 64)))
              p.flow))))))) := rfl
  have h0 : json_object_set_new json_object "timestamp"
      (json_string (x.CreateIsoTimeString p.ts 64))
        = .obj [("timestamp", .str (x.CreateIsoTimeString p.ts 64))] := rfl
  rw [hblocks, h0, CreateJSONFlowId_obj, jsonSensorBlock_obj, jsonIfaceBlock_obj,
    jsonPcapCntBlock_obj, jsonEventTypeBlock_obj, jsonVlanBlock_obj, jsonTupleBlock_obj,
    jsonIcmpBlock_obj]
  · rfl
  all_goals
    simp [keys_flowIdFields, keys_vlanFields, keys_icmpFields, keys_iface, keys_event_type]

/-! ## Properties: packets without an IP header, ports and protocol text -/

/-- For the as-captured direction a packet that is neither IPv4 nor IPv6
leaves the address info as it was given. -/
theorem JsonAddrInfoInit_packet_non_ip (x : Externals) (p : Packet) (addr : JsonAddrInfo)
    (h4 : p.PKT_IS_IPV4 = false) (h6 : p.PKT_IS_IPV6 = false) :
    JsonAddrInfoInit x p .LOG_DIR_PACKET addr = addr := by
  simp [JsonAddrInfoInit, JsonAddrInfoInit.resolve, h4, h6]

/-- C11. The ARP frame of the examples, which is neither IPv4 nor IPv6, resolved
into a zero-initialised address info: for the as-captured direction the address
info is left unchanged, but for each of the three flow directions the function
runs to its end and writes the protocol text 000, so the address info is no
longer the zero-initialised one. -/
theorem non_ip_packet_flow_direction_writes_proto :
    exampleArpPacket.PKT_IS_IPV4 = false ∧ exampleArpPacket.PKT_IS_IPV6 = false ∧
    JsonAddrInfoInit exampleExternals exampleArpPacket .LOG_DIR_PACKET json_addr_info_zero
      = json_addr_info_zero ∧
    JsonAddrInfoInit exampleExternals exampleArpPacket .LOG_DIR_FLOW json_addr_info_zero
      = { src_ip := "", dst_ip := "", sp := 0, dp := 0, proto := "000" } ∧
    JsonAddrInfoInit exampleExternals exampleArpPacket .LOG_DIR_FLOW_TOSERVER json_addr_info_zero
      = { src_ip := "", dst_ip := "", sp := 0, dp := 0, proto := "000" } ∧
    JsonAddrInfoInit exampleExternals exampleArpPacket .LOG_DIR_FLOW_TOCLIENT json_addr_info_zero
      = { src_ip := "", dst_ip := "", sp := 0, dp := 0, proto := "000" } ∧
    JsonAddrInfoInit exampleExternals exampleArpPacket .LOG_DIR_FLOW json_addr_info_zero
      ≠ json_addr_info_zero ∧
    JsonAddrInfoInit exampleExternals exampleArpPacket .LOG_DIR_FLOW exampleSuppliedTuple
      = { src_ip := "", dst_ip := "", sp := 4000, dp := 53, proto := "000" } := by
  decide

theorem JsonFiveTuple_resolve (x : Externals) (p : Packet) (dir : OutputJsonLogDirection) :
    JsonFiveTuple.resolve x p dir = JsonAddrInfoInit.resolve x p dir := rfl

theorem json_object_get_set (ms : List (String × Json)) (k k' : String) (v : Json) :
    json_object_get (json_object_set_new (.obj ms) k v) k'
      = if k' = k then some v else ms.lookup k' := by
  simp only [json_object_set_new, json_object_get, setMember_lookup]

/-- C12. For an IPv4 or IPv6 packet and every direction: when the protocol of
the packet is UDP, TCP or SCTP, JsonAddrInfoInit stores the two resolved ports
(the packet's own when it flows in the direction asked for, exchanged
otherwise) in sp and dp, and JsonFiveTuple sets the members src_port and
dest_port of the object to them; for every other protocol, ICMP included,
JsonAddrInfoInit leaves sp and dp as they were and JsonFiveTuple leaves the keys
src_port and dest_port of the object as they were, so absent from an object
that did not have them. -/
theorem ports_only_for_udp_tcp_sctp (x : Externals) (p : Packet) (dir : OutputJsonLogDirection)
    (addr : JsonAddrInfo) (ms : List (String × Json))
    (hip : p.PKT_IS_IPV4 = true ∨ p.PKT_IS_IPV6 = true) :
    (carriesPorts p.proto →
      (JsonAddrInfoInit x p dir addr).sp = (if p.flowsIn dir then p.sp else p.dp) ∧
      (JsonAddrInfoInit x p dir addr).dp = (if p.flowsIn dir then p.dp else p.sp) ∧
      json_object_get (JsonFiveTuple x p dir (.obj ms)) "src_port"
        = some (.int (if p.flowsIn dir then p.sp else p.dp)) ∧
      json_object_get (JsonFiveTuple x p dir (.obj ms)) "dest_port"
        = some (.int (if p.flowsIn dir then p.dp else p.sp))) ∧
    (¬ carriesPorts p.proto →
      (JsonAddrInfoInit x p dir addr).sp = addr.sp ∧
      (JsonAddrInfoInit x p dir addr).dp = addr.dp ∧
      json_object_get (JsonFiveTuple x p dir (.obj ms)) "src_port" = ms.lookup "src_port" ∧
      json_object_get (JsonFiveTuple x p dir (.obj ms)) "dest_port" = ms.lookup "dest_port") := by
  have hr := JsonAddrInfoInit.resolve_eq x p dir hip
  have hr2 := JsonFiveTuple_resolve x p dir
  rw [hr] at hr2
  constructor
  · intro hp
    have hp2 : p.proto = IPPROTO_UDP ∨ p.proto = IPPROTO_TCP ∨ p.proto = IPPROTO_SCTP := hp
    have h1 : p.proto ≠ IPPROTO_ICMP := by
      simp only [IPPROTO_UDP, IPPROTO_TCP, IPPROTO_SCTP, IPPROTO_ICMP] at *
      omega
    obtain ⟨_, _, h3⟩ := JsonAddrInfoInit.of_resolve x _ _ addr _ _ _ _ hr
    refine ⟨(h3 hp2).1, (h3 hp2).2, ?_, ?_⟩
    · simp only [JsonFiveTuple, hr2, h1, hp2, if_true, if_false, json_object_set_new,
        json_object_get, setMember_lookup, json_integer]
      simp
    · simp only [JsonFiveTuple, hr2, h1, hp2, if_true, if_false, json_object_set_new,
        json_object_get, setMember_lookup, json_integer]
      simp
  · intro hp
    have hp2 : ¬ (p.proto = IPPROTO_UDP ∨ p.proto = IPPROTO_TCP ∨ p.proto = IPPROTO_SCTP) := hp
    refine ⟨?_, ?_, ?_, ?_⟩
    · simp only [JsonAddrInfoInit, hr, hp2, if_false, ite_self]
    · simp only [JsonAddrInfoInit, hr, hp2, if_false, ite_self]
    · simp only [JsonFiveTuple, hr2, hp2, if_false, ite_self, json_object_set_new,
        json_object_get, setMember_lookup]
      simp
    · simp only [JsonFiveTuple, hr2, hp2, if_false, ite_self, json_object_set_new,
        json_object_get, setMember_lookup]
      simp

/-- C12, at the TCP reply packet of the examples resolved to-server (ports
1111 and 80 after the exchange) and at the ICMP echo request (no port key in a
fresh object, ports of the address info left at zero). -/
theorem ports_only_for_udp_tcp_sctp_witness :
    (exampleReplyPacket.PKT_IS_IPV4 = true ∨ exampleReplyPacket.PKT_IS_IPV6 = true) ∧
    carriesPorts exampleReplyPacket.proto ∧
    (JsonAddrInfoInit exampleExternals exampleReplyPacket .LOG_DIR_FLOW_TOSERVER
        json_addr_info_zero).sp = 1111 ∧
    (JsonAddrInfoInit exampleExternals exampleReplyPacket .LOG_DIR_FLOW_TOSERVER
        json_addr_info_zero).dp = 80 ∧
    json_object_get (JsonFiveTuple exampleExternals exampleReplyPacket .LOG_DIR_FLOW_TOSERVER
        (.obj [])) "src_port" = some (.int 1111) ∧
    json_object_get (JsonFiveTuple exampleExternals exampleReplyPacket .LOG_DIR_FLOW_TOSERVER
        (.obj [])) "dest_port" = some (.int 80) ∧
    (exampleEchoPacket.PKT_IS_IPV4 = true ∨ exampleEchoPacket.PKT_IS_IPV6 = true) ∧
    ¬ carriesPorts exampleEchoPacket.proto ∧
    (JsonAddrInfoInit exampleExternals exampleEchoPacket .LOG_DIR_PACKET
        json_addr_info_zero).sp = 0 ∧
    (JsonAddrInfoInit exampleExternals exampleEchoPacket .LOG_DIR_PACKET
        json_addr_info_zero).dp = 0 ∧
    json_object_get (JsonFiveTuple exampleExternals exampleEchoPacket .LOG_DIR_PACKET
        (.obj [])) "src_port" = none ∧
    json_object_get (JsonFiveTuple exampleExternals exampleEchoPacket .LOG_DIR_PACKET
        (.obj [])) "dest_port" = none := by
  have h1 := (ports_only_for_udp_tcp_sctp exampleExternals exampleReplyPacket
    .LOG_DIR_FLOW_TOSERVER json_addr_info_zero [] (by decide)).1 (by decide)
  have h2 := (ports_only_for_udp_tcp_sctp exampleExternals exampleEchoPacket
    .LOG_DIR_PACKET json_addr_info_zero [] (by decide)).2 (by decide)
  exact ⟨by decide, by decide, h1.1, h1.2.1, h1.2.2.1, h1.2.2.2, by decide, by decide,
    h2.1, h2.2.1, h2.2.2.1, h2.2.2.2⟩

/-- For every packet whose protocol is ICMP, the address info resolved from a
zero-initialised one keeps both ports at zero. -/
theorem JsonAddrInfoInit_icmp_ports (x : Externals) (p : Packet) (dir : OutputJsonLogDirection)
    (h : p.proto = IPPROTO_ICMP) :
    (JsonAddrInfoInit x p dir json_addr_info_zero).sp = 0 ∧
    (JsonAddrInfoInit x p dir json_addr_info_zero).dp = 0 := by
  unfold JsonAddrInfoInit
  split
  · exact ⟨rfl, rfl⟩
  · simp only [h, if_true]
    exact ⟨rfl, rfl⟩

/-- For every packet whose protocol is ICMP, the header CreateEveHeader builds
without a supplied tuple has the members src_port and dest_port, both 0. -/
theorem CreateEveHeader_icmp_ports (x : Externals) (sensor_id : Int) (p : Packet)
    (dir : OutputJsonLogDirection) (event_type : Option String) (h : p.proto = IPPROTO_ICMP) :
    ("src_port", Json.int 0) ∈ (CreateEveHeader x sensor_id p dir event_type none).members ∧
    ("dest_port", Json.int 0) ∈ (CreateEveHeader x sensor_id p dir event_type none).members := by
  obtain ⟨h1, h2⟩ := JsonAddrInfoInit_icmp_ports x p dir h
  rw [CreateEveHeader_eq]
  simp only [JsonBuilder.members, headerFields, headerAddrInfo, h1, h2]
  simp

/-- C13. The ICMP echo request of the examples, logged by CreateEveHeader and
by CreateJSONHeader with no pre-resolved tuple: the header has the members
src_port and dest_port, both with the value 0 of the zero-initialised address
info, between the addresses and the protocol text; JsonFiveTuple on the same
packet sets neither key. -/
theorem icmp_header_carries_zero_ports :
    exampleEchoPacket.proto = IPPROTO_ICMP ∧
    (CreateEveHeader exampleExternals (-1) exampleEchoPacket .LOG_DIR_PACKET (some "alert")
        none).keys
      = ["timestamp", "pcap_cnt", "event_type", "src_ip", "src_port", "dest_ip", "dest_port",
         "proto", "icmp_type", "icmp_code"] ∧
    (CreateEveHeader exampleExternals (-1) exampleEchoPacket .LOG_DIR_PACKET (some "alert")
        none).members.lookup "src_port" = some (.int 0) ∧
    (CreateEveHeader exampleExternals (-1) exampleEchoPacket .LOG_DIR_PACKET (some "alert")
        none).members.lookup "dest_port" = some (.int 0) ∧
    json_object_get (CreateJSONHeader exampleExternals (-1) exampleEchoPacket .LOG_DIR_PACKET
        (some "alert") none) "src_port" = some (.int 0) ∧
    json_object_get (CreateJSONHeader exampleExternals (-1) exampleEchoPacket .LOG_DIR_PACKET
        (some "alert") none) "dest_port" = some (.int 0) ∧
    (JsonFiveTuple exampleExternals exampleEchoPacket .LOG_DIR_PACKET json_object).members.map
        Prod.fst = ["src_ip", "dest_ip", "proto"] := by
  refine ⟨rfl, ?_, ?_, ?_, ?_, ?_, ?_⟩
  · decide
  · rfl
  · rfl
  · rfl
  · rfl
  · decide

set_option maxRecDepth 100000 in
theorem snprintf_03u_eq : ∀ n, n < 256 → snprintf_03u 16 n = threeDigitText n := by
  decide

theorem threeDigitText_length (n : Nat) : (threeDigitText n).length = 3 := rfl

/-- C14, as stated, at a table of protocol names that holds the name
core-based-trees-cbt, of 20 characters, for the protocol number 7: the protocol
text of an IPv4 packet with that protocol number is core-based-tree, the first
15 characters of the registered name, since the name is copied into the local
array proto of 16 bytes. -/
theorem proto_text_long_name_counterexample :
    exampleCbtPacket.PKT_IS_IPV4 = true ∧
    exampleLongNameExternals.known_proto exampleCbtPacket.IP_GET_IPPROTO
      = some "core-based-trees-cbt" ∧
    (JsonAddrInfoInit exampleLongNameExternals exampleCbtPacket .LOG_DIR_PACKET
        json_addr_info_zero).proto = "core-based-tree" ∧
    (JsonAddrInfoInit exampleLongNameExternals exampleCbtPacket .LOG_DIR_PACKET
        json_addr_info_zero).proto ≠ "core-based-trees-cbt" := by
  decide

/-- C14, amended. For an IPv4 or IPv6 packet and every direction, with a
protocol number below 256 and a protocol field of at least 16 bytes: the
protocol text JsonAddrInfoInit stores is the first 15 characters of the
registered name of the packet's IP protocol number when the table has one,
which is the whole name when the name is shorter than 16 characters, and
otherwise the number in decimal, zero-padded to exactly three digits. -/
theorem proto_text_name_cut_or_three_digits (x : Externals) (p : Packet)
    (dir : OutputJsonLogDirection) (addr : JsonAddrInfo)
    (hip : p.PKT_IS_IPV4 = true ∨ p.PKT_IS_IPV6 = true)
    (hn : p.IP_GET_IPPROTO < 256)
    (hlen : 16 ≤ x.JSON_PROTO_LEN) :
    (JsonAddrInfoInit x p dir addr).proto
      = (match x.known_proto p.IP_GET_IPPROTO with
          | some name => String.mk (name.toList.take 15)
          | none => threeDigitText p.IP_GET_IPPROTO) ∧
    (∀ name, x.known_proto p.IP_GET_IPPROTO = some name → name.length < 16 →
      (JsonAddrInfoInit x p dir addr).proto = name) ∧
    (x.known_proto p.IP_GET_IPPROTO = none →
      (JsonAddrInfoInit x p dir addr).proto.length = 3) := by
  have hr := JsonAddrInfoInit.resolve_eq x p dir hip
  have hproto : (JsonAddrInfoInit x p dir addr).proto
      = strlcpy addr.proto
          (match x.known_proto p.IP_GET_IPPROTO with
            | some name => strlcpy "" name 16
            | none => snprintf_03u 16 p.IP_GET_IPPROTO) x.JSON_PROTO_LEN := by
    simp only [JsonAddrInfoInit, hr]
    split_ifs <;> rfl
  rw [hproto]
  cases hk : x.known_proto p.IP_GET_IPPROTO with
  | none =>
      simp only [snprintf_03u_eq _ hn]
      rw [strlcpy_fits _ _ _ 16 hlen (by norm_num) (by rw [threeDigitText_length]; norm_num)]
      exact ⟨rfl, fun _ h => (by cases h), fun _ => rfl⟩
  | some name =>
      simp only []
      rw [strlcpy_fits _ _ _ 16 hlen (by norm_num) (strlcpy_length_lt "" name 16 (by norm_num))]
      refine ⟨rfl, ?_, fun h => (by cases h)⟩
      intro name2 h2 hl
      cases h2
      exact strlcpy_fits _ _ _ 16 (le_refl 16) (by norm_num) hl

/-- C14, amended, at the examples of the specification: protocol number 7,
which has no registered name in the table of the examples, gives 007, number
253 gives 253, number 6 gives its registered name TCP, and the registered name
core-based-trees-cbt gives core-based-tree. -/
theorem proto_text_name_cut_or_three_digits_witness :
    (exampleCbtPacket.PKT_IS_IPV4 = true ∨ exampleCbtPacket.PKT_IS_IPV6 = true) ∧
    exampleCbtPacket.IP_GET_IPPROTO < 256 ∧
    16 ≤ exampleExternals.JSON_PROTO_LEN ∧
    (JsonAddrInfoInit exampleExternals exampleCbtPacket .LOG_DIR_PACKET
        json_addr_info_zero).proto = "007" ∧
    (JsonAddrInfoInit exampleExternals { exampleCbtPacket with IP_GET_IPPROTO := 253 }
        .LOG_DIR_PACKET json_addr_info_zero).proto = "253" ∧
    (JsonAddrInfoInit exampleExternals exampleReplyPacket .LOG_DIR_PACKET
        json_addr_info_zero).proto = "TCP" ∧
    (JsonAddrInfoInit exampleLongNameExternals exampleCbtPacket .LOG_DIR_PACKET
        json_addr_info_zero).proto = "core-based-tree" :=
  ⟨by decide, by decide, by decide,
    (proto_text_name_cut_or_three_digits exampleExternals exampleCbtPacket .LOG_DIR_PACKET
      json_addr_info_zero (by decide) (by decide) (by decide)).1,
    (proto_text_name_cut_or_three_digits exampleExternals
      { exampleCbtPacket with IP_GET_IPPROTO := 253 } .LOG_DIR_PACKET
      json_addr_info_zero (by decide) (by decide) (by decide)).1,
    (proto_text_name_cut_or_three_digits exampleExternals exampleReplyPacket .LOG_DIR_PACKET
      json_addr_info_zero (by decide) (by decide) (by decide)).1,
    (proto_text_name_cut_or_three_digits exampleLongNameExternals exampleCbtPacket
      .LOG_DIR_PACKET json_addr_info_zero (by decide) (by decide) (by decide)).1⟩

/-! ## Properties: members of the event header -/

/-- The members of the root object of the builder CreateEveHeader returns. -/
theorem CreateEveHeader_members (x : Externals) (sensor_id : Int) (p : Packet)
    (dir : OutputJsonLogDirection) (event_type : Option String) (addr : Option JsonAddrInfo) :
    (CreateEveHeader x sensor_id p dir event_type addr).members
      = headerFields x sensor_id (toUint64 sensor_id) p.pcap_cnt p event_type
          (headerAddrInfo x p dir addr) := by
  rw [CreateEveHeader_eq]
  rfl

/-- The members of the object CreateJSONHeader returns. -/
theorem CreateJSONHeader_members (x : Externals) (sensor_id : Int) (p : Packet)
    (dir : OutputJsonLogDirection) (event_type : Option String) (addr : Option JsonAddrInfo) :
    (CreateJSONHeader x sensor_id p dir event_type addr).members
      = headerFields x sensor_id sensor_id (toInt64 p.pcap_cnt) p event_type
          (headerAddrInfo x p dir addr) := by
  rw [CreateJSONHeader_eq]
  rfl

theorem mem_flowIdFields_flow_id (x : Externals) (f : Option Flow) (v : Json) :
    ("flow_id", v) ∈ flowIdFields x f ↔ ∃ fl, f = some fl ∧ v = .int (x.FlowGetId fl) := by
  cases f with
  | none => simp [flowIdFields]
  | some fl =>
      simp only [flowIdFields]
      split <;> simp

theorem mem_flowIdFields_parent_id (x : Externals) (f : Option Flow) (v : Json) :
    ("parent_id", v) ∈ flowIdFields x f
      ↔ ∃ fl, f = some fl ∧ fl.parent_id ≠ 0 ∧ v = .int fl.parent_id := by
  cases f with
  | none => simp [flowIdFields]
  | some fl =>
      simp only [flowIdFields]
      split <;> simp_all

theorem mem_headerFields_flow_id (x : Externals) (sensor_id sv pv : Int) (p : Packet)
    (event_type : Option String) (addr : JsonAddrInfo) (v : Json) :
    ("flow_id", v) ∈ headerFields x sensor_id sv pv p event_type addr
      ↔ ∃ fl, p.flow = some fl ∧ v = .int (x.FlowGetId fl) := by
  simp [headerFields, keys_vlanFields, keys_icmpFields, keys_iface, keys_event_type,
    mem_flowIdFields_flow_id]

theorem mem_headerFields_parent_id (x : Externals) (sensor_id sv pv : Int) (p : Packet)
    (event_type : Option String) (addr : JsonAddrInfo) (v : Json) :
    ("parent_id", v) ∈ headerFields x sensor_id sv pv p event_type addr
      ↔ ∃ fl, p.flow = some fl ∧ fl.parent_id ≠ 0 ∧ v = .int fl.parent_id := by
  simp [headerFields, keys_vlanFields, keys_icmpFields, keys_iface, keys_event_type,
    mem_flowIdFields_parent_id]

/-- C15. For every packet, both header builders (CreateEveHeader and
CreateJSONHeader): the header has a member flow_id exactly when the packet has
a flow, with the identity of that flow as its value, and a member parent_id
exactly when the packet has a flow whose parent id is non-zero, with that
parent id as its value; no header has a member parent_id with the value 0. -/
theorem header_flow_id_and_parent_id (x : Externals) (sensor_id : Int) (p : Packet)
    (dir : OutputJsonLogDirection) (event_type : Option String) (addr : Option JsonAddrInfo) :
    (∀ v, ("flow_id", v) ∈ (CreateEveHeader x sensor_id p dir event_type addr).members
      ↔ ∃ fl, p.flow = some fl ∧ v = .int (x.FlowGetId fl)) ∧
    (∀ v, ("parent_id", v) ∈ (CreateEveHeader x sensor_id p dir event_type addr).members
      ↔ ∃ fl, p.flow = some fl ∧ fl.parent_id ≠ 0 ∧ v = .int fl.parent_id) ∧
    ("parent_id", Json.int 0) ∉ (CreateEveHeader x sensor_id p dir event_type addr).members ∧
    (∀ v, ("flow_id", v) ∈ (CreateJSONHeader x sensor_id p dir event_type addr).members
      ↔ ∃ fl, p.flow = some fl ∧ v = .int (x.FlowGetId fl)) ∧
    (∀ v, ("parent_id", v) ∈ (CreateJSONHeader x sensor_id p dir event_type addr).members
      ↔ ∃ fl, p.flow = some fl ∧ fl.parent_id ≠ 0 ∧ v = .int fl.parent_id) ∧
    ("parent_id", Json.int 0) ∉ (CreateJSONHeader x sensor_id p dir event_type addr).members := by
  have hzero : ∀ fl : Flow, ¬ (p.flow = some fl ∧ fl.parent_id ≠ 0 ∧
      Json.int 0 = Json.int fl.parent_id) := by
    rintro fl ⟨_, h0, heq⟩
    injection heq with heq
    exact h0 (by exact_mod_cast heq.symm)
  rw [CreateEveHeader_members, CreateJSONHeader_members]
  refine ⟨fun v => mem_headerFields_flow_id .., fun v => mem_headerFields_parent_id .., ?_,
    fun v => mem_headerFields_flow_id .., fun v => mem_headerFields_parent_id .., ?_⟩
  · rw [mem_headerFields_parent_id]
    rintro ⟨fl, h⟩
    exact hzero fl h
  · rw [mem_headerFields_parent_id]
    rintro ⟨fl, h⟩
    exact hzero fl h

/-- C15, at the tagged packet of the examples, whose flow has parent id 9, and
at the echo request, which has no flow. -/
theorem header_flow_id_and_parent_id_witness :
    (CreateEveHeader exampleExternals (-1) exampleTaggedPacket .LOG_DIR_PACKET (some "alert")
        none).members.lookup "flow_id" = some (.int 72810576) ∧
    (CreateEveHeader exampleExternals (-1) exampleTaggedPacket .LOG_DIR_PACKET (some "alert")
        none).members.lookup "parent_id" = some (.int 9) ∧
    (CreateEveHeader exampleExternals (-1) exampleEchoPacket .LOG_DIR_PACKET (some "alert")
        none).members.lookup "flow_id" = none ∧
    ("parent_id", Json.int 0) ∉ (CreateEveHeader exampleExternals (-1) exampleTaggedPacket
        .LOG_DIR_PACKET (some "alert") none).members :=
  ⟨rfl, rfl, rfl,
    (header_flow_id_and_parent_id exampleExternals (-1) exampleTaggedPacket .LOG_DIR_PACKET
      (some "alert") none).2.2.1⟩

theorem toUint64_of_nonneg (i : Int) (h0 : 0 ≤ i) (h1 : i < 9223372036854775808) :
    ((toUint64 i : Nat) : Int) = i := by
  unfold toUint64
  have hmod : i % 18446744073709551616 = i := Int.emod_eq_of_lt h0 (by omega)
  rw [hmod]
  exact Int.toNat_of_nonneg h0

/-- C16. For every packet, event-type argument and sensor id (a signed 64-bit
value), the header CreateEveHeader builds has a member sensor_id exactly when
the sensor id is not negative, with the sensor id as its value; a member
pcap_cnt exactly when the packet's pcap_cnt is not zero, with that count as its
value; and a member event_type exactly when the caller passed a label, with the
label as its value. -/
theorem header_sensor_id_pcap_cnt_event_type (x : Externals) (sensor_id : Int) (p : Packet)
    (dir : OutputJsonLogDirection) (event_type : Option String) (addr : Option JsonAddrInfo)
    (hs : sensor_id < 9223372036854775808) :
    (∀ v, ("sensor_id", v) ∈ (CreateEveHeader x sensor_id p dir event_type addr).members
      ↔ 0 ≤ sensor_id ∧ v = .int sensor_id) ∧
    (∀ v, ("pcap_cnt", v) ∈ (CreateEveHeader x sensor_id p dir event_type addr).members
      ↔ p.pcap_cnt ≠ 0 ∧ v = .int p.pcap_cnt) ∧
    (∀ v, ("event_type", v) ∈ (CreateEveHeader x sensor_id p dir event_type addr).members
      ↔ ∃ t, event_type = some t ∧ v = .str t) := by
  rw [CreateEveHeader_members]
  refine ⟨fun v => ?_, fun v => ?_, fun v => ?_⟩
  · simp only [headerFields, List.mem_append, List.mem_cons, List.mem_singleton,
      List.not_mem_nil, Prod.mk.injEq, keys_flowIdFields, keys_vlanFields, keys_icmpFields,
      keys_iface, keys_event_type, List.mem_ite_nil_right, ne_eq, String.reduceEq,
      not_false_eq_true, false_and, and_false, or_false, false_or, true_and, ge_iff_le]
    constructor
    · rintro ⟨h0, hv⟩
      rw [toUint64_of_nonneg sensor_id h0 hs] at hv
      exact ⟨h0, hv⟩
    · rintro ⟨h0, hv⟩
      rw [toUint64_of_nonneg sensor_id h0 hs]
      exact ⟨h0, hv⟩
  · simp [headerFields, keys_flowIdFields, keys_vlanFields, keys_icmpFields, keys_iface,
      keys_event_type]
  · cases event_type <;>
      simp [headerFields, keys_flowIdFields, keys_vlanFields, keys_icmpFields, keys_iface]

/-- C16, at the tagged packet of the examples (packet 7 of its capture) logged
as an alert by sensor 12, and at the same packet with pcap_cnt 0 logged without
a label and without a sensor id. -/
theorem header_sensor_id_pcap_cnt_event_type_witness :
    (12 : Int) < 9223372036854775808 ∧
    ("sensor_id", Json.int 12) ∈ (CreateEveHeader exampleExternals 12 exampleTaggedPacket
        .LOG_DIR_PACKET (some "alert") none).members ∧
    ("pcap_cnt", Json.int 7) ∈ (CreateEveHeader exampleExternals 12 exampleTaggedPacket
        .LOG_DIR_PACKET (some "alert") none).members ∧
    ("event_type", Json.str "alert") ∈ (CreateEveHeader exampleExternals 12 exampleTaggedPacket
        .LOG_DIR_PACKET (some "alert") none).members ∧
    (CreateEveHeader exampleExternals (-1) { exampleTaggedPacket with pcap_cnt := 0 }
        .LOG_DIR_PACKET none none).keys
      = ["timestamp", "flow_id", "parent_id", "in_iface", "vlan", "src_ip", "src_port",
         "dest_ip", "dest_port", "proto"] := by
  have h := header_sensor_id_pcap_cnt_event_type exampleExternals 12 exampleTaggedPacket
    .LOG_DIR_PACKET (some "alert") none (by norm_num)
  exact ⟨by norm_num, (h.1 _).mpr ⟨by norm_num, rfl⟩, (h.2.1 _).mpr ⟨by decide, rfl⟩,
    (h.2.2 _).mpr ⟨"alert", rfl, rfl⟩, by decide⟩

theorem mem_vlanFields (p : Packet) (v : Json) :
    ("vlan", v) ∈ vlanFields p
      ↔ p.vlan_idx > 0 ∧
        v = .arr (if p.vlan_idx = 1 then [.int p.vlan_id.1]
                  else [.int p.vlan_id.1, .int p.vlan_id.2]) := by
  unfold vlanFields
  by_cases h0 : p.vlan_idx > 0
  · by_cases h1 : p.vlan_idx > 1
    · have h2 : p.vlan_idx ≠ 1 := by omega
      simp [h0, h1, h2]
    · have h2 : p.vlan_idx = 1 := by omega
      simp [h2]
  · simp [h0]

theorem mem_headerFields_vlan (x : Externals) (sensor_id sv pv : Int) (p : Packet)
    (event_type : Option String) (addr : JsonAddrInfo) (v : Json) :
    ("vlan", v) ∈ headerFields x sensor_id sv pv p event_type addr
      ↔ p.vlan_idx > 0 ∧
        v = .arr (if p.vlan_idx = 1 then [.int p.vlan_id.1]
                  else [.int p.vlan_id.1, .int p.vlan_id.2]) := by
  simp only [headerFields, List.mem_append, List.mem_cons, List.mem_singleton,
    List.not_mem_nil, Prod.mk.injEq, keys_flowIdFields, keys_icmpFields,
    keys_iface, keys_event_type, List.mem_ite_nil_right, ne_eq, String.reduceEq,
    not_false_eq_true, false_and, and_false, or_false, false_or, mem_vlanFields]

/-- C17. For every packet, both header builders: the header has a member vlan
exactly when the packet has at least one VLAN tag (vlan_idx above 0); its value
is then the array holding the outer tag alone when the packet has one tag and
the array holding the outer tag followed by the inner tag when it has more, so
an array of one or of two numbers. -/
theorem header_vlan_array (x : Externals) (sensor_id : Int) (p : Packet)
    (dir : OutputJsonLogDirection) (event_type : Option String) (addr : Option JsonAddrInfo) :
    (∀ v, ("vlan", v) ∈ (CreateEveHeader x sensor_id p dir event_type addr).members
      ↔ p.vlan_idx > 0 ∧
        v = .arr (if p.vlan_idx = 1 then [.int p.vlan_id.1]
                  else [.int p.vlan_id.1, .int p.vlan_id.2])) ∧
    (∀ v, ("vlan", v) ∈ (CreateJSONHeader x sensor_id p dir event_type addr).members
      ↔ p.vlan_idx > 0 ∧
        v = .arr (if p.vlan_idx = 1 then [.int p.vlan_id.1]
                  else [.int p.vlan_id.1, .int p.vlan_id.2])) ∧
    (∀ items, ("vlan", Json.arr items) ∈
        (CreateEveHeader x sensor_id p dir event_type addr).members →
      items.length = 1 ∨ items.length = 2) := by
  rw [CreateEveHeader_members, CreateJSONHeader_members]
  refine ⟨fun v => mem_headerFields_vlan .., fun v => mem_headerFields_vlan .., ?_⟩
  intro items h
  rw [mem_headerFields_vlan] at h
  obtain ⟨_, hv⟩ := h
  injection hv with hv
  rw [hv]
  split
  · left; rfl
  · right; rfl

/-- C17, at the tagged packet of the examples (outer tag 100, inner tag 200),
at the same packet with one tag, and at the same packet without a tag. -/
theorem header_vlan_array_witness :
    (CreateEveHeader exampleExternals (-1) exampleTaggedPacket .LOG_DIR_PACKET (some "alert")
        none).members.lookup "vlan" = some (.arr [.int 100, .int 200]) ∧
    (CreateEveHeader exampleExternals (-1) { exampleTaggedPacket with vlan_idx := 1 }
        .LOG_DIR_PACKET (some "alert") none).members.lookup "vlan" = some (.arr [.int 100]) ∧
    (CreateEveHeader exampleExternals (-1) { exampleTaggedPacket with vlan_idx := 0 }
        .LOG_DIR_PACKET (some "alert") none).members.lookup "vlan" = none ∧
    ("vlan", Json.arr [.int 100, .int 200]) ∈ (CreateJSONHeader exampleExternals (-1)
        exampleTaggedPacket .LOG_DIR_PACKET (some "alert") none).members :=
  ⟨rfl, rfl, rfl,
    ((header_vlan_array exampleExternals (-1) exampleTaggedPacket .LOG_DIR_PACKET
      (some "alert") none).2.1 _).mpr ⟨by decide, rfl⟩⟩

theorem mem_headerFields_tuple (x : Externals) (sensor_id sv pv : Int) (p : Packet)
    (event_type : Option String) (a : JsonAddrInfo) (k : String) (v : Json)
    (hk : k ∈ ["src_ip", "src_port", "dest_ip", "dest_port", "proto"]) :
    (k, v) ∈ headerFields x sensor_id sv pv p event_type a
      ↔ (k, v) ∈ [("src_ip", Json.str a.src_ip), ("src_port", Json.int a.sp),
          ("dest_ip", Json.str a.dst_ip), ("dest_port", Json.int a.dp),
          ("proto", Json.str a.proto)] := by
  simp only [List.mem_cons, List.mem_singleton, List.not_mem_nil, or_false] at hk
  rcases hk with h | h | h | h | h <;> subst h <;>
    simp [headerFields, keys_flowIdFields, keys_vlanFields, keys_icmpFields, keys_iface,
      keys_event_type]

/-- C18. For every packet, direction and event type: when the caller supplies a
pre-resolved tuple, the members src_ip, src_port, dest_ip, dest_port and proto
of the header CreateEveHeader builds are the fields of the supplied tuple, and
the whole header is the same for every direction argument and for every
addresses, ports and direction flags of the packet; when no tuple is supplied
they are the fields JsonAddrInfoInit resolves from the packet and the direction
into a zero-initialised address info. -/
theorem header_supplied_tuple_takes_precedence (x : Externals) (sensor_id : Int) (p : Packet)
    (dir : OutputJsonLogDirection) (event_type : Option String) (a : JsonAddrInfo) :
    (∀ k v, k ∈ ["src_ip", "src_port", "dest_ip", "dest_port", "proto"] →
      ((k, v) ∈ (CreateEveHeader x sensor_id p dir event_type (some a)).members
        ↔ (k, v) ∈ [("src_ip", Json.str a.src_ip), ("src_port", Json.int a.sp),
            ("dest_ip", Json.str a.dst_ip), ("dest_port", Json.int a.dp),
            ("proto", Json.str a.proto)])) ∧
    (∀ (dir2 : OutputJsonLogDirection) (src dst : Address) (sp dp : Nat)
        (toserver toclient : Bool),
      CreateEveHeader x sensor_id
          { p with src := src, dst := dst, sp := sp, dp := dp, PKT_IS_TOSERVER := toserver,
                   PKT_IS_TOCLIENT := toclient } dir2 event_type (some a)
        = CreateEveHeader x sensor_id p dir event_type (some a)) ∧
    (∀ k v, k ∈ ["src_ip", "src_port", "dest_ip", "dest_port", "proto"] →
      ((k, v) ∈ (CreateEveHeader x sensor_id p dir event_type none).members
        ↔ (k, v) ∈ [("src_ip", Json.str (JsonAddrInfoInit x p dir json_addr_info_zero).src_ip),
            ("src_port", Json.int (JsonAddrInfoInit x p dir json_addr_info_zero).sp),
            ("dest_ip", Json.str (JsonAddrInfoInit x p dir json_addr_info_zero).dst_ip),
            ("dest_port", Json.int (JsonAddrInfoInit x p dir json_addr_info_zero).dp),
            ("proto", Json.str (JsonAddrInfoInit x p dir json_addr_info_zero).proto)])) := by
  refine ⟨fun k v hk => ?_, fun dir2 src dst sp dp toserver toclient => ?_, fun k v hk => ?_⟩
  · rw [CreateEveHeader_members]
    exact mem_headerFields_tuple _ _ _ _ _ _ _ k v hk
  · rfl
  · rw [CreateEveHeader_members]
    exact mem_headerFields_tuple _ _ _ _ _ _ _ k v hk

/-- C18, at the reply packet of the examples (5.6.7.8 port 80 to 1.2.3.4 port
1111) logged with the supplied tuple 192.0.2.1 port 4000 to 192.0.2.2 port 53,
UDP: the header has the supplied fields, for the as-captured direction as for
the to-server direction. -/
theorem header_supplied_tuple_takes_precedence_witness :
    ("src_ip", Json.str "192.0.2.1") ∈ (CreateEveHeader exampleExternals (-1)
        exampleReplyPacket .LOG_DIR_PACKET (some "dns") (some exampleSuppliedTuple)).members ∧
    (CreateEveHeader exampleExternals (-1) exampleReplyPacket .LOG_DIR_PACKET (some "dns")
        (some exampleSuppliedTuple)).members
      = [("timestamp", .str "0.0"), ("event_type", .str "dns"), ("src_ip", .str "192.0.2.1"),
         ("src_port", .int 4000), ("dest_ip", .str "192.0.2.2"), ("dest_port", .int 53),
         ("proto", .str "UDP")] ∧
    CreateEveHeader exampleExternals (-1) exampleReplyPacket .LOG_DIR_FLOW_TOSERVER (some "dns")
        (some exampleSuppliedTuple)
      = CreateEveHeader exampleExternals (-1) exampleReplyPacket .LOG_DIR_PACKET (some "dns")
        (some exampleSuppliedTuple) ∧
    (CreateEveHeader exampleExternals (-1) exampleReplyPacket .LOG_DIR_FLOW_TOSERVER (some "dns")
        none).members.lookup "src_ip" = some (.str "1.2.3.4") :=
  ⟨((header_supplied_tuple_takes_precedence exampleExternals (-1) exampleReplyPacket
      .LOG_DIR_PACKET (some "dns") exampleSuppliedTuple).1 "src_ip" _ (by decide)).mpr
      (List.mem_cons_self _ _),
    rfl, rfl, rfl⟩

theorem mem_icmpFields_type (p : Packet) (v : Json) :
    ("icmp_type", v) ∈ icmpFields p ↔ ∃ h, parsedIcmpHeader p = some h ∧ v = .int h.type := by
  unfold icmpFields parsedIcmpHeader
  split
  · cases p.icmpv4h <;> simp
  · split
    · cases p.icmpv6h <;> simp
    · simp

theorem mem_icmpFields_code (p : Packet) (v : Json) :
    ("icmp_code", v) ∈ icmpFields p ↔ ∃ h, parsedIcmpHeader p = some h ∧ v = .int h.code := by
  unfold icmpFields parsedIcmpHeader
  split
  · cases p.icmpv4h <;> simp
  · split
    · cases p.icmpv6h <;> simp
    · simp

theorem mem_headerFields_icmp_type (x : Externals) (sensor_id sv pv : Int) (p : Packet)
    (event_type : Option String) (addr : JsonAddrInfo) (v : Json) :
    ("icmp_type", v) ∈ headerFields x sensor_id sv pv p event_type addr
      ↔ ∃ h, parsedIcmpHeader p = some h ∧ v = .int h.type := by
  simp only [headerFields, List.mem_append, List.mem_cons, List.mem_singleton,
    List.not_mem_nil, Prod.mk.injEq, keys_flowIdFields, keys_vlanFields,
    keys_iface, keys_event_type, List.mem_ite_nil_right, ne_eq, String.reduceEq,
    not_false_eq_true, false_and, and_false, or_false, false_or, mem_icmpFields_type]

theorem mem_headerFields_icmp_code (x : Externals) (sensor_id sv pv : Int) (p : Packet)
    (event_type : Option String) (addr : JsonAddrInfo) (v : Json) :
    ("icmp_code", v) ∈ headerFields x sensor_id sv pv p event_type addr
      ↔ ∃ h, parsedIcmpHeader p = some h ∧ v = .int h.code := by
  simp only [headerFields, List.mem_append, List.mem_cons, List.mem_singleton,
    List.not_mem_nil, Prod.mk.injEq, keys_flowIdFields, keys_vlanFields,
    keys_iface, keys_event_type, List.mem_ite_nil_right, ne_eq, String.reduceEq,
    not_false_eq_true, false_and, and_false, or_false, false_or, mem_icmpFields_code]

/-- C19. For every packet, both header builders: the header has a member
icmp_type exactly when the protocol of the packet is ICMP and its ICMPv4 header
is present, or the protocol is ICMPv6 and its ICMPv6 header is present, with
the type of that header as its value; it has a member icmp_code under the same
condition, with the code of that header as its value; so the two members are
present together or absent together. -/
theorem header_icmp_type_and_code (x : Externals) (sensor_id : Int) (p : Packet)
    (dir : OutputJsonLogDirection) (event_type : Option String) (addr : Option JsonAddrInfo) :
    (parsedIcmpHeader p
      = if p.proto = IPPROTO_ICMP then p.icmpv4h
        else if p.proto = IPPROTO_ICMPV6 then p.icmpv6h else none) ∧
    (∀ v, ("icmp_type", v) ∈ (CreateEveHeader x sensor_id p dir event_type addr).members
      ↔ ∃ h, parsedIcmpHeader p = some h ∧ v = .int h.type) ∧
    (∀ v, ("icmp_code", v) ∈ (CreateEveHeader x sensor_id p dir event_type addr).members
      ↔ ∃ h, parsedIcmpHeader p = some h ∧ v = .int h.code) ∧
    (∀ v, ("icmp_type", v) ∈ (CreateJSONHeader x sensor_id p dir event_type addr).members
      ↔ ∃ h, parsedIcmpHeader p = some h ∧ v = .int h.type) ∧
    (∀ v, ("icmp_code", v) ∈ (CreateJSONHeader x sensor_id p dir event_type addr).members
      ↔ ∃ h, parsedIcmpHeader p = some h ∧ v = .int h.code) ∧
    ((∃ v, ("icmp_type", v) ∈ (CreateEveHeader x sensor_id p dir event_type addr).members)
      ↔ ∃ v, ("icmp_code", v) ∈ (CreateEveHeader x sensor_id p dir event_type addr).members) := by
  rw [CreateEveHeader_members, CreateJSONHeader_members]
  refine ⟨rfl, fun v => mem_headerFields_icmp_type .., fun v => mem_headerFields_icmp_code ..,
    fun v => mem_headerFields_icmp_type .., fun v => mem_headerFields_icmp_code .., ?_⟩
  simp only [mem_headerFields_icmp_type, mem_headerFields_icmp_code]
  constructor
  · rintro ⟨_, h, hh, _⟩
    exact ⟨_, h, hh, rfl⟩
  · rintro ⟨_, h, hh, _⟩
    exact ⟨_, h, hh, rfl⟩

/-- C19, at the echo request of the examples (type 8, code 0), at the same
packet without a parsed ICMPv4 header, and at the TCP reply packet. -/
theorem header_icmp_type_and_code_witness :
    ("icmp_type", Json.int 8) ∈ (CreateEveHeader exampleExternals (-1) exampleEchoPacket
        .LOG_DIR_PACKET (some "alert") none).members ∧
    ("icmp_code", Json.int 0) ∈ (CreateEveHeader exampleExternals (-1) exampleEchoPacket
        .LOG_DIR_PACKET (some "alert") none).members ∧
    (CreateEveHeader exampleExternals (-1) { exampleEchoPacket with icmpv4h := none }
        .LOG_DIR_PACKET (some "alert") none).members.lookup "icmp_type" = none ∧
    (CreateEveHeader exampleExternals (-1) exampleReplyPacket
        .LOG_DIR_PACKET (some "alert") none).members.lookup "icmp_code" = none := by
  have h := header_icmp_type_and_code exampleExternals (-1) exampleEchoPacket
    .LOG_DIR_PACKET (some "alert") none
  exact ⟨(h.2.1 _).mpr ⟨⟨8, 0⟩, rfl, rfl⟩, (h.2.2.1 _).mpr ⟨⟨8, 0⟩, rfl, rfl⟩, rfl, rfl⟩

/-- C20. For every packet, direction, event type, tuple and transaction id, the
builder CreateEveHeaderWithTxId returns is still inside its root object, whose
members are the members of the header CreateEveHeader builds for the same
arguments, in the same order, followed by one member tx_id holding the
transaction id. CreateJSONHeaderWithTxId, which takes no tuple, does the same
over CreateJSONHeader with the transaction id converted to a signed 64-bit
number. -/
theorem header_with_tx_id_appends_tx_id (x : Externals) (sensor_id : Int) (p : Packet)
    (dir : OutputJsonLogDirection) (event_type : Option String) (addr : Option JsonAddrInfo)
    (tx_id : Nat) :
    CreateEveHeaderWithTxId x sensor_id p dir event_type addr tx_id
      = { stack := [(none, .object
            ((CreateEveHeader x sensor_id p dir event_type addr).members
              ++ [("tx_id", .int tx_id)]))],
          value := none } ∧
    (CreateEveHeaderWithTxId x sensor_id p dir event_type addr tx_id).members
      = (CreateEveHeader x sensor_id p dir event_type addr).members ++ [("tx_id", .int tx_id)] ∧
    CreateJSONHeaderWithTxId x sensor_id p dir event_type tx_id
      = .obj ((CreateJSONHeader x sensor_id p dir event_type none).members
          ++ [("tx_id", .int (toInt64 tx_id))]) := by
  have hfresh : "tx_id" ∉ (headerFields x sensor_id (toUint64 sensor_id) p.pcap_cnt p
      event_type (headerAddrInfo x p dir addr)).map Prod.fst := by
    simp [headerFields, keys_flowIdFields, keys_vlanFields, keys_icmpFields, keys_iface,
      keys_event_type]
  refine ⟨?_, ?_, ?_⟩
  · simp only [CreateEveHeaderWithTxId, CreateEveHeader_eq, jb_set_uint,
      jb_set_root_fresh _ _ _ hfresh, JsonBuilder.members]
  · simp only [CreateEveHeaderWithTxId, CreateEveHeader_eq, jb_set_uint,
      jb_set_root_fresh _ _ _ hfresh, JsonBuilder.members]
  · simp only [CreateJSONHeaderWithTxId, CreateJSONHeader_eq, Json.members, json_integer]
    apply json_object_set_new_obj
    simp [headerFields, keys_flowIdFields, keys_vlanFields, keys_icmpFields, keys_iface,
      keys_event_type]

/-- C20, at the tagged packet of the examples logged as an http event of
transaction 5. -/
theorem header_with_tx_id_appends_tx_id_witness :
    (CreateEveHeaderWithTxId exampleExternals (-1) exampleTaggedPacket .LOG_DIR_PACKET
        (some "http") none 5).keys
      = ["timestamp", "flow_id", "parent_id", "in_iface", "pcap_cnt", "event_type", "vlan",
         "src_ip", "src_port", "dest_ip", "dest_port", "proto", "tx_id"] ∧
    (CreateEveHeaderWithTxId exampleExternals (-1) exampleTaggedPacket .LOG_DIR_PACKET
        (some "http") none 5).members
      = (CreateEveHeader exampleExternals (-1) exampleTaggedPacket .LOG_DIR_PACKET
          (some "http") none).members ++ [("tx_id", .int 5)] :=
  ⟨by decide,
    (header_with_tx_id_appends_tx_id exampleExternals (-1) exampleTaggedPacket .LOG_DIR_PACKET
      (some "http") none 5).2.1⟩

/-! ## Properties: the loop over the flow annotations -/

theorem extendLazy_nil {α : Type} (o : Option (List α)) : extendLazy o [] = o := rfl

theorem extendLazy_singleton {α : Type} (o : Option (List α)) (a : α) :
    extendLazy o [a] = some (o.getD [] ++ [a]) := rfl

theorem extendLazy_append {α : Type} (o : Option (List α)) (l1 l2 : List α) :
    extendLazy (extendLazy o l1) l2 = extendLazy o (l1 ++ l2) := by
  cases l1 with
  | nil => simp [extendLazy]
  | cons a l1 =>
      cases l2 with
      | nil => simp [extendLazy]
      | cons b l2 => simp [extendLazy]

theorem extendLazy_none {α : Type} (l : List α) :
    extendLazy none l = if l.isEmpty then none else some l := by
  cases l <;> simp [extendLazy]

theorem SCStringHasPrefix_id_not_label (name : String)
    (h : SCStringHasPrefix name TRAFFIC_ID_PREFIX = true) :
    SCStringHasPrefix name TRAFFIC_LABEL_PREFIX = false := by
  unfold SCStringHasPrefix at *
  rw [List.isPrefixOf_iff_prefix] at h
  cases hl : TRAFFIC_LABEL_PREFIX.toList.isPrefixOf name.toList with
  | false => rfl
  | true =>
      exfalso
      rw [List.isPrefixOf_iff_prefix] at hl
      have hp : TRAFFIC_ID_PREFIX.toList <+: TRAFFIC_LABEL_PREFIX.toList :=
        List.prefix_of_prefix_length_le h hl (by decide)
      revert hp
      decide

theorem getD_map_rootArray (o : Option (List Json)) :
    (o.map JsonBuilder.rootArray).getD jb_new_array = JsonBuilder.rootArray (o.getD []) := by
  cases o <;> rfl

theorem getD_map_rootObject (o : Option (List (String × Json))) :
    (o.map JsonBuilder.rootObject).getD jb_new_object = JsonBuilder.rootObject (o.getD []) := by
  cases o <;> rfl

theorem rootArray_add_object (items : List Json) (key val : String) :
    jb_close (jb_set_string (jb_start_object (JsonBuilder.rootArray items)) key val)
      = JsonBuilder.rootArray (items ++ [.obj [(key, .str val)]]) := rfl

theorem rootArray_append_string (items : List Json) (val : String) :
    jb_append_string (JsonBuilder.rootArray items) val
      = JsonBuilder.rootArray (items ++ [.str val]) := rfl

theorem rootObject_set_uint (ms : List (String × Json)) (key : String) (val : Nat) :
    jb_set_uint (JsonBuilder.rootObject ms) key val
      = JsonBuilder.rootObject (setMember ms key (.int val)) := rfl

theorem setLazyAll_setLazy (o : Option (List (String × Json))) (e : Option (String × Json))
    (es : List (String × Json)) :
    setLazyAll (setLazy o e) es = setLazyAll o (e.toList ++ es) := by
  cases e with
  | none => rfl
  | some kv =>
      cases es with
      | nil => simp [setLazyAll, setLazy, setMembers]
      | cons e2 es => simp [setLazyAll, setLazy, setMembers]

/-- One pass of the loop of EveAddFlowVars adds to each array what the node
contributes to it and sets the member of an integer variable that resolves. -/
theorem EveAddFlowVars_step_ofLists (x : Externals) (fv tid tl : Option (List Json))
    (fi : Option (List (String × Json))) (fb : Option (List Json)) (gv : GenericVar) :
    EveAddFlowVars.step x (EveAddFlowVars.Locals.ofLists fv tid tl fi fb) gv
      = EveAddFlowVars.Locals.ofLists
          (extendLazy fv (flowvarEntry x gv).toList)
          (extendLazy tid (trafficIdEntry x gv).toList)
          (extendLazy tl (trafficLabelEntry x gv).toList)
          (setLazy fi (flowintEntry x gv))
          (extendLazy fb (plainFlowbitEntry x gv).toList) := by
  have hexcl := SCStringHasPrefix_id_not_label
  rcases gv with ⟨ty, idx, dt, key, sv, iv⟩
  cases hv : x.VarNameStoreLookupById idx .VAR_TYPE_FLOW_VAR <;>
  cases hi : x.VarNameStoreLookupById idx .VAR_TYPE_FLOW_INT <;>
  cases hb : x.VarNameStoreLookupById idx .VAR_TYPE_FLOW_BIT <;>
  cases ty <;> cases dt <;> cases key <;>
    simp [EveAddFlowVars.step, EveAddFlowVars.Locals.ofLists, flowvarEntry, flowintEntry,
      trafficIdEntry, trafficLabelEntry, plainFlowbitEntry, flowbitName,
      GenericVar.isStringVar, GenericVar.isIntVar, GenericVar.isFlowBit, extendLazy_nil,
      extendLazy_singleton, getD_map_rootArray, getD_map_rootObject, rootArray_add_object,
      rootArray_append_string, rootObject_set_uint, setLazy, printable, hv, hi, hb,
      traffic_id_prefix_len, traffic_label_prefix_len, dropPrefix] <;>
    (split_ifs <;> simp_all [extendLazy_singleton, extendLazy_nil, setLazy])

theorem filterMap_cons_toList {α β : Type} (f : α → Option β) (a : α) (l : List α) :
    (a :: l).filterMap f = (f a).toList ++ l.filterMap f := by
  cases h : f a <;> simp [List.filterMap_cons, h]

/-- The loop of EveAddFlowVars adds to each array what the nodes of the list
contribute to it, in the order of the list, and sets the members of the
integer variables that resolve, one after the other. -/
theorem EveAddFlowVars_foldl_ofLists (x : Externals) (gvs : List GenericVar) :
    ∀ (fv tid tl : Option (List Json)) (fi : Option (List (String × Json)))
      (fb : Option (List Json)),
    gvs.foldl (EveAddFlowVars.step x) (EveAddFlowVars.Locals.ofLists fv tid tl fi fb)
      = EveAddFlowVars.Locals.ofLists
          (extendLazy fv (gvs.filterMap (flowvarEntry x)))
          (extendLazy tid (gvs.filterMap (trafficIdEntry x)))
          (extendLazy tl (gvs.filterMap (trafficLabelEntry x)))
          (setLazyAll fi (gvs.filterMap (flowintEntry x)))
          (extendLazy fb (gvs.filterMap (plainFlowbitEntry x))) := by
  induction gvs with
  | nil => intro fv tid tl fi fb; rfl
  | cons gv gvs ih =>
      intro fv tid tl fi fb
      rw [List.foldl_cons, EveAddFlowVars_step_ofLists, ih]
      simp only [extendLazy_append, filterMap_cons_toList, setLazyAll_setLazy]

theorem filterMap_trafficIdEntry (x : Externals) (gvs : List GenericVar) :
    gvs.filterMap (trafficIdEntry x) = trafficIds x gvs := by
  unfold trafficIds flowbitNames
  induction gvs with
  | nil => rfl
  | cons gv gvs ih =>
      rw [filterMap_cons_toList, filterMap_cons_toList, ih]
      unfold trafficIdEntry
      cases flowbitName x gv with
      | none => rfl
      | some name =>
          by_cases h : SCStringHasPrefix name TRAFFIC_ID_PREFIX = true <;> simp [h]

theorem filterMap_trafficLabelEntry (x : Externals) (gvs : List GenericVar) :
    gvs.filterMap (trafficLabelEntry x) = trafficLabels x gvs := by
  unfold trafficLabels flowbitNames
  induction gvs with
  | nil => rfl
  | cons gv gvs ih =>
      rw [filterMap_cons_toList, filterMap_cons_toList, ih]
      unfold trafficLabelEntry
      cases flowbitName x gv with
      | none => rfl
      | some name =>
          by_cases h : SCStringHasPrefix name TRAFFIC_LABEL_PREFIX = true <;> simp [h]

theorem filterMap_plainFlowbitEntry (x : Externals) (gvs : List GenericVar) :
    gvs.filterMap (plainFlowbitEntry x) = plainFlowbits x gvs := by
  unfold plainFlowbits flowbitNames
  induction gvs with
  | nil => rfl
  | cons gv gvs ih =>
      rw [filterMap_cons_toList, filterMap_cons_toList, ih]
      unfold plainFlowbitEntry
      cases flowbitName x gv with
      | none => rfl
      | some name =>
          by_cases h1 : SCStringHasPrefix name TRAFFIC_ID_PREFIX = true <;>
            by_cases h2 : SCStringHasPrefix name TRAFFIC_LABEL_PREFIX = true <;> simp [h1, h2]

/-- The local builders when the loop of EveAddFlowVars is left. -/
theorem EveAddFlowVars_locals (x : Externals) (gvs : List GenericVar) :
    gvs.foldl (EveAddFlowVars.step x) {}
      = EveAddFlowVars.Locals.ofLists
          (extendLazy none (flowvarEntries x gvs))
          (extendLazy none (trafficIds x gvs))
          (extendLazy none (trafficLabels x gvs))
          (setLazyAll none (flowintEntries x gvs))
          (extendLazy none (plainFlowbits x gvs)) := by
  have h := EveAddFlowVars_foldl_ofLists x gvs none none none none none
  rw [filterMap_trafficIdEntry, filterMap_trafficLabelEntry, filterMap_plainFlowbitEntry] at h
  exact h

theorem rootObject_lazy_array (ms : List (String × Json)) (key : String) (items : List Json) :
    (match (extendLazy none items).map JsonBuilder.rootArray with
      | some b => jb_set_object (JsonBuilder.rootObject ms) key (jb_close b)
      | none => JsonBuilder.rootObject ms)
      = JsonBuilder.rootObject (setMembers ms (arrayField key items)) := by
  cases items with
  | nil => simp [extendLazy, arrayField, setMembers]
  | cons a l => rfl

theorem rootObject_lazy_object (ms : List (String × Json)) (key : String)
    (entries : List (String × Json)) :
    (match (setLazyAll none entries).map JsonBuilder.rootObject with
      | some b => jb_set_object (JsonBuilder.rootObject ms) key (jb_close b)
      | none => JsonBuilder.rootObject ms)
      = JsonBuilder.rootObject (setMembers ms (objectField key (setMembers [] entries))) := by
  cases entries with
  | nil => simp [setLazyAll, objectField, setMembers]
  | cons e es =>
      have hne : setMembers [] (e :: es) ≠ [] := by
        rw [setMembers_cons]
        exact setMembers_ne_nil _ _ (setMember_ne_nil _ _ _)
      have hemp : (setMembers [] (e :: es)).isEmpty = false := by
        cases h : setMembers [] (e :: es) with
        | nil => exact absurd h hne
        | cons a l => rfl
      simp only [setLazyAll, Option.getD_none, Option.map_some', objectField, hemp,
        Bool.false_eq_true, if_false]
      rfl

/-- The keys flowbits, flowints and flowvars are distinct. -/
theorem flowMembers_keys_nodup (x : Externals) (gvs : List GenericVar) :
    ((flowMembers x gvs).map Prod.fst).Nodup := by
  unfold flowMembers arrayField objectField
  split_ifs <;> simp

/-- Setting the members flowbits, flowints and flowvars in an object that has
none of them adds them at the end, in this order. -/
theorem setMembers_flowMembers_fresh (x : Externals) (gvs : List GenericVar)
    (ms : List (String × Json))
    (h : ∀ kv ∈ ms, kv.1 ≠ "flowbits" ∧ kv.1 ≠ "flowints" ∧ kv.1 ≠ "flowvars") :
    setMembers ms (flowMembers x gvs) = ms ++ flowMembers x gvs := by
  apply setMembers_fresh _ _ (flowMembers_keys_nodup x gvs)
  intro kv hkv
  have hk := h kv hkv
  unfold flowMembers arrayField objectField
  split_ifs <;> simp [hk.1, hk.2.1, hk.2.2]

/-- The keys id and label of a traffic object are distinct, so setting them in
a new object gives them in this order. -/
theorem setMembers_traffic (ids labels : List Json) :
    setMembers [] (arrayField "id" ids ++ arrayField "label" labels)
      = arrayField "id" ids ++ arrayField "label" labels := by
  have h := setMembers_fresh (arrayField "id" ids ++ arrayField "label" labels) []
    (by unfold arrayField; split_ifs <;> simp) (fun kv h => absurd h (List.not_mem_nil kv))
  rw [List.nil_append] at h
  exact h

/-- The root object and the traffic builder after EveAddFlowVars: the arrays
and the object that have an element are set in the root object as flowbits,
flowints and flowvars, in this order, and the traffic builder is a finished
object exactly when an id or a label was collected. -/
theorem EveAddFlowVars_eq (x : Externals) (f : Flow) (ms : List (String × Json))
    (js_traffic : Option JsonBuilder) :
    EveAddFlowVars x (some f) (JsonBuilder.rootObject ms) js_traffic
      = (JsonBuilder.rootObject (setMembers ms (flowMembers x f.flowvar)),
         match trafficObject x f.flowvar with
         | some o => some (JsonBuilder.finished o)
         | none => js_traffic) := by
  unfold EveAddFlowVars flowMembers flowintMembers
  by_cases hnil : f.flowvar = []
  · simp [hnil, plainFlowbits, flowintEntries, flowvarEntries, flowbitNames, arrayField,
      objectField, trafficObject, trafficIds, trafficLabels, setMembers]
  · simp only [hnil, if_false, EveAddFlowVars_locals, EveAddFlowVars.Locals.ofLists,
      rootObject_lazy_array, rootObject_lazy_object, setMembers_append]
    unfold trafficObject
    cases hid : trafficIds x f.flowvar with
    | nil =>
        cases hlab : trafficLabels x f.flowvar with
        | nil => simp [extendLazy]
        | cons a l => simp [extendLazy, arrayField]; rfl
    | cons a l =>
        cases hlab : trafficLabels x f.flowvar with
        | nil => simp [extendLazy, arrayField]; rfl
        | cons b l2 => simp [extendLazy, arrayField]; rfl

/-! ## Properties: the loop over the flow annotations with jansson -/

theorem getD_map_arr (o : Option (List Json)) :
    (o.map Json.arr).getD json_array = Json.arr (o.getD []) := by
  cases o <;> rfl

theorem getD_map_obj (o : Option (List (String × Json))) :
    (o.map Json.obj).getD json_object = Json.obj (o.getD []) := by
  cases o <;> rfl

/-- One pass of the loop of JsonAddFlowVars adds to each array what the node
contributes to it and sets the member of an integer variable that resolves. -/
theorem JsonAddFlowVars_step_ofLists (x : Externals) (fv tid tl : Option (List Json))
    (fi : Option (List (String × Json))) (fb : Option (List Json)) (gv : GenericVar) :
    JsonAddFlowVars.step x (JsonAddFlowVars.Locals.ofLists fv tid tl fi fb) gv
      = JsonAddFlowVars.Locals.ofLists
          (extendLazy fv (flowvarEntry x gv).toList)
          (extendLazy tid (trafficIdEntry x gv).toList)
          (extendLazy tl (trafficLabelEntry x gv).toList)
          (setLazy fi (flowintEntry x gv))
          (extendLazy fb (plainFlowbitEntry x gv).toList) := by
  have hexcl := SCStringHasPrefix_id_not_label
  rcases gv with ⟨ty, idx, dt, key, sv, iv⟩
  cases hv : x.VarNameStoreLookupById idx .VAR_TYPE_FLOW_VAR <;>
  cases hi : x.VarNameStoreLookupById idx .VAR_TYPE_FLOW_INT <;>
  cases hb : x.VarNameStoreLookupById idx .VAR_TYPE_FLOW_BIT <;>
  cases ty <;> cases dt <;> cases key <;>
    simp [JsonAddFlowVars.step, JsonAddFlowVars.Locals.ofLists, flowvarEntry, flowintEntry,
      trafficIdEntry, trafficLabelEntry, plainFlowbitEntry, flowbitName,
      GenericVar.isStringVar, GenericVar.isIntVar, GenericVar.isFlowBit, extendLazy_nil,
      extendLazy_singleton, getD_map_arr, getD_map_obj, json_array_append_new,
      json_object_set_new, json_object, json_string, json_integer, setMember, setLazy,
      printable, hv, hi, hb, traffic_id_prefix_len, traffic_label_prefix_len, dropPrefix] <;>
    (split_ifs <;> simp_all [extendLazy_singleton, extendLazy_nil, setMember])

/-- The loop of JsonAddFlowVars adds to each array what the nodes of the list
contribute to it, in the order of the list, and sets the members of the
integer variables that resolve, one after the other. -/
theorem JsonAddFlowVars_foldl_ofLists (x : Externals) (gvs : List GenericVar) :
    ∀ (fv tid tl : Option (List Json)) (fi : Option (List (String × Json)))
      (fb : Option (List Json)),
    gvs.foldl (JsonAddFlowVars.step x) (JsonAddFlowVars.Locals.ofLists fv tid tl fi fb)
      = JsonAddFlowVars.Locals.ofLists
          (extendLazy fv (gvs.filterMap (flowvarEntry x)))
          (extendLazy tid (gvs.filterMap (trafficIdEntry x)))
          (extendLazy tl (gvs.filterMap (trafficLabelEntry x)))
          (setLazyAll fi (gvs.filterMap (flowintEntry x)))
          (extendLazy fb (gvs.filterMap (plainFlowbitEntry x))) := by
  induction gvs with
  | nil => intro fv tid tl fi fb; rfl
  | cons gv gvs ih =>
      intro fv tid tl fi fb
      rw [List.foldl_cons, JsonAddFlowVars_step_ofLists, ih]
      simp only [extendLazy_append, filterMap_cons_toList, setLazyAll_setLazy]

/-- The local values when the loop of JsonAddFlowVars is left. -/
theorem JsonAddFlowVars_locals (x : Externals) (gvs : List GenericVar) :
    gvs.foldl (JsonAddFlowVars.step x) {}
      = JsonAddFlowVars.Locals.ofLists
          (extendLazy none (flowvarEntries x gvs))
          (extendLazy none (trafficIds x gvs))
          (extendLazy none (trafficLabels x gvs))
          (setLazyAll none (flowintEntries x gvs))
          (extendLazy none (plainFlowbits x gvs)) := by
  have h := JsonAddFlowVars_foldl_ofLists x gvs none none none none none
  rw [filterMap_trafficIdEntry, filterMap_trafficLabelEntry, filterMap_plainFlowbitEntry] at h
  exact h

theorem obj_lazy_array (ms : List (String × Json)) (key : String) (items : List Json) :
    (match (extendLazy none items).map Json.arr with
      | some b => json_object_set_new (.obj ms) key b
      | none => .obj ms)
      = .obj (setMembers ms (arrayField key items)) := by
  cases items with
  | nil => simp [extendLazy, arrayField, setMembers]
  | cons a l => rfl

theorem obj_lazy_object (ms : List (String × Json)) (key : String)
    (entries : List (String × Json)) :
    (match (setLazyAll none entries).map Json.obj with
      | some b => json_object_set_new (.obj ms) key b
      | none => .obj ms)
      = .obj (setMembers ms (objectField key (setMembers [] entries))) := by
  cases entries with
  | nil => simp [setLazyAll, objectField, setMembers]
  | cons e es =>
      have hne : setMembers [] (e :: es) ≠ [] := by
        rw [setMembers_cons]
        exact setMembers_ne_nil _ _ (setMember_ne_nil _ _ _)
      have hemp : (setMembers [] (e :: es)).isEmpty = false := by
        cases h : setMembers [] (e :: es) with
        | nil => exact absurd h hne
        | cons a l => rfl
      simp only [setLazyAll, Option.getD_none, Option.map_some', objectField, hemp,
        Bool.false_eq_true, if_false, json_object_set_new]
      rfl

/-- The root object and the traffic object after JsonAddFlowVars: the arrays
and the object that have an element are set in the root object as flowbits,
flowints and flowvars, in this order, and the traffic object is a new object
exactly when an id or a label was collected. -/
theorem JsonAddFlowVars_eq (x : Externals) (f : Flow) (ms : List (String × Json))
    (js_traffic : Option Json) :
    JsonAddFlowVars x (some f) (.obj ms) js_traffic
      = (.obj (setMembers ms (flowMembers x f.flowvar)),
         match trafficObject x f.flowvar with
         | some o => some o
         | none => js_traffic) := by
  unfold JsonAddFlowVars flowMembers flowintMembers
  by_cases hnil : f.flowvar = []
  · simp [hnil, plainFlowbits, flowintEntries, flowvarEntries, flowbitNames, arrayField,
      objectField, trafficObject, trafficIds, trafficLabels, setMembers]
  · simp only [hnil, if_false, JsonAddFlowVars_locals, JsonAddFlowVars.Locals.ofLists,
      obj_lazy_array, obj_lazy_object, setMembers_append]
    unfold trafficObject
    cases hid : trafficIds x f.flowvar with
    | nil =>
        cases hlab : trafficLabels x f.flowvar with
        | nil => simp [extendLazy]
        | cons a l => simp [extendLazy, arrayField]; rfl
    | cons a l =>
        cases hlab : trafficLabels x f.flowvar with
        | nil => simp [extendLazy, arrayField]; rfl
        | cons b l2 => simp [extendLazy, arrayField]; rfl

/-! ## Properties: the loop over the packet annotations -/

/-- The builder while the pktvars array is open inside the root object. -/
theorem EveAddPacketVars_step_open (x : Externals) (ms : List (String × Json))
    (items : List Json) (pv : PktVar) :
    EveAddPacketVars.step x
        (true, { stack := [(some "pktvars", .array items), (none, .object ms)], value := none })
        pv
      = (true, { stack := [(some "pktvars", .array (items ++ (pktvarEntry x pv).toList)),
                           (none, .object ms)], value := none }) := by
  rcases pv with ⟨id, key, value⟩
  unfold EveAddPacketVars.step pktvarEntry
  by_cases h : (key.isSome ∨ id > 0)
  · simp only [h, if_true]
    cases key with
    | some k => rfl
    | none =>
        simp only []
        cases x.VarNameStoreLookupById id .VAR_TYPE_PKT_VAR <;> rfl
  · simp [h]

/-- The first pass of the loop of EveAddPacketVars that takes up a node opens
the pktvars array. -/
theorem EveAddPacketVars_step_closed (x : Externals) (ms : List (String × Json)) (pv : PktVar) :
    EveAddPacketVars.step x (false, JsonBuilder.rootObject ms) pv
      = match pktvarEntry x pv with
        | some e =>
            (true, { stack := [(some "pktvars", .array [e]), (none, .object ms)], value := none })
        | none => (false, JsonBuilder.rootObject ms) := by
  rcases pv with ⟨id, key, value⟩
  unfold EveAddPacketVars.step pktvarEntry
  by_cases h : (key.isSome ∨ id > 0)
  · simp only [h, if_true]
    cases key with
    | some k => rfl
    | none =>
        simp only []
        cases x.VarNameStoreLookupById id .VAR_TYPE_PKT_VAR <;> rfl
  · simp [h]

theorem EveAddPacketVars_foldl_open (x : Externals) (ms : List (String × Json))
    (pvs : List PktVar) :
    ∀ items : List Json,
    pvs.foldl (EveAddPacketVars.step x)
        (true, { stack := [(some "pktvars", .array items), (none, .object ms)], value := none })
      = (true, { stack := [(some "pktvars", .array (items ++ pktvarEntries x pvs)),
                           (none, .object ms)], value := none }) := by
  unfold pktvarEntries
  induction pvs with
  | nil => intro items; simp
  | cons pv pvs ih =>
      intro items
      rw [List.foldl_cons, EveAddPacketVars_step_open, ih, filterMap_cons_toList,
        List.append_assoc]

theorem EveAddPacketVars_foldl_closed (x : Externals) (ms : List (String × Json))
    (pvs : List PktVar) :
    pvs.foldl (EveAddPacketVars.step x) (false, JsonBuilder.rootObject ms)
      = if (pktvarEntries x pvs).isEmpty then (false, JsonBuilder.rootObject ms)
        else (true, { stack := [(some "pktvars", .array (pktvarEntries x pvs)),
                                (none, .object ms)], value := none }) := by
  unfold pktvarEntries
  induction pvs with
  | nil => rfl
  | cons pv pvs ih =>
      rw [List.foldl_cons, EveAddPacketVars_step_closed, filterMap_cons_toList]
      cases h : pktvarEntry x pv with
      | none => simpa using ih
      | some e =>
          simp only [EveAddPacketVars_foldl_open, pktvarEntries]
          simp

/-- The root object after EveAddPacketVars: the array pktvars is set when the
loop took up a node. -/
theorem EveAddPacketVars_eq (x : Externals) (p : Packet) (ms : List (String × Json)) :
    EveAddPacketVars x (some p) (JsonBuilder.rootObject ms)
      = JsonBuilder.rootObject
          (setMembers ms (arrayField "pktvars" (pktvarEntries x p.pktvar))) := by
  unfold EveAddPacketVars
  by_cases hnil : p.pktvar = []
  · simp [hnil, pktvarEntries, arrayField, setMembers]
  · simp only [hnil, if_false, EveAddPacketVars_foldl_closed]
    cases h : pktvarEntries x p.pktvar with
    | nil => simp [arrayField, setMembers]
    | cons e l => rfl

/-! ## Properties: the metadata of an event -/

theorem pktvarEntries_nil (x : Externals) : pktvarEntries x [] = [] := rfl

theorem trafficField_nil (x : Externals) : trafficField x [] = [] := rfl

theorem metadataMembers_flow_nil (x : Externals) (pvs : List PktVar) :
    metadataMembers x [] pvs = arrayField "pktvars" (pktvarEntries x pvs) := rfl

/-- The keys flowbits, flowints, flowvars and pktvars are distinct. -/
theorem metadataMembers_keys_nodup (x : Externals) (gvs : List GenericVar)
    (pvs : List PktVar) : ((metadataMembers x gvs pvs).map Prod.fst).Nodup := by
  unfold metadataMembers arrayField objectField
  split_ifs <;> simp

/-- Setting the members of the metadata object in a new object gives them in
their order. -/
theorem setMembers_metadataMembers (x : Externals) (gvs : List GenericVar)
    (pvs : List PktVar) :
    setMembers [] (metadataMembers x gvs pvs) = metadataMembers x gvs pvs := by
  have h := setMembers_fresh (metadataMembers x gvs pvs) []
    (metadataMembers_keys_nodup x gvs pvs) (fun kv h => absurd h (List.not_mem_nil kv))
  rw [List.nil_append] at h
  exact h

/-- The event after EveAddMetadata: unchanged when neither the packet nor the
flow has annotations; otherwise the member traffic is set when an id or a
label was collected, and then the member metadata with the collections. -/
theorem EveAddMetadata_eq (x : Externals) (p : Option Packet) (f : Option Flow)
    (ms : List (String × Json)) :
    EveAddMetadata x p f (JsonBuilder.rootObject ms)
      = if (packetAnnotations p).isEmpty && (flowAnnotations f).isEmpty then
          JsonBuilder.rootObject ms
        else
          JsonBuilder.rootObject (setMembers ms (trafficField x (flowAnnotations f)
            ++ [("metadata", .obj
                  (metadataMembers x (flowAnnotations f) (packetAnnotations p)))])) := by
  have hnew : jb_new_object = JsonBuilder.rootObject [] := rfl
  have hclose : ∀ l, jb_close (JsonBuilder.rootObject l) = JsonBuilder.finished (.obj l) :=
    fun _ => rfl
  have hset : ∀ l k v, jb_set_object (JsonBuilder.rootObject l) k (JsonBuilder.finished v)
      = JsonBuilder.rootObject (setMember l k v) := fun _ _ _ => rfl
  have hflow : ∀ fl : Flow,
      (match (match trafficObject x fl.flowvar with
              | some o => some (JsonBuilder.finished o)
              | none => (none : Option JsonBuilder)) with
        | some js_traffic => jb_set_object (JsonBuilder.rootObject ms) "traffic" js_traffic
        | none => JsonBuilder.rootObject ms)
        = JsonBuilder.rootObject (setMembers ms (trafficField x fl.flowvar)) := by
    intro fl
    unfold trafficField
    cases trafficObject x fl.flowvar with
    | none => simp [setMembers]
    | some o => exact hset _ _ _
  have hlast : ∀ (tf : List (String × Json)) (v : Json),
      setMember (setMembers ms tf) "metadata" v = setMembers ms (tf ++ [("metadata", v)]) := by
    intro tf v
    rw [setMembers_append]
    rfl
  have hmflow : ∀ gvs, setMembers [] (flowMembers x gvs) = metadataMembers x gvs [] := by
    intro gvs
    have h := setMembers_metadataMembers x gvs []
    have he : metadataMembers x gvs [] = flowMembers x gvs := by
      simp [metadataMembers, flowMembers, pktvarEntries, arrayField]
    rw [he] at h ⊢
    exact h
  have hmboth : ∀ gvs pvs,
      setMembers (setMembers [] (flowMembers x gvs)) (arrayField "pktvars" (pktvarEntries x pvs))
        = metadataMembers x gvs pvs := by
    intro gvs pvs
    rw [← setMembers_append]
    exact setMembers_metadataMembers x gvs pvs
  have hmpkt : ∀ pvs, setMembers [] (arrayField "pktvars" (pktvarEntries x pvs))
      = metadataMembers x [] pvs := by
    intro pvs
    exact setMembers_metadataMembers x [] pvs
  unfold EveAddMetadata
  cases p with
  | none =>
      cases f with
      | none => simp [packetAnnotations, flowAnnotations]
      | some fl =>
          by_cases hf : fl.flowvar = []
          · simp [packetAnnotations, flowAnnotations, hf]
          · have hf2 : fl.flowvar.isEmpty = false := by
              cases hfl : fl.flowvar with
              | nil => exact absurd hfl hf
              | cons a l => rfl
            simp only [packetAnnotations, flowAnnotations, hf2, List.isEmpty_nil, Bool.not_true,
              Bool.not_false, Bool.false_or, Bool.true_and, if_true, Bool.false_eq_true,
              if_false, hnew, EveAddFlowVars_eq, hflow, hclose, hset, hlast, hmflow]
  | some pk =>
      by_cases hp : pk.pktvar = []
      · cases f with
        | none => simp [packetAnnotations, flowAnnotations, hp]
        | some fl =>
            by_cases hf : fl.flowvar = []
            · simp [packetAnnotations, flowAnnotations, hf, hp]
            · have hf2 : fl.flowvar.isEmpty = false := by
                cases hfl : fl.flowvar with
                | nil => exact absurd hfl hf
                | cons a l => rfl
              simp only [packetAnnotations, flowAnnotations, hf2, hp, List.isEmpty_nil,
                Bool.not_true, Bool.not_false, Bool.false_or, Bool.true_and, if_true,
                Bool.false_eq_true, if_false, hnew, EveAddFlowVars_eq, hflow, hclose, hset,
                hlast, hmflow]
      · have hp2 : pk.pktvar.isEmpty = false := by
          cases hpl : pk.pktvar with
          | nil => exact absurd hpl hp
          | cons a l => rfl
        cases f with
        | none =>
            simp only [packetAnnotations, flowAnnotations, hp2, List.isEmpty_nil,
              Bool.not_true, Bool.not_false, Bool.or_false, Bool.false_and, if_true,
              Bool.false_eq_true, if_false, hnew, EveAddPacketVars_eq, hclose, hset,
              hmpkt, trafficField_nil, List.nil_append]
            rfl
        | some fl =>
            by_cases hf : fl.flowvar = []
            · simp only [packetAnnotations, flowAnnotations, hp2, hf, List.isEmpty_nil,
                Bool.not_true, Bool.not_false, Bool.or_false, Bool.false_and, if_true,
                Bool.false_eq_true, if_false, hnew, EveAddPacketVars_eq, hclose, hset,
                hmpkt, trafficField_nil, List.nil_append]
              rfl
            · have hf2 : fl.flowvar.isEmpty = false := by
                cases hfl : fl.flowvar with
                | nil => exact absurd hfl hf
                | cons a l => rfl
              simp only [packetAnnotations, flowAnnotations, hp2, hf2, Bool.not_false,
                Bool.or_true, Bool.or_self, Bool.false_and, if_true, Bool.false_eq_true,
                if_false, hnew, EveAddFlowVars_eq, EveAddPacketVars_eq, hflow, hclose, hset,
                hlast, hmboth]

/-! ## Properties: flow-bits and traffic sets -/

theorem mem_trafficIds (x : Externals) (gvs : List GenericVar) (s : String) :
    Json.str s ∈ trafficIds x gvs
      ↔ ∃ name ∈ flowbitNames x gvs, SCStringHasPrefix name TRAFFIC_ID_PREFIX = true ∧
          s = dropPrefix TRAFFIC_ID_PREFIX.length name := by
  simp only [trafficIds, List.mem_map, List.mem_filter]
  constructor
  · rintro ⟨name, ⟨hn, hp⟩, heq⟩
    injection heq with heq
    exact ⟨name, hn, hp, heq.symm⟩
  · rintro ⟨name, hn, hp, heq⟩
    exact ⟨name, ⟨hn, hp⟩, by rw [heq]⟩

theorem mem_trafficLabels (x : Externals) (gvs : List GenericVar) (s : String) :
    Json.str s ∈ trafficLabels x gvs
      ↔ ∃ name ∈ flowbitNames x gvs, SCStringHasPrefix name TRAFFIC_LABEL_PREFIX = true ∧
          s = dropPrefix TRAFFIC_LABEL_PREFIX.length name := by
  simp only [trafficLabels, List.mem_map, List.mem_filter]
  constructor
  · rintro ⟨name, ⟨hn, hp⟩, heq⟩
    injection heq with heq
    exact ⟨name, hn, hp, heq.symm⟩
  · rintro ⟨name, hn, hp, heq⟩
    exact ⟨name, ⟨hn, hp⟩, by rw [heq]⟩

theorem mem_plainFlowbits (x : Externals) (gvs : List GenericVar) (s : String) :
    Json.str s ∈ plainFlowbits x gvs
      ↔ s ∈ flowbitNames x gvs ∧ SCStringHasPrefix s TRAFFIC_ID_PREFIX = false ∧
          SCStringHasPrefix s TRAFFIC_LABEL_PREFIX = false := by
  simp only [plainFlowbits, List.mem_map, List.mem_filter, Bool.and_eq_true,
    Bool.not_eq_true']
  constructor
  · rintro ⟨name, ⟨hn, hp⟩, heq⟩
    injection heq with heq
    subst heq
    exact ⟨hn, hp⟩
  · rintro ⟨hn, hp⟩
    exact ⟨s, ⟨hn, hp⟩, rfl⟩

/-- C21. For every flow with its annotation list, root object and traffic
pointer given to EveAddFlowVars: the traffic builder it leaves is the finished
object whose member id is the array of the resolved flow-bit names that begin
with traffic/id/, each with that prefix removed, and whose member label is the
array of the resolved names that begin with traffic/label/, each with that
prefix removed, in the order of the list; a text is in the flowbits array set
in the root object only for a resolved name that begins with neither prefix.
The members flowbits, flowints and flowvars are set in the root object in this
order, each only when it has an element. -/
theorem traffic_arrays_from_prefixed_flowbits (x : Externals) (f : Flow)
    (ms : List (String × Json)) (js_traffic : Option JsonBuilder) :
    (EveAddFlowVars x (some f) (JsonBuilder.rootObject ms) js_traffic).2
      = (if (trafficIds x f.flowvar).isEmpty && (trafficLabels x f.flowvar).isEmpty then
          js_traffic
        else some (JsonBuilder.finished (.obj
          (arrayField "id" (trafficIds x f.flowvar)
            ++ arrayField "label" (trafficLabels x f.flowvar))))) ∧
    trafficIds x f.flowvar
      = ((flowbitNames x f.flowvar).filter fun name =>
          SCStringHasPrefix name "traffic/id/").map
          (fun name => Json.str (String.mk (name.toList.drop 11))) ∧
    trafficLabels x f.flowvar
      = ((flowbitNames x f.flowvar).filter fun name =>
          SCStringHasPrefix name "traffic/label/").map
          (fun name => Json.str (String.mk (name.toList.drop 14))) ∧
    (EveAddFlowVars x (some f) (JsonBuilder.rootObject ms) js_traffic).1
      = JsonBuilder.rootObject (setMembers ms
          (arrayField "flowbits" (plainFlowbits x f.flowvar)
            ++ objectField "flowints" (flowintMembers x f.flowvar)
            ++ arrayField "flowvars" (flowvarEntries x f.flowvar))) ∧
    ((∀ kv ∈ ms, kv.1 ≠ "flowbits" ∧ kv.1 ≠ "flowints" ∧ kv.1 ≠ "flowvars") →
      (EveAddFlowVars x (some f) (JsonBuilder.rootObject ms) js_traffic).1
        = JsonBuilder.rootObject (ms ++
            (arrayField "flowbits" (plainFlowbits x f.flowvar)
              ++ objectField "flowints" (flowintMembers x f.flowvar)
              ++ arrayField "flowvars" (flowvarEntries x f.flowvar)))) ∧
    (∀ name, Json.str name ∈ plainFlowbits x f.flowvar →
      SCStringHasPrefix name "traffic/id/" = false ∧
      SCStringHasPrefix name "traffic/label/" = false) := by
  rw [EveAddFlowVars_eq]
  refine ⟨?_, rfl, rfl, rfl, ?_, ?_⟩
  · simp only [trafficObject]
    split_ifs <;> rfl
  · intro hfresh
    exact congrArg JsonBuilder.rootObject (setMembers_flowMembers_fresh x f.flowvar ms hfresh)
  · intro name h
    exact ((mem_plainFlowbits x f.flowvar name).mp h).2

/-- C21, at the example of the specification: a flow whose only annotation is
a flow-bit named traffic/id/42 gives the traffic object with id equal to the
array holding 42 and nothing in the root object; with the bits traffic/id/42,
custom-flag and traffic/label/web the ids are 42, the labels are web and the
flowbits array holds custom-flag alone. -/
theorem traffic_arrays_from_prefixed_flowbits_witness :
    EveAddFlowVars exampleExternalsWithNames (some exampleTrafficIdFlow) jb_new_object none
      = (JsonBuilder.rootObject [],
         some (JsonBuilder.finished (.obj [("id", .arr [.str "42"])]))) ∧
    EveAddFlowVars exampleExternalsWithNames (some exampleBitsFlow) jb_new_object none
      = (JsonBuilder.rootObject [("flowbits", .arr [.str "custom-flag"])],
         some (JsonBuilder.finished
           (.obj [("id", .arr [.str "42"]), ("label", .arr [.str "web"])]))) ∧
    trafficIds exampleExternalsWithNames exampleBitsFlow.flowvar = [.str "42"] := by
  have h := traffic_arrays_from_prefixed_flowbits exampleExternalsWithNames exampleBitsFlow []
    none
  exact ⟨rfl, rfl, h.2.1.trans rfl⟩

/-- C22. For every flow with its annotation list: the flowbits array that
EveAddFlowVars sets in the root object holds exactly the resolved flow-bit
names that begin with neither reserved prefix, unchanged and in the order of
the list; and when no resolved flow-bit name begins with a reserved prefix,
EveAddFlowVars leaves the traffic pointer as it was and EveAddMetadata sets no
member other than metadata in the event. -/
theorem plain_flowbits_and_no_traffic (x : Externals) (p : Option Packet) (f : Flow)
    (ms : List (String × Json)) (js_traffic : Option JsonBuilder) :
    (EveAddFlowVars x (some f) (JsonBuilder.rootObject ms) js_traffic).1
      = JsonBuilder.rootObject (setMembers ms
          (arrayField "flowbits" (plainFlowbits x f.flowvar)
            ++ objectField "flowints" (flowintMembers x f.flowvar)
            ++ arrayField "flowvars" (flowvarEntries x f.flowvar))) ∧
    ((∀ kv ∈ ms, kv.1 ≠ "flowbits" ∧ kv.1 ≠ "flowints" ∧ kv.1 ≠ "flowvars") →
      (EveAddFlowVars x (some f) (JsonBuilder.rootObject ms) js_traffic).1
        = JsonBuilder.rootObject (ms ++
            (arrayField "flowbits" (plainFlowbits x f.flowvar)
              ++ objectField "flowints" (flowintMembers x f.flowvar)
              ++ arrayField "flowvars" (flowvarEntries x f.flowvar)))) ∧
    plainFlowbits x f.flowvar
      = ((flowbitNames x f.flowvar).filter fun name =>
          !SCStringHasPrefix name "traffic/id/" && !SCStringHasPrefix name "traffic/label/").map
          (fun name => Json.str name) ∧
    ((∀ name ∈ flowbitNames x f.flowvar,
        SCStringHasPrefix name "traffic/id/" = false ∧
        SCStringHasPrefix name "traffic/label/" = false) →
      (EveAddFlowVars x (some f) (JsonBuilder.rootObject ms) js_traffic).2 = js_traffic ∧
      EveAddMetadata x p (some f) (JsonBuilder.rootObject ms)
        = (if (packetAnnotations p).isEmpty && f.flowvar.isEmpty then JsonBuilder.rootObject ms
           else JsonBuilder.rootObject (setMember ms "metadata" (.obj
                  (metadataMembers x f.flowvar (packetAnnotations p)))))) := by
  rw [EveAddFlowVars_eq, EveAddMetadata_eq]
  refine ⟨rfl, fun hfresh => congrArg JsonBuilder.rootObject
    (setMembers_flowMembers_fresh x f.flowvar ms hfresh), rfl, ?_⟩
  intro hno
  have hid : trafficIds x f.flowvar = [] := by
    rw [trafficIds, List.map_eq_nil_iff, List.filter_eq_nil_iff]
    intro name hn
    simp [(hno name hn).1, TRAFFIC_ID_PREFIX]
  have hlab : trafficLabels x f.flowvar = [] := by
    rw [trafficLabels, List.map_eq_nil_iff, List.filter_eq_nil_iff]
    intro name hn
    simp [(hno name hn).2, TRAFFIC_LABEL_PREFIX]
  have hobj : trafficObject x f.flowvar = none := by
    simp [trafficObject, hid, hlab]
  simp only [hobj, trafficField, flowAnnotations, List.nil_append]
  trivial

/-- C22, at the example of the specification: a flow whose only annotation is a
flow-bit named custom-flag gives flowbits equal to the array holding
custom-flag and no traffic member. -/
theorem plain_flowbits_and_no_traffic_witness :
    (∀ name ∈ flowbitNames exampleExternalsWithNames exampleCustomFlagFlow.flowvar,
        SCStringHasPrefix name "traffic/id/" = false ∧
        SCStringHasPrefix name "traffic/label/" = false) ∧
    EveAddFlowVars exampleExternalsWithNames (some exampleCustomFlagFlow) jb_new_object none
      = (JsonBuilder.rootObject [("flowbits", .arr [.str "custom-flag"])], none) ∧
    EveAddMetadata exampleExternalsWithNames none (some exampleCustomFlagFlow) jb_new_object
      = JsonBuilder.rootObject
          [("metadata", .obj [("flowbits", .arr [.str "custom-flag"])])] := by
  have hno : ∀ name ∈ flowbitNames exampleExternalsWithNames exampleCustomFlagFlow.flowvar,
      SCStringHasPrefix name "traffic/id/" = false ∧
      SCStringHasPrefix name "traffic/label/" = false := by
    intro name hn
    have hnames : flowbitNames exampleExternalsWithNames exampleCustomFlagFlow.flowvar
        = ["custom-flag"] := by decide
    rw [hnames, List.mem_singleton] at hn
    subst hn
    exact ⟨by decide, by decide⟩
  have h := (plain_flowbits_and_no_traffic exampleExternalsWithNames none
    exampleCustomFlagFlow [] none).2.2.2 hno
  exact ⟨hno, rfl, h.2.trans rfl⟩

/-! ## Properties: annotations the registry does not resolve -/

/-- A node whose name the registry does not resolve: an unkeyed string
variable, an integer variable or a flow-bit for which VarNameStoreLookupById
returns NULL. -/
theorem EveAddFlowVars_step_unresolved (x : Externals) (l : EveAddFlowVars.Locals)
    (gv : GenericVar)
    (h : (gv.isStringVar ∧ gv.key = none ∧
            x.VarNameStoreLookupById gv.idx .VAR_TYPE_FLOW_VAR = none) ∨
         (gv.isIntVar ∧ x.VarNameStoreLookupById gv.idx .VAR_TYPE_FLOW_INT = none) ∨
         (gv.isFlowBit ∧ x.VarNameStoreLookupById gv.idx .VAR_TYPE_FLOW_BIT = none)) :
    EveAddFlowVars.step x l gv = l := by
  rcases gv with ⟨ty, idx, dt, key, sv, iv⟩
  simp only [GenericVar.isStringVar, GenericVar.isIntVar, GenericVar.isFlowBit] at h
  rcases h with ⟨⟨ht, hd⟩, hk, hl⟩ | ⟨⟨ht, hd⟩, hl⟩ | ⟨ht, hl⟩
  · subst hd hk
    simp only [EveAddFlowVars.step, ht, if_true, and_self, hl]
  · subst hd
    simp [EveAddFlowVars.step, ht, hl]
  · subst ht
    simp [EveAddFlowVars.step, hl]

theorem JsonAddFlowVars_step_unresolved (x : Externals) (l : JsonAddFlowVars.Locals)
    (gv : GenericVar)
    (h : (gv.isStringVar ∧ gv.key = none ∧
            x.VarNameStoreLookupById gv.idx .VAR_TYPE_FLOW_VAR = none) ∨
         (gv.isIntVar ∧ x.VarNameStoreLookupById gv.idx .VAR_TYPE_FLOW_INT = none) ∨
         (gv.isFlowBit ∧ x.VarNameStoreLookupById gv.idx .VAR_TYPE_FLOW_BIT = none)) :
    JsonAddFlowVars.step x l gv = l := by
  rcases gv with ⟨ty, idx, dt, key, sv, iv⟩
  simp only [GenericVar.isStringVar, GenericVar.isIntVar, GenericVar.isFlowBit] at h
  rcases h with ⟨⟨ht, hd⟩, hk, hl⟩ | ⟨⟨ht, hd⟩, hl⟩ | ⟨ht, hl⟩
  · subst hd hk
    simp only [JsonAddFlowVars.step, ht, if_true, and_self, hl]
  · subst hd
    simp [JsonAddFlowVars.step, ht, hl]
  · subst ht
    simp [JsonAddFlowVars.step, hl]

/-- C23. For every flow, name registry and node of the flow's annotation list
that is an unkeyed string variable, an integer variable or a flow-bit whose
name the registry does not resolve: the pass of the loop for that node leaves
every local collection as it was, and EveAddFlowVars and JsonAddFlowVars give
the same root object and the same traffic object for the list with the node as
for the list with the node removed, whatever nodes come before and after
it. -/
theorem unresolved_node_contributes_nothing (x : Externals) (f : Flow)
    (before after : List GenericVar) (gv : GenericVar)
    (h : (gv.isStringVar ∧ gv.key = none ∧
            x.VarNameStoreLookupById gv.idx .VAR_TYPE_FLOW_VAR = none) ∨
         (gv.isIntVar ∧ x.VarNameStoreLookupById gv.idx .VAR_TYPE_FLOW_INT = none) ∨
         (gv.isFlowBit ∧ x.VarNameStoreLookupById gv.idx .VAR_TYPE_FLOW_BIT = none)) :
    (∀ l, EveAddFlowVars.step x l gv = l) ∧
    (∀ l, JsonAddFlowVars.step x l gv = l) ∧
    (∀ js_root js_traffic,
      EveAddFlowVars x (some { f with flowvar := before ++ gv :: after }) js_root js_traffic
        = EveAddFlowVars x (some { f with flowvar := before ++ after }) js_root js_traffic) ∧
    (∀ js_root js_traffic,
      JsonAddFlowVars x (some { f with flowvar := before ++ gv :: after }) js_root js_traffic
        = JsonAddFlowVars x (some { f with flowvar := before ++ after }) js_root js_traffic) := by
  have hE := fun l => EveAddFlowVars_step_unresolved x l gv h
  have hJ := fun l => JsonAddFlowVars_step_unresolved x l gv h
  have hfoldE : (before ++ gv :: after).foldl (EveAddFlowVars.step x) {}
      = (before ++ after).foldl (EveAddFlowVars.step x) {} := by
    rw [List.foldl_append, List.foldl_cons, hE, List.foldl_append]
  have hfoldJ : (before ++ gv :: after).foldl (JsonAddFlowVars.step x) {}
      = (before ++ after).foldl (JsonAddFlowVars.step x) {} := by
    rw [List.foldl_append, List.foldl_cons, hJ, List.foldl_append]
  have hne : before ++ gv :: after ≠ [] := by simp
  refine ⟨hE, hJ, ?_, ?_⟩
  · intro js_root js_traffic
    simp only [EveAddFlowVars, hne, if_false, hfoldE]
    by_cases hnil : before ++ after = []
    · simp [hnil]
    · simp only [hnil, if_false]
  · intro js_root js_traffic
    simp only [JsonAddFlowVars, hne, if_false, hfoldJ]
    by_cases hnil : before ++ after = []
    · simp [hnil]
    · simp only [hnil, if_false]

/-- C23, at the flow-bit 99 of the examples, which the registry does not
resolve, placed between the bits traffic/id/42 and custom-flag. -/
theorem unresolved_node_contributes_nothing_witness :
    (exampleUnknownBit.isFlowBit ∧
      exampleExternalsWithNames.VarNameStoreLookupById exampleUnknownBit.idx .VAR_TYPE_FLOW_BIT
        = none) ∧
    EveAddFlowVars exampleExternalsWithNames
        (some { exampleUdpFlow with
                flowvar := [{ type := .DETECT_FLOWBITS, idx := 1 }] ++
                  exampleUnknownBit :: [{ type := .DETECT_FLOWBITS, idx := 3 }] })
        jb_new_object none
      = EveAddFlowVars exampleExternalsWithNames
        (some { exampleUdpFlow with
                flowvar := [{ type := .DETECT_FLOWBITS, idx := 1 }] ++
                  [{ type := .DETECT_FLOWBITS, idx := 3 }] })
        jb_new_object none ∧
    EveAddFlowVars exampleExternalsWithNames
        (some { exampleUdpFlow with flowvar := [] ++ exampleUnknownBit :: [] })
        jb_new_object none
      = (jb_new_object, none) :=
  ⟨⟨rfl, rfl⟩,
    (unresolved_node_contributes_nothing exampleExternalsWithNames exampleUdpFlow
      [{ type := .DETECT_FLOWBITS, idx := 1 }] [{ type := .DETECT_FLOWBITS, idx := 3 }]
      exampleUnknownBit (Or.inr (Or.inr ⟨rfl, rfl⟩))).2.2.1 jb_new_object none,
    rfl⟩

/-! ## Properties: packet variables -/

/-- C24. The reply packet of the examples with one packet variable that has no
runtime key and whose id 31 the registry does not resolve: no entry has a
usable key, yet EveAddPacketVars and JsonAddPacketvars both add the member
pktvars, and the array holds one object without any member; EveAddMetadata
emits it inside metadata. A packet variable whose id resolves gives an object
with one member. -/
theorem unresolved_pktvar_gives_empty_object :
    (∀ pv ∈ exampleUnresolvedPktvarPacket.pktvar, ¬ pv.hasUsableKey exampleExternalsWithNames) ∧
    EveAddPacketVars exampleExternalsWithNames (some exampleUnresolvedPktvarPacket) jb_new_object
      = JsonBuilder.rootObject [("pktvars", .arr [.obj []])] ∧
    JsonAddPacketvars exampleExternalsWithNames (some exampleUnresolvedPktvarPacket) json_object
      = .obj [("pktvars", .arr [.obj []])] ∧
    EveAddMetadata exampleExternalsWithNames (some exampleUnresolvedPktvarPacket) none
        jb_new_object
      = JsonBuilder.rootObject [("metadata", .obj [("pktvars", .arr [.obj []])])] ∧
    JsonAddMetadata exampleExternalsWithNames (some exampleUnresolvedPktvarPacket) none
        json_object
      = .obj [("metadata", .obj [("pktvars", .arr [.obj []])])] ∧
    EveAddPacketVars exampleExternalsWithNames (some exampleTaggedVarsPacket) jb_new_object
      = JsonBuilder.rootObject
          [("pktvars", .arr [.obj [("tag", .str "x")], .obj [("k", .str "v")]])] := by
  refine ⟨?_, rfl, rfl, rfl, rfl, rfl⟩
  intro pv hpv
  have hl : exampleUnresolvedPktvarPacket.pktvar = [{ id := 31, value := [120] }] := rfl
  rw [hl, List.mem_singleton] at hpv
  subst hpv
  decide

/-- The pktvars array has an entry for every packet variable with a runtime
key or an id above zero, whether or not the id resolves. -/
theorem pktvars_emitted_iff (x : Externals) (p : Packet) (ms : List (String × Json)) :
    EveAddPacketVars x (some p) (JsonBuilder.rootObject ms)
      = (if ∃ pv ∈ p.pktvar, pv.key.isSome ∨ pv.id > 0 then
          JsonBuilder.rootObject (setMember ms "pktvars" (.arr (pktvarEntries x p.pktvar)))
         else JsonBuilder.rootObject ms) := by
  rw [EveAddPacketVars_eq]
  have hiff : pktvarEntries x p.pktvar = [] ↔ ¬ ∃ pv ∈ p.pktvar, pv.key.isSome ∨ pv.id > 0 := by
    unfold pktvarEntries
    rw [List.filterMap_eq_nil_iff]
    constructor
    · rintro h ⟨pv, hpv, hc⟩
      have := h pv hpv
      unfold pktvarEntry at this
      rw [if_pos hc] at this
      cases hk : pv.key with
      | some k => simp [hk] at this
      | none =>
          rw [hk] at this
          cases hv : x.VarNameStoreLookupById pv.id .VAR_TYPE_PKT_VAR <;> simp [hv] at this
    · intro h pv hpv
      unfold pktvarEntry
      rw [if_neg]
      exact fun hc => h ⟨pv, hpv, hc⟩
  by_cases hc : ∃ pv ∈ p.pktvar, pv.key.isSome ∨ pv.id > 0
  · have hne : pktvarEntries x p.pktvar ≠ [] := fun h => (hiff.mp h) hc
    rw [if_pos hc]
    unfold arrayField
    cases hl : pktvarEntries x p.pktvar with
    | nil => exact absurd hl hne
    | cons a l => rfl
  · rw [if_neg hc, hiff.mpr hc]
    simp [arrayField, setMembers]

/-! ## Properties: string and integer flow variables -/

/-- C25. For every flow with its annotation list: the array flowvars that
EveAddFlowVars sets in the root object holds one single-member object for every
string variable that carries a runtime key or resolves to a registered name,
in the order of the list, and nothing else. For a variable with a runtime key
the member's key is the printable form of the runtime key, and the pass of the
loop is the same for every registry (no lookup is made); for a variable
without one the key is the registered name; the member's value is the
printable form of the variable's value. The array is absent when there is no
such variable. -/
theorem flowvars_array_in_list_order (x : Externals) (f : Flow) (ms : List (String × Json))
    (js_traffic : Option JsonBuilder) :
    (EveAddFlowVars x (some f) (JsonBuilder.rootObject ms) js_traffic).1
      = JsonBuilder.rootObject (setMembers ms
          (arrayField "flowbits" (plainFlowbits x f.flowvar)
            ++ objectField "flowints" (flowintMembers x f.flowvar)
            ++ arrayField "flowvars" (f.flowvar.filterMap (flowvarEntry x)))) ∧
    ((∀ kv ∈ ms, kv.1 ≠ "flowbits" ∧ kv.1 ≠ "flowints" ∧ kv.1 ≠ "flowvars") →
      (EveAddFlowVars x (some f) (JsonBuilder.rootObject ms) js_traffic).1
        = JsonBuilder.rootObject (ms ++
            (arrayField "flowbits" (plainFlowbits x f.flowvar)
              ++ objectField "flowints" (flowintMembers x f.flowvar)
              ++ arrayField "flowvars" (f.flowvar.filterMap (flowvarEntry x))))) ∧
    (∀ gv key, gv.isStringVar → gv.key = some key →
      flowvarEntry x gv
        = some (.obj [(x.PrintStringsToBuffer (key.length + 1) key,
            .str (x.PrintStringsToBuffer (gv.fv_str_value.length + 1) gv.fv_str_value))]) ∧
      ∀ (registry : Nat → VarType → Option String) (l : EveAddFlowVars.Locals),
        EveAddFlowVars.step { x with VarNameStoreLookupById := registry } l gv
          = EveAddFlowVars.step x l gv) ∧
    (∀ gv name, gv.isStringVar → gv.key = none →
      x.VarNameStoreLookupById gv.idx .VAR_TYPE_FLOW_VAR = some name →
      flowvarEntry x gv
        = some (.obj [(name,
            .str (x.PrintStringsToBuffer (gv.fv_str_value.length + 1) gv.fv_str_value))])) ∧
    (∀ gv, flowvarEntry x gv ≠ none →
      gv.isStringVar ∧
      (gv.key ≠ none ∨ x.VarNameStoreLookupById gv.idx .VAR_TYPE_FLOW_VAR ≠ none)) := by
  rw [EveAddFlowVars_eq]
  refine ⟨rfl, fun hfresh => congrArg JsonBuilder.rootObject
    (setMembers_flowMembers_fresh x f.flowvar ms hfresh), ?_, ?_, ?_⟩
  · intro gv key hs hk
    refine ⟨?_, ?_⟩
    · simp [flowvarEntry, hs, hk, printable]
    · intro registry l
      rcases gv with ⟨ty, idx, dt, k, sv, iv⟩
      obtain ⟨ht, hd⟩ := hs
      simp only at hk ht hd
      subst hk hd
      simp [EveAddFlowVars.step, ht]
  · intro gv name hs hk hl
    simp [flowvarEntry, hs, hk, hl, printable]
  · intro gv hne
    unfold flowvarEntry at hne
    by_cases hs : gv.isStringVar
    · refine ⟨hs, ?_⟩
      rw [if_pos hs] at hne
      cases hk : gv.key with
      | some k => left; simp
      | none =>
          right
          rw [hk] at hne
          intro hl
          rw [hl] at hne
          exact hne rfl
    · rw [if_neg hs] at hne
      exact absurd rfl hne

/-- C25, at the flow of the examples with the string variable user holding
bob, a variable with the runtime key k holding v and a variable that does not
resolve. -/
theorem flowvars_array_in_list_order_witness :
    EveAddFlowVars exampleExternalsWithNames (some exampleStringsFlow) jb_new_object none
      = (JsonBuilder.rootObject
          [("flowvars", .arr [.obj [("user", .str "bob")], .obj [("k", .str "v")]])], none) ∧
    (EveAddFlowVars exampleExternalsWithNames (some exampleStringsFlow) jb_new_object none).1
      = JsonBuilder.rootObject (setMembers []
          (arrayField "flowbits" (plainFlowbits exampleExternalsWithNames
            exampleStringsFlow.flowvar)
          ++ objectField "flowints" (flowintMembers exampleExternalsWithNames
            exampleStringsFlow.flowvar)
          ++ arrayField "flowvars" (exampleStringsFlow.flowvar.filterMap
            (flowvarEntry exampleExternalsWithNames)))) :=
  ⟨rfl,
    (flowvars_array_in_list_order exampleExternalsWithNames exampleStringsFlow [] none).1⟩

theorem flowintEntry_of_resolved (x : Externals) (gv : GenericVar) (n : String)
    (h : gv.isIntVar ∧ x.VarNameStoreLookupById gv.idx .VAR_TYPE_FLOW_INT = some n) :
    flowintEntry x gv = some (n, .int gv.fv_int_value) := by
  simp [flowintEntry, h.1, h.2]

theorem flowintEntries_split (x : Externals) (before mid after : List GenericVar)
    (a b : GenericVar) (n : String)
    (ha : a.isIntVar ∧ x.VarNameStoreLookupById a.idx .VAR_TYPE_FLOW_INT = some n)
    (hb : b.isIntVar ∧ x.VarNameStoreLookupById b.idx .VAR_TYPE_FLOW_INT = some n) :
    flowintEntries x (before ++ a :: (mid ++ b :: after))
      = flowintEntries x before ++ (n, .int a.fv_int_value) ::
          (flowintEntries x mid ++ (n, .int b.fv_int_value) :: flowintEntries x after) := by
  simp only [flowintEntries, List.filterMap_append, filterMap_cons_toList,
    flowintEntry_of_resolved x a n ha, flowintEntry_of_resolved x b n hb, Option.toList_some,
    List.singleton_append]

theorem flowintEntries_keys_ne (x : Externals) (after : List GenericVar) (n : String)
    (hlast : ∀ gv ∈ after, gv.isIntVar →
      x.VarNameStoreLookupById gv.idx .VAR_TYPE_FLOW_INT ≠ some n) :
    ∀ kv ∈ flowintEntries x after, kv.1 ≠ n := by
  intro kv hkv
  unfold flowintEntries at hkv
  rw [List.mem_filterMap] at hkv
  obtain ⟨gv, hgv, he⟩ := hkv
  unfold flowintEntry at he
  by_cases hi : gv.isIntVar
  · rw [if_pos hi] at he
    cases hl : x.VarNameStoreLookupById gv.idx .VAR_TYPE_FLOW_INT with
    | none => rw [hl] at he; cases he
    | some name =>
        rw [hl] at he
        injection he with he
        rw [← he]
        intro hname
        exact hlast gv hgv hi (by rw [hl]; exact congrArg some hname)
  · rw [if_neg hi] at he
    cases he

/-- A key that has a value keeps having one when more members are set. -/
theorem setMembers_lookup_isSome (e : List (String × Json)) (n : String) :
    ∀ ms : List (String × Json), (ms.lookup n).isSome →
      ((setMembers ms e).lookup n).isSome := by
  induction e with
  | nil => intro ms h; exact h
  | cons kv e ih =>
      intro ms h
      rw [setMembers_cons]
      apply ih
      rw [setMember_lookup]
      split_ifs
      · rfl
      · exact h

/-- The member flowints among the members the aggregators set in a root
object, when an integer variable of the list resolves: the object in which the
entries were set one after the other. -/
theorem lookup_flowints_flowMembers (x : Externals) (gvs : List GenericVar)
    (ms : List (String × Json)) (h : flowintEntries x gvs ≠ []) :
    (setMembers ms (flowMembers x gvs)).lookup "flowints"
      = some (.obj (flowintMembers x gvs)) := by
  have hne : flowintMembers x gvs ≠ [] := by
    unfold flowintMembers
    cases he : flowintEntries x gvs with
    | nil => exact absurd he h
    | cons e es =>
        rw [setMembers_cons]
        exact setMembers_ne_nil _ _ (setMember_ne_nil _ _ _)
  have hobj : objectField "flowints" (flowintMembers x gvs)
      = [("flowints", .obj (flowintMembers x gvs))] := by
    unfold objectField
    cases hl : flowintMembers x gvs with
    | nil => exact absurd hl hne
    | cons e es => rfl
  have hvars : ∀ kv ∈ arrayField "flowvars" (flowvarEntries x gvs), kv.1 ≠ "flowints" := by
    intro kv hkv
    unfold arrayField at hkv
    split_ifs at hkv
    · exact absurd hkv (List.not_mem_nil kv)
    · rw [List.mem_singleton] at hkv
      rw [hkv]
      simp
  unfold flowMembers
  rw [hobj, setMembers_append, setMembers_append, setMembers_lookup_of_not_mem _ _ hvars,
    setMembers_cons]
  show (setMember _ "flowints" _).lookup "flowints" = _
  rw [setMember_lookup, if_pos rfl]

/-- C26. For every flow whose annotation list holds two integer variables that
resolve to the same registered name: the flowints object that JsonAddFlowVars
sets in the root object and the one that EveAddFlowVars sets in the root object
each have exactly one member with that name; its value is the value of the
later of the two variables when no integer variable after it resolves to that
name, so the value of the variable that occurs last in the list. -/
theorem flowints_same_name (x : Externals) (f : Flow) (before mid after : List GenericVar)
    (a b : GenericVar) (n : String) (ms : List (String × Json))
    (jsonTraffic : Option Json) (eveTraffic : Option JsonBuilder)
    (hlist : f.flowvar = before ++ a :: (mid ++ b :: after))
    (ha : a.isIntVar ∧ x.VarNameStoreLookupById a.idx .VAR_TYPE_FLOW_INT = some n)
    (hb : b.isIntVar ∧ x.VarNameStoreLookupById b.idx .VAR_TYPE_FLOW_INT = some n) :
    ∃ members v,
      json_object_get (JsonAddFlowVars x (some f) (.obj ms) jsonTraffic).1 "flowints"
        = some (.obj members) ∧
      (EveAddFlowVars x (some f) (JsonBuilder.rootObject ms) eveTraffic).1.members.lookup
          "flowints" = some (.obj members) ∧
      members.filter (fun kv => kv.1 == n) = [(n, v)] ∧
      ((∀ gv ∈ after, gv.isIntVar →
          x.VarNameStoreLookupById gv.idx .VAR_TYPE_FLOW_INT ≠ some n) →
        v = .int b.fv_int_value) := by
  have hsplit := flowintEntries_split x before mid after a b n ha hb
  rw [← hlist] at hsplit
  have hne : flowintEntries x f.flowvar ≠ [] := by
    rw [hsplit]
    simp
  have hsome : ((flowintMembers x f.flowvar).lookup n).isSome := by
    unfold flowintMembers
    rw [hsplit, setMembers_append, setMembers_cons]
    apply setMembers_lookup_isSome
    rw [setMember_lookup, if_pos rfl]
    rfl
  obtain ⟨v, hv⟩ := Option.isSome_iff_exists.mp hsome
  refine ⟨flowintMembers x f.flowvar, v, ?_, ?_, ?_, ?_⟩
  · rw [JsonAddFlowVars_eq]
    exact lookup_flowints_flowMembers x f.flowvar ms hne
  · rw [EveAddFlowVars_eq]
    exact lookup_flowints_flowMembers x f.flowvar ms hne
  · exact filter_key_of_nodup _ n v (setMembers_keys_nodup _ [] List.nodup_nil) hv
  · intro hlast
    have hafter := flowintEntries_keys_ne x after n hlast
    have hb2 : (flowintMembers x f.flowvar).lookup n = some (.int b.fv_int_value) := by
      unfold flowintMembers
      rw [hsplit, setMembers_append, setMembers_cons, setMembers_append, setMembers_cons,
        setMembers_lookup_of_not_mem _ n hafter, setMember_lookup, if_pos rfl]
    rw [hv] at hb2
    injection hb2

/-- C26, at the flow of the examples with two integer variables that both
resolve to counter, with values 1 and 2: both aggregators give the flowints
object with the one member counter holding 2. -/
theorem flowints_same_name_witness :
    JsonAddFlowVars exampleExternalsWithNames (some exampleCounterFlow) json_object none
      = (.obj [("flowints", .obj [("counter", .int 2)])], none) ∧
    EveAddFlowVars exampleExternalsWithNames (some exampleCounterFlow) jb_new_object none
      = (JsonBuilder.rootObject [("flowints", .obj [("counter", .int 2)])], none) ∧
    ∃ members v,
      json_object_get (JsonAddFlowVars exampleExternalsWithNames (some exampleCounterFlow)
          (.obj []) none).1 "flowints" = some (.obj members) ∧
      (EveAddFlowVars exampleExternalsWithNames (some exampleCounterFlow)
          (JsonBuilder.rootObject []) none).1.members.lookup "flowints"
        = some (.obj members) ∧
      members.filter (fun kv => kv.1 == "counter") = [("counter", v)] ∧
      ((∀ gv ∈ ([] : List GenericVar), gv.isIntVar →
          exampleExternalsWithNames.VarNameStoreLookupById gv.idx .VAR_TYPE_FLOW_INT
            ≠ some "counter") →
        v = .int 2) :=
  ⟨rfl, rfl,
    flowints_same_name exampleExternalsWithNames exampleCounterFlow [] [] []
      { type := .DETECT_FLOWINT, idx := 10, datatype := .FLOWVAR_TYPE_INT, fv_int_value := 1 }
      { type := .DETECT_FLOWINT, idx := 11, datatype := .FLOWVAR_TYPE_INT, fv_int_value := 2 }
      "counter" [] none none rfl ⟨by decide, rfl⟩ ⟨by decide, rfl⟩⟩

/-! ## Properties: the metadata and traffic members of an event -/

/-- C27. For every event, with include-metadata enabled: when the packet is
absent or has no packet variables and the flow is absent or has no flow
annotations, EveAddMetadata returns the event builder as it was given, so
without a metadata member and without a traffic member, and so does
EveAddCommonOptions when the community id is not asked for; JsonAddMetadata
returns the event object as it was given. -/
theorem no_annotations_no_metadata (e : Endian) (x : Externals) (p : Option Packet)
    (f : Option Flow) (js : JsonBuilder) (json : Json) (seed : Nat)
    (hp : packetAnnotations p = []) (hf : flowAnnotations f = []) :
    EveAddMetadata x p f js = js ∧
    JsonAddMetadata x p f json = json ∧
    EveAddCommonOptions e x
        { include_metadata := true, include_community_id := false, community_id_seed := seed }
        p f js = js := by
  have hE : EveAddMetadata x p f js = js := by
    cases p <;> cases f <;> simp_all [EveAddMetadata, packetAnnotations, flowAnnotations]
  have hJ : JsonAddMetadata x p f json = json := by
    cases p <;> cases f <;> simp_all [JsonAddMetadata, packetAnnotations, flowAnnotations]
  refine ⟨hE, hJ, ?_⟩
  simp only [EveAddCommonOptions, if_true, hE]
  cases f <;> simp

/-- C27, at the reply packet of the examples, which has no packet variables,
with the UDP flow of the examples, which has no annotations, and an event that
holds one member. -/
theorem no_annotations_no_metadata_witness :
    packetAnnotations (some exampleReplyPacket) = [] ∧
    flowAnnotations (some exampleUdpFlow) = [] ∧
    EveAddMetadata exampleExternals (some exampleReplyPacket) (some exampleUdpFlow)
        (JsonBuilder.rootObject [("event_type", .str "alert")])
      = JsonBuilder.rootObject [("event_type", .str "alert")] ∧
    JsonAddMetadata exampleExternals (some exampleReplyPacket) (some exampleUdpFlow)
        (.obj [("event_type", .str "alert")])
      = .obj [("event_type", .str "alert")] := by
  have h := no_annotations_no_metadata .little exampleExternals (some exampleReplyPacket)
    (some exampleUdpFlow) (JsonBuilder.rootObject [("event_type", .str "alert")])
    (.obj [("event_type", .str "alert")]) 0 rfl rfl
  exact ⟨rfl, rfl, h.1, h.2.1⟩

theorem mem_arrayField (key : String) (items : List Json) (kv : String × Json) :
    kv ∈ arrayField key items ↔ items ≠ [] ∧ kv = (key, .arr items) := by
  unfold arrayField
  cases items <;> simp

theorem mem_objectField (key : String) (members : List (String × Json)) (kv : String × Json) :
    kv ∈ objectField key members ↔ members ≠ [] ∧ kv = (key, .obj members) := by
  unfold objectField
  cases members <;> simp

/-- Setting the members traffic and metadata in an object that has neither adds
them at the end, in this order. -/
theorem setMembers_traffic_metadata (x : Externals) (gvs : List GenericVar) (v : Json)
    (ms : List (String × Json)) (h : ∀ kv ∈ ms, kv.1 ≠ "traffic" ∧ kv.1 ≠ "metadata") :
    setMembers ms (trafficField x gvs ++ [("metadata", v)])
      = ms ++ trafficField x gvs ++ [("metadata", v)] := by
  rw [List.append_assoc]
  apply setMembers_fresh
  · unfold trafficField
    cases trafficObject x gvs <;> simp
  · intro kv hkv
    have hk := h kv hkv
    unfold trafficField
    cases trafficObject x gvs <;> simp [hk.1, hk.2]

/-- C28. For every event inside its root object, packet and flow given to
EveAddMetadata when the packet or the flow has annotations: the members set in
the event are a member traffic, present exactly when at least one traffic id
or traffic label was collected from the flow's annotations, and then the
member metadata, both added at the end of an event that has neither; the
traffic object has a member id exactly when an id was collected, holding the
ids, and a member label exactly when a label was collected, holding the
labels; every member of the metadata object is one of flowbits, flowints,
flowvars and pktvars, so traffic is never inside metadata and the four
collections are never at the top level. -/
theorem traffic_at_top_level_collections_in_metadata (x : Externals) (p : Option Packet)
    (f : Option Flow) (ms : List (String × Json)) :
    EveAddMetadata x p f (JsonBuilder.rootObject ms)
      = (if (packetAnnotations p).isEmpty && (flowAnnotations f).isEmpty then
          JsonBuilder.rootObject ms
        else
          JsonBuilder.rootObject (setMembers ms (trafficField x (flowAnnotations f)
            ++ [("metadata", .obj
                  (metadataMembers x (flowAnnotations f) (packetAnnotations p)))]))) ∧
    ((∀ kv ∈ ms, kv.1 ≠ "traffic" ∧ kv.1 ≠ "metadata") →
      EveAddMetadata x p f (JsonBuilder.rootObject ms)
        = (if (packetAnnotations p).isEmpty && (flowAnnotations f).isEmpty then
            JsonBuilder.rootObject ms
          else
            JsonBuilder.rootObject (ms ++ trafficField x (flowAnnotations f)
              ++ [("metadata", .obj
                    (metadataMembers x (flowAnnotations f) (packetAnnotations p)))]))) ∧
    (trafficIds x (flowAnnotations f) = [] ∧ trafficLabels x (flowAnnotations f) = [] →
      trafficField x (flowAnnotations f) = []) ∧
    (¬ (trafficIds x (flowAnnotations f) = [] ∧ trafficLabels x (flowAnnotations f) = []) →
      trafficField x (flowAnnotations f)
        = [("traffic", .obj (arrayField "id" (trafficIds x (flowAnnotations f))
            ++ arrayField "label" (trafficLabels x (flowAnnotations f))))]) ∧
    (∀ v, ("id", v) ∈ arrayField "id" (trafficIds x (flowAnnotations f))
          ++ arrayField "label" (trafficLabels x (flowAnnotations f))
      ↔ trafficIds x (flowAnnotations f) ≠ [] ∧ v = .arr (trafficIds x (flowAnnotations f))) ∧
    (∀ v, ("label", v) ∈ arrayField "id" (trafficIds x (flowAnnotations f))
          ++ arrayField "label" (trafficLabels x (flowAnnotations f))
      ↔ trafficLabels x (flowAnnotations f) ≠ [] ∧
        v = .arr (trafficLabels x (flowAnnotations f))) ∧
    (∀ kv ∈ metadataMembers x (flowAnnotations f) (packetAnnotations p),
      kv.1 = "flowbits" ∨ kv.1 = "flowints" ∨ kv.1 = "flowvars" ∨ kv.1 = "pktvars") := by
  refine ⟨EveAddMetadata_eq x p f ms, ?_, ?_, ?_, ?_, ?_, ?_⟩
  · intro hfresh
    rw [EveAddMetadata_eq, setMembers_traffic_metadata x _ _ ms hfresh]
  · rintro ⟨h1, h2⟩
    simp [trafficField, trafficObject, h1, h2]
  · intro h
    unfold trafficField trafficObject
    cases h1 : trafficIds x (flowAnnotations f) with
    | nil =>
        cases h2 : trafficLabels x (flowAnnotations f) with
        | nil => exact absurd ⟨h1, h2⟩ h
        | cons a l => rfl
    | cons a l => rfl
  · intro v
    simp [mem_arrayField]
  · intro v
    simp [mem_arrayField]
  · intro kv hkv
    simp only [metadataMembers, List.mem_append, mem_arrayField, mem_objectField] at hkv
    rcases hkv with ((⟨_, h⟩ | ⟨_, h⟩) | ⟨_, h⟩) | ⟨_, h⟩ <;> simp [h]

/-- C28, at the flow of the examples with the bits traffic/id/42, custom-flag
and traffic/label/web, logged with the packet of the examples that carries two
packet variables. -/
theorem traffic_at_top_level_collections_in_metadata_witness :
    EveAddMetadata exampleExternalsWithNames (some exampleTaggedVarsPacket)
        (some exampleBitsFlow) (JsonBuilder.rootObject [("event_type", .str "alert")])
      = JsonBuilder.rootObject
          [("event_type", .str "alert"),
           ("traffic", .obj [("id", .arr [.str "42"]), ("label", .arr [.str "web"])]),
           ("metadata", .obj
              [("flowbits", .arr [.str "custom-flag"]),
               ("pktvars", .arr [.obj [("tag", .str "x")], .obj [("k", .str "v")]])])] ∧
    (∀ kv ∈ metadataMembers exampleExternalsWithNames
        (flowAnnotations (some exampleBitsFlow))
        (packetAnnotations (some exampleTaggedVarsPacket)),
      kv.1 = "flowbits" ∨ kv.1 = "flowints" ∨ kv.1 = "flowvars" ∨ kv.1 = "pktvars") :=
  ⟨rfl,
    (traffic_at_top_level_collections_in_metadata exampleExternalsWithNames
      (some exampleTaggedVarsPacket) (some exampleBitsFlow) []).2.2.2.2.2.2⟩

/-! ## Properties: escaping of strings -/

theorem SCJsonString_step_eq (cs : CharSign) (st : List Char × Nat) (b : Nat) :
    SCJsonString.step cs st b
      = PrintBufferData st (MAX_JSON_SIZE - 1) (SCJsonString.byteText cs b) := by
  unfold SCJsonString.step SCJsonString.byteText
  split <;> rfl

theorem byteText_length_pos (cs : CharSign) (b : Nat) :
    1 ≤ (SCJsonString.byteText cs b).length := by
  unfold SCJsonString.byteText
  split
  · simp [format_c]
  · simp

/-- One call of PrintBufferData on a buffer that holds the first 2046
characters of a text adds the given text and keeps the first 2046 characters. -/
theorem PrintBufferData_take (T t : List Char) (ht : 1 ≤ t.length) :
    PrintBufferData (T.take 2046, min T.length 2046) (MAX_JSON_SIZE - 1) t
      = ((T ++ t).take 2046, min (T ++ t).length 2046) := by
  have hsize : MAX_JSON_SIZE - 1 = 2047 := rfl
  have htake : (T.take 2046).take (min T.length 2046) = T.take 2046 := by
    apply List.take_of_length_le
    rw [List.length_take]
    omega
  have hroom : 2047 - min T.length 2046 - 1 = 2046 - T.length := by omega
  have hbuf : T.take 2046 ++ t.take (2046 - T.length) = (T ++ t).take 2046 := by
    rw [List.take_append_eq_append_take]
  simp only [PrintBufferData, hsize, htake, hroom, hbuf, List.length_append]
  split_ifs with h
  · congr 1
    omega
  · congr 1
    omega

theorem SCJsonString_foldl (cs : CharSign) (val : List Nat) :
    ∀ T : List Char,
    val.foldl (SCJsonString.step cs) (T.take 2046, min T.length 2046)
      = ((T ++ (val.map (SCJsonString.byteText cs)).flatten).take 2046,
         min (T ++ (val.map (SCJsonString.byteText cs)).flatten).length 2046) := by
  induction val with
  | nil => intro T; simp
  | cons b val ih =>
      intro T
      rw [List.foldl_cons, SCJsonString_step_eq,
        PrintBufferData_take T _ (byteText_length_pos cs b), ih]
      simp [List.append_assoc]

/-- The text in retbuf when the loop of SCJsonString is left: the first 2046
characters of the texts formatted for the bytes, one after the other. -/
theorem SCJsonString_escape_eq (cs : CharSign) (val : List Nat) :
    SCJsonString.escape cs val
      = String.mk (((val.map (SCJsonString.byteText cs)).flatten).take 2046) := by
  have h := SCJsonString_foldl cs val []
  simp only [List.take_nil, List.length_nil, Nat.zero_min, List.nil_append] at h
  unfold SCJsonString.escape
  simp only [h]
  congr 1
  apply List.take_of_length_le
  rw [List.length_take]
  omega

set_option maxRecDepth 100000 in
theorem byteText_unsigned : ∀ b, b < 256 → SCJsonString.byteText .unsigned b = escapedByte b := by
  decide

set_option maxRecDepth 100000 in
theorem byteText_signed : ∀ b, b < 128 → SCJsonString.byteText .signed b = escapedByte b := by
  decide

theorem byteText_eq_escapedByte (cs : CharSign) (b : Nat)
    (h : b < 256 ∧ (cs = .unsigned ∨ b < 128)) :
    SCJsonString.byteText cs b = escapedByte b := by
  cases cs with
  | unsigned => exact byteText_unsigned b h.1
  | signed =>
      rcases h.2 with h2 | h2
      · cases h2
      · exact byteText_signed b h2

theorem escapedText_length (val : List Nat) :
    (escapedText val).length
      = (val.filter isPrintableByte).length
        + 4 * (val.filter fun b => !isPrintableByte b).length := by
  unfold escapedText
  induction val with
  | nil => rfl
  | cons b val ih =>
      rw [List.map_cons, List.flatten_cons, List.length_append, ih]
      by_cases hb : isPrintableByte b = true
      · simp [escapedByte, hb, List.filter_cons]
        omega
      · have hb2 : isPrintableByte b = false := by simpa using hb
        simp [escapedByte, hb2, List.filter_cons]
        omega

/-- A byte string whose bytes are all below 0x80 is valid UTF-8: json_string
accepts it, with one character for each byte. -/
theorem utf8_check_string_ascii (val : List Nat) (h : ∀ b ∈ val, b < 0x80) :
    utf8_check_string val = some (val.map Char.ofNat) := by
  unfold utf8_check_string
  induction val with
  | nil => rfl
  | cons b val ih =>
      have hb : b < 0x80 := h b (List.mem_cons_self _ _)
      have hv := ih fun c hc => h c (List.mem_cons_of_mem _ hc)
      have h1 : utf8_check_first b = 1 := by
        unfold utf8_check_first
        rw [if_pos hb]
      rw [utf8_check_string.go, h1, hv]
      rfl

/-- Every byte string that json_string rejects, and that the loop of
SCJsonString therefore escapes, holds a byte of value 0x80 or above. -/
theorem utf8_check_string_none_high_byte (val : List Nat)
    (h : utf8_check_string val = none) : ∃ b ∈ val, 0x80 ≤ b := by
  by_contra hno
  push_neg at hno
  rw [utf8_check_string_ascii val hno] at h
  cases h

/-- For every byte string whose bytes are non-negative as a char (every byte
where char is unsigned, the bytes below 0x80 where it is signed), the text the
loop of SCJsonString leaves in retbuf is the first 2046 characters of the
concatenation, byte by byte, of the byte itself when it is printable ASCII and
otherwise of backslash, x and the two uppercase hexadecimal digits of the value
of the byte; when the string has k printable and m other bytes with k + 4m at
most 2046 the text is the whole concatenation and has exactly k + 4m
characters. -/
theorem escape_text_of_bytes (cs : CharSign)
    (val : List Nat) (hbytes : ∀ b ∈ val, b < 256 ∧ (cs = .unsigned ∨ b < 128)) :
    SCJsonString.escape cs val = String.mk ((escapedText val).take 2046) ∧
    ((val.filter isPrintableByte).length
        + 4 * (val.filter fun b => !isPrintableByte b).length ≤ 2046 →
      SCJsonString.escape cs val = String.mk (escapedText val) ∧
      (SCJsonString.escape cs val).length
        = (val.filter isPrintableByte).length
          + 4 * (val.filter fun b => !isPrintableByte b).length) := by
  have hmap : val.map (SCJsonString.byteText cs) = val.map escapedByte := by
    apply List.map_congr_left
    intro b hb
    exact byteText_eq_escapedByte cs b (hbytes b hb)
  have hesc : SCJsonString.escape cs val = String.mk ((escapedText val).take 2046) := by
    rw [SCJsonString_escape_eq, hmap]
    rfl
  refine ⟨hesc, ?_⟩
  intro hfit
  rw [← escapedText_length] at hfit
  have htake : (escapedText val).take 2046 = escapedText val :=
    List.take_of_length_le hfit
  rw [hesc, htake]
  exact ⟨rfl, escapedText_length val⟩

/-- On a platform where char is unsigned, for every byte string that
json_string rejects, SCJsonString returns as a JSON string the first 2046
characters of the concatenation, byte by byte, of the byte itself when it is
printable ASCII and otherwise of backslash, x and the two uppercase hexadecimal
digits of the value of the byte. -/
theorem SCJsonString_unsigned_char (val : List Nat) (hbytes : ∀ b ∈ val, b < 256)
    (hu : utf8_check_string val = none) :
    SCJsonString .unsigned (some val)
      = some (.str (String.mk ((escapedText val).take 2046))) := by
  have hesc := (escape_text_of_bytes .unsigned val fun b hb => ⟨hbytes b hb, Or.inl rfl⟩).1
  simp only [SCJsonString, hu, hesc, json_string]

/-- A string of 600 bytes of value 0x80 on a platform where char is unsigned:
json_string rejects it, and the loop leaves 2046 characters in the 2048-byte
buffer retbuf, where the concatenation of the texts of the bytes has
0 + 4 * 600 = 2400. -/
theorem escape_long_string_cut :
    utf8_check_string (List.replicate 600 0x80) = none ∧
    (SCJsonString.escape .unsigned (List.replicate 600 0x80)).length = 2046 ∧
    ((List.replicate 600 0x80).filter isPrintableByte).length
      + 4 * ((List.replicate 600 0x80).filter fun b => !isPrintableByte b).length = 2400 := by
  have hbytes : (List.replicate 600 0x80).map (SCJsonString.byteText .unsigned)
      = (List.replicate 600 0x80).map escapedByte := by
    apply List.map_congr_left
    intro b hb
    rw [List.mem_replicate] at hb
    exact byteText_unsigned b (by omega)
  have hlen : (escapedText (List.replicate 600 0x80)).length = 2400 := by
    have hp : isPrintableByte 0x80 = false := by decide
    rw [escapedText_length, List.filter_replicate, List.filter_replicate]
    simp only [hp, Bool.false_eq_true, if_false, Bool.not_false, if_true, List.length_nil,
      List.length_replicate]
  refine ⟨rfl, ?_, ?_⟩
  · rw [SCJsonString_escape_eq, hbytes]
    have : (String.mk (((List.replicate 600 0x80).map escapedByte).flatten.take 2046)).length
        = (((List.replicate 600 0x80).map escapedByte).flatten.take 2046).length := rfl
    rw [this, List.length_take]
    unfold escapedText at hlen
    rw [hlen]
    rfl
  · rw [← escapedText_length]
    exact hlen

/-- C29, on a platform where char is signed. The bytes 0x41 0x80 0x42 are not
valid UTF-8, so json_string rejects them and SCJsonString escapes them: the
text is A\xFFFFFF80B, of twelve characters, where the concatenation of the
claim is A\x80B, of 1 + 4 + 1 = 6 characters. val[u] is a plain char, so the
byte 0x80 reaches the format %02X as the negative int -128 and is written with
eight hexadecimal digits. On a platform where char is unsigned the same bytes
give A\x80B. The bytes 0x41 0x01 0x42 are valid UTF-8: json_string accepts
them and SCJsonString returns them as they are. -/
theorem escape_high_byte_signed_char :
    utf8_check_string [0x41, 0x80, 0x42] = none ∧
    SCJsonString .signed (some [0x41, 0x80, 0x42]) = some (.str "A\\xFFFFFF80B") ∧
    ("A\\xFFFFFF80B" : String).length = 12 ∧
    String.mk (escapedText [0x41, 0x80, 0x42]) = "A\\x80B" ∧
    SCJsonString .unsigned (some [0x41, 0x80, 0x42]) = some (.str "A\\x80B") ∧
    utf8_check_string [0x41, 0x01, 0x42] = some ['A', Char.ofNat 1, 'B'] ∧
    SCJsonString .signed (some [0x41, 0x01, 0x42])
      = some (.str (String.mk ['A', Char.ofNat 1, 'B'])) := by
  have hs : SCJsonString.escape .signed [0x41, 0x80, 0x42] = "A\\xFFFFFF80B" := by decide
  have hu : SCJsonString.escape .unsigned [0x41, 0x80, 0x42] = "A\\x80B" := by decide
  have hr : utf8_check_string [0x41, 0x80, 0x42] = none := by decide
  have ha : utf8_check_string [0x41, 0x01, 0x42] = some ['A', Char.ofNat 1, 'B'] := by decide
  refine ⟨hr, ?_, by decide, by decide, ?_, ha, ?_⟩
  · simp only [SCJsonString, hr, hs, json_string]
  · simp only [SCJsonString, hr, hu, json_string]
  · simp only [SCJsonString, ha, json_string]

/-! ## Properties: output buffer -/

/-- When the payload fits below the capacity, grown once by the increment if
the capacity would be reached, the buffer holds what it held followed by the
whole payload and the offset advances by the size of the payload. -/
theorem OutputJSONMemBufferCallback_fits (str : List Nat) (data : OutputJSONMemBufferWrapper)
    (hwf : data.buffer.buffer.length = data.buffer.offset)
    (hfit : data.buffer.offset + str.length < data.buffer.size ∨
      data.buffer.offset + str.length < data.buffer.size + data.expand_by) :
    (OutputJSONMemBufferCallback str data).buffer.buffer = data.buffer.buffer ++ str ∧
    (OutputJSONMemBufferCallback str data).buffer.offset
      = data.buffer.offset + str.length := by
  have htake : data.buffer.buffer.take data.buffer.offset = data.buffer.buffer :=
    List.take_of_length_le (by omega)
  unfold OutputJSONMemBufferCallback
  simp only [MEMBUFFER_OFFSET, MEMBUFFER_SIZE]
  by_cases h : data.buffer.offset + str.length ≥ data.buffer.size
  · have h2 : ¬ str.length ≥ data.buffer.size + data.expand_by - data.buffer.offset := by
      omega
    simp only [h, if_true, MemBufferExpand, MemBufferWriteRaw, h2, if_false, htake,
      List.take_length, and_self]
  · have h2 : ¬ str.length ≥ data.buffer.size - data.buffer.offset := by omega
    simp only [h, if_false, MemBufferWriteRaw, h2, htake, List.take_length, and_self]

/-- C30. A buffer of capacity 8 that holds three bytes, a growth increment of 4
and a payload of twenty bytes: OutputJSONMemBufferCallback grows the capacity
once, to 12, and the buffer then holds the three bytes followed by the first
eight bytes of the payload only; the write offset has advanced by 8, not by
20. -/
theorem membuffer_callback_truncates_large_payload :
    exampleLongPayload.length = 20 ∧
    (OutputJSONMemBufferCallback exampleLongPayload exampleSmallWrapper).buffer
      = { buffer := [1, 2, 3, 10, 11, 12, 13, 14, 15, 16, 17], size := 12, offset := 11 } ∧
    (OutputJSONMemBufferCallback exampleLongPayload exampleSmallWrapper).buffer.buffer
      ≠ exampleSmallWrapper.buffer.buffer ++ exampleLongPayload ∧
    (OutputJSONMemBufferCallback exampleLongPayload exampleSmallWrapper).buffer.offset
      ≠ exampleSmallWrapper.buffer.offset + exampleLongPayload.length := by
  decide

/-- A flow whose only annotation does not resolve still makes EveAddMetadata
add the member metadata, with an object that has no member. -/
theorem unresolved_only_flow_gives_empty_metadata :
    EveAddMetadata exampleExternalsWithNames none
        (some { exampleUdpFlow with flowvar := [exampleUnknownBit] }) jb_new_object
      = JsonBuilder.rootObject [("metadata", .obj [])] := rfl

/-! ## Properties: TCP flags -/

theorem land_two_pow_ne_zero (n i : Nat) : n &&& 2 ^ i ≠ 0 ↔ n.testBit i = true := by
  rw [Nat.and_two_pow]
  cases h : n.testBit i
  · simp
  · simp

theorem filter_cons_append {α : Type} (p : α → Bool) (a : α) (l : List α) :
    (a :: l).filter p = (if p a then [a] else []) ++ l.filter p := by
  by_cases h : p a = true
  · simp [List.filter_cons, h]
  · simp [List.filter_cons, h]

theorem map_ite_singleton {α β : Type} (f : α → β) (c : Prop) [Decidable c] (a : α) :
    (if c then [a] else []).map f = if c then [f a] else [] := by
  split <;> rfl

theorem tcpFlagFields_eq (flags : Nat) :
    tcpFlagFields flags
      = (if flags &&& TH_SYN ≠ 0 then [("syn", Json.bool true)] else [])
        ++ (if flags &&& TH_FIN ≠ 0 then [("fin", Json.bool true)] else [])
        ++ (if flags &&& TH_RST ≠ 0 then [("rst", Json.bool true)] else [])
        ++ (if flags &&& TH_PUSH ≠ 0 then [("psh", Json.bool true)] else [])
        ++ (if flags &&& TH_ACK ≠ 0 then [("ack", Json.bool true)] else [])
        ++ (if flags &&& TH_URG ≠ 0 then [("urg", Json.bool true)] else [])
        ++ (if flags &&& TH_ECN ≠ 0 then [("ecn", Json.bool true)] else [])
        ++ (if flags &&& TH_CWR ≠ 0 then [("cwr", Json.bool true)] else []) := by
  have h0 : TH_FIN = 2 ^ 0 := rfl
  have h1 : TH_SYN = 2 ^ 1 := rfl
  have h2 : TH_RST = 2 ^ 2 := rfl
  have h3 : TH_PUSH = 2 ^ 3 := rfl
  have h4 : TH_ACK = 2 ^ 4 := rfl
  have h5 : TH_URG = 2 ^ 5 := rfl
  have h6 : TH_ECN = 2 ^ 6 := rfl
  have h7 : TH_CWR = 2 ^ 7 := rfl
  rw [h0, h1, h2, h3, h4, h5, h6, h7]
  simp only [land_two_pow_ne_zero, tcpFlagFields, tcpFlagNames, filter_cons_append,
    List.filter_nil, List.map_append, map_ite_singleton, List.map_nil, List.append_nil,
    List.append_assoc]

theorem tcpFlagFields_keys_nodup (flags : Nat) : ((tcpFlagFields flags).map Prod.fst).Nodup := by
  have hsub : ((tcpFlagFields flags).map Prod.fst).Sublist (tcpFlagNames.map Prod.snd) := by
    unfold tcpFlagFields
    rw [List.map_map]
    exact (List.filter_sublist _).map _
  exact hsub.nodup (by decide)

theorem tcpFlagFields_length (flags : Nat) : (tcpFlagFields flags).length = setBits8 flags := by
  unfold tcpFlagFields setBits8
  rw [List.length_map]
  have hr : List.range 8 = [0, 1, 2, 3, 4, 5, 6, 7] := by decide
  rw [hr]
  simp only [tcpFlagNames, filter_cons_append, List.filter_nil, List.length_append,
    List.length_nil]
  generalize flags.testBit 0 = b0
  generalize flags.testBit 1 = b1
  generalize flags.testBit 2 = b2
  generalize flags.testBit 3 = b3
  generalize flags.testBit 4 = b4
  generalize flags.testBit 5 = b5
  generalize flags.testBit 6 = b6
  generalize flags.testBit 7 = b7
  cases b0 <;> cases b1 <;> cases b2 <;> cases b3 <;> cases b4 <;> cases b5 <;> cases b6 <;>
    cases b7 <;> rfl

theorem jb_set_bool_rootObject (ms : List (String × Json)) (key : String) (val : Bool) :
    jb_set_bool (JsonBuilder.rootObject ms) key val
      = JsonBuilder.rootObject (setMember ms key (.bool val)) := rfl

theorem ite_set_bool_rootObject (c : Prop) [Decidable c] (ms : List (String × Json))
    (key : String) :
    (if c then jb_set_bool (JsonBuilder.rootObject ms) key true else JsonBuilder.rootObject ms)
      = JsonBuilder.rootObject (setMembers ms (if c then [(key, .bool true)] else [])) := by
  split <;> rfl

theorem ite_set_new_obj (c : Prop) [Decidable c] (ms : List (String × Json)) (key : String)
    (v : Json) :
    (if c then json_object_set_new (.obj ms) key v else .obj ms)
      = .obj (setMembers ms (if c then [(key, v)] else [])) := by
  split <;> rfl

/-- C33. For every TCP flags value: EveTcpFlags sets in the object the builder
is in one field with the value true for every flag whose bit is set, in the
order syn, fin, rst, psh, ack, urg, ecn, cwr, and nothing for a clear bit, so in
an object that has none of these fields it adds them at the end in this order;
the number of fields is the number of set bits among the eight bits, so none
for flags 0; JsonTcpFlags sets the same fields, one after the other, which for
an object without members gives the same members in the same order. -/
theorem tcp_flags_one_field_per_set_bit (flags : Nat) (ms : List (String × Json)) :
    EveTcpFlags flags (JsonBuilder.rootObject ms)
      = JsonBuilder.rootObject (setMembers ms (tcpFlagFields flags)) ∧
    ((∀ kv ∈ ms, kv.1 ∉ (tcpFlagFields flags).map Prod.fst) →
      EveTcpFlags flags (JsonBuilder.rootObject ms)
        = JsonBuilder.rootObject (ms ++ tcpFlagFields flags)) ∧
    tcpFlagFields flags
      = ([(1, "syn"), (0, "fin"), (2, "rst"), (3, "psh"), (4, "ack"), (5, "urg"), (6, "ecn"),
          (7, "cwr")].filter (fun bn => flags.testBit bn.1)).map
          (fun bn => (bn.2, Json.bool true)) ∧
    (tcpFlagFields flags).length = ((List.range 8).filter (fun i => flags.testBit i)).length ∧
    tcpFlagFields 0 = [] ∧
    JsonTcpFlags flags (.obj ms) = .obj (setMembers ms (tcpFlagFields flags)) ∧
    JsonTcpFlags flags json_object = .obj (tcpFlagFields flags) := by
  have hjson : ∀ l, JsonTcpFlags flags (.obj l) = .obj (setMembers l (tcpFlagFields flags)) := by
    intro l
    rw [tcpFlagFields_eq]
    simp only [JsonTcpFlags, json_true, ite_set_new_obj, setMembers_append]
  have heve : ∀ l, EveTcpFlags flags (JsonBuilder.rootObject l)
      = JsonBuilder.rootObject (setMembers l (tcpFlagFields flags)) := by
    intro l
    rw [tcpFlagFields_eq]
    simp only [EveTcpFlags, ite_set_bool_rootObject, setMembers_append]
  refine ⟨heve ms, ?_, rfl, tcpFlagFields_length flags, rfl, hjson ms, ?_⟩
  · intro hfresh
    rw [heve, setMembers_fresh _ ms (tcpFlagFields_keys_nodup flags) hfresh]
  · have h := hjson []
    rw [setMembers_fresh _ [] (tcpFlagFields_keys_nodup flags) (by simp), List.nil_append] at h
    exact h

/-- C33, at the flags SYN and ACK (0x12) and at the flags 0. -/
theorem tcp_flags_one_field_per_set_bit_witness :
    EveTcpFlags 0x12 jb_new_object
      = JsonBuilder.rootObject [("syn", .bool true), ("ack", .bool true)] ∧
    JsonTcpFlags 0x12 json_object = .obj [("syn", .bool true), ("ack", .bool true)] ∧
    EveTcpFlags 0 jb_new_object = jb_new_object ∧
    (tcpFlagFields 0xff).map Prod.fst
      = ["syn", "fin", "rst", "psh", "ack", "urg", "ecn", "cwr"] ∧
    (tcpFlagFields 0x12).length = 2 :=
  ⟨(tcp_flags_one_field_per_set_bit 0x12 []).1.trans rfl,
    (tcp_flags_one_field_per_set_bit 0x12 []).2.2.2.2.2.2.trans rfl,
    rfl, by decide, by decide⟩

/-! ## Properties: packet data -/

/-- The number of bytes given to the encoder stays within the packet data when
max_length is 0 or at most the length of the packet. -/
theorem EvePacket_max_len_le (p : Packet) (max_length : Nat)
    (h : max_length = 0 ∨ max_length ≤ p.GET_PKT_LEN) :
    EvePacket.max_len p max_length ≤ p.GET_PKT_LEN := by
  unfold EvePacket.max_len
  split
  · exact le_refl _
  · rcases h with h | h
    · contradiction
    · exact h

/-- C34. A packet of three data bytes logged with max_length 6: EvePacket and
JsonPacket give Base64Encode six bytes, three more than the packet has, and the
packet field holds the text of the three data bytes followed by the three
bytes that lie behind them in memory. For max_length 0 and for max_length 2
the number of bytes is 3 and 2. -/
theorem packet_bytes_beyond_packet_length :
    exampleShortPacket.GET_PKT_LEN = 3 ∧
    EvePacket.max_len exampleShortPacket 6 = 6 ∧
    EvePacket exampleShortPacket jb_new_object 6
      = JsonBuilder.rootObject
          [("packet", .str "AQIDqrvM"), ("packet_info", .obj [("linktype", .int 1)])] ∧
    JsonPacket exampleShortPacket json_object 6
      = .obj [("packet", .str "AQIDqrvM"), ("packet_info", .obj [("linktype", .int 1)])] ∧
    String.mk (base64 [1, 2, 3]) = "AQID" ∧
    String.mk (base64 [0xAA, 0xBB, 0xCC]) = "qrvM" ∧
    EvePacket.max_len exampleShortPacket 0 = 3 ∧
    EvePacket.max_len exampleShortPacket 2 = 2 := by
  refine ⟨rfl, rfl, rfl, rfl, ?_, ?_, rfl, rfl⟩ <;> decide

/-- The room of 2 * n bytes holds the text of n bytes and its terminating zero
exactly when n is 3 or at least 5. -/
theorem base64_room_iff (n : Nat) : ¬ (2 * n < 4 * ((n + 2) / 3) + 1) ↔ n = 3 ∨ 5 ≤ n := by
  omega

/-- C40. For every packet and max_length for which the memory at GET_PKT_DATA
holds the n bytes that are read (n is the length of the packet when max_length
is 0, max_length otherwise): the room of 2 * n bytes is at least the
4 * ceil(n / 3) + 1 bytes Base64Encode asks for exactly when n is 3 or n is at
least 5; EvePacket sets the member packet with the base64 text of the n bytes
exactly then, and in every case sets the member packet_info with the link
type after it, both added at the end of an event that has neither; JsonPacket
sets the same members. -/
theorem packet_field_iff_room (p : Packet) (max_length : Nat) (ms : List (String × Json))
    (hmem : EvePacket.max_len p max_length ≤ p.GET_PKT_DATA.length) :
    (4 * ((EvePacket.max_len p max_length + 2) / 3) + 1 ≤ 2 * EvePacket.max_len p max_length
      ↔ EvePacket.max_len p max_length = 3 ∨ 5 ≤ EvePacket.max_len p max_length) ∧
    EvePacket p (JsonBuilder.rootObject ms) max_length
      = JsonBuilder.rootObject (setMembers ms
          ((if EvePacket.max_len p max_length = 3 ∨ 5 ≤ EvePacket.max_len p max_length then
                [("packet", .str (String.mk
                    (base64 (p.GET_PKT_DATA.take (EvePacket.max_len p max_length)))))]
              else [])
          ++ [("packet_info", .obj [("linktype", .int p.datalink)])])) ∧
    ((∀ kv ∈ ms, kv.1 ≠ "packet" ∧ kv.1 ≠ "packet_info") →
      EvePacket p (JsonBuilder.rootObject ms) max_length
        = JsonBuilder.rootObject (ms
            ++ (if EvePacket.max_len p max_length = 3 ∨ 5 ≤ EvePacket.max_len p max_length then
                  [("packet", .str (String.mk
                      (base64 (p.GET_PKT_DATA.take (EvePacket.max_len p max_length)))))]
                else [])
            ++ [("packet_info", .obj [("linktype", .int p.datalink)])])) ∧
    JsonPacket p (.obj ms) max_length
      = .obj (setMembers ms
          ((if EvePacket.max_len p max_length = 3 ∨ 5 ≤ EvePacket.max_len p max_length then
                [("packet", .str (String.mk
                    (base64 (p.GET_PKT_DATA.take (EvePacket.max_len p max_length)))))]
              else [])
          ++ [("packet_info", .obj [("linktype", .int p.datalink)])])) := by
  have hlen : (p.GET_PKT_DATA.take (EvePacket.max_len p max_length)).length
      = EvePacket.max_len p max_length := by
    rw [List.length_take]
    omega
  have hb : Base64Encode (p.GET_PKT_DATA.take (EvePacket.max_len p max_length))
      (2 * EvePacket.max_len p max_length)
      = if EvePacket.max_len p max_length = 3 ∨ 5 ≤ EvePacket.max_len p max_length then
          some (base64 (p.GET_PKT_DATA.take (EvePacket.max_len p max_length)))
        else none := by
    unfold Base64Encode
    simp only [hlen]
    by_cases h : EvePacket.max_len p max_length = 3 ∨ 5 ≤ EvePacket.max_len p max_length
    · rw [if_pos h, if_neg ((base64_room_iff _).mpr h)]
    · rw [if_neg h, if_pos]
      exact not_not.mp (fun h2 => h ((base64_room_iff _).mp h2))
  have heve : EvePacket p (JsonBuilder.rootObject ms) max_length
      = JsonBuilder.rootObject (setMembers ms
          ((if EvePacket.max_len p max_length = 3 ∨ 5 ≤ EvePacket.max_len p max_length then
                [("packet", .str (String.mk
                    (base64 (p.GET_PKT_DATA.take (EvePacket.max_len p max_length)))))]
              else [])
          ++ [("packet_info", .obj [("linktype", .int p.datalink)])])) := by
    unfold EvePacket
    simp only [hb]
    by_cases h : EvePacket.max_len p max_length = 3 ∨ 5 ≤ EvePacket.max_len p max_length
    · simp only [h, if_true]
      rfl
    · simp only [h, if_false]
      rfl
  refine ⟨by omega, heve, ?_, ?_⟩
  · intro hfresh
    rw [heve, List.append_assoc]
    congr 1
    apply setMembers_fresh
    · split_ifs <;> simp
    · intro kv hkv
      have hk := hfresh kv hkv
      split_ifs <;> simp [hk.1, hk.2]
  · unfold JsonPacket
    simp only [hb]
    by_cases h : EvePacket.max_len p max_length = 3 ∨ 5 ≤ EvePacket.max_len p max_length
    · simp only [h, if_true]
      rfl
    · simp only [h, if_false]
      rfl

/-- C40, at the packet of three data bytes of the examples: with max_length 0
(three bytes) the packet field is emitted, with max_length 2 and 4 it is not,
and packet_info is emitted each time. -/
theorem packet_field_iff_room_witness :
    EvePacket.max_len exampleShortPacket 0 ≤ exampleShortPacket.GET_PKT_DATA.length ∧
    EvePacket exampleShortPacket jb_new_object 0
      = JsonBuilder.rootObject
          [("packet", .str "AQID"), ("packet_info", .obj [("linktype", .int 1)])] ∧
    EvePacket exampleShortPacket jb_new_object 2
      = JsonBuilder.rootObject [("packet_info", .obj [("linktype", .int 1)])] ∧
    EvePacket exampleShortPacket jb_new_object 4
      = JsonBuilder.rootObject [("packet_info", .obj [("linktype", .int 1)])] ∧
    EvePacket exampleShortPacket jb_new_object 5
      = JsonBuilder.rootObject
          [("packet", .str "AQIDqrs="), ("packet_info", .obj [("linktype", .int 1)])] :=
  ⟨by decide,
    (packet_field_iff_room exampleShortPacket 0 [] (by decide)).2.1.trans rfl,
    rfl, rfl, rfl⟩

/-! ## Properties: the two resolvers and the mirror image -/

theorem snprintf_03u_length_lt (size n : Nat) (h : 0 < size) :
    (snprintf_03u size n).length < size := by
  unfold snprintf_03u
  have : ∀ l : List Char, (String.mk (l.take (size - 1))).length = (l.take (size - 1)).length :=
    fun _ => rfl
  simp only [this, List.length_take]
  omega

/-- The protocol text both resolvers format in the local buffer proto. -/
theorem JsonAddrInfoInit_proto (x : Externals) (p : Packet) (dir : OutputJsonLogDirection)
    (addr : JsonAddrInfo) (hip : p.PKT_IS_IPV4 = true ∨ p.PKT_IS_IPV6 = true)
    (hproto : 16 ≤ x.JSON_PROTO_LEN) :
    (JsonAddrInfoInit x p dir addr).proto
      = (match x.known_proto p.IP_GET_IPPROTO with
          | some name => strlcpy "" name 16
          | none => snprintf_03u 16 p.IP_GET_IPPROTO) := by
  have hr := JsonAddrInfoInit.resolve_eq x p dir hip
  have h1 : (JsonAddrInfoInit x p dir addr).proto
      = strlcpy addr.proto
          (match x.known_proto p.IP_GET_IPPROTO with
            | some name => strlcpy "" name 16
            | none => snprintf_03u 16 p.IP_GET_IPPROTO) x.JSON_PROTO_LEN := by
    simp only [JsonAddrInfoInit, hr]
    split_ifs <;> rfl
  rw [h1]
  apply strlcpy_fits _ _ _ 16 hproto (by norm_num)
  cases x.known_proto p.IP_GET_IPPROTO with
  | none => exact snprintf_03u_length_lt 16 _ (by norm_num)
  | some name => exact strlcpy_length_lt _ _ 16 (by norm_num)

/-- C36. For every IPv4 or IPv6 packet and every direction, with address
fields of at least 46 bytes, a protocol field of at least 16 bytes and a
PrintInet that stays within its 46-byte buffer: the members src_ip, dest_ip and
proto that JsonFiveTuple sets in an object are the src_ip, dst_ip and proto that
JsonAddrInfoInit writes into a zero-initialised address info for the same
packet and direction, and for UDP, TCP and SCTP the members src_port and
dest_port are its sp and dp. -/
theorem five_tuple_agrees_with_addr_info (x : Externals) (p : Packet)
    (dir : OutputJsonLogDirection) (ms : List (String × Json))
    (hip : p.PKT_IS_IPV4 = true ∨ p.PKT_IS_IPV6 = true)
    (hlen : 46 ≤ x.JSON_ADDR_LEN)
    (hfit : ∀ af mem, (x.PrintInet af mem 46).length < 46)
    (hproto : 16 ≤ x.JSON_PROTO_LEN) :
    json_object_get (JsonFiveTuple x p dir (.obj ms)) "src_ip"
      = some (.str (JsonAddrInfoInit x p dir json_addr_info_zero).src_ip) ∧
    json_object_get (JsonFiveTuple x p dir (.obj ms)) "dest_ip"
      = some (.str (JsonAddrInfoInit x p dir json_addr_info_zero).dst_ip) ∧
    json_object_get (JsonFiveTuple x p dir (.obj ms)) "proto"
      = some (.str (JsonAddrInfoInit x p dir json_addr_info_zero).proto) ∧
    (carriesPorts p.proto →
      json_object_get (JsonFiveTuple x p dir (.obj ms)) "src_port"
        = some (.int (JsonAddrInfoInit x p dir json_addr_info_zero).sp) ∧
      json_object_get (JsonFiveTuple x p dir (.obj ms)) "dest_port"
        = some (.int (JsonAddrInfoInit x p dir json_addr_info_zero).dp)) := by
  have hr := JsonAddrInfoInit.resolve_eq x p dir hip
  have hr2 := JsonFiveTuple_resolve x p dir
  rw [hr] at hr2
  obtain ⟨h1, h2, h3⟩ := JsonAddrInfoInit.of_resolve x _ _ json_addr_info_zero _ _ _ _ hr
  rw [strlcpy_fits _ _ _ 46 hlen (by norm_num) (hfit _ _)] at h1 h2
  have h4 := JsonAddrInfoInit_proto x p dir json_addr_info_zero hip hproto
  rw [h1, h2, h4]
  refine ⟨?_, ?_, ?_, ?_⟩
  · simp only [JsonFiveTuple, hr2]
    split_ifs <;>
      simp [json_object_set_new, json_object_get, setMember_lookup, json_string]
  · simp only [JsonFiveTuple, hr2]
    split_ifs <;>
      simp [json_object_set_new, json_object_get, setMember_lookup, json_string]
  · simp only [JsonFiveTuple, hr2]
    split_ifs <;>
      simp [json_object_set_new, json_object_get, setMember_lookup, json_string]
  · intro hp
    have hp2 : p.proto = IPPROTO_UDP ∨ p.proto = IPPROTO_TCP ∨ p.proto = IPPROTO_SCTP := hp
    have hne : p.proto ≠ IPPROTO_ICMP := by
      simp only [IPPROTO_UDP, IPPROTO_TCP, IPPROTO_SCTP, IPPROTO_ICMP] at *
      omega
    rw [(h3 hp2).1, (h3 hp2).2]
    constructor
    · simp only [JsonFiveTuple, hr2, hne, hp2, if_true, if_false, json_object_set_new,
        json_object_get, setMember_lookup, json_integer]
      simp
    · simp only [JsonFiveTuple, hr2, hne, hp2, if_true, if_false, json_object_set_new,
        json_object_get, setMember_lookup, json_integer]
      simp

/-- C36, at the TCP reply packet of the examples resolved to-server. -/
theorem five_tuple_agrees_with_addr_info_witness :
    (exampleReplyPacket.PKT_IS_IPV4 = true ∨ exampleReplyPacket.PKT_IS_IPV6 = true) ∧
    46 ≤ exampleExternals.JSON_ADDR_LEN ∧
    (∀ af mem, (exampleExternals.PrintInet af mem 46).length < 46) ∧
    16 ≤ exampleExternals.JSON_PROTO_LEN ∧
    JsonFiveTuple exampleExternals exampleReplyPacket .LOG_DIR_FLOW_TOSERVER json_object
      = .obj [("src_ip", .str "1.2.3.4"), ("src_port", .int 1111), ("dest_ip", .str "5.6.7.8"),
              ("dest_port", .int 80), ("proto", .str "TCP")] ∧
    JsonAddrInfoInit exampleExternals exampleReplyPacket .LOG_DIR_FLOW_TOSERVER
        json_addr_info_zero
      = { src_ip := "1.2.3.4", dst_ip := "5.6.7.8", sp := 1111, dp := 80, proto := "TCP" } ∧
    json_object_get (JsonFiveTuple exampleExternals exampleReplyPacket .LOG_DIR_FLOW_TOSERVER
        (.obj [])) "src_ip"
      = some (.str (JsonAddrInfoInit exampleExternals exampleReplyPacket .LOG_DIR_FLOW_TOSERVER
          json_addr_info_zero).src_ip) :=
  ⟨by decide, by decide, fun af mem => PrintInetText_length af mem 46 (by norm_num), by decide,
    rfl, by decide,
    (five_tuple_agrees_with_addr_info exampleExternals exampleReplyPacket
      .LOG_DIR_FLOW_TOSERVER [] (by decide) (by decide)
      (fun af mem => PrintInetText_length af mem 46 (by norm_num)) (by decide)).1⟩

/-- The address info JsonAddrInfoInit leaves in a zero-initialised one for an
IPv4 or IPv6 packet. -/
theorem JsonAddrInfoInit_zero_eq (x : Externals) (p : Packet) (dir : OutputJsonLogDirection)
    (hip : p.PKT_IS_IPV4 = true ∨ p.PKT_IS_IPV6 = true) :
    JsonAddrInfoInit x p dir json_addr_info_zero
      = { src_ip := strlcpy ""
            (x.PrintInet (if p.PKT_IS_IPV4 then .AF_INET else .AF_INET6)
              (if p.flowsIn dir then p.src else p.dst).addr_data8 46) x.JSON_ADDR_LEN
          dst_ip := strlcpy ""
            (x.PrintInet (if p.PKT_IS_IPV4 then .AF_INET else .AF_INET6)
              (if p.flowsIn dir then p.dst else p.src).addr_data8 46) x.JSON_ADDR_LEN
          sp := if carriesPorts p.proto then (if p.flowsIn dir then p.sp else p.dp) else 0
          dp := if carriesPorts p.proto then (if p.flowsIn dir then p.dp else p.sp) else 0
          proto := strlcpy ""
            (match x.known_proto p.IP_GET_IPPROTO with
              | some name => strlcpy "" name 16
              | none => snprintf_03u 16 p.IP_GET_IPPROTO) x.JSON_PROTO_LEN } := by
  have hr := JsonAddrInfoInit.resolve_eq x p dir hip
  simp only [JsonAddrInfoInit, hr, carriesPorts, json_addr_info_zero]
  by_cases hp : p.proto = IPPROTO_UDP ∨ p.proto = IPPROTO_TCP ∨ p.proto = IPPROTO_SCTP
  · have hne : p.proto ≠ IPPROTO_ICMP := by
      simp only [IPPROTO_UDP, IPPROTO_TCP, IPPROTO_SCTP, IPPROTO_ICMP] at *
      omega
    simp only [hp, hne, if_true, if_false]
  · simp only [hp, if_false, ite_self]

/-- C37, as stated, at an ICMP echo request from 127.0.0.1 to 127.0.0.1 that
carries the to-server flag alone: the tuple resolved to-server preferred and
the tuple resolved to-client preferred both equal the as-captured tuple, not
exactly one of them. -/
theorem mirror_tuples_loopback_counterexample :
    (exampleLoopbackPing.PKT_IS_IPV4 = true ∨ exampleLoopbackPing.PKT_IS_IPV6 = true) ∧
    exampleLoopbackPing.PKT_IS_TOSERVER = true ∧ exampleLoopbackPing.PKT_IS_TOCLIENT = false ∧
    JsonAddrInfoInit exampleExternals exampleLoopbackPing .LOG_DIR_PACKET json_addr_info_zero
      = { src_ip := "127.0.0.1", dst_ip := "127.0.0.1", sp := 0, dp := 0, proto := "ICMP" } ∧
    JsonAddrInfoInit exampleExternals exampleLoopbackPing .LOG_DIR_FLOW_TOSERVER
        json_addr_info_zero
      = JsonAddrInfoInit exampleExternals exampleLoopbackPing .LOG_DIR_PACKET
          json_addr_info_zero ∧
    JsonAddrInfoInit exampleExternals exampleLoopbackPing .LOG_DIR_FLOW_TOCLIENT
        json_addr_info_zero
      = JsonAddrInfoInit exampleExternals exampleLoopbackPing .LOG_DIR_PACKET
          json_addr_info_zero := by
  decide

/-- C37, amended. For every IPv4 or IPv6 packet that carries exactly one of the
to-server and to-client flags: the tuple resolved to-server preferred is the
mirror image of the tuple resolved to-client preferred (addresses exchanged,
ports exchanged, same protocol text); the one of the two whose preferred
direction is that of the packet's flag equals the as-captured tuple and the
other one is the mirror image of the as-captured tuple, so the other one equals
the as-captured tuple exactly when that tuple is its own mirror image. -/
theorem mirror_tuples (x : Externals) (p : Packet)
    (hip : p.PKT_IS_IPV4 = true ∨ p.PKT_IS_IPV6 = true)
    (hone : (p.PKT_IS_TOSERVER = true ∧ p.PKT_IS_TOCLIENT = false) ∨
            (p.PKT_IS_TOSERVER = false ∧ p.PKT_IS_TOCLIENT = true)) :
    JsonAddrInfoInit x p .LOG_DIR_FLOW_TOSERVER json_addr_info_zero
      = (JsonAddrInfoInit x p .LOG_DIR_FLOW_TOCLIENT json_addr_info_zero).mirror ∧
    (p.PKT_IS_TOSERVER = true →
      JsonAddrInfoInit x p .LOG_DIR_FLOW_TOSERVER json_addr_info_zero
        = JsonAddrInfoInit x p .LOG_DIR_PACKET json_addr_info_zero ∧
      JsonAddrInfoInit x p .LOG_DIR_FLOW_TOCLIENT json_addr_info_zero
        = (JsonAddrInfoInit x p .LOG_DIR_PACKET json_addr_info_zero).mirror ∧
      (JsonAddrInfoInit x p .LOG_DIR_FLOW_TOCLIENT json_addr_info_zero
          = JsonAddrInfoInit x p .LOG_DIR_PACKET json_addr_info_zero
        ↔ (JsonAddrInfoInit x p .LOG_DIR_PACKET json_addr_info_zero).mirror
          = JsonAddrInfoInit x p .LOG_DIR_PACKET json_addr_info_zero)) ∧
    (p.PKT_IS_TOCLIENT = true →
      JsonAddrInfoInit x p .LOG_DIR_FLOW_TOCLIENT json_addr_info_zero
        = JsonAddrInfoInit x p .LOG_DIR_PACKET json_addr_info_zero ∧
      JsonAddrInfoInit x p .LOG_DIR_FLOW_TOSERVER json_addr_info_zero
        = (JsonAddrInfoInit x p .LOG_DIR_PACKET json_addr_info_zero).mirror ∧
      (JsonAddrInfoInit x p .LOG_DIR_FLOW_TOSERVER json_addr_info_zero
          = JsonAddrInfoInit x p .LOG_DIR_PACKET json_addr_info_zero
        ↔ (JsonAddrInfoInit x p .LOG_DIR_PACKET json_addr_info_zero).mirror
          = JsonAddrInfoInit x p .LOG_DIR_PACKET json_addr_info_zero)) := by
  rw [JsonAddrInfoInit_zero_eq x p .LOG_DIR_FLOW_TOSERVER hip,
    JsonAddrInfoInit_zero_eq x p .LOG_DIR_FLOW_TOCLIENT hip,
    JsonAddrInfoInit_zero_eq x p .LOG_DIR_PACKET hip]
  simp only [Packet.flowsIn, JsonAddrInfo.mirror]
  rcases hone with ⟨hs, hc⟩ | ⟨hs, hc⟩
  · simp only [hs, hc, if_true, Bool.false_eq_true, if_false, true_and, false_implies,
      and_true, forall_true_left]
  · simp only [hs, hc, if_true, Bool.false_eq_true, if_false, true_and, false_implies,
      true_and, forall_true_left]

/-- C37, amended, at the TCP reply packet of the examples, which carries the
to-client flag alone: resolved to-client preferred it is the as-captured tuple
5.6.7.8 port 80 to 1.2.3.4 port 1111, resolved to-server preferred its mirror
image. -/
theorem mirror_tuples_witness :
    (exampleReplyPacket.PKT_IS_IPV4 = true ∨ exampleReplyPacket.PKT_IS_IPV6 = true) ∧
    (exampleReplyPacket.PKT_IS_TOSERVER = false ∧ exampleReplyPacket.PKT_IS_TOCLIENT = true) ∧
    JsonAddrInfoInit exampleExternals exampleReplyPacket .LOG_DIR_FLOW_TOSERVER
        json_addr_info_zero
      = (JsonAddrInfoInit exampleExternals exampleReplyPacket .LOG_DIR_FLOW_TOCLIENT
          json_addr_info_zero).mirror ∧
    JsonAddrInfoInit exampleExternals exampleReplyPacket .LOG_DIR_FLOW_TOCLIENT
        json_addr_info_zero
      = { src_ip := "5.6.7.8", dst_ip := "1.2.3.4", sp := 80, dp := 1111, proto := "TCP" } ∧
    JsonAddrInfoInit exampleExternals exampleReplyPacket .LOG_DIR_FLOW_TOSERVER
        json_addr_info_zero
      = { src_ip := "1.2.3.4", dst_ip := "5.6.7.8", sp := 1111, dp := 80, proto := "TCP" } :=
  ⟨by decide, by decide,
    (mirror_tuples exampleExternals exampleReplyPacket (by decide) (Or.inr (by decide))).1,
    by decide, by decide⟩

/-! ## Properties: dispatch to the sink -/

theorem MemBufferWriteRaw_prefix (file_ctx : LogFileCtx) (buffer : MemBuffer)
    (hwf : buffer.WF) :
    (match file_ctx.prefix_str with
      | some pre => MemBufferWriteRaw buffer pre
      | none => buffer).buffer = buffer.buffer ++ prefixWritten file_ctx buffer ∧
    (match file_ctx.prefix_str with
      | some pre => MemBufferWriteRaw buffer pre
      | none => buffer).WF ∧
    (match file_ctx.prefix_str with
      | some pre => MemBufferWriteRaw buffer pre
      | none => buffer).size = buffer.size := by
  obtain ⟨hlen, hlt⟩ := hwf
  have htake : buffer.buffer.take buffer.offset = buffer.buffer :=
    List.take_of_length_le (by omega)
  unfold prefixWritten
  cases file_ctx.prefix_str with
  | none => exact ⟨by simp, ⟨hlen, hlt⟩, rfl⟩
  | some pre =>
      simp only [MemBufferWriteRaw, MemBuffer.WF, htake]
      by_cases h : pre.length ≥ buffer.size - buffer.offset
      · simp only [h, if_true, List.length_append, List.length_take, true_and, and_true]
        constructor <;> omega
      · simp only [h, if_false, List.take_length, List.length_append, true_and, and_true]
        constructor <;> omega

/-- After the room is made, a text is written whole into a well-formed
buffer. -/
theorem MemBufferWriteRaw_after_expand (b : MemBuffer) (text : List Nat) (hwf : b.WF) :
    (MemBufferWriteRaw
        (if MEMBUFFER_OFFSET b + text.length ≥ MEMBUFFER_SIZE b then MemBufferExpand b text.length
         else b) text).buffer = b.buffer ++ text ∧
    (MemBufferWriteRaw
        (if MEMBUFFER_OFFSET b + text.length ≥ MEMBUFFER_SIZE b then MemBufferExpand b text.length
         else b) text).offset = b.offset + text.length := by
  obtain ⟨hlen, hlt⟩ := hwf
  have htake : b.buffer.take b.offset = b.buffer := List.take_of_length_le (by omega)
  simp only [MEMBUFFER_OFFSET, MEMBUFFER_SIZE]
  by_cases h : b.offset + text.length ≥ b.size
  · have h2 : ¬ text.length ≥ b.size + text.length - b.offset := by omega
    simp only [h, if_true, MemBufferExpand, MemBufferWriteRaw, h2, if_false, htake,
      List.take_length, and_self]
  · have h2 : ¬ text.length ≥ b.size - b.offset := by omega
    simp only [h, if_false, MemBufferWriteRaw, h2, htake, List.take_length, and_self]

/-- The event and the buffer OutputJsonBuilderBuffer leaves behind for an
event inside its root object and a well-formed buffer. -/
theorem OutputJsonBuilderBuffer_eq (x : Externals) (jb_ptr : JsonBuilder → List Nat)
    (ms : List (String × Json)) (file_ctx : LogFileCtx) (buffer : MemBuffer)
    (hwf : buffer.WF) :
    (OutputJsonBuilderBuffer x jb_ptr (JsonBuilder.rootObject ms) file_ctx buffer).js
      = JsonBuilder.finished
          (.obj (setMembers ms (hostField file_ctx ++ pcapFilenameField x file_ctx))) ∧
    (OutputJsonBuilderBuffer x jb_ptr (JsonBuilder.rootObject ms) file_ctx buffer).written
      = some (OutputJsonBuilderBuffer x jb_ptr (JsonBuilder.rootObject ms) file_ctx
          buffer).buffer ∧
    (OutputJsonBuilderBuffer x jb_ptr (JsonBuilder.rootObject ms) file_ctx buffer).buffer.buffer
      = buffer.buffer ++ prefixWritten file_ctx buffer
        ++ jb_ptr (JsonBuilder.finished
            (.obj (setMembers ms (hostField file_ctx ++ pcapFilenameField x file_ctx)))) ∧
    (OutputJsonBuilderBuffer x jb_ptr (JsonBuilder.rootObject ms) file_ctx buffer).ret = 0 := by
  have hjs : jb_close
      (if file_ctx.is_pcap_offline = true then
        jb_set_string
          (match file_ctx.sensor_name with
            | some name => jb_set_string (JsonBuilder.rootObject ms) "host" name
            | none => JsonBuilder.rootObject ms) "pcap_filename" x.PcapFileGetFilename
      else
        match file_ctx.sensor_name with
        | some name => jb_set_string (JsonBuilder.rootObject ms) "host" name
        | none => JsonBuilder.rootObject ms)
      = JsonBuilder.finished
          (.obj (setMembers ms (hostField file_ctx ++ pcapFilenameField x file_ctx))) := by
    unfold hostField pcapFilenameField
    cases file_ctx.sensor_name <;> cases file_ctx.is_pcap_offline <;> rfl
  obtain ⟨hp1, hp2, _⟩ := MemBufferWriteRaw_prefix file_ctx buffer hwf
  have hw := MemBufferWriteRaw_after_expand _
    (jb_ptr (JsonBuilder.finished
      (.obj (setMembers ms (hostField file_ctx ++ pcapFilenameField x file_ctx))))) hp2
  simp only [OutputJsonBuilderBuffer, hjs]
  refine ⟨trivial, trivial, ?_, trivial⟩
  rw [hw.1, hp1]

/-- C31. OutputJsonBuilderBuffer at an empty buffer of capacity 4, the line
prefix @cee: followed by a blank (six bytes) and an event whose text is two
bytes: the bytes handed to the transport are the first three bytes of the
prefix followed by the event text, not the whole prefix followed by the event
text. -/
theorem dispatch_prefix_cut :
    exampleTinyBuffer.WF ∧
    (OutputJsonBuilderBuffer exampleExternals exampleText jb_new_object exampleFileCtx
        exampleTinyBuffer).written
      = some { buffer := [64, 99, 101, 123, 125], size := 6, offset := 5 } ∧
    exampleTinyBuffer.buffer ++ [64, 99, 101, 101, 58, 32] ++ [123, 125]
      ≠ [64, 99, 101, 123, 125] := by
  decide

/-- For every event inside its root object, sink context and well-formed
output buffer, the bytes OutputJsonBuilderBuffer hands to the transport are the
previous contents of the buffer, then the line prefix when there is one (all of
it when it fits below the capacity of the buffer, otherwise its first bytes
that fit, less one), then the complete text of the event, whatever the length
of that text and the capacity of the buffer; the write offset is the number of
these bytes. -/
theorem dispatch_hands_over_whole_event (x : Externals) (jb_ptr : JsonBuilder → List Nat)
    (ms : List (String × Json)) (file_ctx : LogFileCtx) (buffer : MemBuffer)
    (hwf : buffer.WF) :
    (∃ handed,
      (OutputJsonBuilderBuffer x jb_ptr (JsonBuilder.rootObject ms) file_ctx buffer).written
        = some handed ∧
      handed.buffer = buffer.buffer ++ prefixWritten file_ctx buffer
        ++ jb_ptr (OutputJsonBuilderBuffer x jb_ptr (JsonBuilder.rootObject ms) file_ctx
            buffer).js ∧
      handed.offset = handed.buffer.length) ∧
    (file_ctx.prefix_str = none → prefixWritten file_ctx buffer = []) ∧
    (∀ pre, file_ctx.prefix_str = some pre → buffer.offset + pre.length < buffer.size →
      prefixWritten file_ctx buffer = pre) := by
  obtain ⟨h1, h2, h3, _⟩ := OutputJsonBuilderBuffer_eq x jb_ptr ms file_ctx buffer hwf
  refine ⟨⟨_, h2, ?_, ?_⟩, ?_, ?_⟩
  · rw [h3, h1]
  · obtain ⟨hp1, hp2, _⟩ := MemBufferWriteRaw_prefix file_ctx buffer hwf
    have hw := MemBufferWriteRaw_after_expand _
      (jb_ptr (OutputJsonBuilderBuffer x jb_ptr (JsonBuilder.rootObject ms) file_ctx
        buffer).js) hp2
    have hoff : (OutputJsonBuilderBuffer x jb_ptr (JsonBuilder.rootObject ms) file_ctx
        buffer).buffer.offset
        = (match file_ctx.prefix_str with
            | some pre => MemBufferWriteRaw buffer pre
            | none => buffer).offset
          + (jb_ptr (OutputJsonBuilderBuffer x jb_ptr (JsonBuilder.rootObject ms) file_ctx
              buffer).js).length := hw.2
    rw [hoff, h3, h1, List.length_append, ← hp1, hp2.1]
  · intro hnone
    simp [prefixWritten, hnone]
  · intro pre hpre hfit
    have : ¬ pre.length ≥ buffer.size - buffer.offset := by omega
    simp [prefixWritten, hpre, this]

/-- The bytes handed to the transport at an empty buffer of capacity 64 and at
an event text longer than the capacity of the buffer. -/
theorem dispatch_hands_over_whole_event_witness :
    exampleRoomyBuffer.WF ∧ exampleTinyBuffer.WF ∧
    (OutputJsonBuilderBuffer exampleExternals exampleText jb_new_object exampleFileCtx
        exampleRoomyBuffer).written
      = some { buffer := [64, 99, 101, 101, 58, 32, 123, 125], size := 64, offset := 8 } ∧
    (OutputJsonBuilderBuffer exampleExternals (fun _ => [123, 34, 97, 34, 58, 49, 125])
        jb_new_object {} exampleTinyBuffer).written
      = some { buffer := [123, 34, 97, 34, 58, 49, 125], size := 11, offset := 7 } ∧
    (∃ handed,
      (OutputJsonBuilderBuffer exampleExternals exampleText (JsonBuilder.rootObject [])
          exampleFileCtx exampleRoomyBuffer).written = some handed ∧
      handed.buffer = exampleRoomyBuffer.buffer
        ++ prefixWritten exampleFileCtx exampleRoomyBuffer
        ++ exampleText (OutputJsonBuilderBuffer exampleExternals exampleText
            (JsonBuilder.rootObject []) exampleFileCtx exampleRoomyBuffer).js ∧
      handed.offset = handed.buffer.length) :=
  ⟨by decide, by decide, by decide, by decide,
    (dispatch_hands_over_whole_event exampleExternals exampleText [] exampleFileCtx
      exampleRoomyBuffer (by decide)).1⟩

/-- The event OutputJSONBuffer serialises for an object. -/
theorem OutputJSONBuffer_js (x : Externals) (TM_ECODE_OK : Int)
    (json_dump_callback : Json → Nat → List (List Nat) × Int)
    (ms : List (String × Json)) (file_ctx : LogFileCtx) (buffer : MemBuffer) :
    (OutputJSONBuffer x TM_ECODE_OK json_dump_callback (.obj ms) file_ctx buffer).js
      = .obj (setMembers ms (hostField file_ctx ++ pcapFilenameField x file_ctx)) := by
  unfold OutputJSONBuffer hostField pcapFilenameField
  cases file_ctx.sensor_name <;> cases file_ctx.is_pcap_offline <;>
    simp only [setMembers, json_object_set_new, json_string, List.nil_append, List.foldl_nil,
      List.foldl_cons, List.singleton_append, List.cons_append, if_true, if_false,
      Bool.false_eq_true] <;>
    split_ifs <;> rfl

/-- C32. For every event inside its root object and sink context, the event
OutputJsonBuilderBuffer dispatches is the closed root object in which, after
the fields of the caller, a host field with the sensor name is set exactly when
a sensor name is configured, and then a pcap_filename field with the name of
the capture file exactly when packets come from an offline capture; for an
event that has neither field the fields of the caller are unchanged and in
their order and the two fields follow them. OutputJSONBuffer sets the same two
members, host first, in the object it serialises. -/
theorem dispatch_adds_host_and_pcap_filename (x : Externals)
    (jb_ptr : JsonBuilder → List Nat) (TM_ECODE_OK : Int)
    (json_dump_callback : Json → Nat → List (List Nat) × Int)
    (ms : List (String × Json)) (file_ctx : LogFileCtx) (buffer : MemBuffer) :
    (OutputJsonBuilderBuffer x jb_ptr (JsonBuilder.rootObject ms) file_ctx buffer).js
      = JsonBuilder.finished (.obj (setMembers ms
          ((match file_ctx.sensor_name with
              | some name => [("host", Json.str name)]
              | none => [])
          ++ (if file_ctx.is_pcap_offline then
                [("pcap_filename", Json.str x.PcapFileGetFilename)]
              else [])))) ∧
    ((∀ kv ∈ ms, kv.1 ≠ "host" ∧ kv.1 ≠ "pcap_filename") →
      (OutputJsonBuilderBuffer x jb_ptr (JsonBuilder.rootObject ms) file_ctx buffer).js
        = JsonBuilder.finished (.obj (ms
            ++ (match file_ctx.sensor_name with
                | some name => [("host", Json.str name)]
                | none => [])
            ++ (if file_ctx.is_pcap_offline then
                  [("pcap_filename", Json.str x.PcapFileGetFilename)]
                else [])))) ∧
    (OutputJSONBuffer x TM_ECODE_OK json_dump_callback (.obj ms) file_ctx buffer).js
      = .obj (setMembers ms
          ((match file_ctx.sensor_name with
              | some name => [("host", Json.str name)]
              | none => [])
          ++ (if file_ctx.is_pcap_offline then
                [("pcap_filename", Json.str x.PcapFileGetFilename)]
              else []))) := by
  have heve : (OutputJsonBuilderBuffer x jb_ptr (JsonBuilder.rootObject ms) file_ctx buffer).js
      = JsonBuilder.finished (.obj (setMembers ms
          ((match file_ctx.sensor_name with
              | some name => [("host", Json.str name)]
              | none => [])
          ++ (if file_ctx.is_pcap_offline then
                [("pcap_filename", Json.str x.PcapFileGetFilename)]
              else [])))) := by
    cases hs : file_ctx.sensor_name <;> cases hp : file_ctx.is_pcap_offline <;>
      simp only [OutputJsonBuilderBuffer, hs, hp] <;> rfl
  refine ⟨heve, ?_, OutputJSONBuffer_js x TM_ECODE_OK json_dump_callback ms file_ctx buffer⟩
  intro hfresh
  rw [heve, List.append_assoc]
  congr 2
  apply setMembers_fresh
  · cases file_ctx.sensor_name <;> cases file_ctx.is_pcap_offline <;> simp
  · intro kv hkv
    have hk := hfresh kv hkv
    cases file_ctx.sensor_name <;> cases file_ctx.is_pcap_offline <;> simp [hk.1, hk.2]

/-- C39. With TM_ECODE_OK being 0, OutputJSONBuffer returns 0 for every event,
sink context and buffer, whether the serialisation succeeds or fails; the
buffer is handed to the transport exactly when the serialisation succeeded;
and on failure nothing is handed over although the buffer holds the prefix and
the chunks the serialisation produced before it failed. -/
theorem json_dispatch_returns_zero (x : Externals) (TM_ECODE_OK : Int)
    (json_dump_callback : Json → Nat → List (List Nat) × Int)
    (js : Json) (file_ctx : LogFileCtx) (buffer : MemBuffer) (hok : TM_ECODE_OK = 0) :
    (OutputJSONBuffer x TM_ECODE_OK json_dump_callback js file_ctx buffer).ret = 0 ∧
    ((OutputJSONBuffer x TM_ECODE_OK json_dump_callback js file_ctx buffer).written.isSome
      ↔ (json_dump_callback
          (OutputJSONBuffer x TM_ECODE_OK json_dump_callback js file_ctx buffer).js
          file_ctx.json_flags).2 = 0) ∧
    ((json_dump_callback
          (OutputJSONBuffer x TM_ECODE_OK json_dump_callback js file_ctx buffer).js
          file_ctx.json_flags).2 = 0 →
      (OutputJSONBuffer x TM_ECODE_OK json_dump_callback js file_ctx buffer).written
        = some (OutputJSONBuffer x TM_ECODE_OK json_dump_callback js file_ctx buffer).buffer) ∧
    ((json_dump_callback
          (OutputJSONBuffer x TM_ECODE_OK json_dump_callback js file_ctx buffer).js
          file_ctx.json_flags).2 ≠ 0 →
      (OutputJSONBuffer x TM_ECODE_OK json_dump_callback js file_ctx buffer).written = none) ∧
    (OutputJSONBuffer x TM_ECODE_OK json_dump_callback js file_ctx buffer).buffer
      = ((json_dump_callback
            (OutputJSONBuffer x TM_ECODE_OK json_dump_callback js file_ctx buffer).js
            file_ctx.json_flags).1.foldl
          (fun w str => OutputJSONMemBufferCallback str w)
          { buffer := (match file_ctx.prefix_str with
              | some pre => MemBufferWriteRaw buffer pre
              | none => buffer),
            expand_by := x.JSON_OUTPUT_BUFFER_SIZE }).buffer := by
  subst hok
  by_cases h : (json_dump_callback
        (if file_ctx.is_pcap_offline = true then
          json_object_set_new
            (match file_ctx.sensor_name with
              | some name => json_object_set_new js "host" (json_string name)
              | none => js) "pcap_filename" (json_string x.PcapFileGetFilename)
        else
          match file_ctx.sensor_name with
          | some name => json_object_set_new js "host" (json_string name)
          | none => js) file_ctx.json_flags).2 = 0
  · simp [OutputJSONBuffer, h]
  · simp [OutputJSONBuffer, h]

/-- C39 at a serialisation that fails after one byte and at one that
succeeds. -/
theorem json_dispatch_returns_zero_witness :
    (OutputJSONBuffer exampleExternals 0 exampleFailingDump json_object exampleFileCtx
        exampleRoomyBuffer).ret = 0 ∧
    (OutputJSONBuffer exampleExternals 0 exampleFailingDump json_object exampleFileCtx
        exampleRoomyBuffer).written = none ∧
    (OutputJSONBuffer exampleExternals 0 exampleFailingDump json_object exampleFileCtx
        exampleRoomyBuffer).buffer
      = { buffer := [64, 99, 101, 101, 58, 32, 123], size := 64, offset := 7 } ∧
    (OutputJSONBuffer exampleExternals 0 exampleDump json_object exampleFileCtx
        exampleRoomyBuffer).written
      = some { buffer := [64, 99, 101, 101, 58, 32, 123, 125], size := 64, offset := 8 } ∧
    (OutputJSONBuffer exampleExternals 0 exampleDump json_object exampleFileCtx
        exampleRoomyBuffer).ret = 0 :=
  ⟨(json_dispatch_returns_zero exampleExternals 0 exampleFailingDump json_object
      exampleFileCtx exampleRoomyBuffer rfl).1,
    by decide, by decide, by decide, by decide⟩

/-! ## Properties: the two aggregators of flow annotations -/

/-- Setting the members flowbits, flowints and flowvars in a new object gives
them in their order. -/
theorem setMembers_flowMembers (x : Externals) (gvs : List GenericVar) :
    setMembers [] (flowMembers x gvs) = flowMembers x gvs := by
  have h := setMembers_fresh (flowMembers x gvs) [] (flowMembers_keys_nodup x gvs)
    (fun kv h => absurd h (List.not_mem_nil kv))
  rw [List.nil_append] at h
  exact h

/-- C35. For every flow annotation list and name registry, JsonAddFlowVars and
EveAddFlowVars produce the same JSON value: given the same members in the root
object and no traffic object they leave the same members in the root object,
which for a new root object are the members flowbits, flowints and flowvars,
each only when it has an element, in this order, with the same arrays in the
same order and the same flowints object; and the traffic object is the same.
The closed root object of the builder is the object of the tree. -/
theorem flow_aggregators_agree (x : Externals) (f : Option Flow)
    (ms : List (String × Json)) :
    JsonAddFlowVars x f (.obj ms) none
      = (.obj (setMembers ms (flowMembers x (flowAnnotations f))),
         trafficObject x (flowAnnotations f)) ∧
    EveAddFlowVars x f (JsonBuilder.rootObject ms) none
      = (JsonBuilder.rootObject (setMembers ms (flowMembers x (flowAnnotations f))),
         (trafficObject x (flowAnnotations f)).map JsonBuilder.finished) ∧
    JsonAddFlowVars x f json_object none
      = (.obj (flowMembers x (flowAnnotations f)), trafficObject x (flowAnnotations f)) ∧
    EveAddFlowVars x f jb_new_object none
      = (JsonBuilder.rootObject (flowMembers x (flowAnnotations f)),
         (trafficObject x (flowAnnotations f)).map JsonBuilder.finished) ∧
    jb_close (EveAddFlowVars x f (JsonBuilder.rootObject ms) none).1
      = JsonBuilder.finished (JsonAddFlowVars x f (.obj ms) none).1 ∧
    (EveAddFlowVars x f (JsonBuilder.rootObject ms) none).2
      = (JsonAddFlowVars x f (.obj ms) none).2.map JsonBuilder.finished := by
  have hj : ∀ l, JsonAddFlowVars x f (.obj l) none
      = (.obj (setMembers l (flowMembers x (flowAnnotations f))),
         trafficObject x (flowAnnotations f)) := by
    intro l
    cases f with
    | none => rfl
    | some fl =>
        rw [JsonAddFlowVars_eq]
        simp only [flowAnnotations]
        cases trafficObject x fl.flowvar <;> rfl
  have he : ∀ l, EveAddFlowVars x f (JsonBuilder.rootObject l) none
      = (JsonBuilder.rootObject (setMembers l (flowMembers x (flowAnnotations f))),
         (trafficObject x (flowAnnotations f)).map JsonBuilder.finished) := by
    intro l
    cases f with
    | none => rfl
    | some fl =>
        rw [EveAddFlowVars_eq]
        simp only [flowAnnotations]
        cases trafficObject x fl.flowvar <;> rfl
  refine ⟨hj ms, he ms, ?_, ?_, ?_, ?_⟩
  · have h := hj []
    rw [setMembers_flowMembers] at h
    exact h
  · have h := he []
    rw [setMembers_flowMembers] at h
    exact h
  · rw [he, hj]
    rfl
  · rw [he, hj]

/-- C35, at the flow of the examples with two flow-bits, an integer variable
and a string variable, and at the flow with two integer variables that both
resolve to counter. -/
theorem flow_aggregators_agree_witness :
    JsonAddFlowVars exampleExternalsWithNames (some exampleMixedFlow) json_object none
      = (.obj [("flowbits", .arr [.str "custom-flag"]), ("flowints", .obj [("counter", .int 7)]),
               ("flowvars", .arr [.obj [("user", .str "bob")]])],
         some (.obj [("id", .arr [.str "42"])])) ∧
    EveAddFlowVars exampleExternalsWithNames (some exampleMixedFlow) jb_new_object none
      = (JsonBuilder.rootObject
          [("flowbits", .arr [.str "custom-flag"]), ("flowints", .obj [("counter", .int 7)]),
           ("flowvars", .arr [.obj [("user", .str "bob")]])],
         some (JsonBuilder.finished (.obj [("id", .arr [.str "42"])]))) ∧
    jb_close (EveAddFlowVars exampleExternalsWithNames (some exampleCounterFlow)
        (JsonBuilder.rootObject []) none).1
      = JsonBuilder.finished (JsonAddFlowVars exampleExternalsWithNames
          (some exampleCounterFlow) (.obj []) none).1 ∧
    JsonAddFlowVars exampleExternalsWithNames (some exampleCounterFlow) json_object none
      = (.obj [("flowints", .obj [("counter", .int 2)])], none) :=
  ⟨rfl, rfl,
    (flow_aggregators_agree exampleExternalsWithNames (some exampleCounterFlow) []).2.2.2.2.1,
    rfl⟩

/-! ## Properties: when the metadata member is attached -/

/-- A node that is unresolved or a traffic flow-bit adds nothing to the
flowvars, flowints and flowbits collections. -/
theorem quiet_node_entries (x : Externals) (gv : GenericVar)
    (h : gv.isUnresolved x ∨ gv.isTrafficBit x) :
    flowvarEntry x gv = none ∧ flowintEntry x gv = none ∧ plainFlowbitEntry x gv = none := by
  rcases gv with ⟨ty, idx, dt, key, sv, iv⟩
  have h : GenericVar.isUnresolved x ⟨ty, idx, dt, key, sv, iv⟩ ∨
      ∃ name, flowbitName x ⟨ty, idx, dt, key, sv, iv⟩ = some name ∧
        (SCStringHasPrefix name TRAFFIC_ID_PREFIX = true ∨
          SCStringHasPrefix name TRAFFIC_LABEL_PREFIX = true) := by
    rcases h with h | h
    · exact Or.inl h
    · right
      unfold GenericVar.isTrafficBit at h
      cases hname : flowbitName x ⟨ty, idx, dt, key, sv, iv⟩ with
      | none => rw [hname] at h; exact absurd h id
      | some name => rw [hname] at h; exact ⟨name, rfl, h⟩
  rcases h with h | ⟨name, hname, hpre⟩
  · rcases h with ⟨⟨hty, hdt⟩, hkey, hl⟩ | ⟨⟨hty, hdt⟩, hl⟩ | ⟨hty, hl⟩
    · simp only at hty hdt hkey hl
      subst hdt hkey
      rcases hty with hty | hty <;> subst hty <;>
        simp [flowvarEntry, flowintEntry, plainFlowbitEntry, flowbitName,
          GenericVar.isStringVar, GenericVar.isIntVar, GenericVar.isFlowBit, hl]
    · simp only at hty hdt hl
      subst hdt
      rcases hty with hty | hty <;> subst hty <;>
        simp [flowvarEntry, flowintEntry, plainFlowbitEntry, flowbitName,
          GenericVar.isStringVar, GenericVar.isIntVar, GenericVar.isFlowBit, hl]
    · simp only [GenericVar.isFlowBit] at hty hl
      subst hty
      simp [flowvarEntry, flowintEntry, plainFlowbitEntry, flowbitName,
        GenericVar.isStringVar, GenericVar.isIntVar, GenericVar.isFlowBit, hl]
  · have hbit : ty = .DETECT_FLOWBITS := by
      by_contra hne
      simp [flowbitName, GenericVar.isFlowBit, hne] at hname
    subst hbit
    refine ⟨by simp [flowvarEntry, GenericVar.isStringVar],
      by simp [flowintEntry, GenericVar.isIntVar], ?_⟩
    unfold plainFlowbitEntry
    rw [hname]
    rcases hpre with hp | hp <;> simp [hp]

/-- A list of nodes that are unresolved or traffic flow-bits leaves the
flowbits, flowints and flowvars collections empty. -/
theorem quiet_list_collections (x : Externals) (gvs : List GenericVar)
    (h : ∀ gv ∈ gvs, gv.isUnresolved x ∨ gv.isTrafficBit x) :
    plainFlowbits x gvs = [] ∧ flowintEntries x gvs = [] ∧ flowvarEntries x gvs = [] := by
  refine ⟨?_, ?_, ?_⟩
  · rw [← filterMap_plainFlowbitEntry, List.filterMap_eq_nil_iff]
    exact fun gv hgv => (quiet_node_entries x gv (h gv hgv)).2.2
  · unfold flowintEntries
    rw [List.filterMap_eq_nil_iff]
    exact fun gv hgv => (quiet_node_entries x gv (h gv hgv)).2.1
  · unfold flowvarEntries
    rw [List.filterMap_eq_nil_iff]
    exact fun gv hgv => (quiet_node_entries x gv (h gv hgv)).1

/-- JsonAddPacketvars gives back an object when it is given one. -/
theorem JsonAddPacketvars_obj (x : Externals) (p : Option Packet) (l : List (String × Json)) :
    ∃ l2, JsonAddPacketvars x p (.obj l) = .obj l2 := by
  unfold JsonAddPacketvars
  cases p with
  | none => exact ⟨l, rfl⟩
  | some pk =>
      by_cases h : pk.pktvar = []
      · exact ⟨l, by simp [h]⟩
      · simp only [h, if_false]
        cases pk.pktvar.foldl (JsonAddPacketvars.step x) none with
        | none => exact ⟨l, rfl⟩
        | some v => exact ⟨_, rfl⟩

/-- The member metadata after JsonAddMetadata when the packet or the flow has
annotations: an object. -/
theorem JsonAddMetadata_get (x : Externals) (p : Option Packet) (f : Option Flow)
    (ms : List (String × Json))
    (h : ((packetAnnotations p).isEmpty && (flowAnnotations f).isEmpty) = false) :
    ∃ members, json_object_get (JsonAddMetadata x p f (.obj ms)) "metadata"
        = some (.obj members) ∧
      (packetAnnotations p = [] →
        members = setMembers [] (flowMembers x (flowAnnotations f))) := by
  have hroot : ∀ t : Option Json, ∃ l : List (String × Json),
      (match t with
        | some js_traffic => json_object_set_new (Json.obj ms) "traffic" js_traffic
        | none => Json.obj ms) = Json.obj l := by
    intro t
    cases t with
    | none => exact ⟨ms, rfl⟩
    | some v => exact ⟨_, rfl⟩
  have hflow : ∀ fl : Flow, ∃ l,
      (JsonAddFlowVars x (some fl) json_object none).1 = .obj l ∧
        l = setMembers [] (flowMembers x fl.flowvar) := by
    intro fl
    refine ⟨_, ?_, rfl⟩
    rw [show json_object = Json.obj [] from rfl, JsonAddFlowVars_eq]
  unfold JsonAddMetadata
  cases p with
  | none =>
      cases f with
      | none => simp [packetAnnotations, flowAnnotations] at h
      | some fl =>
          have hf : fl.flowvar.isEmpty = false := by
            simpa [packetAnnotations, flowAnnotations] using h
          obtain ⟨l, hl⟩ := hroot (JsonAddFlowVars x (some fl) json_object none).2
          obtain ⟨l2, hl2, hl2eq⟩ := hflow fl
          refine ⟨l2, ?_, fun _ => hl2eq⟩
          simp only [hf, Bool.not_false, Bool.false_or, if_true, Bool.false_eq_true, if_false,
            hl, hl2, json_object_get_set]
  | some pk =>
      by_cases hp : pk.pktvar = []
      · cases f with
        | none => simp [packetAnnotations, flowAnnotations, hp] at h
        | some fl =>
            have hf : fl.flowvar.isEmpty = false := by
              simpa [packetAnnotations, flowAnnotations, hp] using h
            obtain ⟨l, hl⟩ := hroot (JsonAddFlowVars x (some fl) json_object none).2
            obtain ⟨l2, hl2, hl2eq⟩ := hflow fl
            refine ⟨l2, ?_, fun _ => hl2eq⟩
            simp only [hp, List.isEmpty_nil, Bool.not_true, hf, Bool.not_false, Bool.false_or,
              if_true, Bool.false_eq_true, if_false, hl, hl2, json_object_get_set]
      · have hpe : pk.pktvar.isEmpty = false := by
          cases hpk : pk.pktvar with
          | nil => exact absurd hpk hp
          | cons a l => rfl
        cases f with
        | none =>
            obtain ⟨l2, hl2⟩ := JsonAddPacketvars_obj x (some pk) []
            refine ⟨l2, ?_, fun hnil => absurd hnil hp⟩
            simp only [hpe, Bool.not_false, Bool.true_or, if_true, Bool.false_eq_true, if_false,
              show json_object = Json.obj [] from rfl, hl2, json_object_get_set]
        | some fl =>
            by_cases hf : fl.flowvar.isEmpty = true
            · obtain ⟨l2, hl2⟩ := JsonAddPacketvars_obj x (some pk) []
              refine ⟨l2, ?_, fun hnil => absurd hnil hp⟩
              simp only [hpe, hf, Bool.not_false, Bool.not_true, Bool.true_or, if_true,
                Bool.false_eq_true, if_false, show json_object = Json.obj [] from rfl, hl2,
                json_object_get_set]
            · have hf2 : fl.flowvar.isEmpty = false := by simpa using hf
              obtain ⟨l, hl⟩ := hroot (JsonAddFlowVars x (some fl) json_object none).2
              obtain ⟨l2, hl2, _⟩ := hflow fl
              obtain ⟨l3, hl3⟩ := JsonAddPacketvars_obj x (some pk) l2
              refine ⟨l3, ?_, fun hnil => absurd hnil hp⟩
              simp only [hpe, hf2, Bool.not_false, Bool.true_or, if_true, hl, hl2, hl3,
                json_object_get_set]

/-- C38. EveAddMetadata leaves the event as it was when the packet has no
packet variables and the flow has no annotations, and otherwise sets a member
metadata in it (after a member traffic when an id or a label was collected),
added at the end of an event that has neither member; JsonAddMetadata then
sets a member metadata that is an object. For a packet without variables and a
flow with annotations that are all unresolved names or traffic flow-bits, the
member metadata is an empty object on both paths. -/
theorem metadata_attached_when_annotations (x : Externals) (p : Option Packet)
    (f : Option Flow) (ms : List (String × Json)) :
    (packetAnnotations p = [] → flowAnnotations f = [] →
      EveAddMetadata x p f (JsonBuilder.rootObject ms) = JsonBuilder.rootObject ms) ∧
    ((packetAnnotations p ≠ [] ∨ flowAnnotations f ≠ []) →
      EveAddMetadata x p f (JsonBuilder.rootObject ms)
        = JsonBuilder.rootObject (setMembers ms (trafficField x (flowAnnotations f)
            ++ [("metadata", .obj
                  (metadataMembers x (flowAnnotations f) (packetAnnotations p)))])) ∧
      ((∀ kv ∈ ms, kv.1 ≠ "traffic" ∧ kv.1 ≠ "metadata") →
        EveAddMetadata x p f (JsonBuilder.rootObject ms)
          = JsonBuilder.rootObject (ms ++ trafficField x (flowAnnotations f)
              ++ [("metadata", .obj
                    (metadataMembers x (flowAnnotations f) (packetAnnotations p)))])) ∧
      (EveAddMetadata x p f (JsonBuilder.rootObject ms)).members.lookup "metadata"
        = some (.obj (metadataMembers x (flowAnnotations f) (packetAnnotations p))) ∧
      ∃ members, json_object_get (JsonAddMetadata x p f (.obj ms)) "metadata"
        = some (.obj members)) ∧
    (packetAnnotations p = [] → flowAnnotations f ≠ [] →
      (∀ gv ∈ flowAnnotations f, gv.isUnresolved x ∨ gv.isTrafficBit x) →
      EveAddMetadata x p f (JsonBuilder.rootObject ms)
        = JsonBuilder.rootObject (setMembers ms (trafficField x (flowAnnotations f)
            ++ [("metadata", .obj [])])) ∧
      (EveAddMetadata x p f (JsonBuilder.rootObject ms)).members.lookup "metadata"
        = some (.obj []) ∧
      json_object_get (JsonAddMetadata x p f (.obj ms)) "metadata" = some (.obj [])) := by
  have hne : (packetAnnotations p ≠ [] ∨ flowAnnotations f ≠ []) →
      ((packetAnnotations p).isEmpty && (flowAnnotations f).isEmpty) = false := by
    intro h
    cases hp : packetAnnotations p with
    | cons a l => rfl
    | nil =>
        cases hf : flowAnnotations f with
        | cons a l => rfl
        | nil => rcases h with h | h <;> simp_all
  have hlook : ∀ (tf : List (String × Json)) (v : Json),
      (JsonBuilder.rootObject (setMembers ms (tf ++ [("metadata", v)]))).members.lookup
        "metadata" = some v := by
    intro tf v
    rw [setMembers_append]
    show (setMember _ "metadata" v).lookup "metadata" = some v
    rw [setMember_lookup, if_pos rfl]
  have heq : (packetAnnotations p ≠ [] ∨ flowAnnotations f ≠ []) →
      EveAddMetadata x p f (JsonBuilder.rootObject ms)
        = JsonBuilder.rootObject (setMembers ms (trafficField x (flowAnnotations f)
            ++ [("metadata", .obj
                  (metadataMembers x (flowAnnotations f) (packetAnnotations p)))])) := by
    intro h
    rw [EveAddMetadata_eq, hne h]
    rfl
  refine ⟨?_, ?_, ?_⟩
  · intro hp hf
    rw [EveAddMetadata_eq, hp, hf]
    rfl
  · intro h
    refine ⟨heq h, ?_, ?_, ?_⟩
    · intro hfresh
      rw [heq h, setMembers_traffic_metadata x _ _ ms hfresh]
    · rw [heq h]
      exact hlook _ _
    · obtain ⟨members, hm, _⟩ := JsonAddMetadata_get x p f ms (hne h)
      exact ⟨members, hm⟩
  · intro hp hf hq
    obtain ⟨hb, hi, hv⟩ := quiet_list_collections x (flowAnnotations f) hq
    have hmeta : metadataMembers x (flowAnnotations f) (packetAnnotations p) = [] := by
      unfold metadataMembers flowintMembers
      rw [hb, hi, hv, hp]
      rfl
    have hE := heq (Or.inr hf)
    rw [hmeta] at hE
    refine ⟨hE, ?_, ?_⟩
    · rw [hE]
      exact hlook _ _
    · obtain ⟨members, hm, hmem⟩ := JsonAddMetadata_get x p f ms (hne (Or.inr hf))
      rw [hm, hmem hp]
      unfold flowMembers flowintMembers
      rw [hb, hi, hv]
      rfl

/-- C38 at a flow whose only annotation is the flow-bit traffic/id/42 and at a
flow whose only annotation is a flow-bit that does not resolve, both without a
packet. -/
theorem metadata_attached_when_annotations_witness :
    EveAddMetadata exampleExternalsWithNames none (some exampleTrafficIdFlow) jb_new_object
      = JsonBuilder.rootObject
          [("traffic", .obj [("id", .arr [.str "42"])]), ("metadata", .obj [])] ∧
    JsonAddMetadata exampleExternalsWithNames none (some exampleTrafficIdFlow) json_object
      = .obj [("traffic", .obj [("id", .arr [.str "42"])]), ("metadata", .obj [])] ∧
    GenericVar.isTrafficBit exampleExternalsWithNames { type := .DETECT_FLOWBITS, idx := 1 } ∧
    (EveAddMetadata exampleExternalsWithNames none
        (some { exampleUdpFlow with flowvar := [exampleUnknownBit] }) (JsonBuilder.rootObject [])
      = JsonBuilder.rootObject (setMembers [] (trafficField exampleExternalsWithNames
            (flowAnnotations (some { exampleUdpFlow with flowvar := [exampleUnknownBit] }))
          ++ [("metadata", .obj [])])) ∧
    (EveAddMetadata exampleExternalsWithNames none
        (some { exampleUdpFlow with flowvar := [exampleUnknownBit] })
        (JsonBuilder.rootObject [])).members.lookup "metadata" = some (.obj []) ∧
    json_object_get (JsonAddMetadata exampleExternalsWithNames none
        (some { exampleUdpFlow with flowvar := [exampleUnknownBit] }) (.obj [])) "metadata"
      = some (.obj [])) :=
  ⟨rfl, rfl, by decide,
    (metadata_attached_when_annotations exampleExternalsWithNames none
      (some { exampleUdpFlow with flowvar := [exampleUnknownBit] }) []).2.2 rfl
      (by intro h; cases h)
      (by
        intro gv hgv
        simp only [flowAnnotations, List.mem_singleton] at hgv
        subst hgv
        exact Or.inl (by decide))⟩

end OutputJson
